import Mathlib

/-!
# Bamboo: the Vulkan RHI frame cycle and swapchain re-creation

A shallow embedding of `engine/source/runtime/function/render/vulkan/vulkan_rhi.cpp`
(and of the image helpers of `vulkan_texture.cpp` it calls).

* Handles are natural numbers; `uint32_t` values are naturals reduced modulo `2^32`
  where the source can wrap; `int` values are integers.
* Every call into Vulkan, VMA or GLFW is appended to `VulkanRHI.trace`, with the
  arguments the source passes.
* What the driver and the window system answer is read from a `Platform` record.
* A function either returns, aborts with the diagnostic of the failed check, or is
  still inside the zero-area wait loop when its fuel is used up.
-/

namespace Bamboo

/-! ## Constants -/

abbrev Handle := Nat
abbrev VkResult := Int

/-- The constant `#define MAX_FRAMES_IN_FLIGHT 2` (vulkan_rhi.cpp line 8). -/
def MAX_FRAMES_IN_FLIGHT : Nat := 2

/- Values of `vulkan_core.h`, which is not part of the source tree. -/
def VK_SUCCESS : VkResult := 0
def VK_SUBOPTIMAL_KHR : VkResult := 1000001003
def VK_ERROR_OUT_OF_DATE_KHR : VkResult := -1000001004
def VK_ERROR_SURFACE_LOST_KHR : VkResult := -1000000000
def UINT32_MAX : Nat := 4294967295
def UINT64_MAX : Nat := 18446744073709551615
def VK_NULL_HANDLE : Handle := 0
def VK_FENCE_CREATE_SIGNALED_BIT : Nat := 1
def VK_PIPELINE_STAGE_COLOR_ATTACHMENT_OUTPUT_BIT : Nat := 1024
def VK_FORMAT_B8G8R8A8_SRGB : Nat := 50
def VK_FORMAT_D32_SFLOAT : Nat := 126
def VK_FORMAT_D24_UNORM_S8_UINT : Nat := 129
def VK_FORMAT_D32_SFLOAT_S8_UINT : Nat := 130
def VK_COLOR_SPACE_SRGB_NONLINEAR_KHR : Nat := 0
def VK_PRESENT_MODE_MAILBOX_KHR : Nat := 1
def VK_IMAGE_USAGE_TRANSFER_SRC_BIT : Nat := 1
def VK_IMAGE_USAGE_TRANSFER_DST_BIT : Nat := 2
def VK_IMAGE_USAGE_COLOR_ATTACHMENT_BIT : Nat := 16
def VK_IMAGE_USAGE_DEPTH_STENCIL_ATTACHMENT_BIT : Nat := 32
def VK_IMAGE_TILING_OPTIMAL : Nat := 0
def VK_IMAGE_TILING_LINEAR : Nat := 1
def VK_FORMAT_FEATURE_DEPTH_STENCIL_ATTACHMENT_BIT : Nat := 512
def VK_IMAGE_ASPECT_COLOR_BIT : Nat := 1
def VK_IMAGE_ASPECT_DEPTH_BIT : Nat := 2
def VK_SAMPLE_COUNT_1_BIT : Nat := 1
def VMA_MEMORY_USAGE_AUTO_PREFER_DEVICE : Nat := 8

/-! ## Data -/

structure VkExtent2D where
  width : Nat
  height : Nat
  deriving DecidableEq, Repr

structure VkSurfaceFormatKHR where
  format : Nat
  colorSpace : Nat
  deriving DecidableEq, Repr

structure VkSurfaceCapabilitiesKHR where
  minImageCount : Nat
  maxImageCount : Nat
  currentExtent : VkExtent2D
  minImageExtent : VkExtent2D
  maxImageExtent : VkExtent2D
  currentTransform : Nat
  supportedUsageFlags : Nat
  deriving DecidableEq, Repr

/-- The structure `VulkanRHI::SwapchainSupportDetails` (vulkan_rhi.h lines 24-29). -/
structure SwapchainSupportDetails where
  capabilities : VkSurfaceCapabilitiesKHR
  formats : List VkSurfaceFormatKHR
  present_modes : List Nat
  deriving DecidableEq, Repr

structure VkFormatProperties where
  linearTilingFeatures : Nat
  optimalTilingFeatures : Nat
  deriving DecidableEq, Repr

/-- The image, allocation and view bundle of `vulkan_texture.h`. -/
structure VmaImageView where
  image : Handle
  allocation : Handle
  view : Handle
  deriving DecidableEq, Repr

/-- The `VkSwapchainCreateInfoKHR` fields that `createSwapchain` fills with values
that are not compile-time constants. -/
structure SwapchainCreateInfo where
  minImageCount : Nat
  imageFormat : Nat
  imageColorSpace : Nat
  imageExtent : VkExtent2D
  imageUsage : Nat
  preTransform : Nat
  presentMode : Nat
  oldSwapchain : Handle
  deriving DecidableEq, Repr

/-- The four members of `VkPhysicalDeviceFeatures` that `getRequiredDeviceFeatures` reads or
writes, as `VkBool32` values; every other member stays zero-initialised. -/
structure VkPhysicalDeviceFeatures where
  sampleRateShading : Nat
  samplerAnisotropy : Nat
  geometryShader : Nat
  fillModeNonSolid : Nat
  deriving DecidableEq, Repr

/-- The structure `VulkanRHI::QueueFamilyIndices` (vulkan_rhi.h lines 17-22). -/
structure QueueFamilyIndices where
  graphics : Nat
  compute : Nat
  transfer : Nat
  deriving DecidableEq, Repr

/-- The `VkDeviceQueueCreateInfo` fields that `getQueueFamilyIndices` fills. -/
structure DeviceQueueCreateInfo where
  queueFamilyIndex : Nat
  queueCount : Nat
  deriving DecidableEq, Repr

/-- The `VkDeviceCreateInfo` fields that `createLogicDevice` fills. -/
structure DeviceCreateInfo where
  queueCreateInfos : List DeviceQueueCreateInfo
  enabledFeatures : VkPhysicalDeviceFeatures
  enabledExtensionNames : List String
  deriving DecidableEq, Repr

/-- Calls into Vulkan, VMA or GLFW that are made only while the object is set up or torn
down, with the arguments the source passes. -/
inductive LifecycleOp where
  | vkEnumerateInstanceExtensionProperties
  | glfwGetRequiredInstanceExtensions
  | vkEnumerateInstanceLayerProperties
  | vkEnumerateDeviceExtensionProperties (physicalDevice : Handle)
  | vkGetPhysicalDeviceFeatures (physicalDevice : Handle)
  | vkGetPhysicalDeviceQueueFamilyProperties (physicalDevice : Handle)
  | vkGetPhysicalDeviceSurfaceSupportKHR (physicalDevice : Handle) (queueFamilyIndex : Nat)
      (surface : Handle)
  | vkCreateDevice (physicalDevice : Handle) (ci : DeviceCreateInfo)
  | vkDestroyPipelineCache (pipelineCache : Handle)
  | vkDestroyRenderPass (renderPass : Handle)
  | vkDestroySemaphore (semaphore : Handle)
  | vkDestroyFence (fence : Handle)
  | vkDestroyCommandPool (commandPool : Handle)
  | vkDestroyDebugUtilsMessengerEXT (vkInstance : Handle) (messenger : Handle)
  | vmaDestroyAllocator (allocator : Handle)
  | vkDestroySurfaceKHR (vkInstance : Handle) (surface : Handle)
  | vkDestroyDevice (device : Handle)
  | vkDestroyInstance (vkInstance : Handle)
  | vkGetInstanceProcAddr (vkInstance : Handle) (name : String)
  | vkCreateInstance (enabledExtensionNames : List String) (enabledLayerNames : List String)
  | vkCreateDebugUtilsMessengerEXT (vkInstance : Handle) (messageSeverity : Nat)
      (messageType : Nat)
  | glfwCreateWindowSurface (vkInstance : Handle)
  | vkEnumeratePhysicalDevices (vkInstance : Handle)
  | vkGetPhysicalDeviceProperties (physicalDevice : Handle)
  | vkGetDeviceQueue (device : Handle) (queueFamilyIndex : Nat) (queueIndex : Nat)
  | vmaCreateAllocator (vkInstance : Handle) (physicalDevice : Handle) (device : Handle)
  | vkCreateCommandPool (device : Handle) (queueFamilyIndex : Nat) (flags : Nat)
  | vkAllocateCommandBuffers (device : Handle) (commandPool : Handle) (level : Nat)
      (commandBufferCount : Nat) (commandBuffers : List Handle)
  | vkCreateRenderPass (device : Handle)
  | vkCreatePipelineCache (device : Handle)
  deriving DecidableEq, Repr

/-- One call into Vulkan, VMA or GLFW, with the arguments the source passes.
`recreateSwapchainCall` marks an entry into `VulkanRHI::recreateSwapchain`.
`vkResetFences` is part of the vocabulary so that fence resets can be talked about. -/
inductive Op where
  | vkCreateSemaphore (semaphore : Handle)
  | vkCreateFence (flags : Nat) (fence : Handle)
  | vkResetFences (fences : List Handle)
  | vkWaitForFences (fences : List Handle) (waitAll : Bool) (timeout : Nat)
  | vkAcquireNextImageKHR (swapchain : Handle) (timeout : Nat) (semaphore : Handle)
      (fence : Handle)
  | vkQueueSubmit (waitSemaphores : List Handle) (waitDstStageMask : List Nat)
      (commandBuffers : List Handle) (signalSemaphores : List Handle) (fence : Handle)
  | vkQueuePresentKHR (waitSemaphores : List Handle) (swapchains : List Handle)
      (imageIndices : List Nat)
  | recreateSwapchainCall
  | glfwGetFramebufferSize (width : Int) (height : Int)
  | glfwWaitEvents
  | vkDeviceWaitIdle
  | vkGetPhysicalDeviceSurfaceCapabilitiesKHR
  | vkGetPhysicalDeviceSurfaceFormatsKHR
  | vkGetPhysicalDeviceSurfacePresentModesKHR
  | vkGetPhysicalDeviceFormatProperties (format : Nat)
  | vkCreateSwapchainKHR (ci : SwapchainCreateInfo)
  | vkDestroySwapchainKHR (swapchain : Handle)
  | vkGetSwapchainImagesKHR
  | vkCreateImageView (image : Handle) (format : Nat) (aspect : Nat) (mipLevels : Nat)
  | vkDestroyImageView (view : Handle)
  | vmaCreateImage (width : Nat) (height : Nat) (mipLevels : Nat) (samples : Nat)
      (format : Nat) (tiling : Nat) (usage : Nat) (memoryUsage : Nat)
  | destroyVmaImageView (bundle : VmaImageView)
  | vkCreateFramebuffer (renderPass : Handle) (attachments : List Handle) (width : Nat)
      (height : Nat) (layers : Nat)
  | vkDestroyFramebuffer (framebuffer : Handle)
  | lifecycle (op : LifecycleOp)
  deriving DecidableEq, Repr

/-- The members of `VulkanRHI` (vulkan_rhi.h lines 74-119) that the modelled functions read
or write (of a queue family only its `queueFlags` word is kept), the trace of calls issued
so far, and the number of framebuffer-size answers already consumed from the window
system. -/
structure VulkanRHI where
  m_instance : Handle
  m_physical_device : Handle
  m_device : Handle
  m_graphics_queue : Handle
  m_surface : Handle
  m_vma_alloc : Handle
  m_command_pool : Handle
  m_transient_command_pool : Handle
  m_pipeline_cache : Handle
  m_debug_utils_messenger : Handle
  m_required_instance_extensions : List String
  m_required_instance_layers : List String
  m_required_device_extensions : List String
  m_required_device_features : VkPhysicalDeviceFeatures
  m_queue_family_indices : QueueFamilyIndices
  m_queue_family_propertiess : List Nat
  m_swapchain : Handle
  m_render_pass : Handle
  m_surface_format : VkSurfaceFormatKHR
  m_present_mode : Nat
  m_extent : VkExtent2D
  m_depth_format : Nat
  m_swapchain_image_count : Nat
  m_swapchain_image_views : List Handle
  m_depth_stencil_image_view : VmaImageView
  m_framebuffers : List Handle
  m_flight_index : Nat
  m_image_index : Nat
  m_image_avaliable_semaphores : List Handle
  m_render_finished_semaphores : List Handle
  m_flight_fences : List Handle
  m_command_buffers : List Handle
  trace : List Op
  sizeQueries : Nat
  deriving DecidableEq, Repr

/-- What the window system and the driver answer during one call. -/
structure Platform where
  /-- The n-th answer (counted from 0) of `glfwGetFramebufferSize`. -/
  framebufferSize : Nat → Int × Int
  capabilities : VkSurfaceCapabilitiesKHR
  formats : List VkSurfaceFormatKHR
  present_modes : List Nat
  createSwapchainResult : VkResult
  newSwapchain : Handle
  swapchainImages : List Handle
  formatProperties : Nat → VkFormatProperties
  createImageResult : VkResult
  newImage : Handle
  newAllocation : Handle
  newImageView : Handle → Handle
  newFramebuffer : Handle → Handle

/-- How a call ends: it returns a value, it aborts with the diagnostic of the failed
check, or it is still waiting for a non-zero framebuffer size when the fuel is used up. -/
inductive Res (α : Type) where
  | returned (value : α) (s : VulkanRHI)
  | aborted (diagnostic : String) (s : VulkanRHI)
  | waiting (s : VulkanRHI)

abbrev Outcome := Res Unit

/-- The state a call ends in. -/
def Res.state {α : Type} : Res α → VulkanRHI
  | .returned _ s => s
  | .aborted _ s => s
  | .waiting s => s

def Res.isReturned {α : Type} : Res α → Bool
  | .returned _ _ => true
  | _ => false

def Res.isAborted {α : Type} : Res α → Bool
  | .aborted _ _ => true
  | _ => false

def Res.isWaiting {α : Type} : Res α → Bool
  | .waiting _ => true
  | _ => false

/-- Sequencing: the continuation runs only after a return. -/
def Res.andThen {α β : Type} (r : Res α) (k : α → VulkanRHI → Res β) : Res β :=
  match r with
  | .returned a s => k a s
  | .aborted d s => .aborted d s
  | .waiting s => .waiting s

/-- Append one call to the trace. -/
def emit (op : Op) (s : VulkanRHI) : VulkanRHI :=
  { s with trace := s.trace ++ [op] }

/-- Append several calls to the trace. -/
def emitAll (ops : List Op) (s : VulkanRHI) : VulkanRHI :=
  { s with trace := s.trace ++ ops }

/-- Modelled from the spec: the `ASSERT(condition, message)` macro, whose definition is
not in the source tree; a failed assertion aborts the process with its message. -/
def ASSERT (condition : Bool) (message : String) (s : VulkanRHI) : Outcome :=
  if condition then .returned () s else .aborted message s

/-- Modelled from the spec: the `CHECK_VULKAN_RESULT(result, message)` macro, whose
definition is not in the source tree; any result other than `VK_SUCCESS` is fatal. -/
def CHECK_VULKAN_RESULT (result : VkResult) (message : String) (s : VulkanRHI) : Outcome :=
  if result = VK_SUCCESS then .returned () s else .aborted message s

/-- Modelled from the spec: the `LOG_FATAL(message)` macro, whose definition is not in
the source tree; a fatal report aborts the process with its message. -/
def LOG_FATAL {α : Type} (message : String) (s : VulkanRHI) : Res α :=
  .aborted message s

/-- The conversion `static_cast<uint32_t>(int)`. -/
def toUint32 (x : Int) : Nat := (x % 4294967296).toNat

/-- The function `std::clamp(v, lo, hi)`. -/
def clamp (v lo hi : Nat) : Nat :=
  if v < lo then lo else if hi < v then hi else v

/-- The call `glfwGetFramebufferSize(window, &width, &height)`: the next answer of the
window system. -/
def glfwGetFramebufferSize (p : Platform) (s : VulkanRHI) : Res (Int × Int) :=
  let a := p.framebufferSize s.sizeQueries
  .returned a { emit (.glfwGetFramebufferSize a.1 a.2) s with sizeQueries := s.sizeQueries + 1 }

/-! ## Swapchain creation (vulkan_rhi.cpp lines 196-295, 768-860) -/

/-- The function `VulkanRHI::getSwapchainSupportDetails` (lines 768-790). -/
def getSwapchainSupportDetails (p : Platform) (s : VulkanRHI) : Res SwapchainSupportDetails :=
  let s := emit .vkGetPhysicalDeviceSurfaceCapabilitiesKHR s
  let s := emit .vkGetPhysicalDeviceSurfaceFormatsKHR s
  (ASSERT (decide (p.formats.length > 0)) "no supported surface formats" s).andThen fun _ s =>
  let s := emit .vkGetPhysicalDeviceSurfaceFormatsKHR s
  let s := emit .vkGetPhysicalDeviceSurfacePresentModesKHR s
  (ASSERT (decide (p.present_modes.length > 0)) "no supported surface present modes" s).andThen
    fun _ s =>
  let s := emit .vkGetPhysicalDeviceSurfacePresentModesKHR s
  .returned { capabilities := p.capabilities, formats := p.formats,
              present_modes := p.present_modes } s

/-- The function `VulkanRHI::getProperSwapchainSurfaceFormat` (lines 792-804). -/
def getProperSwapchainSurfaceFormat (details : SwapchainSupportDetails) (s : VulkanRHI) :
    Res VkSurfaceFormatKHR :=
  match details.formats.find? (fun format =>
      format.format == VK_FORMAT_B8G8R8A8_SRGB &&
      format.colorSpace == VK_COLOR_SPACE_SRGB_NONLINEAR_KHR) with
  | some format => .returned format s
  | none => LOG_FATAL "no supported swapchain surface format: VK_FORMAT_B8G8R8A8_SRGB" s

/-- The function `VulkanRHI::getProperSwapchainSurfacePresentMode` (lines 806-817). -/
def getProperSwapchainSurfacePresentMode (details : SwapchainSupportDetails) (s : VulkanRHI) :
    Res Nat :=
  match details.present_modes.find? (fun present_mode =>
      present_mode == VK_PRESENT_MODE_MAILBOX_KHR) with
  | some present_mode => .returned present_mode s
  | none =>
    LOG_FATAL "no supported swapchain surface present mode: VK_PRESENT_MODE_MAILBOX_KHR" s

/-- The function `VulkanRHI::getProperSwapchainSurfaceExtent` (lines 819-835). -/
def getProperSwapchainSurfaceExtent (p : Platform) (details : SwapchainSupportDetails)
    (s : VulkanRHI) : Res VkExtent2D :=
  if details.capabilities.currentExtent.width ≠ UINT32_MAX then
    .returned details.capabilities.currentExtent s
  else
    (glfwGetFramebufferSize p s).andThen fun a s =>
    let actual_extent : VkExtent2D := { width := toUint32 a.1, height := toUint32 a.2 }
    let actual_extent := { actual_extent with
      width := clamp actual_extent.width details.capabilities.minImageExtent.width
        details.capabilities.maxImageExtent.width }
    let actual_extent := { actual_extent with
      height := clamp actual_extent.height details.capabilities.minImageExtent.height
        details.capabilities.maxImageExtent.height }
    .returned actual_extent s

/-- The function `VulkanRHI::getProperSwapchainSurfaceImageUsage` (lines 837-842). -/
def getProperSwapchainSurfaceImageUsage (details : SwapchainSupportDetails) (s : VulkanRHI) :
    Res Nat :=
  (ASSERT (details.capabilities.supportedUsageFlags &&& VK_IMAGE_USAGE_TRANSFER_SRC_BIT != 0)
    "swapchain doesn't support VK_IMAGE_USAGE_TRANSFER_SRC_BIT" s).andThen fun _ s =>
  (ASSERT (details.capabilities.supportedUsageFlags &&& VK_IMAGE_USAGE_TRANSFER_DST_BIT != 0)
    "swapchain doesn't support VK_IMAGE_USAGE_TRANSFER_DST_BIT" s).andThen fun _ s =>
  .returned (VK_IMAGE_USAGE_COLOR_ATTACHMENT_BIT ||| VK_IMAGE_USAGE_TRANSFER_SRC_BIT |||
    VK_IMAGE_USAGE_TRANSFER_DST_BIT) s

/-- The loop of `VulkanRHI::getProperImageFormat` (lines 846-856): the candidates are
queried in order until one qualifies; the calls made are returned with the choice. -/
def getProperImageFormat_loop (p : Platform) (tiling features : Nat) :
    List Nat → List Op × Option Nat
  | [] => ([], none)
  | format :: candidates =>
    let format_properties := p.formatProperties format
    if (tiling == VK_IMAGE_TILING_LINEAR &&
          format_properties.linearTilingFeatures &&& features == features) ||
       (tiling == VK_IMAGE_TILING_OPTIMAL &&
          format_properties.optimalTilingFeatures &&& features == features) then
      ([.vkGetPhysicalDeviceFormatProperties format], some format)
    else
      let r := getProperImageFormat_loop p tiling features candidates
      (.vkGetPhysicalDeviceFormatProperties format :: r.1, r.2)

/-- The function `VulkanRHI::getProperImageFormat` (lines 844-860). -/
def getProperImageFormat (p : Platform) (candidates : List Nat) (tiling features : Nat)
    (s : VulkanRHI) : Res Nat :=
  let r := getProperImageFormat_loop p tiling features candidates
  let s := emitAll r.1 s
  match r.2 with
  | some format => .returned format s
  | none => LOG_FATAL "failed to find a proper image format" s

/-- The function `VulkanRHI::createSwapchain` (lines 196-225). -/
def createSwapchain (p : Platform) (s : VulkanRHI) : Outcome :=
  (getSwapchainSupportDetails p s).andThen fun swapchain_support_details s =>
  (getProperSwapchainSurfaceFormat swapchain_support_details s).andThen fun format s =>
  let s := { s with m_surface_format := format }
  (getProperSwapchainSurfacePresentMode swapchain_support_details s).andThen fun mode s =>
  let s := { s with m_present_mode := mode }
  (getProperSwapchainSurfaceExtent p swapchain_support_details s).andThen fun extent s =>
  let s := { s with m_extent := extent }
  (getProperSwapchainSurfaceImageUsage swapchain_support_details s).andThen fun image_usage s =>
  let image_count := min ((swapchain_support_details.capabilities.minImageCount + 1) % 4294967296)
    swapchain_support_details.capabilities.maxImageCount
  let swapchain_ci : SwapchainCreateInfo :=
    { minImageCount := image_count
      imageFormat := s.m_surface_format.format
      imageColorSpace := s.m_surface_format.colorSpace
      imageExtent := s.m_extent
      imageUsage := image_usage
      preTransform := swapchain_support_details.capabilities.currentTransform
      presentMode := s.m_present_mode
      oldSwapchain := s.m_swapchain }
  let s := { emit (.vkCreateSwapchainKHR swapchain_ci) s with m_swapchain := p.newSwapchain }
  CHECK_VULKAN_RESULT p.createSwapchainResult "create swapchain" s

/-- The function `VulkanRHI::destroySwapchainObjects` (lines 227-243). -/
def destroySwapchainObjects (s : VulkanRHI) : VulkanRHI :=
  let s := emitAll (s.m_swapchain_image_views.map .vkDestroyImageView) s
  let s := emit (.destroyVmaImageView s.m_depth_stencil_image_view) s
  emitAll (s.m_framebuffers.map .vkDestroyFramebuffer) s

/-- The function `createImageView` of vulkan_texture.cpp (lines 41-59): the call it issues. -/
def createImageView_op (image format aspect_flags mip_levels : Nat) : Op :=
  .vkCreateImageView image format aspect_flags mip_levels

/-- The function `VulkanRHI::createSwapchainObjects` (lines 245-295), with `createImageAndView` and
`createImage` of vulkan_texture.cpp (lines 7-39) in place. -/
def createSwapchainObjects (p : Platform) (s : VulkanRHI) : Outcome :=
  let last_swapchain_image_count := s.m_swapchain_image_count
  let s := { emit .vkGetSwapchainImagesKHR s with
    m_swapchain_image_count := p.swapchainImages.length % 4294967296 }
  (ASSERT (last_swapchain_image_count == 0 ||
      last_swapchain_image_count == s.m_swapchain_image_count)
    "swapchain image count shouldn't change" s).andThen fun _ s =>
  let swapchain_images := p.swapchainImages.take s.m_swapchain_image_count
  let s := emit .vkGetSwapchainImagesKHR s
  let s := { emitAll (swapchain_images.map fun image =>
      createImageView_op image s.m_surface_format.format VK_IMAGE_ASPECT_COLOR_BIT 1) s with
    m_swapchain_image_views := swapchain_images.map p.newImageView }
  (getProperImageFormat p
    [VK_FORMAT_D32_SFLOAT, VK_FORMAT_D32_SFLOAT_S8_UINT, VK_FORMAT_D24_UNORM_S8_UINT]
    VK_IMAGE_TILING_OPTIMAL VK_FORMAT_FEATURE_DEPTH_STENCIL_ATTACHMENT_BIT s).andThen
    fun depth_format s =>
  let s := { s with m_depth_format := depth_format }
  let s := { emit (.vmaCreateImage s.m_extent.width s.m_extent.height 1 VK_SAMPLE_COUNT_1_BIT
      s.m_depth_format VK_IMAGE_TILING_OPTIMAL VK_IMAGE_USAGE_DEPTH_STENCIL_ATTACHMENT_BIT
      VMA_MEMORY_USAGE_AUTO_PREFER_DEVICE) s with
    m_depth_stencil_image_view := { s.m_depth_stencil_image_view with
      image := p.newImage, allocation := p.newAllocation } }
  (CHECK_VULKAN_RESULT p.createImageResult "vma create image" s).andThen fun _ s =>
  let s := { emit (createImageView_op s.m_depth_stencil_image_view.image s.m_depth_format
      VK_IMAGE_ASPECT_DEPTH_BIT 1) s with
    m_depth_stencil_image_view := { s.m_depth_stencil_image_view with
      view := p.newImageView s.m_depth_stencil_image_view.image } }
  let s := { emitAll (s.m_swapchain_image_views.map fun view =>
      .vkCreateFramebuffer s.m_render_pass [view, s.m_depth_stencil_image_view.view]
        s.m_extent.width s.m_extent.height 1) s with
    m_framebuffers := s.m_swapchain_image_views.map p.newFramebuffer }
  .returned () s

/-! ## Swapchain re-creation (vulkan_rhi.cpp lines 490-512) -/

/-- The loop `while (width == 0 || height == 0)` of `recreateSwapchain` (lines 497-501);
one unit of fuel per iteration. -/
def recreateSwapchain_loop (p : Platform) : Nat → Int → Int → VulkanRHI → Res (Int × Int)
  | 0, width, height, s =>
    if width = 0 ∨ height = 0 then .waiting s else .returned (width, height) s
  | fuel + 1, width, height, s =>
    if width = 0 ∨ height = 0 then
      (glfwGetFramebufferSize p s).andThen fun a s =>
      let s := emit .glfwWaitEvents s
      recreateSwapchain_loop p fuel a.1 a.2 s
    else .returned (width, height) s

/-- The function `VulkanRHI::recreateSwapchain` (lines 490-512). -/
def recreateSwapchain (p : Platform) (fuel : Nat) (s : VulkanRHI) : Outcome :=
  let s := emit .recreateSwapchainCall s
  (glfwGetFramebufferSize p s).andThen fun a s =>
  (recreateSwapchain_loop p fuel a.1 a.2 s).andThen fun _ s =>
  let s := emit .vkDeviceWaitIdle s
  let oldSwapchain := s.m_swapchain
  (createSwapchain p s).andThen fun _ s =>
  let s := emit (.vkDestroySwapchainKHR oldSwapchain) s
  let s := destroySwapchainObjects s
  createSwapchainObjects p s

/-! ## Synchronisation primitives and the frame cycle (lines 327-351, 435-488) -/

/-- The function `VulkanRHI::createSynchronizationPrimitives` (lines 327-351); the driver hands out
`newSemaphore n` for the n-th semaphore created and `newFence n` for the n-th fence. -/
def createSynchronizationPrimitives (newSemaphore newFence : Nat → Handle) (s : VulkanRHI) :
    VulkanRHI :=
  let s := { s with m_flight_index := 0 }
  let slots := List.range MAX_FRAMES_IN_FLIGHT
  { emitAll (slots.flatMap fun i =>
      [.vkCreateSemaphore (newSemaphore (2 * i)),
       .vkCreateSemaphore (newSemaphore (2 * i + 1)),
       .vkCreateFence VK_FENCE_CREATE_SIGNALED_BIT (newFence i)]) s with
    m_image_avaliable_semaphores := slots.map fun i => newSemaphore (2 * i)
    m_render_finished_semaphores := slots.map fun i => newSemaphore (2 * i + 1)
    m_flight_fences := slots.map newFence }

/-- The function `VulkanRHI::waitFrame` (lines 435-448); `result` and `image_index` are what
`vkAcquireNextImageKHR` returns and writes. -/
def waitFrame (p : Platform) (fuel : Nat) (result : VkResult) (image_index : Nat)
    (s : VulkanRHI) : Outcome :=
  let s := emit (.vkWaitForFences [s.m_flight_fences.getD s.m_flight_index VK_NULL_HANDLE]
    true UINT64_MAX) s
  let s := { emit (.vkAcquireNextImageKHR s.m_swapchain UINT64_MAX
      (s.m_image_avaliable_semaphores.getD s.m_flight_index VK_NULL_HANDLE) VK_NULL_HANDLE) s with
    m_image_index := image_index }
  if result = VK_ERROR_OUT_OF_DATE_KHR then
    recreateSwapchain p fuel s
  else
    ASSERT (result == VK_SUCCESS || result == VK_SUBOPTIMAL_KHR)
      "failed to acquire swapchain image!" s

/-- The function `VulkanRHI::submitFrame` (lines 450-465); `result` is what `vkQueueSubmit` returns. -/
def submitFrame (result : VkResult) (s : VulkanRHI) : Outcome :=
  let s := emit (.vkQueueSubmit
    [s.m_image_avaliable_semaphores.getD s.m_flight_index VK_NULL_HANDLE]
    [VK_PIPELINE_STAGE_COLOR_ATTACHMENT_OUTPUT_BIT]
    [s.m_command_buffers.getD s.m_flight_index VK_NULL_HANDLE]
    [s.m_render_finished_semaphores.getD s.m_flight_index VK_NULL_HANDLE]
    (s.m_flight_fences.getD s.m_flight_index VK_NULL_HANDLE)) s
  CHECK_VULKAN_RESULT result "submit queue" s

/-- The function `VulkanRHI::presentFrame` (lines 467-488); `result` is what `vkQueuePresentKHR`
returns. -/
def presentFrame (p : Platform) (fuel : Nat) (result : VkResult) (s : VulkanRHI) : Outcome :=
  let s := emit (.vkQueuePresentKHR
    [s.m_render_finished_semaphores.getD s.m_flight_index VK_NULL_HANDLE]
    [s.m_swapchain] [s.m_image_index]) s
  (if result = VK_ERROR_OUT_OF_DATE_KHR ∨ result = VK_SUBOPTIMAL_KHR then
      recreateSwapchain p fuel s
    else
      CHECK_VULKAN_RESULT result "present swapchain image" s).andThen fun _ s =>
  .returned () { s with
    m_flight_index := ((s.m_flight_index + 1) % 4294967296) % MAX_FRAMES_IN_FLIGHT }

/-- One call of the frame cycle, with the answers of the platform it will see. -/
inductive Call where
  | waitFrame (p : Platform) (fuel : Nat) (result : VkResult) (image_index : Nat)
  | submitFrame (result : VkResult)
  | presentFrame (p : Platform) (fuel : Nat) (result : VkResult)

def Call.run : Call → VulkanRHI → Outcome
  | .waitFrame p fuel result image_index, s => Bamboo.waitFrame p fuel result image_index s
  | .submitFrame result, s => Bamboo.submitFrame result s
  | .presentFrame p fuel result, s => Bamboo.presentFrame p fuel result s

/-- A sequence of calls made one after the other; nothing runs after a call that did
not return. -/
def runCalls : List Call → VulkanRHI → Outcome
  | [], s => .returned () s
  | c :: cs, s => (c.run s).andThen fun _ s => runCalls cs s

/-! ## Vocabulary for the statements -/

/-- Calls of the frame cycle and of the creation of its synchronisation objects. -/
def Op.isFrameOp : Op → Bool
  | .vkCreateSemaphore _ => true
  | .vkCreateFence _ _ => true
  | .vkResetFences _ => true
  | .vkWaitForFences _ _ _ => true
  | .vkAcquireNextImageKHR _ _ _ _ => true
  | .vkQueueSubmit _ _ _ _ _ => true
  | .vkQueuePresentKHR _ _ _ => true
  | _ => false

/-- Calls into the window system, and the entry marker of `recreateSwapchain`: none of
them is an operation on the device. -/
def Op.isDeviceOp : Op → Bool
  | .recreateSwapchainCall => false
  | .glfwGetFramebufferSize _ _ => false
  | .glfwWaitEvents => false
  | .lifecycle .glfwGetRequiredInstanceExtensions => false
  | _ => true

/-- Creation or destruction of an object whose size is the swapchain extent. -/
def Op.isSizeDependentOp : Op → Bool
  | .vkCreateSwapchainKHR _ => true
  | .vkDestroySwapchainKHR _ => true
  | .vkCreateImageView _ _ _ _ => true
  | .vkDestroyImageView _ => true
  | .vmaCreateImage _ _ _ _ _ _ _ _ => true
  | .destroyVmaImageView _ => true
  | .vkCreateFramebuffer _ _ _ _ _ => true
  | .vkDestroyFramebuffer _ => true
  | _ => false

/-- Calls that `createSwapchain`, `destroySwapchainObjects` and `createSwapchainObjects`
can issue. -/
def Op.isSwapchainBodyOp : Op → Bool
  | .glfwGetFramebufferSize _ _ => true
  | .vkGetPhysicalDeviceSurfaceCapabilitiesKHR => true
  | .vkGetPhysicalDeviceSurfaceFormatsKHR => true
  | .vkGetPhysicalDeviceSurfacePresentModesKHR => true
  | .vkGetPhysicalDeviceFormatProperties _ => true
  | .vkGetSwapchainImagesKHR => true
  | op => op.isSizeDependentOp

/-- Calls that the zero-area wait of `recreateSwapchain` can issue. -/
def Op.isWindowOp : Op → Bool
  | .glfwGetFramebufferSize _ _ => true
  | .glfwWaitEvents => true
  | _ => false

/-- Calls that `recreateSwapchain` can issue. -/
def Op.isRecreateOp (op : Op) : Bool :=
  op == .recreateSwapchainCall || op.isWindowOp || op == .vkDeviceWaitIdle ||
    op.isSwapchainBodyOp

def Op.isQueueSubmit : Op → Bool
  | .vkQueueSubmit _ _ _ _ _ => true
  | _ => false

def Op.isQueuePresent : Op → Bool
  | .vkQueuePresentKHR _ _ _ => true
  | _ => false

def Op.isResetFences : Op → Bool
  | .vkResetFences _ => true
  | _ => false

/-- The calls a run added to the trace of the state it started in. -/
def issued (s : VulkanRHI) (o : Outcome) : List Op :=
  o.state.trace.drop s.trace.length

/-- A framebuffer size with zero area, the loop condition `width == 0 || height == 0`. -/
def zeroArea (a : Int × Int) : Prop := a.1 = 0 ∨ a.2 = 0

instance (a : Int × Int) : Decidable (zeroArea a) := by
  unfold zeroArea; exact inferInstance

/-- The state of an object that has not been initialised. -/
def blankRHI : VulkanRHI :=
  { m_instance := 0, m_physical_device := 0, m_device := 0, m_graphics_queue := 0
    m_surface := 0, m_vma_alloc := 0
    m_command_pool := 0, m_transient_command_pool := 0, m_pipeline_cache := 0
    m_debug_utils_messenger := 0
    m_required_instance_extensions := []
    m_required_instance_layers := []
    m_required_device_extensions := []
    m_required_device_features :=
      { sampleRateShading := 0, samplerAnisotropy := 0, geometryShader := 0
        fillModeNonSolid := 0 }
    m_queue_family_indices := { graphics := 0, compute := 0, transfer := 0 }
    m_queue_family_propertiess := []
    m_swapchain := 0, m_render_pass := 0
    m_surface_format := { format := 0, colorSpace := 0 }
    m_present_mode := 0
    m_extent := { width := 0, height := 0 }
    m_depth_format := 0
    m_swapchain_image_count := 0
    m_swapchain_image_views := []
    m_depth_stencil_image_view := { image := 0, allocation := 0, view := 0 }
    m_framebuffers := []
    m_flight_index := 0, m_image_index := 0
    m_image_avaliable_semaphores := []
    m_render_finished_semaphores := []
    m_flight_fences := []
    m_command_buffers := []
    trace := [], sizeQueries := 0 }

/-- A state as `init` leaves it: a 1280x720 swapchain of three images, two command
buffers, and the synchronisation objects of `createSynchronizationPrimitives`. -/
def sampleRHI : VulkanRHI :=
  createSynchronizationPrimitives (fun n => 40 + n) (fun n => 50 + n)
    { blankRHI with
      m_instance := 1, m_physical_device := 2, m_device := 3, m_surface := 4, m_vma_alloc := 5
      m_command_pool := 6, m_transient_command_pool := 7, m_pipeline_cache := 8
      m_debug_utils_messenger := 9
      m_queue_family_propertiess := [15, 2, 4]
      m_queue_family_indices := { graphics := 0, compute := 1, transfer := 0 }
      m_swapchain := 10, m_render_pass := 12
      m_surface_format := { format := VK_FORMAT_B8G8R8A8_SRGB, colorSpace := 0 }
      m_present_mode := VK_PRESENT_MODE_MAILBOX_KHR
      m_extent := { width := 1280, height := 720 }
      m_depth_format := VK_FORMAT_D32_SFLOAT
      m_swapchain_image_count := 3
      m_swapchain_image_views := [121, 122, 123]
      m_depth_stencil_image_view := { image := 31, allocation := 32, view := 131 }
      m_framebuffers := [321, 322, 323]
      m_command_buffers := [61, 62] }

/-- A platform on which swapchain re-creation succeeds: a 1280x720 window, a surface with
the sRGB format and the mailbox present mode, three swapchain images. -/
def samplePlatform : Platform :=
  { framebufferSize := fun _ => (1280, 720)
    capabilities :=
      { minImageCount := 2, maxImageCount := 3
        currentExtent := { width := 1280, height := 720 }
        minImageExtent := { width := 1, height := 1 }
        maxImageExtent := { width := 4096, height := 4096 }
        currentTransform := 1
        supportedUsageFlags := 19 }
    formats := [{ format := VK_FORMAT_B8G8R8A8_SRGB, colorSpace := 0 }]
    present_modes := [2, VK_PRESENT_MODE_MAILBOX_KHR]
    createSwapchainResult := VK_SUCCESS
    newSwapchain := 11
    swapchainImages := [21, 22, 23]
    formatProperties := fun _ => { linearTilingFeatures := 0, optimalTilingFeatures := 512 }
    createImageResult := VK_SUCCESS
    newImage := 33, newAllocation := 34
    newImageView := fun image => image + 100
    newFramebuffer := fun view => view + 200 }

def Call.isPresentFrame : Call → Bool
  | .presentFrame _ _ _ => true
  | _ => false

/-- What `presentFrame` does between `vkQueuePresentKHR` and the advance of the slot index
(lines 478-485): the branch on the present result. -/
def presentFrame_branch (p : Platform) (fuel : Nat) (result : VkResult) (s : VulkanRHI) :
    Outcome :=
  if result = VK_ERROR_OUT_OF_DATE_KHR ∨ result = VK_SUBOPTIMAL_KHR then
    recreateSwapchain p fuel s
  else
    CHECK_VULKAN_RESULT result "present swapchain image" s

/-- The state in which `presentFrame` branches on the present result: `vkQueuePresentKHR`
has been called. -/
def afterPresentCall (s : VulkanRHI) : VulkanRHI :=
  emit (.vkQueuePresentKHR
    [s.m_render_finished_semaphores.getD s.m_flight_index VK_NULL_HANDLE]
    [s.m_swapchain] [s.m_image_index]) s

/-- The state in which `waitFrame` branches on the acquire result: the fence wait and
`vkAcquireNextImageKHR` have been called and the image index is stored. -/
def afterAcquireCall (image_index : Nat) (s : VulkanRHI) : VulkanRHI :=
  { emit (.vkAcquireNextImageKHR s.m_swapchain UINT64_MAX
      (s.m_image_avaliable_semaphores.getD s.m_flight_index VK_NULL_HANDLE) VK_NULL_HANDLE)
      (emit (.vkWaitForFences [s.m_flight_fences.getD s.m_flight_index VK_NULL_HANDLE]
        true UINT64_MAX) s) with
    m_image_index := image_index }

/-- The answers of the platform during one frame cycle. -/
structure Tick where
  waitPlatform : Platform
  waitFuel : Nat
  acquireResult : VkResult
  acquireImage : Nat
  submitResult : VkResult
  presentPlatform : Platform
  presentFuel : Nat
  presentResult : VkResult

/-- One frame cycle: `waitFrame`, then `submitFrame`, then `presentFrame`. -/
def Tick.calls (k : Tick) : List Call :=
  [.waitFrame k.waitPlatform k.waitFuel k.acquireResult k.acquireImage,
   .submitFrame k.submitResult,
   .presentFrame k.presentPlatform k.presentFuel k.presentResult]

/-- Fence waits and queue submissions. -/
def Op.isFenceOp : Op → Bool
  | .vkWaitForFences _ _ _ => true
  | .vkQueueSubmit _ _ _ _ _ => true
  | _ => false

/-- Scanning one call: a wait on `fence` makes the answer true, a submission that is
handed `fence` makes it false, any other call leaves it. -/
def waitedStep (fence : Handle) (waited : Bool) : Op → Bool
  | .vkWaitForFences fences _ _ => if fence ∈ fences then true else waited
  | .vkQueueSubmit _ _ _ _ f => if f = fence then false else waited
  | _ => waited

/-- Whether, at the end of `ops`, `fence` has been waited on since the last submission
that was handed it. -/
def waitedSince (fence : Handle) (ops : List Op) : Bool :=
  ops.foldl (waitedStep fence) false

/-- No fence-wait-skip: every queue submission in `ops` is preceded, since the previous
submission handed the same fence, by a wait on that fence. -/
def fenceWaitedBeforeEverySubmit (ops : List Op) : Prop :=
  ∀ (pre post : List Op) (ws : List Handle) (st : List Nat) (cb ss : List Handle) (f : Handle),
    ops = pre ++ .vkQueueSubmit ws st cb ss f :: post → waitedSince f pre = true

/-- A sample frame cycle in which every call succeeds. -/
def sampleTick : Tick :=
  { waitPlatform := samplePlatform, waitFuel := 0, acquireResult := VK_SUCCESS
    acquireImage := 1, submitResult := VK_SUCCESS
    presentPlatform := samplePlatform, presentFuel := 0, presentResult := VK_SUCCESS }

/-- The sample frame cycle, except that `vkAcquireNextImageKHR` reports
`VK_ERROR_OUT_OF_DATE_KHR`; the re-creation of the swapchain succeeds. -/
def outOfDateTick : Tick :=
  { sampleTick with acquireResult := VK_ERROR_OUT_OF_DATE_KHR }

/-- The calls of `n` iterations of the zero-area wait loop, the first of which reads
answer number `q`: each iteration asks for the framebuffer size and then waits for events. -/
def zeroAreaWaitOps (p : Platform) : Nat → Nat → List Op
  | _, 0 => []
  | q, n + 1 =>
    .glfwGetFramebufferSize (p.framebufferSize q).1 (p.framebufferSize q).2 ::
      .glfwWaitEvents :: zeroAreaWaitOps p (q + 1) n

/-- The extent `getProperSwapchainSurfaceExtent` selects when the next answer of the window
system is answer number `q`. -/
def selectedExtent (p : Platform) (q : Nat) : VkExtent2D :=
  if p.capabilities.currentExtent.width ≠ UINT32_MAX then p.capabilities.currentExtent
  else
    { width := clamp (toUint32 (p.framebufferSize q).1) p.capabilities.minImageExtent.width
        p.capabilities.maxImageExtent.width
      height := clamp (toUint32 (p.framebufferSize q).2) p.capabilities.minImageExtent.height
        p.capabilities.maxImageExtent.height }

/-- A platform on which the re-creation of the swapchain of an object with `imageCount`
swapchain images passes every check of `createSwapchain` and `createSwapchainObjects`. -/
def Platform.canRecreate (p : Platform) (imageCount : Nat) : Bool :=
  (p.formats.find? (fun format =>
      format.format == VK_FORMAT_B8G8R8A8_SRGB &&
      format.colorSpace == VK_COLOR_SPACE_SRGB_NONLINEAR_KHR)).isSome &&
  (p.present_modes.find? (fun present_mode =>
      present_mode == VK_PRESENT_MODE_MAILBOX_KHR)).isSome &&
  (p.capabilities.supportedUsageFlags &&& VK_IMAGE_USAGE_TRANSFER_SRC_BIT != 0) &&
  (p.capabilities.supportedUsageFlags &&& VK_IMAGE_USAGE_TRANSFER_DST_BIT != 0) &&
  decide (p.createSwapchainResult = VK_SUCCESS) &&
  (imageCount == 0 || imageCount == p.swapchainImages.length % 4294967296) &&
  (getProperImageFormat_loop p VK_IMAGE_TILING_OPTIMAL
      VK_FORMAT_FEATURE_DEPTH_STENCIL_ATTACHMENT_BIT
      [VK_FORMAT_D32_SFLOAT, VK_FORMAT_D32_SFLOAT_S8_UINT, VK_FORMAT_D24_UNORM_S8_UINT]).2.isSome &&
  decide (p.createImageResult = VK_SUCCESS)

/-- The sample platform, except that `vkCreateSwapchainKHR` fails: the surface is lost. -/
def lostSurfacePlatform : Platform :=
  { samplePlatform with createSwapchainResult := VK_ERROR_SURFACE_LOST_KHR }

/-- The sample platform, except that the window is minimised for the first two size
queries and is 1920x1080 afterwards. -/
def restoredPlatform : Platform :=
  { samplePlatform with
    framebufferSize := fun n => if n < 2 then (0, 0) else (1920, 1080)
    capabilities := { samplePlatform.capabilities with
      currentExtent := { width := 1920, height := 1080 } } }

/-- The sample platform, except that the surface reports a current extent of zero area,
as it does for a window that was minimised after the size query. -/
def zeroExtentPlatform : Platform :=
  { samplePlatform with
    capabilities := { samplePlatform.capabilities with
      currentExtent := { width := 0, height := 0 } } }

/-- The state in which `recreateSwapchain` enters its zero-area wait loop (lines 493-496):
the framebuffer size has been asked for once. -/
def recreateSwapchain_entry (p : Platform) (s : VulkanRHI) : VulkanRHI :=
  { emit (.glfwGetFramebufferSize (p.framebufferSize s.sizeQueries).1
      (p.framebufferSize s.sizeQueries).2) (emit .recreateSwapchainCall s) with
    sizeQueries := s.sizeQueries + 1 }

/-- Calls that `createSwapchain` can issue before `vkCreateSwapchainKHR`. -/
def Op.isSurfaceQueryOp : Op → Bool
  | .glfwGetFramebufferSize _ _ => true
  | .vkGetPhysicalDeviceSurfaceCapabilitiesKHR => true
  | .vkGetPhysicalDeviceSurfaceFormatsKHR => true
  | .vkGetPhysicalDeviceSurfacePresentModesKHR => true
  | _ => false

/-- Calls that `destroySwapchainObjects` and `createSwapchainObjects` can issue. -/
def Op.isSwapchainObjectOp : Op → Bool
  | .vkCreateSwapchainKHR _ => false
  | .vkDestroySwapchainKHR _ => false
  | .glfwGetFramebufferSize _ _ => false
  | op => op.isSwapchainBodyOp

/-- Scanning one call for the flag of `fence`: creation sets it when the flags have the
signalled bit, a reset clears it, no other call of the program touches it. -/
def fenceStep (fence : Handle) (signalled : Bool) : Op → Bool
  | .vkCreateFence flags f =>
    if f = fence then flags &&& VK_FENCE_CREATE_SIGNALED_BIT != 0 else signalled
  | .vkResetFences fences => if fence ∈ fences then false else signalled
  | _ => signalled

/-- The flag of `fence` after the calls `ops`, as far as the calls of the program decide
it: set by creation with the signalled bit and cleared only by a reset. The completion of
a submission, which is not a call of the program, can only set the flag, so a flag that
is set here is set whatever the device has completed. -/
def fenceSignalled (fence : Handle) (ops : List Op) : Bool :=
  ops.foldl (fenceStep fence) false

/-! ## Device set-up and teardown (vulkan_rhi.cpp lines 31-64, 158-175, 514-766) -/

/- Values of `vulkan_core.h`, which is not part of the source tree. -/
def VK_TRUE : Nat := 1
def VK_QUEUE_GRAPHICS_BIT : Nat := 1
def VK_QUEUE_COMPUTE_BIT : Nat := 2
def VK_QUEUE_TRANSFER_BIT : Nat := 4
def VK_EXT_DEBUG_UTILS_EXTENSION_NAME : String := "VK_EXT_debug_utils"
def VK_KHR_SWAPCHAIN_EXTENSION_NAME : String := "VK_KHR_swapchain"

/-- The loop that checks every required name against the supported names (lines 540-547,
572-579, 603-610): `std::find` over the supported names, a fatal report for the first
required name that is not found. -/
def checkRequiredNames (message : String) (supported : List String) :
    List String → VulkanRHI → Outcome
  | [], s => .returned () s
  | required :: rest, s =>
    if supported.contains required then checkRequiredNames message supported rest s
    else LOG_FATAL message s

/-- The function `VulkanRHI::getRequiredInstanceExtensions` (lines 514-550);
`ENABLE_VALIDATION_LAYER` is the value of the preprocessor switch of line 7,
`supported` the names the loader enumerates and `glfw` the names GLFW requires. -/
def getRequiredInstanceExtensions (ENABLE_VALIDATION_LAYER : Bool) (supported glfw : List String)
    (s : VulkanRHI) : Res (List String) :=
  let s := emit (.lifecycle .vkEnumerateInstanceExtensionProperties) s
  let s := emit (.lifecycle .vkEnumerateInstanceExtensionProperties) s
  let supported_instance_extensions := supported
  let s := emit (.lifecycle .glfwGetRequiredInstanceExtensions) s
  let required_instance_extensions := glfw
  let required_instance_extensions :=
    if ENABLE_VALIDATION_LAYER then
      required_instance_extensions ++ [VK_EXT_DEBUG_UTILS_EXTENSION_NAME]
    else required_instance_extensions
  (checkRequiredNames "required instance extension \x7b\x7d is not supported"
    supported_instance_extensions required_instance_extensions s).andThen fun _ s =>
  .returned required_instance_extensions s

/-- The function `VulkanRHI::getRequiredInstanceLayers` (lines 552-582). -/
def getRequiredInstanceLayers (ENABLE_VALIDATION_LAYER : Bool) (supported : List String)
    (s : VulkanRHI) : Res (List String) :=
  let s := emit (.lifecycle .vkEnumerateInstanceLayerProperties) s
  let s := emit (.lifecycle .vkEnumerateInstanceLayerProperties) s
  let supported_instance_layers := supported
  let required_instance_layers : List String := []
  let required_instance_layers :=
    if ENABLE_VALIDATION_LAYER then required_instance_layers ++ ["VK_LAYER_KHRONOS_validation"]
    else required_instance_layers
  (checkRequiredNames "required instance layer \x7b\x7d is not supported"
    supported_instance_layers required_instance_layers s).andThen fun _ s =>
  .returned required_instance_layers s

/-- The function `VulkanRHI::getRequiredDeviceExtensions` (lines 584-613). -/
def getRequiredDeviceExtensions (supported : List String) (s : VulkanRHI) : Res (List String) :=
  let s := emit (.lifecycle (.vkEnumerateDeviceExtensionProperties s.m_physical_device)) s
  let s := emit (.lifecycle (.vkEnumerateDeviceExtensionProperties s.m_physical_device)) s
  let supported_device_extensions := supported
  let required_device_extensions := [VK_KHR_SWAPCHAIN_EXTENSION_NAME]
  (checkRequiredNames "required device extension \x7b\x7d is not supported"
    supported_device_extensions required_device_extensions s).andThen fun _ s =>
  .returned required_device_extensions s

/-- The function `VulkanRHI::getRequiredDeviceFeatures` (lines 615-643); `supported` is what
`vkGetPhysicalDeviceFeatures` writes. -/
def getRequiredDeviceFeatures (supported : VkPhysicalDeviceFeatures) (s : VulkanRHI) :
    Res VkPhysicalDeviceFeatures :=
  let s := emit (.lifecycle (.vkGetPhysicalDeviceFeatures s.m_physical_device)) s
  let supported_device_features := supported
  let required_device_features : VkPhysicalDeviceFeatures :=
    { sampleRateShading := 0, samplerAnisotropy := 0, geometryShader := 0
      fillModeNonSolid := 0 }
  let required_device_features :=
    if supported_device_features.sampleRateShading ≠ 0 then
      { required_device_features with sampleRateShading := VK_TRUE }
    else required_device_features
  let required_device_features :=
    if supported_device_features.samplerAnisotropy ≠ 0 then
      { required_device_features with samplerAnisotropy := VK_TRUE }
    else required_device_features
  let required_device_features :=
    if supported_device_features.geometryShader ≠ 0 then
      { required_device_features with geometryShader := VK_TRUE }
    else required_device_features
  let required_device_features :=
    if supported_device_features.fillModeNonSolid ≠ 0 then
      { required_device_features with fillModeNonSolid := VK_TRUE }
    else required_device_features
  .returned required_device_features s

/-- The loops `for (size_t i = 0; i < size; ++i) if (test(flags[i])) return i;` of
`getQueueFamilyIndex`: the lowest index whose flag word passes the test. -/
def firstFamily (test : Nat → Bool) : List Nat → Option Nat
  | [] => none
  | flags :: rest => if test flags then some 0 else (firstFamily test rest).map (· + 1)

/-- The three loops of `VulkanRHI::getQueueFamilyIndex` (lines 728-761) over the flag words
of `m_queue_family_propertiess`: a compute-only request first looks for a family with the
compute bit and without the graphics bit, a transfer-only request for a family with the
transfer bit and without the graphics and compute bits, and every request ends with the
first family whose flags contain all requested bits. -/
def getQueueFamilyIndex_search (queue_flags : Nat) (families : List Nat) : Option Nat :=
  match (if queue_flags &&& VK_QUEUE_COMPUTE_BIT == queue_flags then
      firstFamily (fun flags => flags &&& VK_QUEUE_COMPUTE_BIT != 0 &&
        !(flags &&& VK_QUEUE_GRAPHICS_BIT != 0)) families
    else none) with
  | some i => some i
  | none =>
    match (if queue_flags &&& VK_QUEUE_TRANSFER_BIT == queue_flags then
        firstFamily (fun flags => flags &&& VK_QUEUE_TRANSFER_BIT != 0 &&
          !(flags &&& VK_QUEUE_GRAPHICS_BIT != 0) &&
          !(flags &&& VK_QUEUE_COMPUTE_BIT != 0)) families
      else none) with
    | some i => some i
    | none => firstFamily (fun flags => flags &&& queue_flags == queue_flags) families

/-- The function `VulkanRHI::getQueueFamilyIndex` (lines 726-766); the index found is
returned as `uint32_t`, and the fatal error of line 763 ends the run when the loops find
no family. -/
def getQueueFamilyIndex (queue_flags : Nat) (s : VulkanRHI) : Res Nat :=
  match getQueueFamilyIndex_search queue_flags s.m_queue_family_propertiess with
  | some i => .returned (i % 4294967296) s
  | none => LOG_FATAL "failed to find a matching queue family index" s

/-- The function `VulkanRHI::getQueueFamilyIndices` (lines 645-724); `families` are the
flag words of the queue families the device enumerates and `presentSupport i` is what
`vkGetPhysicalDeviceSurfaceSupportKHR` writes for family `i`. The queue create-infos are
returned with the indices. -/
def getQueueFamilyIndices (families : List Nat) (presentSupport : Nat → Nat) (s : VulkanRHI) :
    Res (QueueFamilyIndices × List DeviceQueueCreateInfo) :=
  let s := emit (.lifecycle (.vkGetPhysicalDeviceQueueFamilyProperties s.m_physical_device)) s
  let queue_family_count := families.length % 4294967296
  (ASSERT (decide (queue_family_count > 0)) "no supported physical device queue family"
    s).andThen fun _ s =>
  let s := { emit (.lifecycle (.vkGetPhysicalDeviceQueueFamilyProperties s.m_physical_device)) s
    with m_queue_family_propertiess := families.take queue_family_count }
  let required_queue_types := VK_QUEUE_GRAPHICS_BIT ||| VK_QUEUE_COMPUTE_BIT
  let queue_cis : List DeviceQueueCreateInfo := []
  -- graphics queue
  (if required_queue_types &&& VK_QUEUE_GRAPHICS_BIT != 0 then
      (getQueueFamilyIndex VK_QUEUE_GRAPHICS_BIT s).andThen fun graphics s =>
      let queue_cis := queue_cis ++ [{ queueFamilyIndex := graphics, queueCount := 1 }]
      let s := emit (.lifecycle (.vkGetPhysicalDeviceSurfaceSupportKHR s.m_physical_device
        graphics s.m_surface)) s
      (ASSERT (presentSupport graphics != 0)
        "graphic queue family doesn't support presentation" s).andThen fun _ s =>
      .returned (graphics, queue_cis) s
    else .returned (0, queue_cis) s).andThen fun (graphics, queue_cis) s =>
  -- dedicated compute queue
  (if required_queue_types &&& VK_QUEUE_COMPUTE_BIT != 0 then
      (getQueueFamilyIndex VK_QUEUE_COMPUTE_BIT s).andThen fun compute s =>
      if compute ≠ graphics then
        .returned (compute, queue_cis ++ [{ queueFamilyIndex := compute, queueCount := 1 }]) s
      else .returned (compute, queue_cis) s
    else .returned (graphics, queue_cis) s).andThen fun (compute, queue_cis) s =>
  -- dedicated transfer queue
  (if required_queue_types &&& VK_QUEUE_TRANSFER_BIT != 0 then
      (getQueueFamilyIndex VK_QUEUE_TRANSFER_BIT s).andThen fun transfer s =>
      if transfer ≠ graphics ∧ transfer ≠ compute then
        .returned (transfer, queue_cis ++ [{ queueFamilyIndex := transfer, queueCount := 1 }]) s
      else .returned (transfer, queue_cis) s
    else .returned (graphics, queue_cis) s).andThen fun (transfer, queue_cis) s =>
  .returned ({ graphics := graphics, compute := compute, transfer := transfer }, queue_cis) s

/-- The function `VulkanRHI::createLogicDevice` (lines 158-175); `result` and `newDevice`
are what `vkCreateDevice` returns and writes. -/
def createLogicDevice (supportedExtensions : List String)
    (supportedFeatures : VkPhysicalDeviceFeatures) (families : List Nat)
    (presentSupport : Nat → Nat) (result : VkResult) (newDevice : Handle) (s : VulkanRHI) :
    Outcome :=
  (getRequiredDeviceExtensions supportedExtensions s).andThen fun extensions s =>
  let s := { s with m_required_device_extensions := extensions }
  (getRequiredDeviceFeatures supportedFeatures s).andThen fun features s =>
  let s := { s with m_required_device_features := features }
  (getQueueFamilyIndices families presentSupport s).andThen fun (indices, queue_cis) s =>
  let s := { s with m_queue_family_indices := indices }
  let device_ci : DeviceCreateInfo :=
    { queueCreateInfos := queue_cis
      enabledFeatures := s.m_required_device_features
      enabledExtensionNames := s.m_required_device_extensions }
  let s := { emit (.lifecycle (.vkCreateDevice s.m_physical_device device_ci)) s with
    m_device := newDevice }
  CHECK_VULKAN_RESULT result "create device" s

/-- The function `VulkanRHI::destroyDebugging` (lines 109-112). -/
def destroyDebugging (s : VulkanRHI) : VulkanRHI :=
  emit (.lifecycle (.vkDestroyDebugUtilsMessengerEXT s.m_instance s.m_debug_utils_messenger)) s

/-- The function `VulkanRHI::destroy` (lines 31-64); `ENABLE_VALIDATION_LAYER` is the value
of the preprocessor switch of line 7. -/
def destroy (ENABLE_VALIDATION_LAYER : Bool) (s : VulkanRHI) : VulkanRHI :=
  let s := emit (.lifecycle (.vkDestroyPipelineCache s.m_pipeline_cache)) s
  let s := emit (.lifecycle (.vkDestroyRenderPass s.m_render_pass)) s
  let s := emitAll (s.m_framebuffers.map .vkDestroyFramebuffer) s
  let s := emitAll (s.m_image_avaliable_semaphores.map fun semaphore =>
    .lifecycle (.vkDestroySemaphore semaphore)) s
  let s := emitAll (s.m_render_finished_semaphores.map fun semaphore =>
    .lifecycle (.vkDestroySemaphore semaphore)) s
  let s := emitAll (s.m_flight_fences.map fun fence => .lifecycle (.vkDestroyFence fence)) s
  let s := emit (.vkDestroySwapchainKHR s.m_swapchain) s
  let s := destroySwapchainObjects s
  let s := emit (.lifecycle (.vkDestroyCommandPool s.m_transient_command_pool)) s
  let s := emit (.lifecycle (.vkDestroyCommandPool s.m_command_pool)) s
  let s := if ENABLE_VALIDATION_LAYER then destroyDebugging s else s
  let s := emit (.lifecycle (.vmaDestroyAllocator s.m_vma_alloc)) s
  let s := emit (.lifecycle (.vkDestroySurfaceKHR s.m_instance s.m_surface)) s
  let s := emit (.lifecycle (.vkDestroyDevice s.m_device)) s
  emit (.lifecycle (.vkDestroyInstance s.m_instance)) s

/-- A sequence of `createSwapchainObjects` calls, one per element of `ps`, each with the
answers of its platform; nothing runs after a call that did not return. -/
def createSwapchainObjects_sequence : List Platform → VulkanRHI → Outcome
  | [], s => .returned () s
  | p :: ps, s => (createSwapchainObjects p s).andThen fun _ s =>
      createSwapchainObjects_sequence ps s

/-- The image count a platform reports through `vkGetSwapchainImagesKHR`, as `uint32_t`. -/
def Platform.imageCount (p : Platform) : Nat := p.swapchainImages.length % 4294967296

/-- The feature mask of `format` that `getProperImageFormat` tests for `tiling`. -/
def tilingFeatures (p : Platform) (tiling format : Nat) : Nat :=
  if tiling = VK_IMAGE_TILING_LINEAR then (p.formatProperties format).linearTilingFeatures
  else (p.formatProperties format).optimalTilingFeatures

/-- The mask `mask` contains every bit of `required`. -/
def containsBits (mask required : Nat) : Prop :=
  ∀ i, required.testBit i = true → mask.testBit i = true

/-- A platform whose swapchain reports no image. -/
def noImagePlatform : Platform :=
  { samplePlatform with swapchainImages := [] }

/-- A device that supports none of the four features the renderer asks for. -/
def noDeviceFeatures : VkPhysicalDeviceFeatures :=
  { sampleRateShading := 0, samplerAnisotropy := 0, geometryShader := 0, fillModeNonSolid := 0 }

/-- The features `getRequiredDeviceFeatures` requests on a device that supports `supported`:
each of the four is requested exactly when it is supported. -/
def requestedFeatures (supported : VkPhysicalDeviceFeatures) : VkPhysicalDeviceFeatures :=
  { sampleRateShading := if supported.sampleRateShading ≠ 0 then VK_TRUE else 0
    samplerAnisotropy := if supported.samplerAnisotropy ≠ 0 then VK_TRUE else 0
    geometryShader := if supported.geometryShader ≠ 0 then VK_TRUE else 0
    fillModeNonSolid := if supported.fillModeNonSolid ≠ 0 then VK_TRUE else 0 }

/-- The calls a run with a result added to the trace of the state it started in. -/
def issuedBy {α : Type} (s : VulkanRHI) (o : Res α) : List Op :=
  o.state.trace.drop s.trace.length

/-- The destructions of objects owned by the device that `destroy` issues: pipeline cache,
render pass, framebuffers, semaphores, fences, swapchain, image views, the depth-stencil
image, command pools and the allocator. -/
def Op.isDeviceObjectDestroy : Op → Bool
  | .vkDestroyFramebuffer _ => true
  | .vkDestroyImageView _ => true
  | .destroyVmaImageView _ => true
  | .vkDestroySwapchainKHR _ => true
  | .lifecycle (.vkDestroyPipelineCache _) => true
  | .lifecycle (.vkDestroyRenderPass _) => true
  | .lifecycle (.vkDestroySemaphore _) => true
  | .lifecycle (.vkDestroyFence _) => true
  | .lifecycle (.vkDestroyCommandPool _) => true
  | .lifecycle (.vmaDestroyAllocator _) => true
  | _ => false

/-! ## The geometry-buffer pass (gbuffer_pass.cpp) -/

/- Values of `vulkan_core.h`, which is not part of the source tree. -/
def VK_SHADER_STAGE_VERTEX_BIT : Nat := 1
def VK_SHADER_STAGE_FRAGMENT_BIT : Nat := 16
def VK_DESCRIPTOR_TYPE_COMBINED_IMAGE_SAMPLER : Nat := 1
def VK_DESCRIPTOR_TYPE_UNIFORM_BUFFER : Nat := 6
def VK_IMAGE_LAYOUT_SHADER_READ_ONLY_OPTIMAL : Nat := 5
def VK_PIPELINE_BIND_POINT_GRAPHICS : Nat := 0
def VK_INDEX_TYPE_UINT32 : Nat := 1
def VK_FILTER_NEAREST : Nat := 0
def VK_SAMPLER_ADDRESS_MODE_CLAMP_TO_EDGE : Nat := 2
def VK_SUBPASS_CONTENTS_INLINE : Nat := 0

/-- Modelled from the spec: the mesh type of a draw item (`EMeshType` of mesh.h, which is
not in the source tree); `createPipelines` stores the static pipeline at index 0 and the
skeletal pipeline at index 1. -/
inductive EMeshType where
  | Static
  | Skeletal
  deriving DecidableEq, Repr

/-- Modelled from the spec: the conversion `(uint32_t)mesh_type` of lines 89-90, with the
enumerators numbered as `createPipelines` uses them (0 static, 1 skeletal). -/
def EMeshType.toUint32 : EMeshType → Nat
  | .Static => 0
  | .Skeletal => 1

/-- Modelled from the spec: an image with its view and sampler (`VmaImageViewSampler` of
vulkan_util.h, which is not in the source tree), with the members the pass reads. -/
structure VmaImageViewSampler where
  image : Handle
  view : Handle
  sampler : Handle
  deriving DecidableEq, Repr

/-- Modelled from the spec: the textures of one sub-mesh (the element type of
`pbr_textures` in render_data.h, which is not in the source tree). -/
structure PBRTexture where
  base_color_texure : VmaImageViewSampler
  metallic_roughness_texure : VmaImageViewSampler
  normal_texure : VmaImageViewSampler
  occlusion_texure : VmaImageViewSampler
  emissive_texure : VmaImageViewSampler
  deriving DecidableEq, Repr

/-- Modelled from the spec: a draw item (`MeshRenderData` and `SkeletalMeshRenderData` of
render_data.h, which is not in the source tree) with the members `GBufferPass::render`
reads; the push-constant blocks are named by a number, `bone_ubs` holds the buffer of
each frame slot and is read for skeletal items only. -/
structure RenderData where
  mesh_type : EMeshType
  vertex_buffer : Handle
  index_buffer : Handle
  index_counts : List Nat
  index_offsets : List Nat
  transform_pco : Nat
  material_pcos : List Nat
  pbr_textures : List PBRTexture
  bone_ubs : List Handle
  deriving DecidableEq, Repr

structure VkPushConstantRange where
  stageFlags : Nat
  offset : Nat
  size : Nat
  deriving DecidableEq, Repr

structure VkDescriptorSetLayoutBinding where
  binding : Nat
  descriptorType : Nat
  descriptorCount : Nat
  stageFlags : Nat
  deriving DecidableEq, Repr

structure VkDescriptorBufferInfo where
  buffer : Handle
  offset : Nat
  range : Nat
  deriving DecidableEq, Repr

structure VkDescriptorImageInfo where
  sampler : Handle
  imageView : Handle
  imageLayout : Nat
  deriving DecidableEq, Repr

structure VkWriteDescriptorSet where
  dstSet : Handle
  dstBinding : Nat
  dstArrayElement : Nat
  descriptorCount : Nat
  descriptorType : Nat
  pImageInfo : Option VkDescriptorImageInfo
  pBufferInfo : Option VkDescriptorBufferInfo
  deriving DecidableEq, Repr

/-- The block a push-constant command reads: an element of the array `pcos` of line 107,
or a read past its two elements. -/
inductive PushConstantData where
  | transform_pco (block : Nat)
  | material_pco (block : Nat)
  | pastTheEnd
  deriving DecidableEq, Repr

/-- The Vulkan and `VulkanUtil` calls of the pass, with the arguments the source passes. -/
inductive Cmd where
  | beginInstantCommands
  | vkCmdBeginRenderPass (renderPass framebuffer : Handle) (width height : Nat)
      (clearValueCount : Nat) (contents : Nat)
  | vkCmdSetViewport (width height : Nat)
  | vkCmdSetScissor (width height : Nat)
  | vkCmdBindPipeline (pipelineBindPoint : Nat) (pipeline : Handle)
  | vkCmdBindVertexBuffers (firstBinding : Nat) (buffers : List Handle) (offsets : List Nat)
  | vkCmdBindIndexBuffer (buffer : Handle) (offset : Nat) (indexType : Nat)
  | vkCmdPushConstants (layout : Handle) (stageFlags offset size : Nat)
      (pValues : PushConstantData)
  | vkCmdPushDescriptorSetKHR (pipelineBindPoint : Nat) (layout : Handle) (set : Nat)
      (writes : List VkWriteDescriptorSet)
  | vkCmdDrawIndexed (indexCount instanceCount firstIndex vertexOffset firstInstance : Nat)
  | vkCmdEndRenderPass
  | endInstantCommands
  | vkCreateDescriptorSetLayout (flags : Nat) (bindings : List VkDescriptorSetLayoutBinding)
  | vkCreatePipelineLayout (setLayouts : List Handle)
      (pushConstantRanges : List VkPushConstantRange)
  | createImageViewSampler (width height mip_levels layers format min_filter mag_filter
      address_mode usage : Nat)
  | vkCreateFramebuffer (renderPass : Handle) (attachments : List Handle)
      (width height layers : Nat)
  deriving DecidableEq, Repr

/-- Modelled from the spec: the members of `GBufferPass` and of its base `RenderPass`
(gbuffer_pass.h and render_pass.h are not in the source tree) that the embedded functions
read or write; `is_rendered` is the function-local static of `render`, `recorded` the
calls made so far. -/
structure GBufferPass where
  m_width : Nat
  m_height : Nat
  m_formats : List Nat
  m_render_pass : Handle
  m_framebuffer : Handle
  m_desc_set_layouts : List Handle
  m_pipeline_layouts : List Handle
  m_pipelines : List Handle
  m_push_constant_ranges : List VkPushConstantRange
  m_render_datas : List RenderData
  m_position_texture_sampler : VmaImageViewSampler
  m_normal_texture_sampler : VmaImageViewSampler
  m_base_color_texture_sampler : VmaImageViewSampler
  m_emissive_texture_sampler : VmaImageViewSampler
  m_metallic_roughness_occlusion_texture_sampler : VmaImageViewSampler
  m_depth_stencil_texture_sampler : VmaImageViewSampler
  is_rendered : Bool
  recorded : List Cmd

/-- How a function of the pass ends: it returns, or a failed `CHECK_VULKAN_RESULT` ends the
run with a diagnostic. -/
inductive PassOutcome where
  | returned (g : GBufferPass)
  | aborted (diagnostic : String) (g : GBufferPass)

def PassOutcome.state : PassOutcome → GBufferPass
  | .returned g => g
  | .aborted _ g => g

def PassOutcome.isReturned : PassOutcome → Bool
  | .returned _ => true
  | .aborted _ _ => false

/-- Modelled from the spec: the macro `CHECK_VULKAN_RESULT`, in a function of the pass. -/
def GBufferPass.CHECK_VULKAN_RESULT (result : VkResult) (message : String) (g : GBufferPass) :
    PassOutcome :=
  if result = VK_SUCCESS then .returned g else .aborted message g

def GBufferPass.record (cmds : List Cmd) (g : GBufferPass) : GBufferPass :=
  { g with recorded := g.recorded ++ cmds }

/-- The call `v.resize(n)` on a vector of handles. -/
def resizeHandles (n : Nat) (v : List Handle) : List Handle :=
  (v ++ List.replicate n VK_NULL_HANDLE).take n

/-- The function `GBufferPass::createPipelineLayouts` (lines 276-298); the two sizes are
`sizeof(TransformPCO)` and `sizeof(MaterialPCO)`, whose types are not in the source tree,
`result₀`, `result₁` and `layout₀`, `layout₁` are what the two `vkCreatePipelineLayout`
calls return and write. Only the second result is checked. -/
def GBufferPass.createPipelineLayouts (sizeofTransformPCO sizeofMaterialPCO : Nat)
    (result₀ result₁ : VkResult) (layout₀ layout₁ : Handle) (g : GBufferPass) : PassOutcome :=
  let g := { g with m_push_constant_ranges :=
    [{ stageFlags := VK_SHADER_STAGE_VERTEX_BIT, offset := 0, size := sizeofTransformPCO },
     { stageFlags := VK_SHADER_STAGE_FRAGMENT_BIT, offset := sizeofTransformPCO,
       size := sizeofMaterialPCO }] }
  let g := { g with m_pipeline_layouts := resizeHandles 2 g.m_pipeline_layouts }
  let g := g.record [.vkCreatePipelineLayout [g.m_desc_set_layouts.getD 0 VK_NULL_HANDLE]
    g.m_push_constant_ranges]
  let g := { g with m_pipeline_layouts := g.m_pipeline_layouts.set 0 layout₀ }
  let _result := result₀
  let g := g.record [.vkCreatePipelineLayout [g.m_desc_set_layouts.getD 1 VK_NULL_HANDLE]
    g.m_push_constant_ranges]
  let g := { g with m_pipeline_layouts := g.m_pipeline_layouts.set 1 layout₁ }
  let result := result₁
  g.CHECK_VULKAN_RESULT result "create pipeline layout"

/-- The function `GBufferPass::createFramebuffer` (lines 389-427); `created k` is the image,
view and sampler that the call for attachment `k` writes, `result` and `framebuffer` are
what `vkCreateFramebuffer` returns and writes. -/
def GBufferPass.createFramebuffer (created : Nat → VmaImageViewSampler) (result : VkResult)
    (framebuffer : Handle) (g : GBufferPass) : PassOutcome :=
  -- 1.create color images and view
  let g := { g.record [.createImageViewSampler g.m_width g.m_height 1 1 (g.m_formats.getD 0 0)
      VK_FILTER_NEAREST VK_FILTER_NEAREST VK_SAMPLER_ADDRESS_MODE_CLAMP_TO_EDGE
      VK_IMAGE_USAGE_COLOR_ATTACHMENT_BIT] with m_position_texture_sampler := created 0 }
  let g := { g.record [.createImageViewSampler g.m_width g.m_height 1 1 (g.m_formats.getD 1 0)
      VK_FILTER_NEAREST VK_FILTER_NEAREST VK_SAMPLER_ADDRESS_MODE_CLAMP_TO_EDGE
      VK_IMAGE_USAGE_COLOR_ATTACHMENT_BIT] with m_normal_texture_sampler := created 1 }
  let g := { g.record [.createImageViewSampler g.m_width g.m_height 1 1 (g.m_formats.getD 2 0)
      VK_FILTER_NEAREST VK_FILTER_NEAREST VK_SAMPLER_ADDRESS_MODE_CLAMP_TO_EDGE
      VK_IMAGE_USAGE_COLOR_ATTACHMENT_BIT] with m_base_color_texture_sampler := created 2 }
  let g := { g.record [.createImageViewSampler g.m_width g.m_height 1 1 (g.m_formats.getD 3 0)
      VK_FILTER_NEAREST VK_FILTER_NEAREST VK_SAMPLER_ADDRESS_MODE_CLAMP_TO_EDGE
      VK_IMAGE_USAGE_COLOR_ATTACHMENT_BIT] with m_emissive_texture_sampler := created 3 }
  let g := { g.record [.createImageViewSampler g.m_width g.m_height 1 1 (g.m_formats.getD 4 0)
      VK_FILTER_NEAREST VK_FILTER_NEAREST VK_SAMPLER_ADDRESS_MODE_CLAMP_TO_EDGE
      VK_IMAGE_USAGE_COLOR_ATTACHMENT_BIT] with
    m_metallic_roughness_occlusion_texture_sampler := created 4 }
  let g := { g.record [.createImageViewSampler g.m_width g.m_height 1 1 (g.m_formats.getD 5 0)
      VK_FILTER_NEAREST VK_FILTER_NEAREST VK_SAMPLER_ADDRESS_MODE_CLAMP_TO_EDGE
      VK_IMAGE_USAGE_DEPTH_STENCIL_ATTACHMENT_BIT] with
    m_depth_stencil_texture_sampler := created 5 }
  -- 2.create framebuffer
  let attachments := [g.m_position_texture_sampler.view, g.m_normal_texture_sampler.view,
    g.m_base_color_texture_sampler.view, g.m_emissive_texture_sampler.view,
    g.m_metallic_roughness_occlusion_texture_sampler.view,
    g.m_depth_stencil_texture_sampler.view]
  let g := { g.record [.vkCreateFramebuffer g.m_render_pass attachments g.m_width g.m_height 1]
    with m_framebuffer := framebuffer }
  g.CHECK_VULKAN_RESULT result "create brdf lut graphics pipeline"

/-- The push-constant loop of `render` (lines 108-112) for the array `pcos`. -/
def GBufferPass.pushConstants (g : GBufferPass) (pipeline_layout : Handle)
    (pcos : List PushConstantData) : List Cmd :=
  (List.range g.m_push_constant_ranges.length).map fun c =>
    let pushConstantRange := g.m_push_constant_ranges.getD c
      { stageFlags := 0, offset := 0, size := 0 }
    .vkCmdPushConstants pipeline_layout pushConstantRange.stageFlags pushConstantRange.offset
      pushConstantRange.size (pcos.getD c .pastTheEnd)

/-- The descriptor writes of sub-mesh `i` (lines 115-157); `sizeofBoneUBO` is
`sizeof(BoneUBO)`, whose type is not in the source tree. -/
def GBufferPass.descriptorWrites (sizeofBoneUBO flight_index : Nat) (render_data : RenderData)
    (i : Nat) : List VkWriteDescriptorSet :=
  let desc_writes : List VkWriteDescriptorSet := []
  -- bone matrix ubo
  let desc_writes :=
    if render_data.mesh_type = EMeshType.Skeletal then
      let desc_buffer_info : VkDescriptorBufferInfo :=
        { buffer := render_data.bone_ubs.getD flight_index VK_NULL_HANDLE
          offset := 0
          range := sizeofBoneUBO }
      desc_writes ++ [{ dstSet := 0, dstBinding := 0, dstArrayElement := 0
                        descriptorType := VK_DESCRIPTOR_TYPE_UNIFORM_BUFFER
                        descriptorCount := 1
                        pImageInfo := none
                        pBufferInfo := some desc_buffer_info }]
    else desc_writes
  -- image sampler
  let textures := render_data.pbr_textures.getD i
    { base_color_texure := ⟨0, 0, 0⟩, metallic_roughness_texure := ⟨0, 0, 0⟩
      normal_texure := ⟨0, 0, 0⟩, occlusion_texure := ⟨0, 0, 0⟩, emissive_texure := ⟨0, 0, 0⟩ }
  let pbr_textures := [textures.base_color_texure, textures.metallic_roughness_texure,
    textures.normal_texure, textures.occlusion_texure, textures.emissive_texure]
  desc_writes ++ (List.range pbr_textures.length).map fun t =>
    let texture := pbr_textures.getD t ⟨0, 0, 0⟩
    { dstSet := 0, dstBinding := toUint32 (t + 1), dstArrayElement := 0
      descriptorType := VK_DESCRIPTOR_TYPE_COMBINED_IMAGE_SAMPLER
      descriptorCount := 1
      pImageInfo := some { imageLayout := VK_IMAGE_LAYOUT_SHADER_READ_ONLY_OPTIMAL
                           imageView := texture.view
                           sampler := texture.sampler }
      pBufferInfo := none }

/-- The body of the sub-mesh loop of `render` (lines 104-165) for sub-mesh `i`. -/
def GBufferPass.subMeshCommands (g : GBufferPass) (sizeofBoneUBO flight_index : Nat)
    (render_data : RenderData) (pipeline_layout : Handle) (i : Nat) : List Cmd :=
  -- push constants
  let pcos := [PushConstantData.transform_pco render_data.transform_pco,
    PushConstantData.material_pco (render_data.material_pcos.getD i 0)]
  g.pushConstants pipeline_layout pcos ++
  -- update(push) sub mesh descriptors
  [.vkCmdPushDescriptorSetKHR VK_PIPELINE_BIND_POINT_GRAPHICS pipeline_layout 0
      (GBufferPass.descriptorWrites sizeofBoneUBO flight_index render_data i),
  -- render sub mesh
   .vkCmdDrawIndexed (render_data.index_counts.getD i 0) 1 (render_data.index_offsets.getD i 0)
      0 0]

/-- The body of the item loop of `render` (lines 79-166) for one draw item. -/
def GBufferPass.itemCommands (g : GBufferPass) (sizeofBoneUBO flight_index : Nat)
    (render_data : RenderData) : List Cmd :=
  let mesh_type := render_data.mesh_type
  let pipeline := g.m_pipelines.getD mesh_type.toUint32 VK_NULL_HANDLE
  let pipeline_layout := g.m_pipeline_layouts.getD mesh_type.toUint32 VK_NULL_HANDLE
  -- bind pipeline
  [.vkCmdBindPipeline VK_PIPELINE_BIND_POINT_GRAPHICS pipeline,
  -- bind vertex and index buffer
   .vkCmdBindVertexBuffers 0 [render_data.vertex_buffer] [0],
   .vkCmdBindIndexBuffer render_data.index_buffer 0 VK_INDEX_TYPE_UINT32] ++
  -- render all sub meshes
  let sub_mesh_count := render_data.index_counts.length
  (List.range sub_mesh_count).flatMap
    (g.subMeshCommands sizeofBoneUBO flight_index render_data pipeline_layout)

/-- The function `GBufferPass::render` (lines 26-190); `rhi` is the object `VulkanRHI::get()`
returns. The two lines that read the command buffer and the flight index of `rhi` are
commented out in the source (lines 37-38): the commands go to an instant command buffer
and `flight_index` is the constant 0 (lines 40-41). -/
def GBufferPass.render (_rhi : VulkanRHI) (sizeofBoneUBO : Nat) (g : GBufferPass) :
    GBufferPass :=
  if g.is_rendered then g
  else
    let g := { g with is_rendered := true }
    let g := g.record [.beginInstantCommands]
    let flight_index := 0
    let g := g.record [.vkCmdBeginRenderPass g.m_render_pass g.m_framebuffer g.m_width
      g.m_height 6 VK_SUBPASS_CONTENTS_INLINE]
    -- 1.set viewport
    let g := g.record [.vkCmdSetViewport g.m_width g.m_height]
    -- 2.set scissor
    let g := g.record [.vkCmdSetScissor g.m_width g.m_height]
    -- 3.bind states and render
    let g := g.record (g.m_render_datas.flatMap (g.itemCommands sizeofBoneUBO flight_index))
    let g := g.record [.vkCmdEndRenderPass]
    g.record [.endInstantCommands]

/-- The calls a function of the pass added to those recorded in the state it started in. -/
def GBufferPass.recordedSince (g after : GBufferPass) : List Cmd :=
  after.recorded.drop g.recorded.length

def Cmd.isDrawIndexed : Cmd → Bool
  | .vkCmdDrawIndexed _ _ _ _ _ => true
  | _ => false

/-- The draws of one item as the claim words them: `DrawIndexed(index_counts[i], 1,
index_offsets[i], 0, 0)` for each sub-mesh in order. -/
def RenderData.draws (render_data : RenderData) : List Cmd :=
  List.zipWith (fun count offset => Cmd.vkCmdDrawIndexed count 1 offset 0 0)
    render_data.index_counts render_data.index_offsets

/-- The width and height a call creates an image or framebuffer with. -/
def Cmd.extent? : Cmd → Option (Nat × Nat)
  | .createImageViewSampler width height _ _ _ _ _ _ _ => some (width, height)
  | .vkCreateFramebuffer _ _ width height _ => some (width, height)
  | _ => none

/-- The width and height a call of `createSwapchainObjects` creates an image or framebuffer
with. -/
def Op.extent? : Op → Option (Nat × Nat)
  | .vmaCreateImage width height _ _ _ _ _ _ => some (width, height)
  | .vkCreateFramebuffer _ _ width height _ => some (width, height)
  | _ => none

/-- The buffers of the uniform-buffer writes to binding 0 in the descriptor pushes of a
command list. -/
def boneBuffers (cmds : List Cmd) : List Handle :=
  cmds.flatMap fun cmd =>
    match cmd with
    | .vkCmdPushDescriptorSetKHR _ _ _ writes =>
      writes.filterMap fun w =>
        if w.dstBinding = 0 ∧ w.descriptorType = VK_DESCRIPTOR_TYPE_UNIFORM_BUFFER then
          w.pBufferInfo.map (·.buffer)
        else none
    | _ => []

/-- The textures of a sample sub-mesh. -/
def sampleTextures : PBRTexture :=
  { base_color_texure := ⟨801, 811, 821⟩, metallic_roughness_texure := ⟨802, 812, 822⟩
    normal_texure := ⟨803, 813, 823⟩, occlusion_texure := ⟨804, 814, 824⟩
    emissive_texure := ⟨805, 815, 825⟩ }

/-- A static draw item with two sub-meshes. -/
def itemA : RenderData :=
  { mesh_type := .Static, vertex_buffer := 201, index_buffer := 202
    index_counts := [3, 6], index_offsets := [0, 3]
    transform_pco := 1, material_pcos := [11, 12]
    pbr_textures := [sampleTextures, sampleTextures], bone_ubs := [] }

/-- A skeletal draw item with two sub-meshes and one bone buffer per frame slot. -/
def itemB : RenderData :=
  { mesh_type := .Skeletal, vertex_buffer := 203, index_buffer := 204
    index_counts := [9, 12], index_offsets := [0, 9]
    transform_pco := 2, material_pcos := [21, 22]
    pbr_textures := [sampleTextures, sampleTextures], bone_ubs := [70, 71] }

/-- A static draw item with one sub-mesh. -/
def itemC : RenderData :=
  { mesh_type := .Static, vertex_buffer := 205, index_buffer := 206
    index_counts := [15], index_offsets := [0]
    transform_pco := 3, material_pcos := [31]
    pbr_textures := [sampleTextures], bone_ubs := [] }

/-- A pass of size 1280x720 with the draw items A, B, C before its pipeline layouts are
created. -/
def blankGBufferPass : GBufferPass :=
  { m_width := 1280, m_height := 720
    m_formats := [97, 97, 43, 43, 37, VK_FORMAT_D32_SFLOAT]
    m_render_pass := 13, m_framebuffer := 14
    m_desc_set_layouts := [401, 402]
    m_pipeline_layouts := []
    m_pipelines := [601, 602]
    m_push_constant_ranges := []
    m_render_datas := [itemA, itemB, itemC]
    m_position_texture_sampler := ⟨0, 0, 0⟩
    m_normal_texture_sampler := ⟨0, 0, 0⟩
    m_base_color_texture_sampler := ⟨0, 0, 0⟩
    m_emissive_texture_sampler := ⟨0, 0, 0⟩
    m_metallic_roughness_occlusion_texture_sampler := ⟨0, 0, 0⟩
    m_depth_stencil_texture_sampler := ⟨0, 0, 0⟩
    is_rendered := false
    recorded := [] }

/-- The sample pass after `createPipelineLayouts`, with 128 and 48 bytes for the transform
and the material block. -/
def sampleGBufferPass : GBufferPass :=
  (blankGBufferPass.createPipelineLayouts 128 48 VK_SUCCESS VK_SUCCESS 501 502).state

/-- The sample state of the RHI while frame slot 1 is current. -/
def slotOneRHI : VulkanRHI :=
  { sampleRHI with m_flight_index := 1 }

/-! ## Descriptor-set layouts, the debug callback and the command buffers -/

def VK_DESCRIPTOR_SET_LAYOUT_CREATE_PUSH_DESCRIPTOR_BIT_KHR : Nat := 1
def VK_FALSE : Nat := 0
def VK_DEBUG_UTILS_MESSAGE_SEVERITY_WARNING_BIT_EXT : Nat := 256
def VK_DEBUG_UTILS_MESSAGE_SEVERITY_ERROR_BIT_EXT : Nat := 4096
def VK_COMMAND_BUFFER_LEVEL_PRIMARY : Nat := 0

/-- The function `GBufferPass::createDescriptorSetLayouts` (lines 250-274); `result₀`,
`result₁` and `layout₀`, `layout₁` are what the two `vkCreateDescriptorSetLayout` calls
return and write. Only the second result is checked. -/
def GBufferPass.createDescriptorSetLayouts (result₀ result₁ : VkResult)
    (layout₀ layout₁ : Handle) (g : GBufferPass) : PassOutcome :=
  let desc_set_layout_bindings : List VkDescriptorSetLayoutBinding :=
    [⟨1, VK_DESCRIPTOR_TYPE_COMBINED_IMAGE_SAMPLER, 1, VK_SHADER_STAGE_FRAGMENT_BIT⟩,
     ⟨2, VK_DESCRIPTOR_TYPE_COMBINED_IMAGE_SAMPLER, 1, VK_SHADER_STAGE_FRAGMENT_BIT⟩,
     ⟨3, VK_DESCRIPTOR_TYPE_COMBINED_IMAGE_SAMPLER, 1, VK_SHADER_STAGE_FRAGMENT_BIT⟩,
     ⟨4, VK_DESCRIPTOR_TYPE_COMBINED_IMAGE_SAMPLER, 1, VK_SHADER_STAGE_FRAGMENT_BIT⟩,
     ⟨5, VK_DESCRIPTOR_TYPE_COMBINED_IMAGE_SAMPLER, 1, VK_SHADER_STAGE_FRAGMENT_BIT⟩]
  let g := { g with m_desc_set_layouts := resizeHandles 2 g.m_desc_set_layouts }
  let g := g.record [.vkCreateDescriptorSetLayout
    VK_DESCRIPTOR_SET_LAYOUT_CREATE_PUSH_DESCRIPTOR_BIT_KHR desc_set_layout_bindings]
  let g := { g with m_desc_set_layouts := g.m_desc_set_layouts.set 0 layout₀ }
  let _result := result₀
  let desc_set_layout_bindings :=
    (⟨0, VK_DESCRIPTOR_TYPE_UNIFORM_BUFFER, 1, VK_SHADER_STAGE_VERTEX_BIT⟩ :
      VkDescriptorSetLayoutBinding) :: desc_set_layout_bindings
  let g := g.record [.vkCreateDescriptorSetLayout
    VK_DESCRIPTOR_SET_LAYOUT_CREATE_PUSH_DESCRIPTOR_BIT_KHR desc_set_layout_bindings]
  let g := { g with m_desc_set_layouts := g.m_desc_set_layouts.set 1 layout₁ }
  let result := result₁
  g.CHECK_VULKAN_RESULT result "create descriptor set layout"

/-- The severity of a log entry. -/
inductive LogLevel where
  | warning
  | error
  deriving DecidableEq, Repr

/-- Modelled from the spec: what the macros `LOG_WARNING(format, argument)` and
`LOG_ERROR(format, argument)`, whose definitions are not in the source tree, hand to the
logging channel: one entry with its level, the format string and the argument. -/
structure LogEntry where
  level : LogLevel
  format : String
  argument : String
  deriving DecidableEq, Repr

/-- Modelled from the spec: the macro `LOG_WARNING`. -/
def LOG_WARNING (format argument : String) : List LogEntry :=
  [{ level := .warning, format := format, argument := argument }]

/-- Modelled from the spec: the macro `LOG_ERROR`. -/
def LOG_ERROR (format argument : String) : List LogEntry :=
  [{ level := .error, format := format, argument := argument }]

/-- The function `VulkanRHI::debugUtilsMessengerCallback` (lines 862-874): the value it
returns and the log entries it writes; `pMessage` is `p_callback_data->pMessage`. -/
def debugUtilsMessengerCallback (message_severity message_type : Nat) (pMessage : String)
    (_p_user_data : Nat) : Nat × List LogEntry :=
  let _ := message_type
  let log :=
    if message_severity &&& VK_DEBUG_UTILS_MESSAGE_SEVERITY_WARNING_BIT_EXT != 0 then
      LOG_WARNING "vulkan validation layer: \x7b\x7d" pMessage
    else if message_severity &&& VK_DEBUG_UTILS_MESSAGE_SEVERITY_ERROR_BIT_EXT != 0 then
      LOG_ERROR "vulkan validation layer: \x7b\x7d" pMessage
    else []
  (VK_FALSE, log)

/-- The loop of `createCommandBuffers` (lines 320-324), from iteration `i` on with `n`
iterations left: every iteration calls `vkAllocateCommandBuffers` with the same allocate
info and the same destination `m_command_buffers.data()`; the driver writes
`newCommandBuffer i j` as the `j`-th buffer of the call of iteration `i`. -/
def createCommandBuffers_loop (newCommandBuffer : Nat → Nat → Handle)
    (commandBufferCount : Nat) : Nat → Nat → VulkanRHI → VulkanRHI
  | 0, _, s => s
  | n + 1, i, s =>
    let allocated := (List.range commandBufferCount).map (newCommandBuffer i)
    let s := { emit (.lifecycle (.vkAllocateCommandBuffers s.m_device s.m_command_pool
        VK_COMMAND_BUFFER_LEVEL_PRIMARY commandBufferCount allocated)) s with
      m_command_buffers := allocated ++ s.m_command_buffers.drop commandBufferCount }
    createCommandBuffers_loop newCommandBuffer commandBufferCount n (i + 1) s

/-- The function `VulkanRHI::createCommandBuffers` (lines 310-325). -/
def createCommandBuffers (newCommandBuffer : Nat → Nat → Handle) (s : VulkanRHI) :
    VulkanRHI :=
  let s := { s with m_command_buffers := resizeHandles MAX_FRAMES_IN_FLIGHT s.m_command_buffers }
  let commandBufferCount := s.m_command_buffers.length % 4294967296
  createCommandBuffers_loop newCommandBuffer commandBufferCount MAX_FRAMES_IN_FLIGHT 0 s

/-- The command buffers that the `vkAllocateCommandBuffers` calls of a trace allocated. -/
def allocatedCommandBuffers (ops : List Op) : List Handle :=
  ops.flatMap fun op =>
    match op with
    | .lifecycle (.vkAllocateCommandBuffers _ _ _ _ commandBuffers) => commandBuffers
    | _ => []

/-- The pipelines that the bind commands of a command list bind, in order. -/
def boundPipelines (cmds : List Cmd) : List Handle :=
  cmds.filterMap fun cmd =>
    match cmd with
    | .vkCmdBindPipeline _ pipeline => some pipeline
    | _ => none

/-- The descriptor pushes of a command list, in order: the pipeline layout of each and the
binding and descriptor type of each of its writes. -/
def pushedDescriptors (cmds : List Cmd) : List (Handle × List (Nat × Nat)) :=
  cmds.filterMap fun cmd =>
    match cmd with
    | .vkCmdPushDescriptorSetKHR _ layout _ writes =>
      some (layout, writes.map fun w => (w.dstBinding, w.descriptorType))
    | _ => none

/-- The descriptor-set layouts that a command list creates, in order: the binding and
descriptor type of each declared binding. -/
def declaredLayouts (cmds : List Cmd) : List (List (Nat × Nat)) :=
  cmds.filterMap fun cmd =>
    match cmd with
    | .vkCreateDescriptorSetLayout _ bindings =>
      some (bindings.map fun b => (b.binding, b.descriptorType))
    | _ => none

/-- The driver of the samples: the `j`-th buffer of the `i`-th allocation call is
`61 + 2 * i + j`. -/
def sampleCommandBuffer (i j : Nat) : Handle := 61 + 2 * i + j

/-! ## Physical device selection (vulkan_rhi.cpp lines 121-156) -/

def VK_PHYSICAL_DEVICE_TYPE_INTEGRATED_GPU : Nat := 1
def VK_PHYSICAL_DEVICE_TYPE_DISCRETE_GPU : Nat := 2

/-- A physical device as `pickPhysicalDevice` sees it: its handle and the `deviceType` that
`vkGetPhysicalDeviceProperties` reports for it. -/
structure PhysicalDevice where
  handle : Handle
  deviceType : Nat
  deriving DecidableEq, Repr

/-- The function `VulkanRHI::pickPhysicalDevice` (lines 121-156); `devices` is what
`vkEnumeratePhysicalDevices` enumerates. The informational log line of the loop is left
out. -/
def pickPhysicalDevice (devices : List PhysicalDevice) (s : VulkanRHI) : Outcome :=
  let s := emit (.lifecycle (.vkEnumeratePhysicalDevices s.m_instance)) s
  let gpu_count := devices.length % 4294967296
  (ASSERT (decide (gpu_count > 0)) "failed to find a vulkan compatiable physical device"
    s).andThen fun _ s =>
  let physical_devices := devices.take gpu_count
  let s := emit (.lifecycle (.vkEnumeratePhysicalDevices s.m_instance)) s
  let s := emitAll (physical_devices.map fun device =>
    .lifecycle (.vkGetPhysicalDeviceProperties device.handle)) s
  -- only use discrete gpu, for best performance
  let discrete_physical_devices := (physical_devices.filter fun device =>
    device.deviceType == VK_PHYSICAL_DEVICE_TYPE_DISCRETE_GPU).map fun device => device.handle
  -- set the selected device index
  let selected_device_index := 0
  (if selected_device_index ≥ discrete_physical_devices.length then
      LOG_FATAL "selected device index \x7b\x7d is out of range \x7b\x7d" s
    else .returned () s).andThen fun _ s =>
  let selected := discrete_physical_devices.getD selected_device_index VK_NULL_HANDLE
  .returned () { s with m_physical_device := selected }

/-- An enumeration with an integrated GPU followed by two discrete GPUs. -/
def sampleDevices : List PhysicalDevice :=
  [{ handle := 7, deviceType := VK_PHYSICAL_DEVICE_TYPE_INTEGRATED_GPU },
   { handle := 8, deviceType := VK_PHYSICAL_DEVICE_TYPE_DISCRETE_GPU },
   { handle := 9, deviceType := VK_PHYSICAL_DEVICE_TYPE_DISCRETE_GPU }]

/-- The image count that a `vkCreateSwapchainKHR` call requests. -/
def Op.requestedImageCount? : Op → Option Nat
  | .vkCreateSwapchainKHR ci => some ci.minImageCount
  | _ => none

/-- The sample platform with a surface that has no upper limit on the image count. -/
def unlimitedImagesPlatform : Platform :=
  { samplePlatform with
    capabilities := { samplePlatform.capabilities with minImageCount := 2, maxImageCount := 0 } }

/-- A flag word has the compute bit and not the graphics bit. -/
def isComputeOnly (flags : Nat) : Prop :=
  containsBits flags VK_QUEUE_COMPUTE_BIT ∧ ¬ containsBits flags VK_QUEUE_GRAPHICS_BIT

/-! ## Initialisation (vulkan_rhi.cpp lines 12-29, 66-119, 177-194, 296-308, 353-433) -/

def VK_COMMAND_POOL_CREATE_TRANSIENT_BIT : Nat := 1
def VK_COMMAND_POOL_CREATE_RESET_COMMAND_BUFFER_BIT : Nat := 2
def VK_DEBUG_UTILS_MESSAGE_TYPE_GENERAL_BIT_EXT : Nat := 1
def VK_DEBUG_UTILS_MESSAGE_TYPE_VALIDATION_BIT_EXT : Nat := 2
def VK_DEBUG_UTILS_MESSAGE_TYPE_PERFORMANCE_BIT_EXT : Nat := 4
def VK_DEBUG_UTILS_MESSAGE_TYPE_DEVICE_ADDRESS_BINDING_BIT_EXT : Nat := 8

/-- What the loader, the window system and the driver answer during `init`. -/
structure InitPlatform where
  supportedInstanceExtensions : List String
  glfwInstanceExtensions : List String
  supportedInstanceLayers : List String
  createInstanceResult : VkResult
  newInstance : Handle
  createDebugResult : VkResult
  newDebugMessenger : Handle
  createSurfaceResult : VkResult
  newSurface : Handle
  devices : List PhysicalDevice
  supportedDeviceExtensions : List String
  supportedDeviceFeatures : VkPhysicalDeviceFeatures
  families : List Nat
  presentSupport : Nat → Nat
  createDeviceResult : VkResult
  newDevice : Handle
  newGraphicsQueue : Handle
  createAllocatorResult : VkResult
  newAllocator : Handle
  swapchain : Platform
  newCommandPool : Handle
  newTransientCommandPool : Handle
  newCommandBuffer : Nat → Nat → Handle
  newSemaphore : Nat → Handle
  newFence : Nat → Handle

/-- The function `VulkanRHI::createInstance` (lines 66-92); the application info is made of
compile-time constants and is left out of the call. -/
def createInstance (ENABLE_VALIDATION_LAYER : Bool) (q : InitPlatform) (s : VulkanRHI) :
    Outcome :=
  (getRequiredInstanceExtensions ENABLE_VALIDATION_LAYER q.supportedInstanceExtensions
    q.glfwInstanceExtensions s).andThen fun extensions s =>
  let s := { s with m_required_instance_extensions := extensions }
  (getRequiredInstanceLayers ENABLE_VALIDATION_LAYER q.supportedInstanceLayers s).andThen
    fun layers s =>
  let s := { s with m_required_instance_layers := layers }
  let s := { emit (.lifecycle (.vkCreateInstance s.m_required_instance_extensions
      s.m_required_instance_layers)) s with m_instance := q.newInstance }
  CHECK_VULKAN_RESULT q.createInstanceResult "create instance" s

/-- The function `VulkanRHI::createDebugging` (lines 94-107); the two function pointers it
looks up are not kept in the state. -/
def createDebugging (q : InitPlatform) (s : VulkanRHI) : Outcome :=
  let s := emit (.lifecycle (.vkGetInstanceProcAddr s.m_instance
    "vkCreateDebugUtilsMessengerEXT")) s
  let s := emit (.lifecycle (.vkGetInstanceProcAddr s.m_instance
    "vkDestroyDebugUtilsMessengerEXT")) s
  let s := { emit (.lifecycle (.vkCreateDebugUtilsMessengerEXT s.m_instance
      (VK_DEBUG_UTILS_MESSAGE_SEVERITY_WARNING_BIT_EXT |||
        VK_DEBUG_UTILS_MESSAGE_SEVERITY_ERROR_BIT_EXT)
      (VK_DEBUG_UTILS_MESSAGE_TYPE_GENERAL_BIT_EXT |||
        VK_DEBUG_UTILS_MESSAGE_TYPE_VALIDATION_BIT_EXT |||
        VK_DEBUG_UTILS_MESSAGE_TYPE_PERFORMANCE_BIT_EXT |||
        VK_DEBUG_UTILS_MESSAGE_TYPE_DEVICE_ADDRESS_BINDING_BIT_EXT))) s with
    m_debug_utils_messenger := q.newDebugMessenger }
  CHECK_VULKAN_RESULT q.createDebugResult "create debug utils messenger" s

/-- The function `VulkanRHI::createSurface` (lines 114-119). -/
def createSurface (q : InitPlatform) (s : VulkanRHI) : Outcome :=
  let s := { emit (.lifecycle (.glfwCreateWindowSurface s.m_instance)) s with
    m_surface := q.newSurface }
  CHECK_VULKAN_RESULT q.createSurfaceResult "create window surface" s

/-- The function `VulkanRHI::getDeviceQueues` (lines 177-181). -/
def getDeviceQueues (q : InitPlatform) (s : VulkanRHI) : VulkanRHI :=
  { emit (.lifecycle (.vkGetDeviceQueue s.m_device s.m_queue_family_indices.graphics 0)) s with
    m_graphics_queue := q.newGraphicsQueue }

/-- The function `VulkanRHI::createVmaAllocator` (lines 183-194). -/
def createVmaAllocator (q : InitPlatform) (s : VulkanRHI) : Outcome :=
  let s := { emit (.lifecycle (.vmaCreateAllocator s.m_instance s.m_physical_device
      s.m_device)) s with m_vma_alloc := q.newAllocator }
  CHECK_VULKAN_RESULT q.createAllocatorResult "create vma allocator" s

/-- The function `VulkanRHI::createCommandPools` (lines 296-308); the results of the two
calls are not looked at. -/
def createCommandPools (q : InitPlatform) (s : VulkanRHI) : VulkanRHI :=
  let s := { emit (.lifecycle (.vkCreateCommandPool s.m_device
      s.m_queue_family_indices.graphics VK_COMMAND_POOL_CREATE_RESET_COMMAND_BUFFER_BIT)) s with
    m_command_pool := q.newCommandPool }
  { emit (.lifecycle (.vkCreateCommandPool s.m_device s.m_queue_family_indices.graphics
      VK_COMMAND_POOL_CREATE_TRANSIENT_BIT)) s with
    m_transient_command_pool := q.newTransientCommandPool }

/-- The function `VulkanRHI::createRenderPass` (lines 353-426): the call it issues and the
member it writes; the attachment and subpass descriptions are left out. -/
def createRenderPass (newRenderPass : Handle) (s : VulkanRHI) : VulkanRHI :=
  { emit (.lifecycle (.vkCreateRenderPass s.m_device)) s with m_render_pass := newRenderPass }

/-- The function `VulkanRHI::createPipelineCache` (lines 428-433). -/
def createPipelineCache (newPipelineCache : Handle) (s : VulkanRHI) : VulkanRHI :=
  { emit (.lifecycle (.vkCreatePipelineCache s.m_device)) s with
    m_pipeline_cache := newPipelineCache }

/-- The function `VulkanRHI::init` (lines 12-29); `ENABLE_VALIDATION_LAYER` is the value of
the preprocessor switch of line 7. -/
def init (ENABLE_VALIDATION_LAYER : Bool) (q : InitPlatform) (s : VulkanRHI) : Outcome :=
  (createInstance ENABLE_VALIDATION_LAYER q s).andThen fun _ s =>
  (if ENABLE_VALIDATION_LAYER then createDebugging q s else .returned () s).andThen fun _ s =>
  (createSurface q s).andThen fun _ s =>
  (pickPhysicalDevice q.devices s).andThen fun _ s =>
  (createLogicDevice q.supportedDeviceExtensions q.supportedDeviceFeatures q.families
    q.presentSupport q.createDeviceResult q.newDevice s).andThen fun _ s =>
  let s := getDeviceQueues q s
  (createVmaAllocator q s).andThen fun _ s =>
  (createSwapchain q.swapchain s).andThen fun _ s =>
  (createSwapchainObjects q.swapchain s).andThen fun _ s =>
  let s := createCommandPools q s
  let s := createCommandBuffers q.newCommandBuffer s
  let s := createSynchronizationPrimitives q.newSemaphore q.newFence s
  .returned () s

/-- Creation of the render pass or of the pipeline cache. -/
def Op.isRenderPassOrCacheCreation : Op → Bool
  | .lifecycle (.vkCreateRenderPass _) => true
  | .lifecycle (.vkCreatePipelineCache _) => true
  | _ => false

/-- The render pass that a framebuffer creation puts into its create-info. -/
def Op.framebufferRenderPass? : Op → Option Handle
  | .vkCreateFramebuffer renderPass _ _ _ _ => some renderPass
  | _ => none

/-- A run that leaves `m_render_pass` and `m_pipeline_cache` as they were and issues no
creation of a render pass or of a pipeline cache. -/
def InitKeeps (s t : VulkanRHI) : Prop :=
  t.m_render_pass = s.m_render_pass ∧ t.m_pipeline_cache = s.m_pipeline_cache ∧
    ∃ ops, t.trace = s.trace ++ ops ∧ ∀ op ∈ ops, op.isRenderPassOrCacheCreation = false

/-- A platform on which every step of `init` succeeds: the sample swapchain platform, the
sample devices and the queue families `[15, 2, 4]`. -/
def sampleInitPlatform : InitPlatform :=
  { supportedInstanceExtensions := ["VK_KHR_surface", "VK_KHR_win32_surface",
      VK_EXT_DEBUG_UTILS_EXTENSION_NAME]
    glfwInstanceExtensions := ["VK_KHR_surface", "VK_KHR_win32_surface"]
    supportedInstanceLayers := ["VK_LAYER_KHRONOS_validation"]
    createInstanceResult := VK_SUCCESS, newInstance := 1
    createDebugResult := VK_SUCCESS, newDebugMessenger := 9
    createSurfaceResult := VK_SUCCESS, newSurface := 4
    devices := sampleDevices
    supportedDeviceExtensions := [VK_KHR_SWAPCHAIN_EXTENSION_NAME]
    supportedDeviceFeatures := noDeviceFeatures
    families := [15, 2, 4]
    presentSupport := fun _ => 1
    createDeviceResult := VK_SUCCESS, newDevice := 3
    newGraphicsQueue := 30
    createAllocatorResult := VK_SUCCESS, newAllocator := 5
    swapchain := samplePlatform
    newCommandPool := 6, newTransientCommandPool := 7
    newCommandBuffer := sampleCommandBuffer
    newSemaphore := fun n => 40 + n
    newFence := fun n => 50 + n }

end Bamboo

/-! ## How a run continues a state -/

namespace Bamboo

/-- The relation `Continues Q s t`: the state `t` has the frame-slot data of `s`, and its trace is the
trace of `s` followed by calls that all satisfy `Q`. -/
structure Continues (Q : Op → Bool) (s t : VulkanRHI) : Prop where
  flight_index : t.m_flight_index = s.m_flight_index
  image_index : t.m_image_index = s.m_image_index
  avaliable : t.m_image_avaliable_semaphores = s.m_image_avaliable_semaphores
  finished : t.m_render_finished_semaphores = s.m_render_finished_semaphores
  fences : t.m_flight_fences = s.m_flight_fences
  command_buffers : t.m_command_buffers = s.m_command_buffers
  trace : ∃ ops, t.trace = s.trace ++ ops ∧ ∀ op ∈ ops, Q op = true

theorem Continues.refl (Q : Op → Bool) (s : VulkanRHI) : Continues Q s s :=
  ⟨rfl, rfl, rfl, rfl, rfl, rfl, [], by simp, by simp⟩

theorem Continues.trans {Q : Op → Bool} {s t u : VulkanRHI} (h₁ : Continues Q s t)
    (h₂ : Continues Q t u) : Continues Q s u := by
  obtain ⟨a1, a2, a3, a4, a5, a6, ops₁, e₁, q₁⟩ := h₁
  obtain ⟨b1, b2, b3, b4, b5, b6, ops₂, e₂, q₂⟩ := h₂
  refine ⟨b1.trans a1, b2.trans a2, b3.trans a3, b4.trans a4, b5.trans a5, b6.trans a6,
    ops₁ ++ ops₂, ?_, ?_⟩
  · rw [e₂, e₁, List.append_assoc]
  · intro op hop
    rcases List.mem_append.mp hop with h | h
    · exact q₁ op h
    · exact q₂ op h

theorem Continues.mono {Q R : Op → Bool} {s t : VulkanRHI} (h : Continues Q s t)
    (hQR : ∀ op, Q op = true → R op = true) : Continues R s t := by
  obtain ⟨a1, a2, a3, a4, a5, a6, ops, e, q⟩ := h
  exact ⟨a1, a2, a3, a4, a5, a6, ops, e, fun op hop => hQR op (q op hop)⟩

theorem Continues.emit_op {Q : Op → Bool} (op : Op) (h : Q op = true) (s : VulkanRHI) :
    Continues Q s (Bamboo.emit op s) :=
  ⟨rfl, rfl, rfl, rfl, rfl, rfl, [op], rfl, by simpa using h⟩

theorem Continues.emit {Q : Op → Bool} {op : Op} (h : Q op = true) (s : VulkanRHI) :
    Continues Q s (emit op s) :=
  ⟨rfl, rfl, rfl, rfl, rfl, rfl, [op], rfl, by simpa using h⟩

theorem Continues.emitAll {Q : Op → Bool} {ops : List Op} (h : ∀ op ∈ ops, Q op = true)
    (s : VulkanRHI) : Continues Q s (emitAll ops s) :=
  ⟨rfl, rfl, rfl, rfl, rfl, rfl, ops, rfl, h⟩

@[simp] theorem ASSERT_state (c : Bool) (m : String) (s : VulkanRHI) :
    (ASSERT c m s).state = s := by
  unfold ASSERT; split <;> rfl

@[simp] theorem CHECK_VULKAN_RESULT_state (r : VkResult) (m : String) (s : VulkanRHI) :
    (CHECK_VULKAN_RESULT r m s).state = s := by
  unfold CHECK_VULKAN_RESULT; split <;> rfl

@[simp] theorem LOG_FATAL_state {α : Type} (m : String) (s : VulkanRHI) :
    (LOG_FATAL m s : Res α).state = s := rfl

/-- Sequencing keeps `Continues`. -/
theorem Continues.andThen {α β : Type} {Q : Op → Bool} {s : VulkanRHI} {r : Res α}
    {k : α → VulkanRHI → Res β} (h₁ : Continues Q s r.state)
    (h₂ : ∀ a t, Continues Q t (k a t).state) : Continues Q s (r.andThen k).state := by
  cases r with
  | returned a t => exact h₁.trans (h₂ a t)
  | aborted d t => exact h₁
  | waiting t => exact h₁

theorem Op.isSurfaceQueryOp_body (op : Op) (h : op.isSurfaceQueryOp = true) :
    op.isSwapchainBodyOp = true := by
  cases op <;> first | rfl | (exfalso; revert h; simp [Op.isSurfaceQueryOp])

theorem Op.isSwapchainObjectOp_body (op : Op) (h : op.isSwapchainObjectOp = true) :
    op.isSwapchainBodyOp = true := by
  cases op <;> first | rfl | exact h

theorem getSwapchainSupportDetails_continues (p : Platform) (s : VulkanRHI) :
    Continues Op.isSurfaceQueryOp s (getSwapchainSupportDetails p s).state := by
  unfold getSwapchainSupportDetails
  refine Continues.andThen ?_ fun _ t => Continues.andThen ?_ fun _ u => ?_
  · simpa using (Continues.emit (by rfl) s).trans (Continues.emit (by rfl) _)
  · simpa using (Continues.emit (by rfl) t).trans (Continues.emit (by rfl) _)
  · exact Continues.emit (by rfl) u

theorem glfwGetFramebufferSize_continues (p : Platform) (s : VulkanRHI) :
    Continues Op.isWindowOp s (Bamboo.glfwGetFramebufferSize p s).state :=
  ⟨rfl, rfl, rfl, rfl, rfl, rfl, [_], rfl, by simp [Op.isWindowOp]⟩

theorem glfwGetFramebufferSize_continues_body (p : Platform) (s : VulkanRHI) :
    Continues Op.isSurfaceQueryOp s (Bamboo.glfwGetFramebufferSize p s).state :=
  ⟨rfl, rfl, rfl, rfl, rfl, rfl, [_], rfl, by simp [Op.isSurfaceQueryOp]⟩

theorem getProperSwapchainSurfaceFormat_continues (d : SwapchainSupportDetails)
    (s : VulkanRHI) :
    Continues Op.isSurfaceQueryOp s (getProperSwapchainSurfaceFormat d s).state := by
  unfold getProperSwapchainSurfaceFormat
  split <;> exact Continues.refl _ _

theorem getProperSwapchainSurfacePresentMode_continues (d : SwapchainSupportDetails)
    (s : VulkanRHI) :
    Continues Op.isSurfaceQueryOp s (getProperSwapchainSurfacePresentMode d s).state := by
  unfold getProperSwapchainSurfacePresentMode
  split <;> exact Continues.refl _ _

theorem getProperSwapchainSurfaceExtent_continues (p : Platform) (d : SwapchainSupportDetails)
    (s : VulkanRHI) :
    Continues Op.isSurfaceQueryOp s (getProperSwapchainSurfaceExtent p d s).state := by
  unfold getProperSwapchainSurfaceExtent
  split
  · exact Continues.refl _ _
  · exact Continues.andThen (glfwGetFramebufferSize_continues_body p s)
      fun _ t => Continues.refl _ _

theorem getProperSwapchainSurfaceImageUsage_continues (d : SwapchainSupportDetails)
    (s : VulkanRHI) :
    Continues Op.isSurfaceQueryOp s (getProperSwapchainSurfaceImageUsage d s).state := by
  unfold getProperSwapchainSurfaceImageUsage
  refine Continues.andThen ?_ fun _ t => Continues.andThen ?_ fun _ u => ?_
  · simpa using Continues.refl _ s
  · simpa using Continues.refl _ t
  · exact Continues.refl _ u

theorem getProperImageFormat_loop_ops (p : Platform) (tiling features : Nat)
    (candidates : List Nat) :
    ∀ op ∈ (getProperImageFormat_loop p tiling features candidates).1,
      ∃ format, op = .vkGetPhysicalDeviceFormatProperties format := by
  induction candidates with
  | nil => simp [getProperImageFormat_loop]
  | cons format candidates ih =>
    unfold getProperImageFormat_loop
    intro op hop
    dsimp only at hop
    split at hop
    · exact ⟨format, by simpa using hop⟩
    · rcases List.mem_cons.mp hop with h | h
      · exact ⟨format, h⟩
      · exact ih op h

theorem getProperImageFormat_continues (p : Platform) (candidates : List Nat)
    (tiling features : Nat) (s : VulkanRHI) :
    Continues Op.isSwapchainObjectOp s
      (getProperImageFormat p candidates tiling features s).state := by
  have h : Continues Op.isSwapchainObjectOp s
      (emitAll (getProperImageFormat_loop p tiling features candidates).1 s) :=
    Continues.emitAll (fun op hop => by
      obtain ⟨f, rfl⟩ := getProperImageFormat_loop_ops p tiling features candidates op hop
      rfl) s
  unfold getProperImageFormat
  dsimp only
  split <;> exact h

theorem createSwapchain_continues (p : Platform) (s : VulkanRHI) :
    Continues Op.isSwapchainBodyOp s (createSwapchain p s).state := by
  unfold createSwapchain
  refine Continues.andThen ((getSwapchainSupportDetails_continues p s).mono
    Op.isSurfaceQueryOp_body) fun d t => ?_
  refine Continues.andThen ((getProperSwapchainSurfaceFormat_continues d t).mono
    Op.isSurfaceQueryOp_body) fun f t => ?_
  refine Continues.andThen ((?_ : Continues _ t _).trans
    ((getProperSwapchainSurfacePresentMode_continues d _).mono Op.isSurfaceQueryOp_body))
    fun m t => ?_
  · exact ⟨rfl, rfl, rfl, rfl, rfl, rfl, [], by simp, by simp⟩
  refine Continues.andThen ((?_ : Continues _ t _).trans
    ((getProperSwapchainSurfaceExtent_continues p d _).mono Op.isSurfaceQueryOp_body))
    fun e t => ?_
  · exact ⟨rfl, rfl, rfl, rfl, rfl, rfl, [], by simp, by simp⟩
  refine Continues.andThen ((?_ : Continues _ t _).trans
    ((getProperSwapchainSurfaceImageUsage_continues d _).mono Op.isSurfaceQueryOp_body))
    fun u t => ?_
  · exact ⟨rfl, rfl, rfl, rfl, rfl, rfl, [], by simp, by simp⟩
  simp only [CHECK_VULKAN_RESULT_state]
  exact ⟨rfl, rfl, rfl, rfl, rfl, rfl, [_], rfl, by simp [Op.isSwapchainBodyOp, Op.isSizeDependentOp]⟩

theorem destroySwapchainObjects_continues (s : VulkanRHI) :
    Continues Op.isSwapchainObjectOp s (destroySwapchainObjects s) := by
  unfold destroySwapchainObjects
  refine ((Continues.emitAll ?_ s).trans (Continues.emit ?_ _)).trans (Continues.emitAll ?_ _)
  · intro op hop
    obtain ⟨v, -, rfl⟩ := List.mem_map.mp hop
    rfl
  · rfl
  · intro op hop
    obtain ⟨v, -, rfl⟩ := List.mem_map.mp hop
    rfl

theorem createSwapchainObjects_continues (p : Platform) (s : VulkanRHI) :
    Continues Op.isSwapchainObjectOp s (createSwapchainObjects p s).state := by
  have hmap : ∀ {β : Type} (f : β → Op) (l : List β), (∀ b, (f b).isSwapchainObjectOp = true) →
      ∀ op ∈ l.map f, op.isSwapchainObjectOp = true := by
    intro β f l hf op hop
    obtain ⟨b, -, rfl⟩ := List.mem_map.mp hop
    exact hf b
  have hone : ∀ op : Op, op.isSwapchainObjectOp = true →
      ∀ op' ∈ [op], op'.isSwapchainObjectOp = true := by
    intro op h op' hop
    rw [List.mem_singleton.mp hop]; exact h
  unfold createSwapchainObjects
  refine Continues.andThen ?_ fun _ t => ?_
  · simp only [ASSERT_state]
    exact ⟨rfl, rfl, rfl, rfl, rfl, rfl, [_], rfl, by exact hone _ rfl⟩
  refine Continues.andThen ?_ fun f t => ?_
  · refine Continues.trans ?_ (getProperImageFormat_continues p _ _ _ _)
    refine Continues.trans (Continues.emit_op .vkGetSwapchainImagesKHR rfl t) ?_
    exact ⟨rfl, rfl, rfl, rfl, rfl, rfl, _, rfl, by exact hmap _ _ fun _ => rfl⟩
  refine Continues.andThen ?_ fun _ t => ?_
  · simp only [CHECK_VULKAN_RESULT_state]
    exact ⟨rfl, rfl, rfl, rfl, rfl, rfl, [_], rfl, by exact hone _ rfl⟩
  · have h₁ : Continues Op.isSwapchainObjectOp t
        { emit (createImageView_op t.m_depth_stencil_image_view.image t.m_depth_format
            VK_IMAGE_ASPECT_DEPTH_BIT 1) t with
          m_depth_stencil_image_view := { t.m_depth_stencil_image_view with
            view := p.newImageView t.m_depth_stencil_image_view.image } } :=
      ⟨rfl, rfl, rfl, rfl, rfl, rfl, [_], rfl, by exact hone _ rfl⟩
    exact h₁.trans ⟨rfl, rfl, rfl, rfl, rfl, rfl, _, rfl, by exact hmap _ _ fun _ => rfl⟩

theorem recreateSwapchain_loop_continues (p : Platform) (fuel : Nat) :
    ∀ (width height : Int) (s : VulkanRHI),
      Continues Op.isWindowOp s (recreateSwapchain_loop p fuel width height s).state := by
  induction fuel with
  | zero =>
    intro w h s
    unfold recreateSwapchain_loop
    split <;> exact Continues.refl _ _
  | succ n ih =>
    intro w h s
    unfold recreateSwapchain_loop
    split
    · exact Continues.andThen (glfwGetFramebufferSize_continues p s) fun a t =>
        (Continues.emit (by rfl) t).trans (ih _ _ _)
    · exact Continues.refl _ _

theorem recreateSwapchain_continues (p : Platform) (fuel : Nat) (s : VulkanRHI) :
    Continues Op.isRecreateOp s (recreateSwapchain p fuel s).state := by
  have hw : ∀ op : Op, op.isWindowOp = true → op.isRecreateOp = true := by
    intro op h; simp [Op.isRecreateOp, h]
  have hb : ∀ op : Op, op.isSwapchainBodyOp = true → op.isRecreateOp = true := by
    intro op h; simp [Op.isRecreateOp, h]
  unfold recreateSwapchain
  refine (Continues.emit_op .recreateSwapchainCall (by decide) s).trans ?_
  refine Continues.andThen ((glfwGetFramebufferSize_continues p _).mono hw) fun a t => ?_
  refine Continues.andThen ((recreateSwapchain_loop_continues p fuel _ _ t).mono hw) fun _ t => ?_
  refine (Continues.emit_op .vkDeviceWaitIdle (by decide) t).trans ?_
  refine Continues.andThen ((createSwapchain_continues p _).mono hb) fun _ u => ?_
  exact ((Continues.emit_op (.vkDestroySwapchainKHR _) (by simp [Op.isRecreateOp,
      Op.isSwapchainBodyOp, Op.isSizeDependentOp]) u).trans
    ((destroySwapchainObjects_continues _).mono fun op h =>
      hb op (Op.isSwapchainObjectOp_body op h))).trans
    ((createSwapchainObjects_continues p _).mono fun op h =>
      hb op (Op.isSwapchainObjectOp_body op h))

/-! ## The frame-slot counter -/

theorem presentFrame_eq (p : Platform) (fuel : Nat) (result : VkResult) (s : VulkanRHI) :
    presentFrame p fuel result s =
      (presentFrame_branch p fuel result (afterPresentCall s)).andThen fun _ t =>
        .returned () { t with
          m_flight_index := ((t.m_flight_index + 1) % 4294967296) % MAX_FRAMES_IN_FLIGHT } :=
  rfl

theorem waitFrame_eq (p : Platform) (fuel : Nat) (result : VkResult) (image_index : Nat)
    (s : VulkanRHI) :
    waitFrame p fuel result image_index s =
      if result = VK_ERROR_OUT_OF_DATE_KHR then
        recreateSwapchain p fuel (afterAcquireCall image_index s)
      else
        ASSERT (result == VK_SUCCESS || result == VK_SUBOPTIMAL_KHR)
          "failed to acquire swapchain image!" (afterAcquireCall image_index s) :=
  rfl

theorem presentFrame_branch_continues (p : Platform) (fuel : Nat) (result : VkResult)
    (s : VulkanRHI) :
    Continues Op.isRecreateOp s (presentFrame_branch p fuel result s).state := by
  unfold presentFrame_branch
  split
  · exact recreateSwapchain_continues p fuel s
  · simpa using Continues.refl _ s

theorem wrap_mod_slots (i : Nat) :
    ((i + 1) % 4294967296) % MAX_FRAMES_IN_FLIGHT = (i + 1) % MAX_FRAMES_IN_FLIGHT := by
  unfold MAX_FRAMES_IN_FLIGHT
  omega

/-- The slot index after `presentFrame`: advanced if the call returned, untouched if not. -/
theorem presentFrame_flight_index (p : Platform) (fuel : Nat) (result : VkResult)
    (s : VulkanRHI) :
    (presentFrame p fuel result s).state.m_flight_index =
      if (presentFrame p fuel result s).isReturned then
        (s.m_flight_index + 1) % MAX_FRAMES_IN_FLIGHT
      else s.m_flight_index := by
  have h := (presentFrame_branch_continues p fuel result (afterPresentCall s)).flight_index
  rw [presentFrame_eq]
  cases hb : presentFrame_branch p fuel result (afterPresentCall s) with
  | returned a t =>
    rw [hb] at h
    simp only [Res.andThen, Res.state, Res.isReturned, if_true, wrap_mod_slots]
    simp only [Res.state] at h
    rw [h]; rfl
  | aborted d t =>
    rw [hb] at h
    simpa [Res.andThen, Res.state, Res.isReturned] using h
  | waiting t =>
    rw [hb] at h
    simpa [Res.andThen, Res.state, Res.isReturned] using h

theorem waitFrame_continues (p : Platform) (fuel : Nat) (result : VkResult) (image_index : Nat)
    (s : VulkanRHI) :
    Continues Op.isRecreateOp (afterAcquireCall image_index s)
      (waitFrame p fuel result image_index s).state := by
  rw [waitFrame_eq]
  split
  · exact recreateSwapchain_continues p fuel _
  · simpa using Continues.refl _ _

theorem waitFrame_flight_index (p : Platform) (fuel : Nat) (result : VkResult)
    (image_index : Nat) (s : VulkanRHI) :
    (waitFrame p fuel result image_index s).state.m_flight_index = s.m_flight_index :=
  (waitFrame_continues p fuel result image_index s).flight_index

theorem submitFrame_flight_index (result : VkResult) (s : VulkanRHI) :
    (submitFrame result s).state.m_flight_index = s.m_flight_index := by
  unfold submitFrame
  simp [emit]

theorem Call.run_flight_index (c : Call) (s : VulkanRHI) :
    (c.run s).state.m_flight_index =
      if c.isPresentFrame && (c.run s).isReturned then
        (s.m_flight_index + 1) % MAX_FRAMES_IN_FLIGHT
      else s.m_flight_index := by
  cases c with
  | waitFrame p fuel r i => simpa [Call.run, Call.isPresentFrame] using waitFrame_flight_index p fuel r i s
  | submitFrame r => simpa [Call.run, Call.isPresentFrame] using submitFrame_flight_index r s
  | presentFrame p fuel r =>
    simpa [Call.run, Call.isPresentFrame] using presentFrame_flight_index p fuel r s

theorem runCalls_flight_index (cs : List Call) :
    ∀ s : VulkanRHI, s.m_flight_index < MAX_FRAMES_IN_FLIGHT →
      (runCalls cs s).state.m_flight_index < MAX_FRAMES_IN_FLIGHT ∧
      ((runCalls cs s).isReturned = true →
        (runCalls cs s).state.m_flight_index =
          (s.m_flight_index + cs.countP Call.isPresentFrame) % MAX_FRAMES_IN_FLIGHT) := by
  induction cs with
  | nil =>
    intro s hs
    simp only [runCalls, Res.state, List.countP_nil, Nat.add_zero]
    exact ⟨hs, fun _ => (Nat.mod_eq_of_lt hs).symm⟩
  | cons c cs ih =>
    intro s hs
    have hc := Call.run_flight_index c s
    have hlt : (c.run s).state.m_flight_index < MAX_FRAMES_IN_FLIGHT := by
      rw [hc]; split
      · exact Nat.mod_lt _ (by decide)
      · exact hs
    unfold runCalls
    cases hr : c.run s with
    | returned a t =>
      rw [hr] at hc hlt
      simp only [Res.state, Res.isReturned, Bool.and_true] at hc hlt
      simp only [Res.andThen]
      refine ⟨(ih t hlt).1, fun hret => ?_⟩
      rw [(ih t hlt).2 hret, hc, List.countP_cons]
      cases hp : c.isPresentFrame
      · simp only [Bool.false_eq_true, if_false, Nat.add_zero]
      · simp only [if_true]
        unfold MAX_FRAMES_IN_FLIGHT
        omega
    | aborted d t =>
      rw [hr] at hlt
      exact ⟨hlt, fun h => by simp [Res.andThen, Res.isReturned] at h⟩
    | waiting t =>
      rw [hr] at hlt
      exact ⟨hlt, fun h => by simp [Res.andThen, Res.isReturned] at h⟩

theorem presentFrame_isReturned (p : Platform) (fuel : Nat) (result : VkResult)
    (s : VulkanRHI) :
    (presentFrame p fuel result s).isReturned =
      (presentFrame_branch p fuel result (afterPresentCall s)).isReturned := by
  rw [presentFrame_eq]
  cases presentFrame_branch p fuel result (afterPresentCall s) <;> rfl

theorem presentFrame_isAborted (p : Platform) (fuel : Nat) (result : VkResult)
    (s : VulkanRHI) :
    (presentFrame p fuel result s).isAborted =
      (presentFrame_branch p fuel result (afterPresentCall s)).isAborted := by
  rw [presentFrame_eq]
  cases presentFrame_branch p fuel result (afterPresentCall s) <;> rfl

theorem presentFrame_branch_success (p : Platform) (fuel : Nat) (s : VulkanRHI) :
    presentFrame_branch p fuel VK_SUCCESS s = .returned () s := by
  simp [presentFrame_branch, CHECK_VULKAN_RESULT, VK_SUCCESS, VK_ERROR_OUT_OF_DATE_KHR,
    VK_SUBOPTIMAL_KHR]

theorem presentFrame_branch_recreate (p : Platform) (fuel : Nat) (result : VkResult)
    (s : VulkanRHI) (h : result = VK_ERROR_OUT_OF_DATE_KHR ∨ result = VK_SUBOPTIMAL_KHR) :
    presentFrame_branch p fuel result s = recreateSwapchain p fuel s := by
  simp [presentFrame_branch, h]

theorem presentFrame_branch_unexpected (p : Platform) (fuel : Nat) (result : VkResult)
    (s : VulkanRHI) (h₁ : result ≠ VK_SUCCESS) (h₂ : result ≠ VK_ERROR_OUT_OF_DATE_KHR)
    (h₃ : result ≠ VK_SUBOPTIMAL_KHR) :
    presentFrame_branch p fuel result s = .aborted "present swapchain image" s := by
  simp [presentFrame_branch, CHECK_VULKAN_RESULT, h₁, h₂, h₃]

/-- C1. Frame-slot counter: a `presentFrame` call that returns moves the slot index `i` of
`{0, 1}` to `(i + 1) mod 2`; from the state left by `createSynchronizationPrimitives`
(index 0) the index is below 2 after every sequence of frame calls, it is `k mod 2` after a
returning sequence with `k` calls of `presentFrame`, and two successful presents in a row
from slot 0 lead back to slot 0. -/
theorem presentFrame_slot_counter :
    (∀ (p : Platform) (fuel : Nat) (result : VkResult) (s : VulkanRHI),
      s.m_flight_index < MAX_FRAMES_IN_FLIGHT →
      (presentFrame p fuel result s).isReturned = true →
      (presentFrame p fuel result s).state.m_flight_index =
        (s.m_flight_index + 1) % MAX_FRAMES_IN_FLIGHT) ∧
    (∀ (newSemaphore newFence : Nat → Handle) (s₀ : VulkanRHI) (cs : List Call),
      (createSynchronizationPrimitives newSemaphore newFence s₀).m_flight_index = 0 ∧
      (runCalls cs (createSynchronizationPrimitives newSemaphore newFence s₀)).state.m_flight_index
        < MAX_FRAMES_IN_FLIGHT ∧
      ((runCalls cs (createSynchronizationPrimitives newSemaphore newFence s₀)).isReturned = true →
        (runCalls cs
          (createSynchronizationPrimitives newSemaphore newFence s₀)).state.m_flight_index =
          cs.countP Call.isPresentFrame % MAX_FRAMES_IN_FLIGHT)) ∧
    (∀ (p₁ p₂ : Platform) (fuel₁ fuel₂ : Nat) (s : VulkanRHI), s.m_flight_index = 0 →
      (runCalls [.presentFrame p₁ fuel₁ VK_SUCCESS, .presentFrame p₂ fuel₂ VK_SUCCESS]
        s).isReturned = true ∧
      (runCalls [.presentFrame p₁ fuel₁ VK_SUCCESS, .presentFrame p₂ fuel₂ VK_SUCCESS]
        s).state.m_flight_index = 0) := by
  refine ⟨?_, ?_, ?_⟩
  · intro p fuel result s _ hret
    rw [presentFrame_flight_index, hret]
    rfl
  · intro nS nF s₀ cs
    have h0 : (createSynchronizationPrimitives nS nF s₀).m_flight_index = 0 := rfl
    have h := runCalls_flight_index cs (createSynchronizationPrimitives nS nF s₀)
      (by rw [h0]; decide)
    refine ⟨h0, h.1, fun hret => ?_⟩
    rw [h.2 hret, h0, Nat.zero_add]
  · intro p₁ p₂ fuel₁ fuel₂ s hs
    have hret : (runCalls [.presentFrame p₁ fuel₁ VK_SUCCESS, .presentFrame p₂ fuel₂ VK_SUCCESS]
        s).isReturned = true := by
      simp [runCalls, Call.run, presentFrame_eq, presentFrame_branch_success, Res.andThen,
        Res.isReturned]
    refine ⟨hret, ?_⟩
    rw [(runCalls_flight_index _ s (by rw [hs]; decide)).2 hret, hs]
    simp [List.countP_cons, Call.isPresentFrame, MAX_FRAMES_IN_FLIGHT]

/-- Witness of C1 on the sample state: one successful present from slot 0 returns and
leaves slot 1 active. -/
theorem presentFrame_slot_counter_witness :
    sampleRHI.m_flight_index < MAX_FRAMES_IN_FLIGHT ∧
    (presentFrame samplePlatform 0 VK_SUCCESS sampleRHI).isReturned = true ∧
    (presentFrame samplePlatform 0 VK_SUCCESS sampleRHI).state.m_flight_index =
      (sampleRHI.m_flight_index + 1) % MAX_FRAMES_IN_FLIGHT :=
  ⟨by decide, by decide,
    presentFrame_slot_counter.1 samplePlatform 0 VK_SUCCESS sampleRHI (by decide) (by decide)⟩

/-- C2, as stated, fails: a present that reports `VK_SUBOPTIMAL_KHR` returns, and the slot
index has moved from 0 to 1 although the result is not `VK_SUCCESS`. -/
theorem presentFrame_suboptimal_advances :
    sampleRHI.m_flight_index = 0 ∧
    (presentFrame samplePlatform 0 VK_SUBOPTIMAL_KHR sampleRHI).isReturned = true ∧
    (presentFrame samplePlatform 0 VK_SUBOPTIMAL_KHR sampleRHI).state.m_flight_index = 1 ∧
    ¬ ((presentFrame samplePlatform 0 VK_SUBOPTIMAL_KHR sampleRHI).state.m_flight_index =
        sampleRHI.m_flight_index) := by
  decide

/-- C2, amended. The slot index advances on every present that returns: for a slot index
`i` of `{0, 1}`, `presentFrame` returns with index `(i + 1) mod 2` when the result is
`VK_SUCCESS`; when the result is `VK_ERROR_OUT_OF_DATE_KHR` or `VK_SUBOPTIMAL_KHR` it
returns exactly when its `recreateSwapchain` call returns, again with index `(i + 1) mod 2`;
for every other result it aborts with the index still `i`; and whenever it does not return
the index is still `i`. -/
theorem presentFrame_advances_on_every_return (p : Platform) (fuel : Nat) (result : VkResult)
    (s : VulkanRHI) (hi : s.m_flight_index < MAX_FRAMES_IN_FLIGHT) :
    (result = VK_SUCCESS →
      (presentFrame p fuel result s).isReturned = true ∧
      (presentFrame p fuel result s).state.m_flight_index =
        (s.m_flight_index + 1) % MAX_FRAMES_IN_FLIGHT) ∧
    (result = VK_ERROR_OUT_OF_DATE_KHR ∨ result = VK_SUBOPTIMAL_KHR →
      (presentFrame p fuel result s).isReturned =
        (recreateSwapchain p fuel (afterPresentCall s)).isReturned ∧
      ((presentFrame p fuel result s).isReturned = true →
        (presentFrame p fuel result s).state.m_flight_index =
          (s.m_flight_index + 1) % MAX_FRAMES_IN_FLIGHT)) ∧
    (result ≠ VK_SUCCESS → result ≠ VK_ERROR_OUT_OF_DATE_KHR → result ≠ VK_SUBOPTIMAL_KHR →
      (presentFrame p fuel result s).isAborted = true ∧
      (presentFrame p fuel result s).state.m_flight_index = s.m_flight_index) ∧
    ((presentFrame p fuel result s).isReturned = false →
      (presentFrame p fuel result s).state.m_flight_index = s.m_flight_index) := by
  have _ := hi
  have hidx := presentFrame_flight_index p fuel result s
  refine ⟨?_, ?_, ?_, ?_⟩
  · intro h
    have hret : (presentFrame p fuel result s).isReturned = true := by
      rw [presentFrame_isReturned, h, presentFrame_branch_success]; rfl
    exact ⟨hret, by rw [hidx, hret]; rfl⟩
  · intro h
    refine ⟨by rw [presentFrame_isReturned, presentFrame_branch_recreate _ _ _ _ h], ?_⟩
    intro hret
    rw [hidx, hret]; rfl
  · intro h₁ h₂ h₃
    have hab : (presentFrame p fuel result s).isAborted = true := by
      rw [presentFrame_isAborted, presentFrame_branch_unexpected _ _ _ _ h₁ h₂ h₃]; rfl
    have hret : (presentFrame p fuel result s).isReturned = false := by
      rw [presentFrame_isReturned, presentFrame_branch_unexpected _ _ _ _ h₁ h₂ h₃]; rfl
    exact ⟨hab, by rw [hidx, hret]; rfl⟩
  · intro hret
    rw [hidx, hret]; rfl

/-- Witness of the amended C2: on the sample state a present that reports
`VK_ERROR_OUT_OF_DATE_KHR` returns with slot 1 active. -/
theorem presentFrame_advances_on_every_return_witness :
    sampleRHI.m_flight_index < MAX_FRAMES_IN_FLIGHT ∧
    (presentFrame samplePlatform 0 VK_ERROR_OUT_OF_DATE_KHR sampleRHI).isReturned = true ∧
    (presentFrame samplePlatform 0 VK_ERROR_OUT_OF_DATE_KHR sampleRHI).state.m_flight_index =
      (sampleRHI.m_flight_index + 1) % MAX_FRAMES_IN_FLIGHT :=
  ⟨by decide, by decide,
    ((presentFrame_advances_on_every_return samplePlatform 0 VK_ERROR_OUT_OF_DATE_KHR sampleRHI
      (by decide)).2.1 (Or.inl rfl)).2 (by decide)⟩

/-! ## Fence waits -/

theorem issued_of_trace {s : VulkanRHI} {o : Outcome} {ops : List Op}
    (h : o.state.trace = s.trace ++ ops) : issued s o = ops := by
  unfold issued
  rw [h, List.drop_left]

theorem Op.isRecreateOp_not_frame (op : Op) (h : op.isRecreateOp = true) :
    op.isFrameOp = false := by
  cases op <;> first | rfl | (exfalso; revert h; simp [Op.isRecreateOp, Op.isWindowOp,
    Op.isSwapchainBodyOp, Op.isSizeDependentOp])

theorem Op.isFrameOp_false_not_fence (op : Op) (h : op.isFrameOp = false) :
    op.isFenceOp = false := by
  cases op <;> first | rfl | (exfalso; revert h; simp [Op.isFrameOp])

/-- The calls of `waitFrame`: the fence wait, the acquire, and then only calls of
`recreateSwapchain`; the slot data is kept. -/
theorem waitFrame_trace (p : Platform) (fuel : Nat) (result : VkResult) (image_index : Nat)
    (s : VulkanRHI) :
    ∃ rest, (waitFrame p fuel result image_index s).state.trace = s.trace ++
        (.vkWaitForFences [s.m_flight_fences.getD s.m_flight_index VK_NULL_HANDLE] true
            UINT64_MAX ::
          .vkAcquireNextImageKHR s.m_swapchain UINT64_MAX
            (s.m_image_avaliable_semaphores.getD s.m_flight_index VK_NULL_HANDLE)
            VK_NULL_HANDLE :: rest) ∧
      ∀ op ∈ rest, op.isRecreateOp = true := by
  obtain ⟨-, -, -, -, -, -, ops, e, q⟩ := waitFrame_continues p fuel result image_index s
  refine ⟨ops, ?_, q⟩
  rw [e]
  simp [afterAcquireCall, emit]

theorem submitFrame_trace (result : VkResult) (s : VulkanRHI) :
    (submitFrame result s).state.trace = s.trace ++
      [.vkQueueSubmit [s.m_image_avaliable_semaphores.getD s.m_flight_index VK_NULL_HANDLE]
        [VK_PIPELINE_STAGE_COLOR_ATTACHMENT_OUTPUT_BIT]
        [s.m_command_buffers.getD s.m_flight_index VK_NULL_HANDLE]
        [s.m_render_finished_semaphores.getD s.m_flight_index VK_NULL_HANDLE]
        (s.m_flight_fences.getD s.m_flight_index VK_NULL_HANDLE)] := by
  unfold submitFrame
  simp [emit]

theorem presentFrame_state_trace (p : Platform) (fuel : Nat) (result : VkResult)
    (s : VulkanRHI) :
    (presentFrame p fuel result s).state.trace =
      (presentFrame_branch p fuel result (afterPresentCall s)).state.trace := by
  rw [presentFrame_eq]
  cases presentFrame_branch p fuel result (afterPresentCall s) <;> rfl

/-- The calls of `presentFrame`: the present, and then only calls of `recreateSwapchain`. -/
theorem presentFrame_trace (p : Platform) (fuel : Nat) (result : VkResult) (s : VulkanRHI) :
    ∃ rest, (presentFrame p fuel result s).state.trace = s.trace ++
        (.vkQueuePresentKHR [s.m_render_finished_semaphores.getD s.m_flight_index VK_NULL_HANDLE]
          [s.m_swapchain] [s.m_image_index] :: rest) ∧
      ∀ op ∈ rest, op.isRecreateOp = true := by
  obtain ⟨-, -, -, -, -, -, ops, e, q⟩ :=
    presentFrame_branch_continues p fuel result (afterPresentCall s)
  refine ⟨ops, ?_, q⟩
  rw [presentFrame_state_trace, e]
  simp [afterPresentCall, emit]

theorem waitedStep_of_not_fenceOp (f : Handle) (b : Bool) (op : Op)
    (h : op.isFenceOp = false) : waitedStep f b op = b := by
  cases op <;> first | rfl | (exfalso; revert h; simp [Op.isFenceOp])

theorem foldl_waitedStep_of_not_fenceOp (f : Handle) (l : List Op) :
    ∀ b : Bool, (∀ op ∈ l, op.isFenceOp = false) → l.foldl (waitedStep f) b = b := by
  induction l with
  | nil => intro b _; rfl
  | cons op l ih =>
    intro b h
    rw [List.foldl_cons, waitedStep_of_not_fenceOp f b op (h op (List.mem_cons_self _ _))]
    exact ih b fun op' hop' => h op' (List.mem_cons_of_mem _ hop')

/-- Calls that are not submissions can be appended. -/
theorem fenceWaited_append_of_no_submit {ops extra : List Op}
    (h : fenceWaitedBeforeEverySubmit ops) (hx : ∀ op ∈ extra, op.isQueueSubmit = false) :
    fenceWaitedBeforeEverySubmit (ops ++ extra) := by
  intro pre post ws st cb ss f e
  rcases List.append_eq_append_iff.mp e with ⟨a', e₁, e₂⟩ | ⟨c', e₁, e₂⟩
  · have hmem : Op.vkQueueSubmit ws st cb ss f ∈ extra := by
      rw [e₂]; simp
    have := hx _ hmem
    simp [Op.isQueueSubmit] at this
  · cases c' with
    | nil =>
      have hmem : Op.vkQueueSubmit ws st cb ss f ∈ extra := by
        simp only [List.nil_append] at e₂
        rw [← e₂]; simp
      have := hx _ hmem
      simp [Op.isQueueSubmit] at this
    | cons c cs =>
      simp only [List.cons_append, List.cons.injEq] at e₂
      obtain ⟨rfl, rfl⟩ := e₂
      exact h pre cs ws st cb ss f e₁

/-- A submission can be appended when its fence has been waited on since the last
submission that was handed it. -/
theorem fenceWaited_append_submit {ops : List Op} (ws : List Handle) (st : List Nat)
    (cb ss : List Handle) (f : Handle) (h : fenceWaitedBeforeEverySubmit ops)
    (hw : waitedSince f ops = true) :
    fenceWaitedBeforeEverySubmit (ops ++ [.vkQueueSubmit ws st cb ss f]) := by
  intro pre post ws' st' cb' ss' f' e
  rcases List.append_eq_append_iff.mp e with ⟨a', e₁, e₂⟩ | ⟨c', e₁, e₂⟩
  · cases a' with
    | nil =>
      simp only [List.nil_append, List.cons.injEq, Op.vkQueueSubmit.injEq] at e₂
      obtain ⟨⟨-, -, -, -, rfl⟩, -⟩ := e₂
      rw [e₁, List.append_nil]; exact hw
    | cons a as =>
      simp only [List.cons_append, List.cons.injEq] at e₂
      have := e₂.2
      simp at this
  · cases c' with
    | nil =>
      simp only [List.nil_append, List.cons.injEq, Op.vkQueueSubmit.injEq] at e₂
      obtain ⟨⟨-, -, -, -, rfl⟩, -⟩ := e₂
      rw [e₁, List.append_nil] at hw; exact hw
    | cons c cs =>
      simp only [List.cons_append, List.cons.injEq] at e₂
      obtain ⟨rfl, rfl⟩ := e₂
      exact h pre cs ws' st' cb' ss' f' e₁

theorem Res.andThen_returned {α β : Type} (a : α) (s : VulkanRHI)
    (k : α → VulkanRHI → Res β) : (Res.returned a s).andThen k = k a s := rfl

theorem Res.andThen_pure_state (r : Outcome) :
    (r.andThen fun _ s => Res.returned () s).state = r.state := by
  cases r <;> rfl

theorem fenceWaited_nil : fenceWaitedBeforeEverySubmit [] := by
  intro pre post ws st cb ss f e
  simp at e

theorem waitedSince_after_wait (f : Handle) (T rest : List Op) (b : Bool) (n : Nat)
    (hrest : ∀ op ∈ rest, op.isFenceOp = false) :
    waitedSince f (T ++ .vkWaitForFences [f] b n :: rest) = true := by
  unfold waitedSince
  rw [List.foldl_append, List.foldl_cons, foldl_waitedStep_of_not_fenceOp f rest _ hrest]
  simp [waitedStep]

theorem runCalls_append (a b : List Call) :
    ∀ s : VulkanRHI, runCalls (a ++ b) s = (runCalls a s).andThen fun _ t => runCalls b t := by
  induction a with
  | nil => intro s; rfl
  | cons c a ih =>
    intro s
    simp only [List.cons_append, runCalls]
    cases c.run s with
    | returned u t => simpa [Res.andThen] using ih t
    | aborted d t => rfl
    | waiting t => rfl

/-- The calls of one frame cycle can be appended to a trace without fence-wait-skip. -/
theorem tick_trace (k : Tick) (s : VulkanRHI) :
    ∃ ops, (runCalls k.calls s).state.trace = s.trace ++ ops ∧
      ∀ T, fenceWaitedBeforeEverySubmit T → fenceWaitedBeforeEverySubmit (T ++ ops) := by
  obtain ⟨R₁, e₁, q₁⟩ :=
    waitFrame_trace k.waitPlatform k.waitFuel k.acquireResult k.acquireImage s
  have c₁ := waitFrame_continues k.waitPlatform k.waitFuel k.acquireResult k.acquireImage s
  have hR₁ : ∀ op ∈ R₁, op.isFenceOp = false := fun op hop =>
    Op.isFrameOp_false_not_fence op (Op.isRecreateOp_not_frame op (q₁ op hop))
  -- the calls of `waitFrame`
  have g₁ : ∀ T, fenceWaitedBeforeEverySubmit T → fenceWaitedBeforeEverySubmit
      (T ++ (.vkWaitForFences [s.m_flight_fences.getD s.m_flight_index VK_NULL_HANDLE] true
            UINT64_MAX ::
          .vkAcquireNextImageKHR s.m_swapchain UINT64_MAX
            (s.m_image_avaliable_semaphores.getD s.m_flight_index VK_NULL_HANDLE)
            VK_NULL_HANDLE :: R₁)) := by
    intro T hT
    refine fenceWaited_append_of_no_submit hT ?_
    intro op hop
    rcases List.mem_cons.mp hop with rfl | hop
    · rfl
    rcases List.mem_cons.mp hop with rfl | hop
    · rfl
    · have := hR₁ op hop
      cases op <;> first | rfl | simp [Op.isFenceOp] at this
  simp only [Tick.calls, runCalls, Call.run]
  cases hw : waitFrame k.waitPlatform k.waitFuel k.acquireResult k.acquireImage s with
  | aborted d t₁ => rw [hw] at e₁; exact ⟨_, e₁, g₁⟩
  | waiting t₁ => rw [hw] at e₁; exact ⟨_, e₁, g₁⟩
  | returned u t₁ =>
    rw [hw] at e₁ c₁
    simp only [Res.state] at e₁ c₁
    have hidx : t₁.m_flight_index = s.m_flight_index := c₁.flight_index
    have hf : t₁.m_flight_fences = s.m_flight_fences := c₁.fences
    have e₂ := submitFrame_trace k.submitResult t₁
    rw [hidx, hf, e₁, List.append_assoc] at e₂
    -- the calls of `waitFrame` and `submitFrame`
    have g₂ : ∀ T, fenceWaitedBeforeEverySubmit T → fenceWaitedBeforeEverySubmit
        (T ++ ((.vkWaitForFences [s.m_flight_fences.getD s.m_flight_index VK_NULL_HANDLE] true
              UINT64_MAX ::
            .vkAcquireNextImageKHR s.m_swapchain UINT64_MAX
              (s.m_image_avaliable_semaphores.getD s.m_flight_index VK_NULL_HANDLE)
              VK_NULL_HANDLE :: R₁) ++
          [.vkQueueSubmit [t₁.m_image_avaliable_semaphores.getD s.m_flight_index VK_NULL_HANDLE]
            [VK_PIPELINE_STAGE_COLOR_ATTACHMENT_OUTPUT_BIT]
            [t₁.m_command_buffers.getD s.m_flight_index VK_NULL_HANDLE]
            [t₁.m_render_finished_semaphores.getD s.m_flight_index VK_NULL_HANDLE]
            (s.m_flight_fences.getD s.m_flight_index VK_NULL_HANDLE)])) := by
      intro T hT
      rw [← List.append_assoc]
      refine fenceWaited_append_submit _ _ _ _ _ (g₁ T hT) ?_
      refine waitedSince_after_wait _ T _ true UINT64_MAX ?_
      intro op hop
      rcases List.mem_cons.mp hop with rfl | hop
      · rfl
      · exact hR₁ op hop
    simp only [Res.andThen_returned]
    cases hs : submitFrame k.submitResult t₁ with
    | aborted d t₂ => rw [hs] at e₂; exact ⟨_, e₂, g₂⟩
    | waiting t₂ => rw [hs] at e₂; exact ⟨_, e₂, g₂⟩
    | returned u₂ t₂ =>
      rw [hs] at e₂
      simp only [Res.state] at e₂
      obtain ⟨R₃, e₃, q₃⟩ :=
        presentFrame_trace k.presentPlatform k.presentFuel k.presentResult t₂
      rw [e₂, List.append_assoc] at e₃
      simp only [Res.andThen_returned]
      refine ⟨_, by rw [Res.andThen_pure_state]; exact e₃, ?_⟩
      intro T hT
      rw [← List.append_assoc]
      refine fenceWaited_append_of_no_submit (g₂ T hT) ?_
      intro op hop
      rcases List.mem_cons.mp hop with rfl | hop
      · rfl
      · have := Op.isRecreateOp_not_frame op (q₃ op hop)
        cases op <;> first | rfl | simp [Op.isFrameOp] at this

/-- The calls of a sequence of frame cycles can be appended to a trace without
fence-wait-skip. -/
theorem ticks_trace (ks : List Tick) :
    ∀ s : VulkanRHI, ∃ ops, (runCalls (ks.flatMap Tick.calls) s).state.trace = s.trace ++ ops ∧
      ∀ T, fenceWaitedBeforeEverySubmit T → fenceWaitedBeforeEverySubmit (T ++ ops) := by
  induction ks with
  | nil =>
    intro s
    exact ⟨[], by simp [runCalls, Res.state], fun T hT => by simpa using hT⟩
  | cons k ks ih =>
    intro s
    obtain ⟨ops₁, e₁, g₁⟩ := tick_trace k s
    rw [List.flatMap_cons, runCalls_append]
    cases hk : runCalls k.calls s with
    | aborted d t => rw [hk] at e₁; exact ⟨ops₁, e₁, g₁⟩
    | waiting t => rw [hk] at e₁; exact ⟨ops₁, e₁, g₁⟩
    | returned u t =>
      rw [hk] at e₁
      simp only [Res.state] at e₁
      obtain ⟨ops₂, e₂, g₂⟩ := ih t
      refine ⟨ops₁ ++ ops₂, ?_, ?_⟩
      · simp only [Res.andThen]
        rw [e₂, e₁, List.append_assoc]
      · intro T hT
        rw [← List.append_assoc]
        exact g₂ _ (g₁ T hT)

/-- C3. No fence-wait-skip: the first call of every `waitFrame` is a wait (wait-all,
timeout `UINT64_MAX`) on the fence of the current slot, the second is
`vkAcquireNextImageKHR`, and no further frame call follows inside `waitFrame`; and in the
calls of every sequence of frame cycles, every queue submission is preceded, since the
previous submission that was handed the same fence, by a wait on that fence. -/
theorem waitFrame_no_fence_wait_skip :
    (∀ (p : Platform) (fuel : Nat) (result : VkResult) (image_index : Nat) (s : VulkanRHI),
      ∃ rest, issued s (waitFrame p fuel result image_index s) =
          .vkWaitForFences [s.m_flight_fences.getD s.m_flight_index VK_NULL_HANDLE] true
              UINT64_MAX ::
            .vkAcquireNextImageKHR s.m_swapchain UINT64_MAX
              (s.m_image_avaliable_semaphores.getD s.m_flight_index VK_NULL_HANDLE)
              VK_NULL_HANDLE :: rest ∧
        ∀ op ∈ rest, op.isFrameOp = false) ∧
    (∀ (ks : List Tick) (s : VulkanRHI),
      fenceWaitedBeforeEverySubmit (issued s (runCalls (ks.flatMap Tick.calls) s))) := by
  constructor
  · intro p fuel result image_index s
    obtain ⟨rest, e, q⟩ := waitFrame_trace p fuel result image_index s
    exact ⟨rest, issued_of_trace e, fun op hop => Op.isRecreateOp_not_frame op (q op hop)⟩
  · intro ks s
    obtain ⟨ops, e, g⟩ := ticks_trace ks s
    rw [issued_of_trace e]
    simpa using g [] fenceWaited_nil

/-! ## The shape of a swapchain re-creation -/

theorem Res.andThen_isWaiting {α β : Type} {r : Res α} {k : α → VulkanRHI → Res β}
    (h : ∀ a t, (k a t).isWaiting = false) : (r.andThen k).isWaiting = r.isWaiting := by
  cases r with
  | returned a t => exact h a t
  | aborted d t => rfl
  | waiting t => rfl

theorem ASSERT_isWaiting (c : Bool) (m : String) (s : VulkanRHI) :
    (ASSERT c m s).isWaiting = false := by
  unfold ASSERT; split <;> rfl

theorem CHECK_VULKAN_RESULT_isWaiting (r : VkResult) (m : String) (s : VulkanRHI) :
    (CHECK_VULKAN_RESULT r m s).isWaiting = false := by
  unfold CHECK_VULKAN_RESULT; split <;> rfl

theorem createSwapchain_isWaiting (p : Platform) (s : VulkanRHI) :
    (createSwapchain p s).isWaiting = false := by
  unfold createSwapchain
  rw [Res.andThen_isWaiting]
  · unfold getSwapchainSupportDetails
    rw [Res.andThen_isWaiting, ASSERT_isWaiting]
    intro _ t
    rw [Res.andThen_isWaiting, ASSERT_isWaiting]
    intro _ t; rfl
  intro d t
  rw [Res.andThen_isWaiting]
  · unfold getProperSwapchainSurfaceFormat; split <;> rfl
  intro f t
  rw [Res.andThen_isWaiting]
  · unfold getProperSwapchainSurfacePresentMode; split <;> rfl
  intro m t
  rw [Res.andThen_isWaiting]
  · unfold getProperSwapchainSurfaceExtent; split <;> rfl
  intro e t
  rw [Res.andThen_isWaiting]
  · unfold getProperSwapchainSurfaceImageUsage
    rw [Res.andThen_isWaiting, ASSERT_isWaiting]
    intro _ t
    rw [Res.andThen_isWaiting, ASSERT_isWaiting]
    intro _ t; rfl
  intro u t
  exact CHECK_VULKAN_RESULT_isWaiting _ _ _

theorem createSwapchainObjects_isWaiting (p : Platform) (s : VulkanRHI) :
    (createSwapchainObjects p s).isWaiting = false := by
  unfold createSwapchainObjects
  rw [Res.andThen_isWaiting, ASSERT_isWaiting]
  intro _ t
  rw [Res.andThen_isWaiting]
  · unfold getProperImageFormat; dsimp only; split <;> rfl
  intro f t
  rw [Res.andThen_isWaiting, CHECK_VULKAN_RESULT_isWaiting]
  intro _ t; rfl

theorem recreateSwapchain_loop_nonzero (p : Platform) (fuel : Nat) (width height : Int)
    (s : VulkanRHI) (h : ¬ zeroArea (width, height)) :
    recreateSwapchain_loop p fuel width height s = .returned (width, height) s := by
  have h' : ¬ (width = 0 ∨ height = 0) := h
  cases fuel <;> simp [recreateSwapchain_loop, h']

/-- The zero-area wait never aborts, and what it returns has non-zero area. -/
theorem recreateSwapchain_loop_result (p : Platform) (fuel : Nat) :
    ∀ (width height : Int) (s : VulkanRHI),
      (recreateSwapchain_loop p fuel width height s).isAborted = false ∧
      ∀ a t, recreateSwapchain_loop p fuel width height s = .returned a t → ¬ zeroArea a := by
  induction fuel with
  | zero =>
    intro w h s
    unfold recreateSwapchain_loop
    split
    · exact ⟨rfl, fun a t e => by cases e⟩
    · rename_i hz
      exact ⟨rfl, fun a t e => by cases e; exact hz⟩
  | succ n ih =>
    intro w h s
    unfold recreateSwapchain_loop
    split
    · exact ih _ _ _
    · rename_i hz
      exact ⟨rfl, fun a t e => by cases e; exact hz⟩

/-- The zero-area wait when the window system answers zero area `m` more times and then a
non-zero area: it returns after `m + 1` iterations, with that answer. -/
theorem recreateSwapchain_loop_exact (p : Platform) (m : Nat) :
    ∀ (fuel : Nat) (width height : Int) (s : VulkanRHI), m < fuel → zeroArea (width, height) →
      (∀ j, j < m → zeroArea (p.framebufferSize (s.sizeQueries + j))) →
      ¬ zeroArea (p.framebufferSize (s.sizeQueries + m)) →
      recreateSwapchain_loop p fuel width height s =
        .returned (p.framebufferSize (s.sizeQueries + m))
          { s with trace := s.trace ++ zeroAreaWaitOps p s.sizeQueries (m + 1)
                   sizeQueries := s.sizeQueries + (m + 1) } := by
  induction m with
  | zero =>
    intro fuel w h s hf hz _ hnz
    obtain ⟨n, rfl⟩ : ∃ n, fuel = n + 1 := ⟨fuel - 1, by omega⟩
    have hz' : w = 0 ∨ h = 0 := hz
    simp only [recreateSwapchain_loop, hz', if_true, Bamboo.glfwGetFramebufferSize,
      Res.andThen_returned]
    rw [recreateSwapchain_loop_nonzero p n _ _ _ (by simpa using hnz)]
    simp [emit, zeroAreaWaitOps]
  | succ m ih =>
    intro fuel w h s hf hz hzs hnz
    obtain ⟨n, rfl⟩ : ∃ n, fuel = n + 1 := ⟨fuel - 1, by omega⟩
    have hz' : w = 0 ∨ h = 0 := hz
    simp only [recreateSwapchain_loop, hz', if_true, Bamboo.glfwGetFramebufferSize,
      Res.andThen_returned]
    rw [ih n _ _ _ (by omega) (by simpa using hzs 0 (by omega))
      (fun j hj => by
        have := hzs (j + 1) (by omega)
        simpa [emit, Nat.add_assoc, Nat.add_comm 1 j] using this)
      (by simpa [emit, Nat.add_assoc, Nat.add_comm 1 m] using hnz)]
    simp [emit, zeroAreaWaitOps, Nat.add_assoc, Nat.add_comm 1 m]
    omega

/-- What `recreateSwapchain` does once the zero-area wait is over (lines 503-511). -/
theorem recreateSwapchain_eq (p : Platform) (fuel : Nat) (s : VulkanRHI) :
    recreateSwapchain p fuel s =
      (recreateSwapchain_loop p fuel (p.framebufferSize s.sizeQueries).1
        (p.framebufferSize s.sizeQueries).2 (recreateSwapchain_entry p s)).andThen fun _ t =>
        (createSwapchain p (emit .vkDeviceWaitIdle t)).andThen fun _ u =>
          createSwapchainObjects p
            (destroySwapchainObjects (emit (.vkDestroySwapchainKHR t.m_swapchain) u)) :=
  rfl

theorem recreateSwapchain_entry_trace (p : Platform) (s : VulkanRHI) :
    (recreateSwapchain_entry p s).trace = s.trace ++
      [.recreateSwapchainCall,
       .glfwGetFramebufferSize (p.framebufferSize s.sizeQueries).1
        (p.framebufferSize s.sizeQueries).2] := by
  simp [recreateSwapchain_entry, emit]

theorem recreateSwapchain_tail_continues (p : Platform) (t : VulkanRHI) :
    Continues Op.isSwapchainBodyOp (emit .vkDeviceWaitIdle t)
      ((createSwapchain p (emit .vkDeviceWaitIdle t)).andThen fun _ u =>
        createSwapchainObjects p
          (destroySwapchainObjects (emit (.vkDestroySwapchainKHR t.m_swapchain) u))).state :=
  Continues.andThen (createSwapchain_continues p _) fun _ u =>
    ((Continues.emit_op (.vkDestroySwapchainKHR _) (by rfl) u).trans
      ((destroySwapchainObjects_continues _).mono Op.isSwapchainObjectOp_body)).trans
      ((createSwapchainObjects_continues p _).mono Op.isSwapchainObjectOp_body)

theorem recreateSwapchain_tail_isWaiting (p : Platform) (t : VulkanRHI) :
    ((createSwapchain p (emit .vkDeviceWaitIdle t)).andThen fun _ u =>
      createSwapchainObjects p
        (destroySwapchainObjects (emit (.vkDestroySwapchainKHR t.m_swapchain) u))).isWaiting
      = false := by
  rw [Res.andThen_isWaiting (fun _ _ => createSwapchainObjects_isWaiting _ _),
    createSwapchain_isWaiting]

/-- The calls of `recreateSwapchain`: the entry marker, calls into the window system, and,
unless the call is still in the zero-area wait, `vkDeviceWaitIdle` followed by calls of the
swapchain creation and destruction functions. -/
theorem recreateSwapchain_shape (p : Platform) (fuel : Nat) (s : VulkanRHI) :
    ∃ win body, (∀ op ∈ win, op.isWindowOp = true) ∧
      (∀ op ∈ body, op.isSwapchainBodyOp = true) ∧
      (recreateSwapchain p fuel s).state.trace = s.trace ++
        (.recreateSwapchainCall :: win ++
          if (recreateSwapchain p fuel s).isWaiting then [] else .vkDeviceWaitIdle :: body) := by
  rw [recreateSwapchain_eq]
  have hl := recreateSwapchain_loop_continues p fuel (p.framebufferSize s.sizeQueries).1
    (p.framebufferSize s.sizeQueries).2 (recreateSwapchain_entry p s)
  have hr := (recreateSwapchain_loop_result p fuel (p.framebufferSize s.sizeQueries).1
    (p.framebufferSize s.sizeQueries).2 (recreateSwapchain_entry p s)).1
  have hwin : ∀ w : List Op, (∀ op ∈ w, op.isWindowOp = true) →
      ∀ op ∈ Op.glfwGetFramebufferSize (p.framebufferSize s.sizeQueries).1
        (p.framebufferSize s.sizeQueries).2 :: w, op.isWindowOp = true := by
    intro w q op hop
    rcases List.mem_cons.mp hop with rfl | hop
    · rfl
    · exact q op hop
  cases hloop : recreateSwapchain_loop p fuel (p.framebufferSize s.sizeQueries).1
    (p.framebufferSize s.sizeQueries).2 (recreateSwapchain_entry p s) with
  | aborted d t => rw [hloop] at hr; cases hr
  | waiting t =>
    rw [hloop] at hl
    obtain ⟨-, -, -, -, -, -, w, e, q⟩ := hl
    refine ⟨Op.glfwGetFramebufferSize (p.framebufferSize s.sizeQueries).1
        (p.framebufferSize s.sizeQueries).2 :: w, [], hwin w q, by simp, ?_⟩
    simp only [Res.andThen, Res.state, Res.isWaiting, if_true, List.append_nil]
    simp only [Res.state] at e
    rw [e, recreateSwapchain_entry_trace]
    simp
  | returned a t =>
    rw [hloop] at hl
    obtain ⟨-, -, -, -, -, -, w, e, q⟩ := hl
    obtain ⟨-, -, -, -, -, -, b, eb, qb⟩ := recreateSwapchain_tail_continues p t
    refine ⟨Op.glfwGetFramebufferSize (p.framebufferSize s.sizeQueries).1
        (p.framebufferSize s.sizeQueries).2 :: w, b, hwin w q, qb, ?_⟩
    simp only [Res.andThen_returned, recreateSwapchain_tail_isWaiting, Bool.false_eq_true,
      if_false]
    rw [eb]
    simp only [Res.state] at e
    simp only [emit, e, recreateSwapchain_entry_trace]
    simp

theorem Op.isWindowOp_facts (op : Op) (h : op.isWindowOp = true) :
    op.isDeviceOp = false ∧ op.isSizeDependentOp = false ∧ op ≠ .vkDeviceWaitIdle ∧
      op ≠ .recreateSwapchainCall := by
  cases op <;> first | (exfalso; revert h; simp [Op.isWindowOp]; done) | simp [Op.isDeviceOp, Op.isSizeDependentOp]

theorem Op.isSwapchainBodyOp_facts (op : Op) (h : op.isSwapchainBodyOp = true) :
    op ≠ .vkDeviceWaitIdle ∧ op ≠ .recreateSwapchainCall := by
  cases op <;> first
    | (exfalso; revert h; simp [Op.isSwapchainBodyOp, Op.isSizeDependentOp]; done)
    | simp

/-- Every call enters `recreateSwapchain` once. -/
theorem recreateSwapchain_count_call (p : Platform) (fuel : Nat) (s : VulkanRHI) :
    (issued s (recreateSwapchain p fuel s)).count .recreateSwapchainCall = 1 := by
  obtain ⟨win, body, hwin, hbody, e⟩ := recreateSwapchain_shape p fuel s
  rw [issued_of_trace e]
  have h1 : win.count .recreateSwapchainCall = 0 :=
    List.count_eq_zero.mpr fun hm => (Op.isWindowOp_facts _ (hwin _ hm)).2.2.2 rfl
  have h2 : body.count .recreateSwapchainCall = 0 :=
    List.count_eq_zero.mpr fun hm => (Op.isSwapchainBodyOp_facts _ (hbody _ hm)).2 rfl
  split <;> simp [List.count_cons, h1, h2]

/-! ## When a swapchain re-creation returns -/

theorem find?_isSome_length_pos {α : Type} (q : α → Bool) (l : List α)
    (h : (l.find? q).isSome = true) : decide (l.length > 0) = true := by
  cases l with
  | nil => simp at h
  | cons a l => simp

theorem createSwapchain_returns (p : Platform) (s : VulkanRHI) (n : Nat)
    (h : p.canRecreate n = true) : (createSwapchain p s).isReturned = true := by
  unfold Platform.canRecreate at h
  simp only [Bool.and_eq_true, decide_eq_true_eq] at h
  obtain ⟨⟨⟨⟨⟨⟨⟨h1, h2⟩, h3⟩, h4⟩, h5⟩, -⟩, -⟩, -⟩ := h
  have l1 := find?_isSome_length_pos _ _ h1
  have l2 := find?_isSome_length_pos _ _ h2
  obtain ⟨fmt, hfmt⟩ := Option.isSome_iff_exists.mp h1
  obtain ⟨mode, hmode⟩ := Option.isSome_iff_exists.mp h2
  unfold createSwapchain getSwapchainSupportDetails getProperSwapchainSurfaceFormat
    getProperSwapchainSurfacePresentMode getProperSwapchainSurfaceExtent
    getProperSwapchainSurfaceImageUsage
  simp only [l1, l2, ASSERT, if_true, Res.andThen_returned, hfmt, hmode, h3, h4, h5,
    CHECK_VULKAN_RESULT]
  split <;> rfl

theorem createSwapchainObjects_returns (p : Platform) (s : VulkanRHI)
    (h : p.canRecreate s.m_swapchain_image_count = true) :
    (createSwapchainObjects p s).isReturned = true := by
  unfold Platform.canRecreate at h
  simp only [Bool.and_eq_true, decide_eq_true_eq] at h
  obtain ⟨⟨⟨-, h6⟩, h7⟩, h8⟩ := h
  obtain ⟨fmt, hfmt⟩ := Option.isSome_iff_exists.mp h7
  unfold createSwapchainObjects getProperImageFormat
  simp only [emit, h6, ASSERT, if_true, Res.andThen_returned, hfmt, h8, CHECK_VULKAN_RESULT]
  rfl

/-- A field that every step keeps is kept by the sequence. -/
theorem Res.andThen_keeps {α β γ : Type} (f : VulkanRHI → γ) {s : VulkanRHI} {r : Res α}
    {k : α → VulkanRHI → Res β} (h₁ : f r.state = f s) (h₂ : ∀ a t, f (k a t).state = f t) :
    f (r.andThen k).state = f s := by
  cases r with
  | returned a t => exact (h₂ a t).trans h₁
  | aborted d t => exact h₁
  | waiting t => exact h₁

theorem createSwapchain_image_count (p : Platform) (s : VulkanRHI) :
    (createSwapchain p s).state.m_swapchain_image_count = s.m_swapchain_image_count := by
  unfold createSwapchain
  refine Res.andThen_keeps (fun s => s.m_swapchain_image_count) ?_ fun d t => ?_
  · unfold getSwapchainSupportDetails
    refine Res.andThen_keeps (fun s => s.m_swapchain_image_count) (by simp [emit]) fun _ t => ?_
    exact Res.andThen_keeps (fun s => s.m_swapchain_image_count) (by simp [emit]) fun _ t => rfl
  refine Res.andThen_keeps (fun s => s.m_swapchain_image_count) ?_ fun f t => ?_
  · unfold getProperSwapchainSurfaceFormat; split <;> rfl
  refine Res.andThen_keeps (fun s => s.m_swapchain_image_count) ?_ fun m t => ?_
  · unfold getProperSwapchainSurfacePresentMode; split <;> rfl
  refine Res.andThen_keeps (fun s => s.m_swapchain_image_count) ?_ fun e t => ?_
  · unfold getProperSwapchainSurfaceExtent; split <;> rfl
  refine Res.andThen_keeps (fun s => s.m_swapchain_image_count) ?_ fun u t => ?_
  · unfold getProperSwapchainSurfaceImageUsage
    refine Res.andThen_keeps (fun s => s.m_swapchain_image_count) (by simp) fun _ t => ?_
    exact Res.andThen_keeps (fun s => s.m_swapchain_image_count) (by simp) fun _ t => rfl
  · simp [emit]

theorem recreateSwapchain_loop_image_count (p : Platform) (fuel : Nat) :
    ∀ (width height : Int) (s : VulkanRHI),
      (recreateSwapchain_loop p fuel width height s).state.m_swapchain_image_count =
        s.m_swapchain_image_count := by
  induction fuel with
  | zero =>
    intro w h s
    unfold recreateSwapchain_loop
    split <;> rfl
  | succ n ih =>
    intro w h s
    unfold recreateSwapchain_loop
    split
    · simp only [Bamboo.glfwGetFramebufferSize, Res.andThen_returned]
      rw [ih]; rfl
    · rfl

/-- The zero-area wait returns when a non-zero size is answered within the fuel. -/
theorem recreateSwapchain_loop_returns (p : Platform) (fuel : Nat) :
    ∀ (width height : Int) (s : VulkanRHI),
      (¬ zeroArea (width, height) ∨
        ∃ j, j < fuel ∧ ¬ zeroArea (p.framebufferSize (s.sizeQueries + j))) →
      (recreateSwapchain_loop p fuel width height s).isReturned = true := by
  induction fuel with
  | zero =>
    intro w h s hz
    rcases hz with hz | ⟨j, hj, -⟩
    · rw [recreateSwapchain_loop_nonzero p 0 w h s hz]; rfl
    · omega
  | succ n ih =>
    intro w h s hz
    by_cases hc : zeroArea (w, h)
    · have hc' : w = 0 ∨ h = 0 := hc
      simp only [recreateSwapchain_loop, hc', if_true, Bamboo.glfwGetFramebufferSize,
        Res.andThen_returned]
      apply ih
      rcases hz with hz | ⟨j, hj, hnz⟩
      · exact absurd hc hz
      · cases j with
        | zero => left; simpa using hnz
        | succ j =>
          right
          refine ⟨j, by omega, ?_⟩
          simpa [emit, Nat.add_assoc, Nat.add_comm 1 j] using hnz
    · rw [recreateSwapchain_loop_nonzero p _ w h s hc]; rfl

/-- The function `recreateSwapchain` returns when the window system answers a non-zero framebuffer
size within the fuel and the platform passes every check of the re-creation. -/
theorem recreateSwapchain_returns (p : Platform) (fuel : Nat) (s : VulkanRHI)
    (h : p.canRecreate s.m_swapchain_image_count = true)
    (hz : ∃ j, j ≤ fuel ∧ ¬ zeroArea (p.framebufferSize (s.sizeQueries + j))) :
    (recreateSwapchain p fuel s).isReturned = true := by
  rw [recreateSwapchain_eq]
  have hl : (recreateSwapchain_loop p fuel (p.framebufferSize s.sizeQueries).1
      (p.framebufferSize s.sizeQueries).2 (recreateSwapchain_entry p s)).isReturned = true := by
    apply recreateSwapchain_loop_returns
    obtain ⟨j, hj, hnz⟩ := hz
    cases j with
    | zero => left; simpa using hnz
    | succ j =>
      right
      refine ⟨j, by omega, ?_⟩
      simpa [recreateSwapchain_entry, Nat.add_assoc, Nat.add_comm 1 j] using hnz
  have hc := recreateSwapchain_loop_image_count p fuel (p.framebufferSize s.sizeQueries).1
    (p.framebufferSize s.sizeQueries).2 (recreateSwapchain_entry p s)
  cases hloop : recreateSwapchain_loop p fuel (p.framebufferSize s.sizeQueries).1
    (p.framebufferSize s.sizeQueries).2 (recreateSwapchain_entry p s) with
  | aborted d t => rw [hloop] at hl; cases hl
  | waiting t => rw [hloop] at hl; cases hl
  | returned a t =>
    rw [hloop] at hc
    simp only [Res.state] at hc
    have hc' : t.m_swapchain_image_count = s.m_swapchain_image_count := hc
    simp only [Res.andThen_returned]
    have hr := createSwapchain_returns p (emit .vkDeviceWaitIdle t) _ h
    have hi := createSwapchain_image_count p (emit .vkDeviceWaitIdle t)
    cases hcs : createSwapchain p (emit .vkDeviceWaitIdle t) with
    | aborted d u => rw [hcs] at hr; cases hr
    | waiting u => rw [hcs] at hr; cases hr
    | returned x u =>
      rw [hcs] at hi
      simp only [Res.state] at hi
      simp only [Res.andThen_returned]
      apply createSwapchainObjects_returns
      have : (destroySwapchainObjects
          (emit (.vkDestroySwapchainKHR t.m_swapchain) u)).m_swapchain_image_count =
          s.m_swapchain_image_count := by
        rw [← hc', ← show (emit Op.vkDeviceWaitIdle t).m_swapchain_image_count =
          t.m_swapchain_image_count from rfl, ← hi]
        rfl
      rw [this]; exact h

/-! ## The extent of a re-created swapchain -/

theorem Res.andThen_eq_returned {α β : Type} {r : Res α} {k : α → VulkanRHI → Res β}
    {b : β} {u : VulkanRHI} (h : r.andThen k = .returned b u) :
    ∃ a t, r = .returned a t ∧ k a t = .returned b u := by
  cases r with
  | returned a t => exact ⟨a, t, rfl, h⟩
  | aborted d t => exact Res.noConfusion h
  | waiting t => exact Res.noConfusion h

theorem ASSERT_eq_returned {c : Bool} {m : String} {s t : VulkanRHI} {a : Unit}
    (h : ASSERT c m s = .returned a t) : t = s := by
  unfold ASSERT at h
  split at h
  · exact (Res.returned.inj h).2.symm
  · exact Res.noConfusion h

theorem getSwapchainSupportDetails_returned (p : Platform) (s : VulkanRHI)
    (d : SwapchainSupportDetails) (t : VulkanRHI)
    (h : getSwapchainSupportDetails p s = .returned d t) :
    d.capabilities = p.capabilities ∧ t.sizeQueries = s.sizeQueries := by
  unfold getSwapchainSupportDetails at h
  obtain ⟨_, t₁, h₁, h⟩ := Res.andThen_eq_returned h
  obtain ⟨_, t₂, h₂, h⟩ := Res.andThen_eq_returned h
  have e₁ := ASSERT_eq_returned h₁
  have e₂ := ASSERT_eq_returned h₂
  have hi := Res.returned.inj h
  refine ⟨by rw [← hi.1], ?_⟩
  rw [← hi.2]
  show t₂.sizeQueries = s.sizeQueries
  rw [e₂]
  show t₁.sizeQueries = s.sizeQueries
  rw [e₁]
  rfl

theorem getProperSwapchainSurfaceFormat_returned (d : SwapchainSupportDetails)
    (s t : VulkanRHI) (f : VkSurfaceFormatKHR)
    (h : getProperSwapchainSurfaceFormat d s = .returned f t) : t = s := by
  unfold getProperSwapchainSurfaceFormat at h
  split at h
  · cases h; rfl
  · cases h

theorem getProperSwapchainSurfacePresentMode_returned (d : SwapchainSupportDetails)
    (s t : VulkanRHI) (m : Nat)
    (h : getProperSwapchainSurfacePresentMode d s = .returned m t) : t = s := by
  unfold getProperSwapchainSurfacePresentMode at h
  split at h
  · cases h; rfl
  · cases h

theorem getProperSwapchainSurfaceImageUsage_returned (d : SwapchainSupportDetails)
    (s t : VulkanRHI) (u : Nat)
    (h : getProperSwapchainSurfaceImageUsage d s = .returned u t) : t = s := by
  unfold getProperSwapchainSurfaceImageUsage ASSERT at h
  split at h
  · simp only [Res.andThen_returned] at h
    split at h
    · cases h; rfl
    · cases h
  · cases h

/-- What `getProperSwapchainSurfaceExtent` returns. -/
theorem getProperSwapchainSurfaceExtent_returned (p : Platform) (d : SwapchainSupportDetails)
    (s t : VulkanRHI) (e : VkExtent2D) (hd : d.capabilities = p.capabilities)
    (h : getProperSwapchainSurfaceExtent p d s = .returned e t) :
    e = selectedExtent p s.sizeQueries := by
  unfold getProperSwapchainSurfaceExtent at h
  unfold selectedExtent
  rw [hd] at h
  by_cases hc : p.capabilities.currentExtent.width ≠ UINT32_MAX
  · rw [if_pos hc] at h ⊢
    exact (Res.returned.inj h).1.symm
  · rw [if_neg hc] at h ⊢
    simp only [Bamboo.glfwGetFramebufferSize, Res.andThen_returned] at h
    exact (Res.returned.inj h).1.symm

/-- The calls of `createSwapchain`: queries of the surface and of the window system, and
then, unless a check failed before, one `vkCreateSwapchainKHR` whose extent is the selected
extent. -/
theorem createSwapchain_issued (p : Platform) (s : VulkanRHI) :
    ∃ qs, (∀ op ∈ qs, op.isSurfaceQueryOp = true) ∧
      ((createSwapchain p s).state.trace = s.trace ++ qs ∨
        ∃ ci, ci.imageExtent = selectedExtent p s.sizeQueries ∧
          (createSwapchain p s).state.trace = s.trace ++ (qs ++ [.vkCreateSwapchainKHR ci])) := by
  have stop : ∀ {t : VulkanRHI}, Continues Op.isSurfaceQueryOp s t →
      ∃ qs, (∀ op ∈ qs, op.isSurfaceQueryOp = true) ∧
        (t.trace = s.trace ++ qs ∨
          ∃ ci, ci.imageExtent = selectedExtent p s.sizeQueries ∧
            t.trace = s.trace ++ (qs ++ [.vkCreateSwapchainKHR ci])) := by
    intro t c
    obtain ⟨-, -, -, -, -, -, qs, e, q⟩ := c
    exact ⟨qs, q, Or.inl e⟩
  unfold createSwapchain
  have c₁ := getSwapchainSupportDetails_continues p s
  cases h₁ : getSwapchainSupportDetails p s with
  | aborted m t => rw [h₁] at c₁; exact stop c₁
  | waiting t => rw [h₁] at c₁; exact stop c₁
  | returned d t₁ =>
    obtain ⟨hd, hq₁⟩ := getSwapchainSupportDetails_returned p s d t₁ h₁
    rw [h₁] at c₁
    simp only [Res.state] at c₁
    simp only [Res.andThen_returned]
    have c₂ := c₁.trans (getProperSwapchainSurfaceFormat_continues d t₁)
    cases h₂ : getProperSwapchainSurfaceFormat d t₁ with
    | aborted m t => rw [h₂] at c₂; exact stop c₂
    | waiting t => rw [h₂] at c₂; exact stop c₂
    | returned f t₂ =>
      obtain rfl := getProperSwapchainSurfaceFormat_returned d t₁ t₂ f h₂
      simp only [Res.andThen_returned]
      have c₃ : Continues Op.isSurfaceQueryOp s { t₂ with m_surface_format := f } :=
        c₁.trans ⟨rfl, rfl, rfl, rfl, rfl, rfl, [], (List.append_nil _).symm, fun _ h => nomatch h⟩
      have c₃' := c₃.trans (getProperSwapchainSurfacePresentMode_continues d _)
      cases h₃ : getProperSwapchainSurfacePresentMode d { t₂ with m_surface_format := f } with
      | aborted m t => rw [h₃] at c₃'; exact stop c₃'
      | waiting t => rw [h₃] at c₃'; exact stop c₃'
      | returned m t₃ =>
        obtain rfl := getProperSwapchainSurfacePresentMode_returned d _ t₃ m h₃
        simp only [Res.andThen_returned]
        have c₄ : Continues Op.isSurfaceQueryOp s
            { ({ t₂ with m_surface_format := f } : VulkanRHI) with m_present_mode := m } :=
          c₃.trans ⟨rfl, rfl, rfl, rfl, rfl, rfl, [], (List.append_nil _).symm, fun _ h => nomatch h⟩
        have c₄' := c₄.trans (getProperSwapchainSurfaceExtent_continues p d _)
        cases h₄ : getProperSwapchainSurfaceExtent p d
            { ({ t₂ with m_surface_format := f } : VulkanRHI) with m_present_mode := m } with
        | aborted m t => rw [h₄] at c₄'; exact stop c₄'
        | waiting t => rw [h₄] at c₄'; exact stop c₄'
        | returned e t₄ =>
          have he := getProperSwapchainSurfaceExtent_returned p d _ t₄ e hd h₄
          have he' : e = selectedExtent p s.sizeQueries := by rw [he, ← hq₁]
          rw [h₄] at c₄'
          simp only [Res.state] at c₄'
          simp only [Res.andThen_returned]
          have c₅ : Continues Op.isSurfaceQueryOp s { t₄ with m_extent := e } :=
            c₄'.trans ⟨rfl, rfl, rfl, rfl, rfl, rfl, [], (List.append_nil _).symm, fun _ h => nomatch h⟩
          have c₅' := c₅.trans (getProperSwapchainSurfaceImageUsage_continues d _)
          cases h₅ : getProperSwapchainSurfaceImageUsage d { t₄ with m_extent := e } with
          | aborted m t => rw [h₅] at c₅'; exact stop c₅'
          | waiting t => rw [h₅] at c₅'; exact stop c₅'
          | returned u t₅ =>
            obtain rfl := getProperSwapchainSurfaceImageUsage_returned d _ t₅ u h₅
            simp only [Res.andThen_returned, CHECK_VULKAN_RESULT_state]
            obtain ⟨-, -, -, -, -, -, qs, eq, q⟩ := c₅
            refine ⟨qs, q, Or.inr ⟨?ci, ?hext, ?htr⟩⟩
            case htr =>
              simp only [emit]
              rw [show ({ t₄ with m_extent := e } : VulkanRHI).trace = s.trace ++ qs from eq,
                List.append_assoc]
              exact rfl
            case hext => exact he'

/-! ## The fence of a slot is never reset -/

theorem Call.run_trace (c : Call) (s : VulkanRHI) :
    ∃ ops, (c.run s).state.trace = s.trace ++ ops ∧ ∀ op ∈ ops, op.isResetFences = false := by
  have hrec : ∀ op : Op, op.isRecreateOp = true → op.isResetFences = false := by
    intro op h
    have := Op.isRecreateOp_not_frame op h
    cases op <;> first | rfl | simp [Op.isFrameOp] at this
  cases c with
  | waitFrame p fuel r i =>
    obtain ⟨rest, e, q⟩ := waitFrame_trace p fuel r i s
    refine ⟨_, e, ?_⟩
    intro op hop
    rcases List.mem_cons.mp hop with rfl | hop
    · rfl
    rcases List.mem_cons.mp hop with rfl | hop
    · rfl
    · exact hrec op (q op hop)
  | submitFrame r =>
    refine ⟨_, submitFrame_trace r s, ?_⟩
    intro op hop
    rw [List.mem_singleton.mp hop]; rfl
  | presentFrame p fuel r =>
    obtain ⟨rest, e, q⟩ := presentFrame_trace p fuel r s
    refine ⟨_, e, ?_⟩
    intro op hop
    rcases List.mem_cons.mp hop with rfl | hop
    · rfl
    · exact hrec op (q op hop)

/-- No sequence of `waitFrame`, `submitFrame` and `presentFrame` calls, in any order and
with any answers of the platform, issues `vkResetFences`. -/
theorem runCalls_never_resets_fences (cs : List Call) :
    ∀ s : VulkanRHI, ∀ op ∈ issued s (runCalls cs s), op.isResetFences = false := by
  have key : ∀ s : VulkanRHI, ∃ ops, (runCalls cs s).state.trace = s.trace ++ ops ∧
      ∀ op ∈ ops, op.isResetFences = false := by
    induction cs with
    | nil => intro s; exact ⟨[], by simp [runCalls, Res.state], by simp⟩
    | cons c cs ih =>
      intro s
      obtain ⟨ops₁, e₁, q₁⟩ := Call.run_trace c s
      unfold runCalls
      cases hc : c.run s with
      | aborted d t => rw [hc] at e₁; exact ⟨ops₁, e₁, q₁⟩
      | waiting t => rw [hc] at e₁; exact ⟨ops₁, e₁, q₁⟩
      | returned u t =>
        rw [hc] at e₁
        simp only [Res.state] at e₁
        obtain ⟨ops₂, e₂, q₂⟩ := ih t
        refine ⟨ops₁ ++ ops₂, ?_, ?_⟩
        · simp only [Res.andThen_returned]
          rw [e₂, e₁, List.append_assoc]
        · intro op hop
          rcases List.mem_append.mp hop with h | h
          · exact q₁ op h
          · exact q₂ op h
  intro s op hop
  obtain ⟨ops, e, q⟩ := key s
  rw [issued_of_trace e] at hop
  exact q op hop

/-- C4, the code at the failing input. On the sample state (slot 0, fence 50 created
signalled), `waitFrame` followed by `submitFrame`, both succeeding, issue the fence wait,
the acquire and the submission and nothing else: no `vkResetFences` is issued, so the flag
of fence 50 is still set when the fence is handed to `vkQueueSubmit`; and after two whole
frame cycles, when slot 0 is waited on again, the flag is set as well, whether or not the
submission of slot 0 has completed. -/
theorem submitFrame_fence_still_signalled :
    issued sampleRHI
        (runCalls [.waitFrame samplePlatform 0 VK_SUCCESS 1, .submitFrame VK_SUCCESS] sampleRHI) =
      [.vkWaitForFences [50] true UINT64_MAX,
       .vkAcquireNextImageKHR 10 UINT64_MAX 40 VK_NULL_HANDLE,
       .vkQueueSubmit [40] [VK_PIPELINE_STAGE_COLOR_ATTACHMENT_OUTPUT_BIT] [61] [41] 50] ∧
    fenceSignalled 50 (sampleRHI.trace ++
      [.vkWaitForFences [50] true UINT64_MAX,
       .vkAcquireNextImageKHR 10 UINT64_MAX 40 VK_NULL_HANDLE]) = true ∧
    (runCalls (sampleTick.calls ++ sampleTick.calls) sampleRHI).isReturned = true ∧
    (runCalls (sampleTick.calls ++ sampleTick.calls) sampleRHI).state.m_flight_index = 0 ∧
    fenceSignalled 50
      (runCalls (sampleTick.calls ++ sampleTick.calls) sampleRHI).state.trace = true ∧
    ((runCalls (sampleTick.calls ++ sampleTick.calls) sampleRHI).state.trace.all
      fun op => !op.isResetFences) = true := by
  decide

/-! ## One slot per frame cycle -/

/-- C5. Within one frame cycle every synchronisation object belongs to the current slot
`i`: `waitFrame` waits on fence `i`, acquires with the image-available semaphore `i` and
stores the acquired image index; `submitFrame` issues exactly one call, a submission of
command buffer `i` that waits on the image-available semaphore `i` at the colour-attachment
output stage, signals the render-finished semaphore `i` and is handed fence `i`;
`presentFrame` presents the stored image index waiting on the render-finished semaphore
`i`; `waitFrame` and `submitFrame` keep the slot index and the slot objects, and apart from
the calls named here the three functions issue no frame call. -/
theorem frame_cycle_uses_one_slot :
    (∀ (p : Platform) (fuel : Nat) (result : VkResult) (image_index : Nat) (s : VulkanRHI),
      (∃ rest, issued s (waitFrame p fuel result image_index s) =
          .vkWaitForFences [s.m_flight_fences.getD s.m_flight_index VK_NULL_HANDLE] true
              UINT64_MAX ::
            .vkAcquireNextImageKHR s.m_swapchain UINT64_MAX
              (s.m_image_avaliable_semaphores.getD s.m_flight_index VK_NULL_HANDLE)
              VK_NULL_HANDLE :: rest ∧
        ∀ op ∈ rest, op.isFrameOp = false) ∧
      (waitFrame p fuel result image_index s).state.m_image_index = image_index ∧
      (waitFrame p fuel result image_index s).state.m_flight_index = s.m_flight_index ∧
      (waitFrame p fuel result image_index s).state.m_image_avaliable_semaphores =
        s.m_image_avaliable_semaphores ∧
      (waitFrame p fuel result image_index s).state.m_render_finished_semaphores =
        s.m_render_finished_semaphores ∧
      (waitFrame p fuel result image_index s).state.m_flight_fences = s.m_flight_fences ∧
      (waitFrame p fuel result image_index s).state.m_command_buffers = s.m_command_buffers) ∧
    (∀ (result : VkResult) (s : VulkanRHI),
      issued s (submitFrame result s) =
        [.vkQueueSubmit [s.m_image_avaliable_semaphores.getD s.m_flight_index VK_NULL_HANDLE]
          [VK_PIPELINE_STAGE_COLOR_ATTACHMENT_OUTPUT_BIT]
          [s.m_command_buffers.getD s.m_flight_index VK_NULL_HANDLE]
          [s.m_render_finished_semaphores.getD s.m_flight_index VK_NULL_HANDLE]
          (s.m_flight_fences.getD s.m_flight_index VK_NULL_HANDLE)] ∧
      (submitFrame result s).state.m_image_index = s.m_image_index ∧
      (submitFrame result s).state.m_flight_index = s.m_flight_index ∧
      (submitFrame result s).state.m_render_finished_semaphores =
        s.m_render_finished_semaphores) ∧
    (∀ (p : Platform) (fuel : Nat) (result : VkResult) (s : VulkanRHI),
      ∃ rest, issued s (presentFrame p fuel result s) =
          .vkQueuePresentKHR
            [s.m_render_finished_semaphores.getD s.m_flight_index VK_NULL_HANDLE]
            [s.m_swapchain] [s.m_image_index] :: rest ∧
        ∀ op ∈ rest, op.isFrameOp = false) := by
  refine ⟨?_, ?_, ?_⟩
  · intro p fuel result image_index s
    obtain ⟨rest, e, q⟩ := waitFrame_trace p fuel result image_index s
    have c := waitFrame_continues p fuel result image_index s
    exact ⟨⟨rest, issued_of_trace e, fun op hop => Op.isRecreateOp_not_frame op (q op hop)⟩,
      c.image_index, c.flight_index, c.avaliable, c.finished, c.fences, c.command_buffers⟩
  · intro result s
    refine ⟨issued_of_trace (submitFrame_trace result s), ?_, ?_, ?_⟩ <;>
      simp [submitFrame, emit]
  · intro p fuel result s
    obtain ⟨rest, e, q⟩ := presentFrame_trace p fuel result s
    exact ⟨rest, issued_of_trace e, fun op hop => Op.isRecreateOp_not_frame op (q op hop)⟩

/-! ## Results of the device calls of the frame cycle -/

theorem issued_of_traces {s t : VulkanRHI} {o : Outcome} {pre ops : List Op}
    (ht : t.trace = s.trace ++ pre) (ho : o.state.trace = t.trace ++ ops) :
    issued s o = pre ++ ops :=
  issued_of_trace (by rw [ho, ht, List.append_assoc])

theorem afterAcquireCall_trace (image_index : Nat) (s : VulkanRHI) :
    (afterAcquireCall image_index s).trace = s.trace ++
      [.vkWaitForFences [s.m_flight_fences.getD s.m_flight_index VK_NULL_HANDLE] true UINT64_MAX,
       .vkAcquireNextImageKHR s.m_swapchain UINT64_MAX
        (s.m_image_avaliable_semaphores.getD s.m_flight_index VK_NULL_HANDLE) VK_NULL_HANDLE] := by
  simp [afterAcquireCall, emit]

theorem afterPresentCall_trace (s : VulkanRHI) :
    (afterPresentCall s).trace = s.trace ++
      [.vkQueuePresentKHR [s.m_render_finished_semaphores.getD s.m_flight_index VK_NULL_HANDLE]
        [s.m_swapchain] [s.m_image_index]] := rfl

theorem waitFrame_eq_recreateSwapchain (p : Platform) (fuel : Nat) (image_index : Nat)
    (s : VulkanRHI) :
    waitFrame p fuel VK_ERROR_OUT_OF_DATE_KHR image_index s =
      recreateSwapchain p fuel (afterAcquireCall image_index s) := by
  rw [waitFrame_eq, if_pos rfl]

theorem recreateSwapchain_issued_trace (p : Platform) (fuel : Nat) (s : VulkanRHI) :
    (recreateSwapchain p fuel s).state.trace =
      s.trace ++ issued s (recreateSwapchain p fuel s) := by
  obtain ⟨-, -, -, -, -, -, ops, e, -⟩ := recreateSwapchain_continues p fuel s
  rw [issued_of_trace e, e]

theorem Op.isFrameOp_false_not_produced (op : Op) (h : op.isFrameOp = false) :
    op.isQueueSubmit = false ∧ op.isQueuePresent = false := by
  cases op <;> first | exact ⟨rfl, rfl⟩ | (exfalso; revert h; simp [Op.isFrameOp])

/-- The calls of one frame cycle that starts in `u`: the fence wait and the acquire of the
slot of `u` come first, every queue submission after them is the submission of that slot,
and every presentation waits on the render-finished semaphore of that slot. -/
theorem tick_uses_slot (k : Tick) (u : VulkanRHI) :
    ∃ rest, (runCalls k.calls u).state.trace = u.trace ++
        (.vkWaitForFences [u.m_flight_fences.getD u.m_flight_index VK_NULL_HANDLE] true
            UINT64_MAX ::
          .vkAcquireNextImageKHR u.m_swapchain UINT64_MAX
            (u.m_image_avaliable_semaphores.getD u.m_flight_index VK_NULL_HANDLE)
            VK_NULL_HANDLE :: rest) ∧
      ∀ op ∈ rest,
        (op.isQueueSubmit = true →
          op = .vkQueueSubmit
            [u.m_image_avaliable_semaphores.getD u.m_flight_index VK_NULL_HANDLE]
            [VK_PIPELINE_STAGE_COLOR_ATTACHMENT_OUTPUT_BIT]
            [u.m_command_buffers.getD u.m_flight_index VK_NULL_HANDLE]
            [u.m_render_finished_semaphores.getD u.m_flight_index VK_NULL_HANDLE]
            (u.m_flight_fences.getD u.m_flight_index VK_NULL_HANDLE)) ∧
        (op.isQueuePresent = true →
          ∃ swapchain image, op = .vkQueuePresentKHR
            [u.m_render_finished_semaphores.getD u.m_flight_index VK_NULL_HANDLE]
            [swapchain] [image]) := by
  obtain ⟨R₁, e₁, q₁⟩ :=
    waitFrame_trace k.waitPlatform k.waitFuel k.acquireResult k.acquireImage u
  have c₁ := waitFrame_continues k.waitPlatform k.waitFuel k.acquireResult k.acquireImage u
  have hNo : ∀ op : Op, op.isRecreateOp = true →
      (op.isQueueSubmit = true →
        op = .vkQueueSubmit
          [u.m_image_avaliable_semaphores.getD u.m_flight_index VK_NULL_HANDLE]
          [VK_PIPELINE_STAGE_COLOR_ATTACHMENT_OUTPUT_BIT]
          [u.m_command_buffers.getD u.m_flight_index VK_NULL_HANDLE]
          [u.m_render_finished_semaphores.getD u.m_flight_index VK_NULL_HANDLE]
          (u.m_flight_fences.getD u.m_flight_index VK_NULL_HANDLE)) ∧
      (op.isQueuePresent = true →
        ∃ swapchain image, op = .vkQueuePresentKHR
          [u.m_render_finished_semaphores.getD u.m_flight_index VK_NULL_HANDLE]
          [swapchain] [image]) := by
    intro op hop
    have h := Op.isFrameOp_false_not_produced op (Op.isRecreateOp_not_frame op hop)
    constructor
    · intro a
      rw [h.1] at a
      cases a
    · intro a
      rw [h.2] at a
      cases a
  simp only [Tick.calls, runCalls, Call.run]
  cases hw : waitFrame k.waitPlatform k.waitFuel k.acquireResult k.acquireImage u with
  | aborted d t₁ => rw [hw] at e₁; exact ⟨_, e₁, fun op hop => hNo op (q₁ op hop)⟩
  | waiting t₁ => rw [hw] at e₁; exact ⟨_, e₁, fun op hop => hNo op (q₁ op hop)⟩
  | returned a t₁ =>
    rw [hw] at e₁ c₁
    simp only [Res.state] at e₁ c₁
    have hidx : t₁.m_flight_index = u.m_flight_index := c₁.flight_index
    have hf : t₁.m_flight_fences = u.m_flight_fences := c₁.fences
    have ha : t₁.m_image_avaliable_semaphores = u.m_image_avaliable_semaphores := c₁.avaliable
    have hr : t₁.m_render_finished_semaphores = u.m_render_finished_semaphores := c₁.finished
    have hc : t₁.m_command_buffers = u.m_command_buffers := c₁.command_buffers
    have e₂ := submitFrame_trace k.submitResult t₁
    rw [hidx, hf, ha, hr, hc, e₁, List.append_assoc] at e₂
    obtain ⟨S, hS⟩ : ∃ S : Op, S = .vkQueueSubmit
        [u.m_image_avaliable_semaphores.getD u.m_flight_index VK_NULL_HANDLE]
        [VK_PIPELINE_STAGE_COLOR_ATTACHMENT_OUTPUT_BIT]
        [u.m_command_buffers.getD u.m_flight_index VK_NULL_HANDLE]
        [u.m_render_finished_semaphores.getD u.m_flight_index VK_NULL_HANDLE]
        (u.m_flight_fences.getD u.m_flight_index VK_NULL_HANDLE) := ⟨_, rfl⟩
    rw [← hS] at e₂
    simp only [Res.andThen_returned]
    cases hs : submitFrame k.submitResult t₁ with
    | aborted d t₂ =>
      rw [hs] at e₂
      refine ⟨R₁ ++ [S], e₂, fun op hop => ?_⟩
      rcases List.mem_append.mp hop with h | h
      · exact hNo op (q₁ op h)
      · rw [List.mem_singleton.mp h, hS]
        exact ⟨fun _ => rfl, fun a => Bool.noConfusion a⟩
    | waiting t₂ =>
      rw [hs] at e₂
      refine ⟨R₁ ++ [S], e₂, fun op hop => ?_⟩
      rcases List.mem_append.mp hop with h | h
      · exact hNo op (q₁ op h)
      · rw [List.mem_singleton.mp h, hS]
        exact ⟨fun _ => rfl, fun a => Bool.noConfusion a⟩
    | returned a₂ t₂ =>
      have hidx₂ : t₂.m_flight_index = u.m_flight_index := by
        have := submitFrame_flight_index k.submitResult t₁
        rw [hs] at this
        exact this.trans hidx
      have hr₂ : t₂.m_render_finished_semaphores = u.m_render_finished_semaphores := by
        have : (submitFrame k.submitResult t₁).state.m_render_finished_semaphores =
            t₁.m_render_finished_semaphores := by
          unfold submitFrame
          simp [emit]
        rw [hs] at this
        exact this.trans hr
      rw [hs] at e₂
      simp only [Res.state] at e₂
      obtain ⟨R₃, e₃, q₃⟩ :=
        presentFrame_trace k.presentPlatform k.presentFuel k.presentResult t₂
      rw [hidx₂, hr₂, e₂, List.append_assoc] at e₃
      simp only [Res.andThen_returned]
      refine ⟨(R₁ ++ [S]) ++ (Op.vkQueuePresentKHR
        [u.m_render_finished_semaphores.getD u.m_flight_index VK_NULL_HANDLE]
        [t₂.m_swapchain] [t₂.m_image_index] :: R₃), ?_, fun op hop => ?_⟩
      · rw [Res.andThen_pure_state]
        exact e₃
      rcases List.mem_append.mp hop with h | h
      · rcases List.mem_append.mp h with h | h
        · exact hNo op (q₁ op h)
        · rw [List.mem_singleton.mp h, hS]
          exact ⟨fun _ => rfl, fun a => Bool.noConfusion a⟩
      rcases List.mem_cons.mp h with h | h
      · rw [h]
        exact ⟨fun a => Bool.noConfusion a, fun _ => ⟨_, _, rfl⟩⟩
      · exact hNo op (q₃ op h)

/-- C6, as stated, fails, in two ways. When the surface is lost while the swapchain is
re-created, `waitFrame` on `VK_ERROR_OUT_OF_DATE_KHR` does not return, it ends in the fatal
error of `createSwapchain`. And when the re-creation succeeds and the frame cycle goes on
with `submitFrame` and `presentFrame`, as it does after every returning `waitFrame`, the
tick submits the command buffer of slot 0 and presents, and the slot index moves from 0 to
1: a frame is produced for the tick, and the next tick waits on the fence of slot 1. -/
theorem out_of_date_tick_can_abort_or_produce_frame :
    (waitFrame lostSurfacePlatform 0 VK_ERROR_OUT_OF_DATE_KHR 1 sampleRHI).isReturned = false ∧
    (waitFrame lostSurfacePlatform 0 VK_ERROR_OUT_OF_DATE_KHR 1 sampleRHI).isAborted = true ∧
    ¬ ((waitFrame lostSurfacePlatform 0 VK_ERROR_OUT_OF_DATE_KHR 1 sampleRHI).isReturned = true) ∧
    outOfDateTick.acquireResult = VK_ERROR_OUT_OF_DATE_KHR ∧
    (runCalls outOfDateTick.calls sampleRHI).isReturned = true ∧
    (issued sampleRHI (runCalls outOfDateTick.calls sampleRHI)).filter Op.isQueueSubmit =
      [.vkQueueSubmit [40] [VK_PIPELINE_STAGE_COLOR_ATTACHMENT_OUTPUT_BIT] [61] [41] 50] ∧
    (issued sampleRHI (runCalls outOfDateTick.calls sampleRHI)).filter Op.isQueuePresent =
      [.vkQueuePresentKHR [41] [11] [1]] ∧
    sampleRHI.m_flight_index = 0 ∧
    (runCalls outOfDateTick.calls sampleRHI).state.m_flight_index = 1 ∧
    sampleRHI.m_flight_fences = [50, 51] ∧
    (issued (runCalls outOfDateTick.calls sampleRHI).state
        (runCalls sampleTick.calls (runCalls outOfDateTick.calls sampleRHI).state)).head? =
      some (.vkWaitForFences [51] true UINT64_MAX) := by
  decide

/-- C6, amended. When `vkAcquireNextImageKHR` returns `VK_ERROR_OUT_OF_DATE_KHR`,
`waitFrame` calls `recreateSwapchain` exactly once and does nothing after it: it ends as
that call ends, with no fatal error of its own; it issues no queue submission and no
presentation, and leaves the slot index and the slot objects unchanged; and it returns
when the window system answers a non-zero framebuffer size within the fuel and the
platform passes every check of the swapchain re-creation. So when nothing more is called
in that tick, no frame is produced for it and the next tick uses the same slot: whatever
the platform answers then, the frame cycle that starts in the state `waitFrame` left
begins with the wait on the fence of that slot and the acquire with its image-acquired
semaphore, submits nothing but the command buffer of that slot with its semaphores and
its fence, and presents only with its render-finished semaphore. -/
theorem waitFrame_out_of_date_recreates (p : Platform) (fuel : Nat) (image_index : Nat)
    (s : VulkanRHI) :
    waitFrame p fuel VK_ERROR_OUT_OF_DATE_KHR image_index s =
      recreateSwapchain p fuel (afterAcquireCall image_index s) ∧
    (issued s (waitFrame p fuel VK_ERROR_OUT_OF_DATE_KHR image_index s)).count
      .recreateSwapchainCall = 1 ∧
    (∀ op ∈ issued s (waitFrame p fuel VK_ERROR_OUT_OF_DATE_KHR image_index s),
      op.isQueueSubmit = false ∧ op.isQueuePresent = false) ∧
    (waitFrame p fuel VK_ERROR_OUT_OF_DATE_KHR image_index s).state.m_flight_index =
      s.m_flight_index ∧
    (waitFrame p fuel VK_ERROR_OUT_OF_DATE_KHR image_index s).state.m_flight_fences =
      s.m_flight_fences ∧
    (waitFrame p fuel VK_ERROR_OUT_OF_DATE_KHR image_index s).state.m_image_avaliable_semaphores =
      s.m_image_avaliable_semaphores ∧
    (p.canRecreate s.m_swapchain_image_count = true →
      (∃ j, j ≤ fuel ∧ ¬ zeroArea (p.framebufferSize (s.sizeQueries + j))) →
      (waitFrame p fuel VK_ERROR_OUT_OF_DATE_KHR image_index s).isReturned = true) ∧
    (waitFrame p fuel VK_ERROR_OUT_OF_DATE_KHR image_index s).state.m_render_finished_semaphores =
      s.m_render_finished_semaphores ∧
    (waitFrame p fuel VK_ERROR_OUT_OF_DATE_KHR image_index s).state.m_command_buffers =
      s.m_command_buffers ∧
    (∀ k : Tick, ∃ rest,
      issued (waitFrame p fuel VK_ERROR_OUT_OF_DATE_KHR image_index s).state
          (runCalls k.calls (waitFrame p fuel VK_ERROR_OUT_OF_DATE_KHR image_index s).state) =
        .vkWaitForFences [s.m_flight_fences.getD s.m_flight_index VK_NULL_HANDLE] true
            UINT64_MAX ::
          .vkAcquireNextImageKHR
            (waitFrame p fuel VK_ERROR_OUT_OF_DATE_KHR image_index s).state.m_swapchain
            UINT64_MAX
            (s.m_image_avaliable_semaphores.getD s.m_flight_index VK_NULL_HANDLE)
            VK_NULL_HANDLE :: rest ∧
      ∀ op ∈ rest,
        (op.isQueueSubmit = true →
          op = .vkQueueSubmit
            [s.m_image_avaliable_semaphores.getD s.m_flight_index VK_NULL_HANDLE]
            [VK_PIPELINE_STAGE_COLOR_ATTACHMENT_OUTPUT_BIT]
            [s.m_command_buffers.getD s.m_flight_index VK_NULL_HANDLE]
            [s.m_render_finished_semaphores.getD s.m_flight_index VK_NULL_HANDLE]
            (s.m_flight_fences.getD s.m_flight_index VK_NULL_HANDLE)) ∧
        (op.isQueuePresent = true →
          ∃ swapchain image, op = .vkQueuePresentKHR
            [s.m_render_finished_semaphores.getD s.m_flight_index VK_NULL_HANDLE]
            [swapchain] [image])) := by
  have c := waitFrame_continues p fuel VK_ERROR_OUT_OF_DATE_KHR image_index s
  obtain ⟨rest, e, q⟩ := waitFrame_trace p fuel VK_ERROR_OUT_OF_DATE_KHR image_index s
  have hidx : (waitFrame p fuel VK_ERROR_OUT_OF_DATE_KHR image_index s).state.m_flight_index =
      s.m_flight_index := c.flight_index
  have hf : (waitFrame p fuel VK_ERROR_OUT_OF_DATE_KHR image_index s).state.m_flight_fences =
      s.m_flight_fences := c.fences
  have ha : (waitFrame p fuel VK_ERROR_OUT_OF_DATE_KHR image_index
      s).state.m_image_avaliable_semaphores = s.m_image_avaliable_semaphores := c.avaliable
  have hr : (waitFrame p fuel VK_ERROR_OUT_OF_DATE_KHR image_index
      s).state.m_render_finished_semaphores = s.m_render_finished_semaphores := c.finished
  have hc : (waitFrame p fuel VK_ERROR_OUT_OF_DATE_KHR image_index s).state.m_command_buffers =
      s.m_command_buffers := c.command_buffers
  refine ⟨waitFrame_eq_recreateSwapchain p fuel image_index s, ?_, ?_, hidx, hf, ha, ?_, hr, hc,
    ?_⟩
  · rw [waitFrame_eq_recreateSwapchain,
      issued_of_traces (afterAcquireCall_trace image_index s)
        (recreateSwapchain_issued_trace p fuel _)]
    rw [List.count_append, recreateSwapchain_count_call]
    rfl
  · rw [issued_of_trace e]
    intro op hop
    rcases List.mem_cons.mp hop with rfl | hop
    · exact ⟨rfl, rfl⟩
    rcases List.mem_cons.mp hop with rfl | hop
    · exact ⟨rfl, rfl⟩
    · have := Op.isRecreateOp_not_frame op (q op hop)
      cases op <;> first | exact ⟨rfl, rfl⟩ | simp [Op.isFrameOp] at this
  · intro hp hz
    rw [waitFrame_eq_recreateSwapchain]
    exact recreateSwapchain_returns p fuel _ hp hz
  · intro k
    obtain ⟨next, e', q'⟩ :=
      tick_uses_slot k (waitFrame p fuel VK_ERROR_OUT_OF_DATE_KHR image_index s).state
    rw [hidx, hf, ha] at e'
    rw [hidx, hf, ha, hr, hc] at q'
    exact ⟨next, issued_of_trace e', q'⟩

/-- Witness of the amended C6: on the sample platform the window has a non-zero size and
the re-creation passes every check, and `waitFrame` returns. -/
theorem waitFrame_out_of_date_recreates_witness :
    samplePlatform.canRecreate sampleRHI.m_swapchain_image_count = true ∧
    (waitFrame samplePlatform 0 VK_ERROR_OUT_OF_DATE_KHR 1 sampleRHI).isReturned = true :=
  ⟨by decide,
    (waitFrame_out_of_date_recreates samplePlatform 0 1 sampleRHI).2.2.2.2.2.2.1 (by decide)
      ⟨0, Nat.le_refl 0, by decide⟩⟩

/-- C7, as stated, fails: a present that reports `VK_SUBOPTIMAL_KHR`, one of the three
expected results, aborts when the surface is lost during the swapchain re-creation; so
does a `waitFrame` whose acquire reports `VK_ERROR_OUT_OF_DATE_KHR`. -/
theorem frame_call_aborts_on_expected_result :
    ¬ ((presentFrame lostSurfacePlatform 0 VK_SUBOPTIMAL_KHR sampleRHI).isAborted = true ↔
        (VK_SUBOPTIMAL_KHR ≠ VK_SUCCESS ∧ VK_SUBOPTIMAL_KHR ≠ VK_SUBOPTIMAL_KHR ∧
          VK_SUBOPTIMAL_KHR ≠ VK_ERROR_OUT_OF_DATE_KHR)) ∧
    ¬ ((waitFrame lostSurfacePlatform 0 VK_ERROR_OUT_OF_DATE_KHR 1 sampleRHI).isAborted = true ↔
        (VK_ERROR_OUT_OF_DATE_KHR ≠ VK_SUCCESS ∧ VK_ERROR_OUT_OF_DATE_KHR ≠ VK_SUBOPTIMAL_KHR ∧
          VK_ERROR_OUT_OF_DATE_KHR ≠ VK_ERROR_OUT_OF_DATE_KHR)) := by
  decide

/-- C7, amended. With a failed `ASSERT` or `CHECK_VULKAN_RESULT` as abort: `waitFrame`
aborts if and only if the acquire result is none of `VK_SUCCESS`, `VK_SUBOPTIMAL_KHR`,
`VK_ERROR_OUT_OF_DATE_KHR`, or it is `VK_ERROR_OUT_OF_DATE_KHR` and the `recreateSwapchain`
call aborts; `submitFrame` aborts if and only if `vkQueueSubmit` does not return
`VK_SUCCESS`; `presentFrame` aborts if and only if the present result is none of the three,
or it is `VK_ERROR_OUT_OF_DATE_KHR` or `VK_SUBOPTIMAL_KHR` and the `recreateSwapchain` call
aborts. -/
theorem frame_calls_abort_iff :
    (∀ (p : Platform) (fuel : Nat) (result : VkResult) (image_index : Nat) (s : VulkanRHI),
      (waitFrame p fuel result image_index s).isAborted = true ↔
        (result ≠ VK_SUCCESS ∧ result ≠ VK_SUBOPTIMAL_KHR ∧ result ≠ VK_ERROR_OUT_OF_DATE_KHR) ∨
        (result = VK_ERROR_OUT_OF_DATE_KHR ∧
          (recreateSwapchain p fuel (afterAcquireCall image_index s)).isAborted = true)) ∧
    (∀ (result : VkResult) (s : VulkanRHI),
      (submitFrame result s).isAborted = true ↔ result ≠ VK_SUCCESS) ∧
    (∀ (p : Platform) (fuel : Nat) (result : VkResult) (s : VulkanRHI),
      (presentFrame p fuel result s).isAborted = true ↔
        (result ≠ VK_SUCCESS ∧ result ≠ VK_SUBOPTIMAL_KHR ∧ result ≠ VK_ERROR_OUT_OF_DATE_KHR) ∨
        ((result = VK_ERROR_OUT_OF_DATE_KHR ∨ result = VK_SUBOPTIMAL_KHR) ∧
          (recreateSwapchain p fuel (afterPresentCall s)).isAborted = true)) := by
  refine ⟨?_, ?_, ?_⟩
  · intro p fuel result image_index s
    rw [waitFrame_eq]
    by_cases h : result = VK_ERROR_OUT_OF_DATE_KHR
    · rw [if_pos h]
      simp [h]
    · rw [if_neg h]
      by_cases h₁ : result = VK_SUCCESS
      · subst h₁
        simp [ASSERT, Res.isAborted, h]
      · by_cases h₂ : result = VK_SUBOPTIMAL_KHR
        · subst h₂
          simp [ASSERT, Res.isAborted, h]
        · simp [ASSERT, h, h₁, h₂, Res.isAborted]
  · intro result s
    unfold submitFrame CHECK_VULKAN_RESULT
    by_cases h : result = VK_SUCCESS
    · simp [h, Res.isAborted]
    · simp [h, Res.isAborted]
  · intro p fuel result s
    rw [presentFrame_isAborted]
    by_cases h : result = VK_ERROR_OUT_OF_DATE_KHR ∨ result = VK_SUBOPTIMAL_KHR
    · rw [presentFrame_branch_recreate p fuel result _ h]
      rcases h with h | h <;> simp [h]
    · have h₁ : result ≠ VK_ERROR_OUT_OF_DATE_KHR := fun e => h (Or.inl e)
      have h₂ : result ≠ VK_SUBOPTIMAL_KHR := fun e => h (Or.inr e)
      by_cases h₀ : result = VK_SUCCESS
      · subst h₀
        rw [presentFrame_branch_success]
        simp [Res.isAborted, h₁, h₂]
      · rw [presentFrame_branch_unexpected p fuel result _ h₀ h₁ h₂]
        simp [Res.isAborted, h₀, h₁, h₂]

theorem presentFrame_issued_recreate (p : Platform) (fuel : Nat) (result : VkResult)
    (s : VulkanRHI) (h : result = VK_ERROR_OUT_OF_DATE_KHR ∨ result = VK_SUBOPTIMAL_KHR) :
    issued s (presentFrame p fuel result s) =
      [.vkQueuePresentKHR [s.m_render_finished_semaphores.getD s.m_flight_index VK_NULL_HANDLE]
        [s.m_swapchain] [s.m_image_index]] ++
      issued (afterPresentCall s) (recreateSwapchain p fuel (afterPresentCall s)) := by
  apply issued_of_trace
  rw [presentFrame_state_trace, presentFrame_branch_recreate p fuel result _ h,
    recreateSwapchain_issued_trace, afterPresentCall_trace, List.append_assoc]

theorem presentFrame_issued_success (p : Platform) (fuel : Nat) (s : VulkanRHI) :
    issued s (presentFrame p fuel VK_SUCCESS s) =
      [.vkQueuePresentKHR [s.m_render_finished_semaphores.getD s.m_flight_index VK_NULL_HANDLE]
        [s.m_swapchain] [s.m_image_index]] := by
  apply issued_of_trace
  rw [presentFrame_state_trace, presentFrame_branch_success]
  rfl

/-- C8, as stated, fails: when the surface is lost while the swapchain is re-created,
`presentFrame` on `VK_ERROR_OUT_OF_DATE_KHR` does not return normally, it ends in the fatal
error of `createSwapchain` and the slot index is not advanced. -/
theorem presentFrame_out_of_date_can_abort :
    (presentFrame lostSurfacePlatform 0 VK_ERROR_OUT_OF_DATE_KHR sampleRHI).isReturned = false ∧
    (presentFrame lostSurfacePlatform 0 VK_ERROR_OUT_OF_DATE_KHR sampleRHI).isAborted = true ∧
    ¬ ((presentFrame lostSurfacePlatform 0 VK_ERROR_OUT_OF_DATE_KHR sampleRHI).isReturned = true)
    := by
  decide

/-- C8, amended. When `vkQueuePresentKHR` returns `VK_ERROR_OUT_OF_DATE_KHR` or
`VK_SUBOPTIMAL_KHR`, `presentFrame` calls `recreateSwapchain` exactly once and treats the
result as no failure of its own: it returns exactly when that call returns and aborts
exactly when that call aborts, and it returns when the window system answers a non-zero
framebuffer size within the fuel and the platform passes every check of the swapchain
re-creation; when `vkQueuePresentKHR` returns `VK_SUCCESS`, `presentFrame` returns without
calling `recreateSwapchain`. -/
theorem presentFrame_recoverable_results (p : Platform) (fuel : Nat) (result : VkResult)
    (s : VulkanRHI) :
    (result = VK_ERROR_OUT_OF_DATE_KHR ∨ result = VK_SUBOPTIMAL_KHR →
      (issued s (presentFrame p fuel result s)).count .recreateSwapchainCall = 1 ∧
      (presentFrame p fuel result s).isReturned =
        (recreateSwapchain p fuel (afterPresentCall s)).isReturned ∧
      (presentFrame p fuel result s).isAborted =
        (recreateSwapchain p fuel (afterPresentCall s)).isAborted ∧
      (p.canRecreate s.m_swapchain_image_count = true →
        (∃ j, j ≤ fuel ∧ ¬ zeroArea (p.framebufferSize (s.sizeQueries + j))) →
        (presentFrame p fuel result s).isReturned = true)) ∧
    (result = VK_SUCCESS →
      (issued s (presentFrame p fuel result s)).count .recreateSwapchainCall = 0 ∧
      (presentFrame p fuel result s).isReturned = true) := by
  constructor
  · intro h
    have hret : (presentFrame p fuel result s).isReturned =
        (recreateSwapchain p fuel (afterPresentCall s)).isReturned := by
      rw [presentFrame_isReturned, presentFrame_branch_recreate p fuel result _ h]
    refine ⟨?_, hret, ?_, ?_⟩
    · rw [presentFrame_issued_recreate p fuel result s h, List.count_append,
        recreateSwapchain_count_call]
      rfl
    · rw [presentFrame_isAborted, presentFrame_branch_recreate p fuel result _ h]
    · intro hp hz
      rw [hret]
      exact recreateSwapchain_returns p fuel _ hp hz
  · intro h
    subst h
    refine ⟨?_, ?_⟩
    · rw [presentFrame_issued_success]
      rfl
    · rw [presentFrame_isReturned, presentFrame_branch_success]
      rfl

/-- Witness of the amended C8: on the sample platform a present that reports
`VK_SUBOPTIMAL_KHR` re-creates the swapchain once and returns. -/
theorem presentFrame_recoverable_results_witness :
    (issued sampleRHI (presentFrame samplePlatform 0 VK_SUBOPTIMAL_KHR sampleRHI)).count
      .recreateSwapchainCall = 1 ∧
    samplePlatform.canRecreate sampleRHI.m_swapchain_image_count = true ∧
    (presentFrame samplePlatform 0 VK_SUBOPTIMAL_KHR sampleRHI).isReturned = true :=
  ⟨((presentFrame_recoverable_results samplePlatform 0 VK_SUBOPTIMAL_KHR sampleRHI).1
      (Or.inr rfl)).1,
    by decide,
    ((presentFrame_recoverable_results samplePlatform 0 VK_SUBOPTIMAL_KHR sampleRHI).1
      (Or.inr rfl)).2.2.2 (by decide) ⟨0, Nat.le_refl 0, by decide⟩⟩

/-! ## Swapchain re-creation drains the device first -/

theorem Op.isWindowOp_isSizeDependentOp (op : Op) (h : op.isWindowOp = true) :
    op.isSizeDependentOp = false := (Op.isWindowOp_facts op h).2.1

/-- The calls of `recreateSwapchain` after the zero-area wait: `vkDeviceWaitIdle` first,
and every swapchain created afterwards has the selected extent. -/
theorem recreateSwapchain_tail_issued (p : Platform) (t : VulkanRHI) :
    ∃ body,
      ((createSwapchain p (emit .vkDeviceWaitIdle t)).andThen fun _ u =>
        createSwapchainObjects p
          (destroySwapchainObjects (emit (.vkDestroySwapchainKHR t.m_swapchain) u))).state.trace
        = t.trace ++ (.vkDeviceWaitIdle :: body) ∧
      ∀ ci, Op.vkCreateSwapchainKHR ci ∈ body → ci.imageExtent = selectedExtent p t.sizeQueries := by
  obtain ⟨qs, hq, hcase⟩ := createSwapchain_issued p (emit .vkDeviceWaitIdle t)
  have hqs : ∀ ci, Op.vkCreateSwapchainKHR ci ∉ qs := fun ci hm => by
    have := hq _ hm
    simp [Op.isSurfaceQueryOp] at this
  have hsq : (emit Op.vkDeviceWaitIdle t).sizeQueries = t.sizeQueries := rfl
  have htr : (emit Op.vkDeviceWaitIdle t).trace = t.trace ++ [.vkDeviceWaitIdle] := rfl
  rw [hsq, htr] at hcase
  -- the calls up to the end of `createSwapchain`
  have hfirst : ∃ body₁, (createSwapchain p (emit .vkDeviceWaitIdle t)).state.trace =
      t.trace ++ (.vkDeviceWaitIdle :: body₁) ∧
      ∀ ci, Op.vkCreateSwapchainKHR ci ∈ body₁ →
        ci.imageExtent = selectedExtent p t.sizeQueries := by
    rcases hcase with e | ⟨ci, hci, e⟩
    · exact ⟨qs, by rw [e]; simp, fun ci hm => absurd hm (hqs ci)⟩
    · refine ⟨qs ++ [.vkCreateSwapchainKHR ci], by rw [e]; simp, ?_⟩
      intro ci' hm
      rcases List.mem_append.mp hm with h | h
      · exact absurd h (hqs ci')
      · have := List.mem_singleton.mp h
        cases this
        exact hci
  obtain ⟨body₁, e₁, h₁⟩ := hfirst
  cases hcs : createSwapchain p (emit .vkDeviceWaitIdle t) with
  | aborted d u => rw [hcs] at e₁; exact ⟨body₁, e₁, h₁⟩
  | waiting u => rw [hcs] at e₁; exact ⟨body₁, e₁, h₁⟩
  | returned x u =>
    rw [hcs] at e₁
    simp only [Res.state] at e₁
    simp only [Res.andThen_returned]
    obtain ⟨-, -, -, -, -, -, objs, eo, qo⟩ :=
      (destroySwapchainObjects_continues (emit (.vkDestroySwapchainKHR t.m_swapchain) u)).trans
        (createSwapchainObjects_continues p _)
    refine ⟨body₁ ++ .vkDestroySwapchainKHR t.m_swapchain :: objs, ?_, ?_⟩
    · rw [eo]
      simp only [emit, e₁]
      simp
    · intro ci hm
      rcases List.mem_append.mp hm with h | h
      · exact h₁ ci h
      · rcases List.mem_cons.mp h with h | h
        · cases h
        · have := qo _ h
          simp [Op.isSwapchainObjectOp] at this

theorem zeroAreaWaitOps_not_device (p : Platform) (n : Nat) :
    ∀ q, ∀ op ∈ zeroAreaWaitOps p q n, op.isDeviceOp = false := by
  induction n with
  | zero => intro q op hop; simp [zeroAreaWaitOps] at hop
  | succ n ih =>
    intro q op hop
    simp only [zeroAreaWaitOps, List.mem_cons] at hop
    rcases hop with rfl | rfl | hop
    · rfl
    · rfl
    · exact ih _ op hop

/-- The zero-area wait of `recreateSwapchain` when the first `k` answers of the window
system have zero area and the next one has not. -/
theorem recreateSwapchain_wait_exact (p : Platform) (fuel : Nat) (s : VulkanRHI) (k : Nat)
    (hzero : ∀ j, j < k → zeroArea (p.framebufferSize (s.sizeQueries + j)))
    (hnz : ¬ zeroArea (p.framebufferSize (s.sizeQueries + k))) (hfuel : k ≤ fuel) :
    ∃ t, recreateSwapchain_loop p fuel (p.framebufferSize s.sizeQueries).1
        (p.framebufferSize s.sizeQueries).2 (recreateSwapchain_entry p s) =
        .returned (p.framebufferSize (s.sizeQueries + k)) t ∧
      t.trace = s.trace ++ (.recreateSwapchainCall ::
        .glfwGetFramebufferSize (p.framebufferSize s.sizeQueries).1
          (p.framebufferSize s.sizeQueries).2 :: zeroAreaWaitOps p (s.sizeQueries + 1) k) ∧
      t.sizeQueries = s.sizeQueries + k + 1 := by
  cases k with
  | zero =>
    refine ⟨recreateSwapchain_entry p s, ?_, ?_, rfl⟩
    · rw [recreateSwapchain_loop_nonzero p fuel _ _ _ (by simpa using hnz)]
      rfl
    · rw [recreateSwapchain_entry_trace]
      simp [zeroAreaWaitOps]
  | succ m =>
    have h := recreateSwapchain_loop_exact p m fuel (p.framebufferSize s.sizeQueries).1
      (p.framebufferSize s.sizeQueries).2 (recreateSwapchain_entry p s) (by omega)
      (by simpa using hzero 0 (by omega))
      (fun j hj => by
        have := hzero (j + 1) (by omega)
        simpa [recreateSwapchain_entry, Nat.add_assoc, Nat.add_comm 1 j] using this)
      (by simpa [recreateSwapchain_entry, Nat.add_assoc, Nat.add_comm 1 m] using hnz)
    have hq : (recreateSwapchain_entry p s).sizeQueries = s.sizeQueries + 1 := rfl
    have harith : s.sizeQueries + 1 + m = s.sizeQueries + (m + 1) := by omega
    rw [hq, harith] at h
    refine ⟨_, h, ?_, ?_⟩
    · show (recreateSwapchain_entry p s).trace ++ zeroAreaWaitOps p (s.sizeQueries + 1) (m + 1)
        = _
      rw [recreateSwapchain_entry_trace]
      simp
    · show s.sizeQueries + 1 + (m + 1) = s.sizeQueries + (m + 1) + 1
      omega

/-- C10, as stated, fails: the window system answers 1280x720 to the first size query,
yet the surface reports a current extent of 0x0 when the swapchain is created, and
`recreateSwapchain` creates a swapchain whose extent has zero width and zero height. -/
theorem recreateSwapchain_can_create_zero_extent :
    ¬ zeroArea (zeroExtentPlatform.framebufferSize sampleRHI.sizeQueries) ∧
    (recreateSwapchain zeroExtentPlatform 0 sampleRHI).isReturned = true ∧
    Op.vkCreateSwapchainKHR
      { minImageCount := 3, imageFormat := VK_FORMAT_B8G8R8A8_SRGB, imageColorSpace := 0
        imageExtent := { width := 0, height := 0 }, imageUsage := 19, preTransform := 1
        presentMode := VK_PRESENT_MODE_MAILBOX_KHR, oldSwapchain := 10 } ∈
      issued sampleRHI (recreateSwapchain zeroExtentPlatform 0 sampleRHI) := by
  decide

/-- C10, amended. With the window system as a stream of framebuffer-size answers: when the
first `k` answers have zero width or zero height and the next one has not,
`recreateSwapchain` first reads these `k + 1` answers, waiting for events after every
answer but the first, and only then issues its first device operation, `vkDeviceWaitIdle`;
so every swapchain is created after a size query that returned a non-zero width and
height. The extent of a swapchain it creates is the extent that
`getProperSwapchainSurfaceExtent` selects then: the current extent of the surface, or, when
the width of that is `UINT32_MAX`, the following size answer clamped to the image extent
limits of the surface. The call returns when the platform passes every check of the
re-creation. -/
theorem recreateSwapchain_zero_area_wait (p : Platform) (fuel : Nat) (s : VulkanRHI) (k : Nat)
    (hzero : ∀ j, j < k → zeroArea (p.framebufferSize (s.sizeQueries + j)))
    (hnz : ¬ zeroArea (p.framebufferSize (s.sizeQueries + k))) (hfuel : k ≤ fuel) :
    (∃ body, issued s (recreateSwapchain p fuel s) =
        (.recreateSwapchainCall ::
          .glfwGetFramebufferSize (p.framebufferSize s.sizeQueries).1
            (p.framebufferSize s.sizeQueries).2 ::
          zeroAreaWaitOps p (s.sizeQueries + 1) k) ++ .vkDeviceWaitIdle :: body ∧
      ∀ ci, Op.vkCreateSwapchainKHR ci ∈ body →
        ci.imageExtent = selectedExtent p (s.sizeQueries + k + 1)) ∧
    (∀ op ∈ Op.recreateSwapchainCall ::
        .glfwGetFramebufferSize (p.framebufferSize s.sizeQueries).1
          (p.framebufferSize s.sizeQueries).2 ::
        zeroAreaWaitOps p (s.sizeQueries + 1) k, op.isDeviceOp = false) ∧
    (p.capabilities.currentExtent.width ≠ UINT32_MAX →
      selectedExtent p (s.sizeQueries + k + 1) = p.capabilities.currentExtent) ∧
    (p.canRecreate s.m_swapchain_image_count = true →
      (recreateSwapchain p fuel s).isReturned = true) := by
  obtain ⟨t, hloop, htrace, hsq⟩ := recreateSwapchain_wait_exact p fuel s k hzero hnz hfuel
  refine ⟨?_, ?_, ?_, ?_⟩
  · obtain ⟨body, eb, hb⟩ := recreateSwapchain_tail_issued p t
    refine ⟨body, ?_, by rw [← hsq]; exact hb⟩
    apply issued_of_trace
    rw [recreateSwapchain_eq, hloop, Res.andThen_returned, eb, htrace, List.append_assoc]
  · intro op hop
    rcases List.mem_cons.mp hop with rfl | hop
    · rfl
    rcases List.mem_cons.mp hop with rfl | hop
    · rfl
    · exact zeroAreaWaitOps_not_device p k _ op hop
  · intro h
    unfold selectedExtent
    rw [if_pos h]
  · intro hp
    exact recreateSwapchain_returns p fuel s hp ⟨k, hfuel, hnz⟩

/-- Witness of the amended C10: the window is minimised for two size queries and 1920x1080
afterwards; the call reads three answers, waits for events twice, drains the device and
creates a 1920x1080 swapchain. -/
theorem recreateSwapchain_zero_area_wait_witness :
    (recreateSwapchain restoredPlatform 2 sampleRHI).isReturned = true ∧
    (issued sampleRHI (recreateSwapchain restoredPlatform 2 sampleRHI)).take 8 =
      [.recreateSwapchainCall, .glfwGetFramebufferSize 0 0, .glfwGetFramebufferSize 0 0,
       .glfwWaitEvents, .glfwGetFramebufferSize 1920 1080, .glfwWaitEvents,
       .vkDeviceWaitIdle, .vkGetPhysicalDeviceSurfaceCapabilitiesKHR] ∧
    Op.vkCreateSwapchainKHR
      { minImageCount := 3, imageFormat := VK_FORMAT_B8G8R8A8_SRGB, imageColorSpace := 0
        imageExtent := { width := 1920, height := 1080 }, imageUsage := 19, preTransform := 1
        presentMode := VK_PRESENT_MODE_MAILBOX_KHR, oldSwapchain := 10 } ∈
      issued sampleRHI (recreateSwapchain restoredPlatform 2 sampleRHI) :=
  ⟨(recreateSwapchain_zero_area_wait restoredPlatform 2 sampleRHI 2
      (fun j hj => by
        have : j = 0 ∨ j = 1 := by omega
        rcases this with rfl | rfl <;> decide)
      (by decide) (Nat.le_refl 2)).2.2.2 (by decide),
    by decide, by decide⟩

/-! ## The objects of the swapchain -/

theorem CHECK_VULKAN_RESULT_eq_returned {r : VkResult} {m : String} {s t : VulkanRHI} {a : Unit}
    (h : CHECK_VULKAN_RESULT r m s = .returned a t) : t = s ∧ r = VK_SUCCESS := by
  unfold CHECK_VULKAN_RESULT at h
  split at h
  · exact ⟨(Res.returned.inj h).2.symm, by assumption⟩
  · exact Res.noConfusion h

theorem ASSERT_returned_cond {c : Bool} {m : String} {s t : VulkanRHI} {a : Unit}
    (h : ASSERT c m s = .returned a t) : c = true := by
  unfold ASSERT at h
  split at h
  · assumption
  · exact Res.noConfusion h

theorem getProperImageFormat_returned {p : Platform} {candidates : List Nat}
    {tiling features : Nat} {s t : VulkanRHI} {format : Nat}
    (h : getProperImageFormat p candidates tiling features s = .returned format t) :
    (getProperImageFormat_loop p tiling features candidates).2 = some format ∧
    t = emitAll (getProperImageFormat_loop p tiling features candidates).1 s := by
  unfold getProperImageFormat at h
  dsimp only at h
  split at h
  · rename_i f hf
    obtain ⟨e₁, e₂⟩ := Res.returned.inj h
    exact ⟨by rw [hf, e₁], e₂.symm⟩
  · exact Res.noConfusion h

theorem take_imageCount_length (p : Platform) :
    (p.swapchainImages.take p.imageCount).length = p.imageCount := by
  rw [List.length_take]
  exact Nat.min_eq_left (Nat.mod_le _ _)

/-- What a returning `createSwapchainObjects` leaves behind, and the calls it issued. -/
theorem createSwapchainObjects_returned (p : Platform) (s t : VulkanRHI) (a : Unit)
    (h : createSwapchainObjects p s = .returned a t) :
    (s.m_swapchain_image_count = 0 ∨ s.m_swapchain_image_count = p.imageCount) ∧
    t.m_swapchain_image_count = p.imageCount ∧
    t.m_swapchain_image_views = (p.swapchainImages.take p.imageCount).map p.newImageView ∧
    t.m_framebuffers = t.m_swapchain_image_views.map p.newFramebuffer ∧
    t.m_extent = s.m_extent ∧
    (getProperImageFormat_loop p VK_IMAGE_TILING_OPTIMAL
      VK_FORMAT_FEATURE_DEPTH_STENCIL_ATTACHMENT_BIT
      [VK_FORMAT_D32_SFLOAT, VK_FORMAT_D32_SFLOAT_S8_UINT, VK_FORMAT_D24_UNORM_S8_UINT]).2 =
        some t.m_depth_format ∧
    t.trace = s.trace ++
      ([.vkGetSwapchainImagesKHR, .vkGetSwapchainImagesKHR] ++
        (p.swapchainImages.take p.imageCount).map (fun image =>
          createImageView_op image s.m_surface_format.format VK_IMAGE_ASPECT_COLOR_BIT 1) ++
        (getProperImageFormat_loop p VK_IMAGE_TILING_OPTIMAL
          VK_FORMAT_FEATURE_DEPTH_STENCIL_ATTACHMENT_BIT
          [VK_FORMAT_D32_SFLOAT, VK_FORMAT_D32_SFLOAT_S8_UINT, VK_FORMAT_D24_UNORM_S8_UINT]).1 ++
        [.vmaCreateImage s.m_extent.width s.m_extent.height 1 VK_SAMPLE_COUNT_1_BIT
            t.m_depth_format VK_IMAGE_TILING_OPTIMAL VK_IMAGE_USAGE_DEPTH_STENCIL_ATTACHMENT_BIT
            VMA_MEMORY_USAGE_AUTO_PREFER_DEVICE,
          createImageView_op p.newImage t.m_depth_format VK_IMAGE_ASPECT_DEPTH_BIT 1] ++
        t.m_swapchain_image_views.map (fun view =>
          .vkCreateFramebuffer s.m_render_pass [view, p.newImageView p.newImage]
            s.m_extent.width s.m_extent.height 1)) := by
  unfold createSwapchainObjects at h
  obtain ⟨_, t₁, h₁, h⟩ := Res.andThen_eq_returned h
  have hc := ASSERT_returned_cond h₁
  have e₁ := ASSERT_eq_returned h₁
  obtain ⟨f, t₂, h₂, h⟩ := Res.andThen_eq_returned h
  obtain ⟨hf, e₂⟩ := getProperImageFormat_returned h₂
  obtain ⟨_, t₃, h₃, h⟩ := Res.andThen_eq_returned h
  obtain ⟨e₃, -⟩ := CHECK_VULKAN_RESULT_eq_returned h₃
  have e := (Res.returned.inj h).2.symm
  clear h h₁ h₂ h₃
  -- the stored count
  have c₁ : t₁.m_swapchain_image_count = p.imageCount := by rw [e₁]; try rfl
  have c₂ : t₂.m_swapchain_image_count = t₁.m_swapchain_image_count := by rw [e₂]; try rfl
  have c₃ : t₃.m_swapchain_image_count = t₂.m_swapchain_image_count := by rw [e₃]; try rfl
  have c₄ : t.m_swapchain_image_count = t₃.m_swapchain_image_count := by rw [e]; try rfl
  -- the image views
  have v₂ : t₂.m_swapchain_image_views =
      (p.swapchainImages.take t₁.m_swapchain_image_count).map p.newImageView := by rw [e₂]; try rfl
  have v₃ : t₃.m_swapchain_image_views = t₂.m_swapchain_image_views := by rw [e₃]; try rfl
  have v₄ : t.m_swapchain_image_views = t₃.m_swapchain_image_views := by rw [e]; try rfl
  have b₄ : t.m_framebuffers = t₃.m_swapchain_image_views.map p.newFramebuffer := by
    rw [e]; try rfl
  -- the extent, the surface format and the render pass
  have x₁ : t₁.m_extent = s.m_extent := by rw [e₁]; try rfl
  have x₂ : t₂.m_extent = t₁.m_extent := by rw [e₂]; try rfl
  have x₃ : t₃.m_extent = t₂.m_extent := by rw [e₃]; try rfl
  have x₄ : t.m_extent = t₃.m_extent := by rw [e]; try rfl
  have sf₁ : t₁.m_surface_format = s.m_surface_format := by rw [e₁]; try rfl
  have r₁ : t₁.m_render_pass = s.m_render_pass := by rw [e₁]; try rfl
  have r₂ : t₂.m_render_pass = t₁.m_render_pass := by rw [e₂]; try rfl
  have r₃ : t₃.m_render_pass = t₂.m_render_pass := by rw [e₃]; try rfl
  -- the depth format and the depth image
  have d₃ : t₃.m_depth_format = f := by rw [e₃]; try rfl
  have d₄ : t.m_depth_format = t₃.m_depth_format := by rw [e]; try rfl
  have i₃ : t₃.m_depth_stencil_image_view.image = p.newImage := by rw [e₃]; try rfl
  -- the calls
  have tr₁ : t₁.trace = s.trace ++ [.vkGetSwapchainImagesKHR] := by rw [e₁]; try rfl
  have tr₂ : t₂.trace = t₁.trace ++ ([.vkGetSwapchainImagesKHR] ++
      (p.swapchainImages.take t₁.m_swapchain_image_count).map (fun image =>
        createImageView_op image t₁.m_surface_format.format VK_IMAGE_ASPECT_COLOR_BIT 1) ++
      (getProperImageFormat_loop p VK_IMAGE_TILING_OPTIMAL
        VK_FORMAT_FEATURE_DEPTH_STENCIL_ATTACHMENT_BIT
        [VK_FORMAT_D32_SFLOAT, VK_FORMAT_D32_SFLOAT_S8_UINT, VK_FORMAT_D24_UNORM_S8_UINT]).1) := by
    rw [e₂]
    simp only [emit, emitAll, List.append_assoc]
  have tr₃ : t₃.trace = t₂.trace ++
      [.vmaCreateImage t₂.m_extent.width t₂.m_extent.height 1 VK_SAMPLE_COUNT_1_BIT
        f VK_IMAGE_TILING_OPTIMAL VK_IMAGE_USAGE_DEPTH_STENCIL_ATTACHMENT_BIT
        VMA_MEMORY_USAGE_AUTO_PREFER_DEVICE] := by rw [e₃]; try rfl
  have tr₄ : t.trace = t₃.trace ++
      ([createImageView_op t₃.m_depth_stencil_image_view.image t₃.m_depth_format
          VK_IMAGE_ASPECT_DEPTH_BIT 1] ++
        t₃.m_swapchain_image_views.map (fun view =>
          .vkCreateFramebuffer t₃.m_render_pass
            [view, p.newImageView t₃.m_depth_stencil_image_view.image]
            t₃.m_extent.width t₃.m_extent.height 1)) := by
    rw [e]
    simp only [emit, emitAll, List.append_assoc]
  refine ⟨?_, ?_, ?_, ?_, ?_, ?_, ?_⟩
  · simp only [Bool.or_eq_true, beq_iff_eq] at hc
    exact hc
  · rw [c₄, c₃, c₂, c₁]
  · rw [v₄, v₃, v₂, c₁]
  · rw [b₄, v₄]
  · rw [x₄, x₃, x₂, x₁]
  · rw [d₄, d₃]; exact hf
  · rw [tr₄, tr₃, tr₂, tr₁, d₄, d₃, i₃, r₃, r₂, r₁, x₃, x₂, x₁, v₄, sf₁, c₁]
    simp only [List.append_assoc, List.cons_append, List.nil_append, List.singleton_append]
theorem createSwapchainObjects_change_aborts (p : Platform) (s : VulkanRHI)
    (h₀ : s.m_swapchain_image_count ≠ 0) (h : p.imageCount ≠ s.m_swapchain_image_count) :
    ∃ u, createSwapchainObjects p s =
      .aborted "swapchain image count shouldn't change" u := by
  have hc : (s.m_swapchain_image_count == 0 ||
      s.m_swapchain_image_count == p.swapchainImages.length % 4294967296) = false := by
    have h' : ¬ s.m_swapchain_image_count = p.swapchainImages.length % 4294967296 :=
      fun e => h e.symm
    simp [h₀, h']
  unfold createSwapchainObjects
  simp only [ASSERT, hc, Bool.false_eq_true, if_false, Res.andThen]
  exact ⟨_, rfl⟩

theorem createSwapchainObjects_sequence_counts (c : Nat) (hc : c ≠ 0) :
    ∀ (ps : List Platform) (s t : VulkanRHI) (a : Unit),
      s.m_swapchain_image_count = c → s.m_swapchain_image_views.length = c →
      s.m_framebuffers.length = c →
      createSwapchainObjects_sequence ps s = .returned a t →
      t.m_swapchain_image_count = c ∧ t.m_swapchain_image_views.length = c ∧
        t.m_framebuffers.length = c := by
  intro ps
  induction ps with
  | nil =>
    intro s t a h₁ h₂ h₃ h
    have e := (Res.returned.inj h).2
    rw [← e]
    exact ⟨h₁, h₂, h₃⟩
  | cons p ps ih =>
    intro s t a h₁ h₂ h₃ h
    unfold createSwapchainObjects_sequence at h
    obtain ⟨b, u, hu, h⟩ := Res.andThen_eq_returned h
    obtain ⟨k₀, k₁, k₂, k₃, -⟩ := createSwapchainObjects_returned p s u b hu
    have hp : p.imageCount = c := by
      rcases k₀ with k | k
      · exact absurd (h₁.symm.trans k) hc
      · exact k.symm.trans h₁
    have l₂ : u.m_swapchain_image_views.length = c := by
      rw [k₂, List.length_map, take_imageCount_length, hp]
    have l₃ : u.m_framebuffers.length = c := by
      rw [k₃, List.length_map, l₂]
    exact ih u t a (k₁.trans hp) l₂ l₃ h

theorem land_eq_iff_containsBits (mask required : Nat) :
    mask &&& required = required ↔ containsBits mask required := by
  unfold containsBits
  constructor
  · intro h i hi
    have := congrArg (fun n => n.testBit i) h
    simp only [Nat.testBit_and, hi, Bool.and_true] at this
    exact this
  · intro h
    apply Nat.eq_of_testBit_eq
    intro i
    rw [Nat.testBit_and]
    cases hr : required.testBit i
    · simp
    · simp [h i hr]

/-- The test of the loop of `getProperImageFormat`, for one of the two tilings. -/
theorem getProperImageFormat_test (p : Platform) (tiling features format : Nat)
    (ht : tiling = VK_IMAGE_TILING_LINEAR ∨ tiling = VK_IMAGE_TILING_OPTIMAL) :
    ((tiling == VK_IMAGE_TILING_LINEAR &&
        (p.formatProperties format).linearTilingFeatures &&& features == features) ||
      (tiling == VK_IMAGE_TILING_OPTIMAL &&
        (p.formatProperties format).optimalTilingFeatures &&& features == features)) = true ↔
    containsBits (tilingFeatures p tiling format) features := by
  rw [← land_eq_iff_containsBits]
  rcases ht with rfl | rfl
  · simp [tilingFeatures, VK_IMAGE_TILING_LINEAR, VK_IMAGE_TILING_OPTIMAL]
  · simp [tilingFeatures, VK_IMAGE_TILING_LINEAR, VK_IMAGE_TILING_OPTIMAL]

/-- The choice of the loop of `getProperImageFormat`: the earliest candidate that passes the
test, none when no candidate passes. -/
theorem getProperImageFormat_loop_choice (p : Platform) (tiling features : Nat)
    (ht : tiling = VK_IMAGE_TILING_LINEAR ∨ tiling = VK_IMAGE_TILING_OPTIMAL) :
    ∀ candidates : List Nat,
      (∃ pre format post, candidates = pre ++ format :: post ∧
        containsBits (tilingFeatures p tiling format) features ∧
        (∀ g ∈ pre, ¬ containsBits (tilingFeatures p tiling g) features) ∧
        (getProperImageFormat_loop p tiling features candidates).2 = some format) ∨
      ((∀ g ∈ candidates, ¬ containsBits (tilingFeatures p tiling g) features) ∧
        (getProperImageFormat_loop p tiling features candidates).2 = none) := by
  intro candidates
  induction candidates with
  | nil => exact Or.inr ⟨by simp, rfl⟩
  | cons format candidates ih =>
    unfold getProperImageFormat_loop
    dsimp only
    by_cases hq : containsBits (tilingFeatures p tiling format) features
    · rw [if_pos ((getProperImageFormat_test p tiling features format ht).mpr hq)]
      exact Or.inl ⟨[], format, candidates, rfl, hq, by simp, rfl⟩
    · rw [if_neg (fun h => hq ((getProperImageFormat_test p tiling features format ht).mp h))]
      rcases ih with ⟨pre, f, post, e, hf, hpre, hr⟩ | ⟨hall, hr⟩
      · refine Or.inl ⟨format :: pre, f, post, by rw [e]; rfl, hf, ?_, hr⟩
        intro g hg
        rcases List.mem_cons.mp hg with rfl | hg
        · exact hq
        · exact hpre g hg
      · refine Or.inr ⟨?_, hr⟩
        intro g hg
        rcases List.mem_cons.mp hg with rfl | hg
        · exact hq
        · exact hall g hg
/-- C11, as stated, fails: a first `createSwapchainObjects` call on a swapchain that
reports no image leaves the stored count at 0, so the assertion lets the next call store
a count of 3; both calls complete, and the count, the image views and the framebuffers
after the second call differ from those after the first. -/
theorem createSwapchainObjects_count_can_change :
    blankRHI.m_swapchain_image_count = 0 ∧
    (createSwapchainObjects_sequence [noImagePlatform] blankRHI).isReturned = true ∧
    (createSwapchainObjects_sequence [noImagePlatform, samplePlatform] blankRHI).isReturned
      = true ∧
    (createSwapchainObjects_sequence [noImagePlatform] blankRHI).state.m_swapchain_image_count
      = 0 ∧
    (createSwapchainObjects_sequence [noImagePlatform, samplePlatform]
      blankRHI).state.m_swapchain_image_count = 3 ∧
    (createSwapchainObjects_sequence [noImagePlatform]
      blankRHI).state.m_swapchain_image_views.length = 0 ∧
    (createSwapchainObjects_sequence [noImagePlatform, samplePlatform]
      blankRHI).state.m_swapchain_image_views.length = 3 ∧
    (createSwapchainObjects_sequence [noImagePlatform] blankRHI).state.m_framebuffers.length
      = 0 ∧
    (createSwapchainObjects_sequence [noImagePlatform, samplePlatform]
      blankRHI).state.m_framebuffers.length = 3 := by
  decide

/-- C11, amended. When the first `createSwapchainObjects` call reports a non-zero image
count, then for every sequence of calls that all complete, whatever the count stored
before the first call, the stored count, the number of image views and the number of
framebuffers after the last call are those after the first call, namely the count the
first call reported; and a call that reports a count different from a stored non-zero
count ends in the assertion failure "swapchain image count shouldn't change". -/
theorem createSwapchainObjects_image_count_invariant (p₀ : Platform) (ps : List Platform)
    (s : VulkanRHI) (h₁ : p₀.imageCount ≠ 0)
    (hr : (createSwapchainObjects_sequence (p₀ :: ps) s).isReturned = true) :
    (createSwapchainObjects_sequence [p₀] s).isReturned = true ∧
    (createSwapchainObjects_sequence [p₀] s).state.m_swapchain_image_count = p₀.imageCount ∧
    (createSwapchainObjects_sequence [p₀] s).state.m_swapchain_image_views.length =
      p₀.imageCount ∧
    (createSwapchainObjects_sequence [p₀] s).state.m_framebuffers.length = p₀.imageCount ∧
    (createSwapchainObjects_sequence (p₀ :: ps) s).state.m_swapchain_image_count =
      (createSwapchainObjects_sequence [p₀] s).state.m_swapchain_image_count ∧
    (createSwapchainObjects_sequence (p₀ :: ps) s).state.m_swapchain_image_views.length =
      (createSwapchainObjects_sequence [p₀] s).state.m_swapchain_image_views.length ∧
    (createSwapchainObjects_sequence (p₀ :: ps) s).state.m_framebuffers.length =
      (createSwapchainObjects_sequence [p₀] s).state.m_framebuffers.length ∧
    (∀ (p : Platform) (u : VulkanRHI), u.m_swapchain_image_count ≠ 0 →
      p.imageCount ≠ u.m_swapchain_image_count →
      ∃ v, createSwapchainObjects p u =
        .aborted "swapchain image count shouldn't change" v) := by
  cases hs : createSwapchainObjects_sequence (p₀ :: ps) s with
  | aborted d u => rw [hs] at hr; exact absurd hr (by simp [Res.isReturned])
  | waiting u => rw [hs] at hr; exact absurd hr (by simp [Res.isReturned])
  | returned a t =>
    have hs' := hs
    unfold createSwapchainObjects_sequence at hs'
    obtain ⟨b, u, hu, hrest⟩ := Res.andThen_eq_returned hs'
    have hone : createSwapchainObjects_sequence [p₀] s = .returned () u := by
      unfold createSwapchainObjects_sequence
      rw [hu]
      rfl
    obtain ⟨-, k₁, k₂, k₃, -⟩ := createSwapchainObjects_returned p₀ s u b hu
    have l₂ : u.m_swapchain_image_views.length = p₀.imageCount := by
      rw [k₂, List.length_map, take_imageCount_length]
    have l₃ : u.m_framebuffers.length = p₀.imageCount := by
      rw [k₃, List.length_map, l₂]
    obtain ⟨m₁, m₂, m₃⟩ :=
      createSwapchainObjects_sequence_counts p₀.imageCount h₁ ps u t a k₁ l₂ l₃ hrest
    rw [hone]
    simp only [Res.state, Res.isReturned]
    exact ⟨trivial, k₁, l₂, l₃, m₁.trans k₁.symm, m₂.trans l₂.symm, m₃.trans l₃.symm,
      fun p u h₀ h => createSwapchainObjects_change_aborts p u h₀ h⟩

/-- Witness of the amended C11: three calls on the sample platform, which reports three
images, starting from the blank state; all complete and the count stays 3. -/
theorem createSwapchainObjects_image_count_invariant_witness :
    samplePlatform.imageCount ≠ 0 ∧
    (createSwapchainObjects_sequence [samplePlatform, samplePlatform, samplePlatform]
      blankRHI).isReturned = true ∧
    (createSwapchainObjects_sequence [samplePlatform, samplePlatform, samplePlatform]
      blankRHI).state.m_swapchain_image_count =
      (createSwapchainObjects_sequence [samplePlatform] blankRHI).state.m_swapchain_image_count :=
  ⟨by decide, by decide,
    (createSwapchainObjects_image_count_invariant samplePlatform [samplePlatform, samplePlatform]
      blankRHI (by decide) (by decide)).2.2.2.2.1⟩

/-- C12. For a linear or optimal tiling, `getProperImageFormat` returns the earliest
candidate whose feature mask for that tiling contains every required bit, and ends in the
fatal error "failed to find a proper image format" exactly when no candidate has such a
mask; the depth format that a returning `createSwapchainObjects` stores is the first of
`D32_SFLOAT`, `D32_SFLOAT_S8_UINT`, `D24_UNORM_S8_UINT` whose optimal-tiling features
contain the depth-stencil attachment bit. -/
theorem getProperImageFormat_first_qualifying (p : Platform) (candidates : List Nat)
    (tiling features : Nat) (s : VulkanRHI)
    (ht : tiling = VK_IMAGE_TILING_LINEAR ∨ tiling = VK_IMAGE_TILING_OPTIMAL) :
    ((∃ pre format post, candidates = pre ++ format :: post ∧
        containsBits (tilingFeatures p tiling format) features ∧
        (∀ g ∈ pre, ¬ containsBits (tilingFeatures p tiling g) features) ∧
        ∃ t, getProperImageFormat p candidates tiling features s = .returned format t) ∨
      ((∀ g ∈ candidates, ¬ containsBits (tilingFeatures p tiling g) features) ∧
        ∃ t, getProperImageFormat p candidates tiling features s =
          .aborted "failed to find a proper image format" t)) ∧
    ((getProperImageFormat p candidates tiling features s).isAborted = true ↔
      ∀ g ∈ candidates, ¬ containsBits (tilingFeatures p tiling g) features) ∧
    (∀ (q : Platform) (u v : VulkanRHI) (a : Unit), createSwapchainObjects q u = .returned a v →
      ∃ pre post,
        [VK_FORMAT_D32_SFLOAT, VK_FORMAT_D32_SFLOAT_S8_UINT, VK_FORMAT_D24_UNORM_S8_UINT] =
          pre ++ v.m_depth_format :: post ∧
        containsBits (q.formatProperties v.m_depth_format).optimalTilingFeatures
          VK_FORMAT_FEATURE_DEPTH_STENCIL_ATTACHMENT_BIT ∧
        ∀ g ∈ pre, ¬ containsBits (q.formatProperties g).optimalTilingFeatures
          VK_FORMAT_FEATURE_DEPTH_STENCIL_ATTACHMENT_BIT) := by
  have hmain : (∃ pre format post, candidates = pre ++ format :: post ∧
        containsBits (tilingFeatures p tiling format) features ∧
        (∀ g ∈ pre, ¬ containsBits (tilingFeatures p tiling g) features) ∧
        ∃ t, getProperImageFormat p candidates tiling features s = .returned format t) ∨
      ((∀ g ∈ candidates, ¬ containsBits (tilingFeatures p tiling g) features) ∧
        ∃ t, getProperImageFormat p candidates tiling features s =
          .aborted "failed to find a proper image format" t) := by
    rcases getProperImageFormat_loop_choice p tiling features ht candidates with
      ⟨pre, f, post, e, hf, hpre, hr⟩ | ⟨hall, hr⟩
    · refine Or.inl ⟨pre, f, post, e, hf, hpre, ?_⟩
      unfold getProperImageFormat
      simp only [hr]
      exact ⟨_, rfl⟩
    · refine Or.inr ⟨hall, ?_⟩
      unfold getProperImageFormat
      simp only [hr, LOG_FATAL]
      exact ⟨_, rfl⟩
  refine ⟨hmain, ?_, ?_⟩
  · rcases hmain with ⟨pre, f, post, e, hf, -, t, ht'⟩ | ⟨hall, t, ht'⟩
    · rw [ht']
      constructor
      · intro h; exact absurd h (by simp [Res.isAborted])
      · intro h
        exact absurd hf (h f (by rw [e]; simp))
    · rw [ht']
      exact ⟨fun _ => hall, fun _ => rfl⟩
  · intro q u v a h
    obtain ⟨-, -, -, -, -, hd, -⟩ := createSwapchainObjects_returned q u v a h
    rcases getProperImageFormat_loop_choice q VK_IMAGE_TILING_OPTIMAL
        VK_FORMAT_FEATURE_DEPTH_STENCIL_ATTACHMENT_BIT (Or.inr rfl)
        [VK_FORMAT_D32_SFLOAT, VK_FORMAT_D32_SFLOAT_S8_UINT, VK_FORMAT_D24_UNORM_S8_UINT] with
      ⟨pre, f, post, e, hf, hpre, hr⟩ | ⟨-, hr⟩
    · have ef : f = v.m_depth_format := Option.some.inj (hr.symm.trans hd)
      subst ef
      exact ⟨pre, post, e, hf, hpre⟩
    · rw [hr] at hd
      exact Option.noConfusion hd

/-- Witness of C12: the depth format request of `createSwapchainObjects` on the sample
platform, whose formats all support a depth-stencil attachment with optimal tiling. -/
theorem getProperImageFormat_first_qualifying_witness :
    (VK_IMAGE_TILING_OPTIMAL = VK_IMAGE_TILING_LINEAR ∨
      VK_IMAGE_TILING_OPTIMAL = VK_IMAGE_TILING_OPTIMAL) ∧
    (getProperImageFormat samplePlatform
      [VK_FORMAT_D32_SFLOAT, VK_FORMAT_D32_SFLOAT_S8_UINT, VK_FORMAT_D24_UNORM_S8_UINT]
      VK_IMAGE_TILING_OPTIMAL VK_FORMAT_FEATURE_DEPTH_STENCIL_ATTACHMENT_BIT sampleRHI).isAborted
      = false ∧
    ¬ ∀ g ∈ [VK_FORMAT_D32_SFLOAT, VK_FORMAT_D32_SFLOAT_S8_UINT, VK_FORMAT_D24_UNORM_S8_UINT],
      ¬ containsBits (tilingFeatures samplePlatform VK_IMAGE_TILING_OPTIMAL g)
        VK_FORMAT_FEATURE_DEPTH_STENCIL_ATTACHMENT_BIT :=
  ⟨Or.inr rfl, by decide, fun h =>
    absurd ((getProperImageFormat_first_qualifying samplePlatform
      [VK_FORMAT_D32_SFLOAT, VK_FORMAT_D32_SFLOAT_S8_UINT, VK_FORMAT_D24_UNORM_S8_UINT]
      VK_IMAGE_TILING_OPTIMAL VK_FORMAT_FEATURE_DEPTH_STENCIL_ATTACHMENT_BIT sampleRHI
      (Or.inr rfl)).2.1.mpr h) (by decide)⟩

/-! ## The names and features required at set-up -/

theorem checkRequiredNames_cases (message : String) (supported : List String) :
    ∀ (required : List String) (s : VulkanRHI),
      ((∃ r ∈ required, r ∉ supported) ∧
        checkRequiredNames message supported required s = .aborted message s) ∨
      ((∀ r ∈ required, r ∈ supported) ∧
        checkRequiredNames message supported required s = .returned () s) := by
  intro required
  induction required with
  | nil => intro s; exact Or.inr ⟨by simp, rfl⟩
  | cons r rest ih =>
    intro s
    unfold checkRequiredNames
    by_cases hr : r ∈ supported
    · have hc : supported.contains r = true := by simpa using hr
      rw [if_pos hc]
      rcases ih s with ⟨⟨x, hx, hn⟩, e⟩ | ⟨hall, e⟩
      · exact Or.inl ⟨⟨x, List.mem_cons_of_mem _ hx, hn⟩, e⟩
      · refine Or.inr ⟨?_, e⟩
        intro x hx
        rcases List.mem_cons.mp hx with rfl | hx
        · exact hr
        · exact hall x hx
    · have hc : ¬ supported.contains r = true := by simpa using hr
      rw [if_neg hc]
      exact Or.inl ⟨⟨r, List.mem_cons_self _ _, hr⟩, rfl⟩

/-- A check of required names followed by the return of the names. -/
theorem checkRequiredNames_then (message : String) (supported required : List String)
    (s : VulkanRHI) :
    (((checkRequiredNames message supported required s).andThen fun _ t =>
        (.returned required t : Res (List String))).isAborted = true ↔
      ∃ r ∈ required, r ∉ supported) ∧
    ((∃ r ∈ required, r ∉ supported) →
      ((checkRequiredNames message supported required s).andThen fun _ t =>
        (.returned required t : Res (List String))) = .aborted message s) ∧
    ((∀ r ∈ required, r ∈ supported) →
      ((checkRequiredNames message supported required s).andThen fun _ t =>
        (.returned required t : Res (List String))) = .returned required s) := by
  rcases checkRequiredNames_cases message supported required s with ⟨hex, e⟩ | ⟨hall, e⟩
  · rw [e]
    refine ⟨⟨fun _ => hex, fun _ => rfl⟩, fun _ => rfl, fun h => ?_⟩
    obtain ⟨r, hr, hn⟩ := hex
    exact absurd (h r hr) hn
  · rw [e]
    refine ⟨⟨fun h => absurd h (by simp [Res.andThen, Res.isAborted]), fun ⟨r, hr, hn⟩ =>
      absurd (hall r hr) hn⟩, fun ⟨r, hr, hn⟩ => absurd (hall r hr) hn, fun _ => rfl⟩

/-- C13. Each of `getRequiredInstanceExtensions`, `getRequiredInstanceLayers` and
`getRequiredDeviceExtensions` ends in its fatal error exactly when one of its required
names is absent from the supported names, and otherwise returns exactly the required
names in order: the GLFW extensions followed by the debug-utils extension when the
validation layer is enabled; the Khronos validation layer when it is enabled; the
swapchain device extension. -/
theorem required_names_are_checked (ENABLE_VALIDATION_LAYER : Bool)
    (supported glfw : List String) (s : VulkanRHI) :
    (((getRequiredInstanceExtensions ENABLE_VALIDATION_LAYER supported glfw s).isAborted = true ↔
        ∃ r ∈ glfw ++ (if ENABLE_VALIDATION_LAYER then [VK_EXT_DEBUG_UTILS_EXTENSION_NAME]
          else []), r ∉ supported) ∧
      ((∃ r ∈ glfw ++ (if ENABLE_VALIDATION_LAYER then [VK_EXT_DEBUG_UTILS_EXTENSION_NAME]
          else []), r ∉ supported) →
        ∃ t, getRequiredInstanceExtensions ENABLE_VALIDATION_LAYER supported glfw s =
          .aborted "required instance extension \x7b\x7d is not supported" t) ∧
      ((∀ r ∈ glfw ++ (if ENABLE_VALIDATION_LAYER then [VK_EXT_DEBUG_UTILS_EXTENSION_NAME]
          else []), r ∈ supported) →
        ∃ t, getRequiredInstanceExtensions ENABLE_VALIDATION_LAYER supported glfw s =
          .returned (glfw ++ (if ENABLE_VALIDATION_LAYER then
            [VK_EXT_DEBUG_UTILS_EXTENSION_NAME] else [])) t)) ∧
    (((getRequiredInstanceLayers ENABLE_VALIDATION_LAYER supported s).isAborted = true ↔
        ∃ r ∈ (if ENABLE_VALIDATION_LAYER then ["VK_LAYER_KHRONOS_validation"] else []),
          r ∉ supported) ∧
      ((∃ r ∈ (if ENABLE_VALIDATION_LAYER then ["VK_LAYER_KHRONOS_validation"] else []),
          r ∉ supported) →
        ∃ t, getRequiredInstanceLayers ENABLE_VALIDATION_LAYER supported s =
          .aborted "required instance layer \x7b\x7d is not supported" t) ∧
      ((∀ r ∈ (if ENABLE_VALIDATION_LAYER then ["VK_LAYER_KHRONOS_validation"] else []),
          r ∈ supported) →
        ∃ t, getRequiredInstanceLayers ENABLE_VALIDATION_LAYER supported s =
          .returned (if ENABLE_VALIDATION_LAYER then ["VK_LAYER_KHRONOS_validation"]
            else []) t)) ∧
    (((getRequiredDeviceExtensions supported s).isAborted = true ↔
        ∃ r ∈ [VK_KHR_SWAPCHAIN_EXTENSION_NAME], r ∉ supported) ∧
      ((∃ r ∈ [VK_KHR_SWAPCHAIN_EXTENSION_NAME], r ∉ supported) →
        ∃ t, getRequiredDeviceExtensions supported s =
          .aborted "required device extension \x7b\x7d is not supported" t) ∧
      ((∀ r ∈ [VK_KHR_SWAPCHAIN_EXTENSION_NAME], r ∈ supported) →
        ∃ t, getRequiredDeviceExtensions supported s =
          .returned [VK_KHR_SWAPCHAIN_EXTENSION_NAME] t)) := by
  refine ⟨?_, ?_, ?_⟩
  · unfold getRequiredInstanceExtensions
    dsimp only
    obtain ⟨h₁, h₂, h₃⟩ := checkRequiredNames_then
      "required instance extension \x7b\x7d is not supported" supported
      (if ENABLE_VALIDATION_LAYER = true then glfw ++ [VK_EXT_DEBUG_UTILS_EXTENSION_NAME]
        else glfw)
      (emit (.lifecycle .glfwGetRequiredInstanceExtensions)
        (emit (.lifecycle .vkEnumerateInstanceExtensionProperties)
          (emit (.lifecycle .vkEnumerateInstanceExtensionProperties) s)))
    cases ENABLE_VALIDATION_LAYER
    · simp only [Bool.false_eq_true, if_false, List.append_nil] at h₁ h₂ h₃ ⊢
      exact ⟨h₁, fun h => ⟨_, h₂ h⟩, fun h => ⟨_, h₃ h⟩⟩
    · simp only [if_true] at h₁ h₂ h₃ ⊢
      exact ⟨h₁, fun h => ⟨_, h₂ h⟩, fun h => ⟨_, h₃ h⟩⟩
  · unfold getRequiredInstanceLayers
    dsimp only
    obtain ⟨h₁, h₂, h₃⟩ := checkRequiredNames_then
      "required instance layer \x7b\x7d is not supported" supported
      (if ENABLE_VALIDATION_LAYER = true then [] ++ ["VK_LAYER_KHRONOS_validation"] else [])
      (emit (.lifecycle .vkEnumerateInstanceLayerProperties)
        (emit (.lifecycle .vkEnumerateInstanceLayerProperties) s))
    cases ENABLE_VALIDATION_LAYER
    · simp only [Bool.false_eq_true, if_false] at h₁ h₂ h₃ ⊢
      exact ⟨h₁, fun h => ⟨_, h₂ h⟩, fun h => ⟨_, h₃ h⟩⟩
    · simp only [if_true, List.nil_append] at h₁ h₂ h₃ ⊢
      exact ⟨h₁, fun h => ⟨_, h₂ h⟩, fun h => ⟨_, h₃ h⟩⟩
  · unfold getRequiredDeviceExtensions
    dsimp only
    obtain ⟨h₁, h₂, h₃⟩ := checkRequiredNames_then
      "required device extension \x7b\x7d is not supported" supported
      [VK_KHR_SWAPCHAIN_EXTENSION_NAME]
      (emit (.lifecycle (.vkEnumerateDeviceExtensionProperties s.m_physical_device))
        (emit (.lifecycle (.vkEnumerateDeviceExtensionProperties s.m_physical_device)) s))
    exact ⟨h₁, fun h => ⟨_, h₂ h⟩, fun h => ⟨_, h₃ h⟩⟩
/-! ## The queue families -/

theorem firstFamily_some (test : Nat → Bool) :
    ∀ (families : List Nat) (i : Nat), firstFamily test families = some i →
      i < families.length ∧ test (families.getD i 0) = true ∧
        ∀ j, j < i → test (families.getD j 0) = false := by
  intro families
  induction families with
  | nil => intro i h; exact Option.noConfusion h
  | cons f rest ih =>
    intro i h
    unfold firstFamily at h
    by_cases hf : test f = true
    · rw [if_pos hf] at h
      have e : 0 = i := Option.some.inj h
      subst e
      exact ⟨by simp, by simpa using hf, fun j hj => absurd hj (Nat.not_lt_zero j)⟩
    · rw [if_neg hf] at h
      cases hr : firstFamily test rest with
      | none => rw [hr] at h; exact Option.noConfusion h
      | some k =>
        rw [hr] at h
        have e : k + 1 = i := Option.some.inj h
        subst e
        obtain ⟨h₁, h₂, h₃⟩ := ih k hr
        refine ⟨by simpa using h₁, by simpa using h₂, ?_⟩
        intro j hj
        cases j with
        | zero => simpa using hf
        | succ j => simpa using h₃ j (Nat.lt_of_succ_lt_succ hj)

theorem firstFamily_none (test : Nat → Bool) :
    ∀ families : List Nat, firstFamily test families = none ↔
      ∀ f ∈ families, test f = false := by
  intro families
  induction families with
  | nil => simp [firstFamily]
  | cons f rest ih =>
    unfold firstFamily
    by_cases hf : test f = true
    · rw [if_pos hf]
      simp [hf]
    · rw [if_neg hf]
      simp only [Option.map_eq_none', ih, List.mem_cons, forall_eq_or_imp]
      simp [hf]

theorem containsBits_of_single_bit (k requested flags : Nat)
    (hq : requested &&& 2 ^ k = requested) (hf : flags &&& 2 ^ k ≠ 0) :
    containsBits flags requested := by
  intro i hi
  have h₁ : (requested &&& 2 ^ k).testBit i = true := by rw [hq]; exact hi
  rw [Nat.testBit_and, Nat.testBit_two_pow] at h₁
  simp only [Bool.and_eq_true, decide_eq_true_eq] at h₁
  obtain ⟨-, rfl⟩ := h₁
  by_contra hn
  apply hf
  apply Nat.eq_of_testBit_eq
  intro j
  rw [Nat.testBit_and, Nat.testBit_two_pow, Nat.zero_testBit]
  by_cases hj : k = j
  · subst hj
    have hb : flags.testBit k = false := by simpa using hn
    simp [hb]
  · simp [hj]

theorem getQueueFamilyIndex_search_some (queue_flags : Nat) (families : List Nat) (i : Nat)
    (h : getQueueFamilyIndex_search queue_flags families = some i) :
    i < families.length ∧ containsBits (families.getD i 0) queue_flags := by
  unfold getQueueFamilyIndex_search at h
  split at h
  · rename_i k hk
    have e : k = i := Option.some.inj h
    subst e
    split at hk
    · rename_i hc
      obtain ⟨h₁, h₂, -⟩ := firstFamily_some _ _ _ hk
      refine ⟨h₁, containsBits_of_single_bit 1 _ _ (by simpa [VK_QUEUE_COMPUTE_BIT] using hc) ?_⟩
      simp only [Bool.and_eq_true, bne_iff_ne] at h₂
      exact h₂.1
    · exact Option.noConfusion hk
  · split at h
    · rename_i k hk
      have e : k = i := Option.some.inj h
      subst e
      split at hk
      · rename_i hc
        obtain ⟨h₁, h₂, -⟩ := firstFamily_some _ _ _ hk
        refine ⟨h₁, containsBits_of_single_bit 2 _ _
          (by simpa [VK_QUEUE_TRANSFER_BIT] using hc) ?_⟩
        simp only [Bool.and_eq_true, bne_iff_ne] at h₂
        exact h₂.1.1
      · exact Option.noConfusion hk
    · obtain ⟨h₁, h₂, -⟩ := firstFamily_some _ _ _ h
      exact ⟨h₁, (land_eq_iff_containsBits _ _).mp (by simpa using h₂)⟩

theorem getQueueFamilyIndex_search_none (queue_flags : Nat) (families : List Nat) :
    getQueueFamilyIndex_search queue_flags families = none ↔
      ∀ f ∈ families, ¬ containsBits f queue_flags := by
  constructor
  · intro h f hf hc
    unfold getQueueFamilyIndex_search at h
    split at h
    · exact Option.noConfusion h
    · split at h
      · exact Option.noConfusion h
      · have := (firstFamily_none _ _).mp h f hf
        have hl := (land_eq_iff_containsBits _ _).mpr hc
        simp [hl] at this
  · intro h
    cases hs : getQueueFamilyIndex_search queue_flags families with
    | none => rfl
    | some i =>
      obtain ⟨h₁, h₂⟩ := getQueueFamilyIndex_search_some _ _ _ hs
      rw [List.getD_eq_getElem _ _ h₁] at h₂
      exact absurd h₂ (h _ (List.getElem_mem h₁))

/-- A graphics request goes to the last loop only: the lowest family with the graphics
bit. -/
theorem getQueueFamilyIndex_search_graphics (families : List Nat) :
    getQueueFamilyIndex_search VK_QUEUE_GRAPHICS_BIT families =
      firstFamily (fun flags => flags &&& VK_QUEUE_GRAPHICS_BIT == VK_QUEUE_GRAPHICS_BIT)
        families := by
  unfold getQueueFamilyIndex_search
  have h₁ : (VK_QUEUE_GRAPHICS_BIT &&& VK_QUEUE_COMPUTE_BIT == VK_QUEUE_GRAPHICS_BIT) = false := by
    decide
  have h₂ : (VK_QUEUE_GRAPHICS_BIT &&& VK_QUEUE_TRANSFER_BIT == VK_QUEUE_GRAPHICS_BIT) = false := by
    decide
  simp only [h₁, h₂, Bool.false_eq_true, if_false]

theorem getQueueFamilyIndex_of_search_some {queue_flags : Nat} {s : VulkanRHI} {i : Nat}
    (h : getQueueFamilyIndex_search queue_flags s.m_queue_family_propertiess = some i) :
    getQueueFamilyIndex queue_flags s = .returned (i % 4294967296) s := by
  unfold getQueueFamilyIndex
  rw [h]

theorem getQueueFamilyIndex_of_search_none {queue_flags : Nat} {s : VulkanRHI}
    (h : getQueueFamilyIndex_search queue_flags s.m_queue_family_propertiess = none) :
    getQueueFamilyIndex queue_flags s =
      .aborted "failed to find a matching queue family index" s := by
  unfold getQueueFamilyIndex
  rw [h]
  rfl
theorem ASSERT_true (m : String) (s : VulkanRHI) : ASSERT true m s = .returned () s := rfl

theorem ASSERT_false (m : String) (s : VulkanRHI) : ASSERT false m s = .aborted m s := rfl

/-- The graphics family of `getQueueFamilyIndices` must support presentation. -/
theorem getQueueFamilyIndices_present_abort (families : List Nat) (presentSupport : Nat → Nat)
    (u : VulkanRHI) (g : Nat)
    (hg : getQueueFamilyIndex_search VK_QUEUE_GRAPHICS_BIT
      (families.take (families.length % 4294967296)) = some g)
    (hp : presentSupport (g % 4294967296) = 0) :
    ∃ t, getQueueFamilyIndices families presentSupport u =
      .aborted "graphic queue family doesn't support presentation" t := by
  have hcount : decide (families.length % 4294967296 > 0) = true := by
    rw [decide_eq_true_eq]
    rcases Nat.eq_zero_or_pos (families.length % 4294967296) with h | h
    · rw [h] at hg
      exact Option.noConfusion hg
    · exact h
  have hG : ((VK_QUEUE_GRAPHICS_BIT ||| VK_QUEUE_COMPUTE_BIT) &&& VK_QUEUE_GRAPHICS_BIT != 0)
      = true := by decide
  have hq : ∀ s : VulkanRHI,
      s.m_queue_family_propertiess = families.take (families.length % 4294967296) →
      getQueueFamilyIndex VK_QUEUE_GRAPHICS_BIT s = .returned (g % 4294967296) s := by
    intro s hs
    exact getQueueFamilyIndex_of_search_some (by rw [hs]; exact hg)
  unfold getQueueFamilyIndices
  simp only [hcount, ASSERT_true, Res.andThen_returned, hG, if_true]
  rw [hq _ rfl]
  simp only [Res.andThen_returned, hp, bne_self_eq_false, ASSERT_false]
  exact ⟨_, rfl⟩
/-- When the families hold a graphics family that supports presentation and a family for
a compute request, `getQueueFamilyIndices` returns. -/
theorem getQueueFamilyIndices_returns (families : List Nat) (presentSupport : Nat → Nat)
    (u : VulkanRHI) (g c : Nat) (hl : families.length < 4294967296)
    (hg : getQueueFamilyIndex_search VK_QUEUE_GRAPHICS_BIT families = some g)
    (hp : presentSupport g ≠ 0)
    (hc : getQueueFamilyIndex_search VK_QUEUE_COMPUTE_BIT families = some c) :
    getQueueFamilyIndices families presentSupport u =
      .returned ({ graphics := g, compute := c, transfer := g },
        if c ≠ g then [{ queueFamilyIndex := g, queueCount := 1 },
            { queueFamilyIndex := c, queueCount := 1 }]
          else [{ queueFamilyIndex := g, queueCount := 1 }])
        (emit (.lifecycle (.vkGetPhysicalDeviceSurfaceSupportKHR u.m_physical_device g
            u.m_surface))
          { emit (.lifecycle (.vkGetPhysicalDeviceQueueFamilyProperties u.m_physical_device))
              (emit (.lifecycle (.vkGetPhysicalDeviceQueueFamilyProperties u.m_physical_device))
                u) with m_queue_family_propertiess := families }) := by
  have hg' := (getQueueFamilyIndex_search_some _ _ _ hg).1
  have hc' := (getQueueFamilyIndex_search_some _ _ _ hc).1
  have hlen : families.length % 4294967296 = families.length := Nat.mod_eq_of_lt hl
  have hgm : g % 4294967296 = g := Nat.mod_eq_of_lt (Nat.lt_trans hg' hl)
  have hcm : c % 4294967296 = c := Nat.mod_eq_of_lt (Nat.lt_trans hc' hl)
  have hcount : decide (families.length > 0) = true := by
    rw [decide_eq_true_eq]; exact Nat.lt_of_le_of_lt (Nat.zero_le _) hg'
  have hG : ((VK_QUEUE_GRAPHICS_BIT ||| VK_QUEUE_COMPUTE_BIT) &&& VK_QUEUE_GRAPHICS_BIT != 0)
      = true := by decide
  have hC : ((VK_QUEUE_GRAPHICS_BIT ||| VK_QUEUE_COMPUTE_BIT) &&& VK_QUEUE_COMPUTE_BIT != 0)
      = true := by decide
  have hT : ((VK_QUEUE_GRAPHICS_BIT ||| VK_QUEUE_COMPUTE_BIT) &&& VK_QUEUE_TRANSFER_BIT != 0)
      = false := by decide
  have hqg : ∀ s : VulkanRHI, s.m_queue_family_propertiess = families →
      getQueueFamilyIndex VK_QUEUE_GRAPHICS_BIT s = .returned g s := by
    intro s hs
    have := getQueueFamilyIndex_of_search_some (s := s) (by rw [hs]; exact hg)
    rw [hgm] at this
    exact this
  have hqc : ∀ s : VulkanRHI, s.m_queue_family_propertiess = families →
      getQueueFamilyIndex VK_QUEUE_COMPUTE_BIT s = .returned c s := by
    intro s hs
    have := getQueueFamilyIndex_of_search_some (s := s) (by rw [hs]; exact hc)
    rw [hcm] at this
    exact this
  have hpb : (presentSupport g != 0) = true := by simpa using hp
  unfold getQueueFamilyIndices
  simp only [hlen, List.take_length, hcount, ASSERT_true, Res.andThen_returned, hG, hC, hT,
    if_true, Bool.false_eq_true, if_false]
  rw [hqg _ rfl]
  simp only [Res.andThen_returned, hpb, ASSERT_true]
  rw [hqc _ rfl]
  simp only [Res.andThen_returned]
  by_cases hcg : c = g
  · simp only [hcg, ne_eq, not_true_eq_false, if_false, Res.andThen_returned]
    rfl
  · simp only [hcg, ne_eq, not_false_eq_true, if_true, Res.andThen_returned]
    rfl
theorem getRequiredDeviceFeatures_eq (supported : VkPhysicalDeviceFeatures) (u : VulkanRHI) :
    getRequiredDeviceFeatures supported u =
      .returned (requestedFeatures supported)
        (emit (.lifecycle (.vkGetPhysicalDeviceFeatures u.m_physical_device)) u) := by
  unfold getRequiredDeviceFeatures requestedFeatures
  by_cases h₁ : supported.sampleRateShading = 0 <;>
    by_cases h₂ : supported.samplerAnisotropy = 0 <;>
    by_cases h₃ : supported.geometryShader = 0 <;>
    by_cases h₄ : supported.fillModeNonSolid = 0 <;>
    simp [h₁, h₂, h₃, h₄]

theorem getRequiredDeviceExtensions_eq (supported : List String) (u : VulkanRHI)
    (h : VK_KHR_SWAPCHAIN_EXTENSION_NAME ∈ supported) :
    getRequiredDeviceExtensions supported u =
      .returned [VK_KHR_SWAPCHAIN_EXTENSION_NAME]
        (emit (.lifecycle (.vkEnumerateDeviceExtensionProperties u.m_physical_device))
          (emit (.lifecycle (.vkEnumerateDeviceExtensionProperties u.m_physical_device)) u)) := by
  unfold getRequiredDeviceExtensions
  exact (checkRequiredNames_then _ supported [VK_KHR_SWAPCHAIN_EXTENSION_NAME] _).2.2
    (by simpa using h)

/-- The run of `createLogicDevice` on a device that passes the checks of the extension and
of the queue families, whatever features it supports. -/
theorem createLogicDevice_run (supportedExtensions : List String)
    (supportedFeatures : VkPhysicalDeviceFeatures) (families : List Nat)
    (presentSupport : Nat → Nat) (newDevice : Handle) (s : VulkanRHI) (g c : Nat)
    (hext : VK_KHR_SWAPCHAIN_EXTENSION_NAME ∈ supportedExtensions)
    (hl : families.length < 4294967296)
    (hg : getQueueFamilyIndex_search VK_QUEUE_GRAPHICS_BIT families = some g)
    (hp : presentSupport g ≠ 0)
    (hc : getQueueFamilyIndex_search VK_QUEUE_COMPUTE_BIT families = some c) :
    ∃ t, createLogicDevice supportedExtensions supportedFeatures families presentSupport
        VK_SUCCESS newDevice s = .returned () t ∧
      t.m_required_device_features = requestedFeatures supportedFeatures ∧
      t.trace = s.trace ++
        [.lifecycle (.vkEnumerateDeviceExtensionProperties s.m_physical_device),
          .lifecycle (.vkEnumerateDeviceExtensionProperties s.m_physical_device),
          .lifecycle (.vkGetPhysicalDeviceFeatures s.m_physical_device),
          .lifecycle (.vkGetPhysicalDeviceQueueFamilyProperties s.m_physical_device),
          .lifecycle (.vkGetPhysicalDeviceQueueFamilyProperties s.m_physical_device),
          .lifecycle (.vkGetPhysicalDeviceSurfaceSupportKHR s.m_physical_device g s.m_surface),
          .lifecycle (.vkCreateDevice s.m_physical_device
            { queueCreateInfos :=
                if c ≠ g then [{ queueFamilyIndex := g, queueCount := 1 },
                  { queueFamilyIndex := c, queueCount := 1 }]
                else [{ queueFamilyIndex := g, queueCount := 1 }]
              enabledFeatures := requestedFeatures supportedFeatures
              enabledExtensionNames := [VK_KHR_SWAPCHAIN_EXTENSION_NAME] })] := by
  unfold createLogicDevice
  rw [getRequiredDeviceExtensions_eq supportedExtensions s hext]
  simp only [Res.andThen_returned]
  rw [getRequiredDeviceFeatures_eq]
  simp only [Res.andThen_returned]
  rw [getQueueFamilyIndices_returns families presentSupport _ g c hl hg hp hc]
  simp only [Res.andThen_returned, CHECK_VULKAN_RESULT, if_true]
  refine ⟨_, rfl, rfl, ?_⟩
  simp only [emit, List.append_assoc, List.cons_append, List.nil_append]
/-- C14, as stated, fails: on a device that supports none of the four features,
`getRequiredDeviceFeatures` does not end in a fatal error, and `createLogicDevice` goes on
to issue the device-creation request, with the four features disabled, and returns. -/
theorem createLogicDevice_unsupported_features_not_fatal :
    (getRequiredDeviceFeatures noDeviceFeatures sampleRHI).isAborted = false ∧
    (createLogicDevice [VK_KHR_SWAPCHAIN_EXTENSION_NAME] noDeviceFeatures [15, 2, 4]
      (fun _ => 1) VK_SUCCESS 3 sampleRHI).isAborted = false ∧
    (createLogicDevice [VK_KHR_SWAPCHAIN_EXTENSION_NAME] noDeviceFeatures [15, 2, 4]
      (fun _ => 1) VK_SUCCESS 3 sampleRHI).isReturned = true ∧
    Op.lifecycle (.vkCreateDevice 2
      { queueCreateInfos := [{ queueFamilyIndex := 0, queueCount := 1 },
          { queueFamilyIndex := 1, queueCount := 1 }]
        enabledFeatures := noDeviceFeatures
        enabledExtensionNames := [VK_KHR_SWAPCHAIN_EXTENSION_NAME] }) ∈
      issued sampleRHI (createLogicDevice [VK_KHR_SWAPCHAIN_EXTENSION_NAME] noDeviceFeatures
        [15, 2, 4] (fun _ => 1) VK_SUCCESS 3 sampleRHI) := by
  decide

/-- C14, amended. `getRequiredDeviceFeatures` never ends in a fatal error: it returns a
request in which each of `sampleRateShading`, `samplerAnisotropy`, `geometryShader` and
`fillModeNonSolid` is enabled exactly when the device supports it. When the device has the
swapchain extension, a graphics family that supports presentation and a family for a
compute request, and `vkCreateDevice` succeeds, `createLogicDevice` returns whatever
features are supported, and its last call is the device-creation request with that
reduced feature set; an unsupported feature is left disabled. -/
theorem createLogicDevice_requests_supported_features (supportedExtensions : List String)
    (supportedFeatures : VkPhysicalDeviceFeatures) (families : List Nat)
    (presentSupport : Nat → Nat) (newDevice : Handle) (s : VulkanRHI) (g c : Nat)
    (hext : VK_KHR_SWAPCHAIN_EXTENSION_NAME ∈ supportedExtensions)
    (hl : families.length < 4294967296)
    (hg : getQueueFamilyIndex_search VK_QUEUE_GRAPHICS_BIT families = some g)
    (hp : presentSupport g ≠ 0)
    (hc : getQueueFamilyIndex_search VK_QUEUE_COMPUTE_BIT families = some c) :
    (∀ u, getRequiredDeviceFeatures supportedFeatures u =
      .returned (requestedFeatures supportedFeatures)
        (emit (.lifecycle (.vkGetPhysicalDeviceFeatures u.m_physical_device)) u)) ∧
    (createLogicDevice supportedExtensions supportedFeatures families presentSupport
      VK_SUCCESS newDevice s).isReturned = true ∧
    (createLogicDevice supportedExtensions supportedFeatures families presentSupport
      VK_SUCCESS newDevice s).state.m_required_device_features =
        requestedFeatures supportedFeatures ∧
    issued s (createLogicDevice supportedExtensions supportedFeatures families presentSupport
      VK_SUCCESS newDevice s) =
        [.lifecycle (.vkEnumerateDeviceExtensionProperties s.m_physical_device),
          .lifecycle (.vkEnumerateDeviceExtensionProperties s.m_physical_device),
          .lifecycle (.vkGetPhysicalDeviceFeatures s.m_physical_device),
          .lifecycle (.vkGetPhysicalDeviceQueueFamilyProperties s.m_physical_device),
          .lifecycle (.vkGetPhysicalDeviceQueueFamilyProperties s.m_physical_device),
          .lifecycle (.vkGetPhysicalDeviceSurfaceSupportKHR s.m_physical_device g s.m_surface),
          .lifecycle (.vkCreateDevice s.m_physical_device
            { queueCreateInfos :=
                if c ≠ g then [{ queueFamilyIndex := g, queueCount := 1 },
                  { queueFamilyIndex := c, queueCount := 1 }]
                else [{ queueFamilyIndex := g, queueCount := 1 }]
              enabledFeatures := requestedFeatures supportedFeatures
              enabledExtensionNames := [VK_KHR_SWAPCHAIN_EXTENSION_NAME] })] := by
  obtain ⟨t, ht, hf, htr⟩ := createLogicDevice_run supportedExtensions supportedFeatures
    families presentSupport newDevice s g c hext hl hg hp hc
  refine ⟨fun u => getRequiredDeviceFeatures_eq supportedFeatures u, ?_, ?_, ?_⟩
  · rw [ht]; rfl
  · rw [ht]; exact hf
  · exact issued_of_trace (by rw [ht]; exact htr)

/-- Witness of the amended C14: a device with the swapchain extension, three queue
families and none of the four features. -/
theorem createLogicDevice_requests_supported_features_witness :
    VK_KHR_SWAPCHAIN_EXTENSION_NAME ∈ [VK_KHR_SWAPCHAIN_EXTENSION_NAME] ∧
    getQueueFamilyIndex_search VK_QUEUE_GRAPHICS_BIT [15, 2, 4] = some 0 ∧
    getQueueFamilyIndex_search VK_QUEUE_COMPUTE_BIT [15, 2, 4] = some 1 ∧
    (createLogicDevice [VK_KHR_SWAPCHAIN_EXTENSION_NAME] noDeviceFeatures [15, 2, 4]
      (fun _ => 1) VK_SUCCESS 3 sampleRHI).isReturned = true :=
  ⟨by decide, by decide, by decide,
    (createLogicDevice_requests_supported_features [VK_KHR_SWAPCHAIN_EXTENSION_NAME]
      noDeviceFeatures [15, 2, 4] (fun _ => 1) 3 sampleRHI 0 1 (by decide) (by decide)
      (by decide) (by decide) (by decide)).2.1⟩

/-- C15. With at most 2^32 queue families stored: an index that `getQueueFamilyIndex`
returns is below the number of families and the flags of that family contain every
requested bit; the function ends in its fatal error exactly when no family contains all
requested bits, and returns otherwise; for a graphics request the index returned is the
lowest one whose family has the graphics bit; and `getQueueFamilyIndices` fails its
assertion when the graphics family found does not support presentation. -/
theorem getQueueFamilyIndex_matches_request (queue_flags : Nat) (s : VulkanRHI)
    (hl : s.m_queue_family_propertiess.length ≤ 4294967296) :
    (∀ i t, getQueueFamilyIndex queue_flags s = .returned i t →
      i < s.m_queue_family_propertiess.length ∧
        containsBits (s.m_queue_family_propertiess.getD i 0) queue_flags) ∧
    ((getQueueFamilyIndex queue_flags s).isAborted = true ↔
      ∀ f ∈ s.m_queue_family_propertiess, ¬ containsBits f queue_flags) ∧
    ((getQueueFamilyIndex queue_flags s).isAborted = false →
      (getQueueFamilyIndex queue_flags s).isReturned = true) ∧
    (∀ i t, getQueueFamilyIndex VK_QUEUE_GRAPHICS_BIT s = .returned i t →
      containsBits (s.m_queue_family_propertiess.getD i 0) VK_QUEUE_GRAPHICS_BIT ∧
        ∀ j, j < i →
          ¬ containsBits (s.m_queue_family_propertiess.getD j 0) VK_QUEUE_GRAPHICS_BIT) ∧
    (∀ (families : List Nat) (presentSupport : Nat → Nat) (u t : VulkanRHI) (g : Nat),
      families.length < 4294967296 →
      getQueueFamilyIndex VK_QUEUE_GRAPHICS_BIT
        { u with m_queue_family_propertiess := families } = .returned g t →
      presentSupport g = 0 →
      ∃ v, getQueueFamilyIndices families presentSupport u =
        .aborted "graphic queue family doesn't support presentation" v) := by
  have key : ∀ (q : Nat) (w : VulkanRHI) (i : Nat) (t : VulkanRHI),
      getQueueFamilyIndex q w = .returned i t →
      ∃ k, getQueueFamilyIndex_search q w.m_queue_family_propertiess = some k ∧
        i = k % 4294967296 := by
    intro q w i t h
    unfold getQueueFamilyIndex at h
    split at h
    · rename_i k hk
      exact ⟨k, hk, ((Res.returned.inj h).1).symm⟩
    · exact Res.noConfusion h
  refine ⟨?_, ?_, ?_, ?_, ?_⟩
  · intro i t h
    obtain ⟨k, hk, rfl⟩ := key _ _ _ _ h
    obtain ⟨h₁, h₂⟩ := getQueueFamilyIndex_search_some _ _ _ hk
    rw [Nat.mod_eq_of_lt (Nat.lt_of_lt_of_le h₁ hl)]
    exact ⟨h₁, h₂⟩
  · rw [← getQueueFamilyIndex_search_none]
    unfold getQueueFamilyIndex
    cases getQueueFamilyIndex_search queue_flags s.m_queue_family_propertiess with
    | none => simp [LOG_FATAL, Res.isAborted]
    | some k => simp [Res.isAborted]
  · unfold getQueueFamilyIndex
    cases getQueueFamilyIndex_search queue_flags s.m_queue_family_propertiess with
    | none => simp [LOG_FATAL, Res.isAborted]
    | some k => simp [Res.isReturned]
  · intro i t h
    obtain ⟨k, hk, rfl⟩ := key _ _ _ _ h
    rw [getQueueFamilyIndex_search_graphics] at hk
    obtain ⟨h₁, h₂, h₃⟩ := firstFamily_some _ _ _ hk
    rw [Nat.mod_eq_of_lt (Nat.lt_of_lt_of_le h₁ hl)]
    refine ⟨(land_eq_iff_containsBits _ _).mp (by simpa using h₂), ?_⟩
    intro j hj hcon
    have := h₃ j hj
    have hl' := (land_eq_iff_containsBits _ _).mpr hcon
    rw [hl'] at this
    simp at this
  · intro families presentSupport u t g hlen h hp
    obtain ⟨k, hk, rfl⟩ := key _ _ _ _ h
    have hk' : getQueueFamilyIndex_search VK_QUEUE_GRAPHICS_BIT families = some k := hk
    refine getQueueFamilyIndices_present_abort families presentSupport u k ?_ hp
    rw [Nat.mod_eq_of_lt hlen, List.take_length]
    exact hk'

/-- Witness of C15: a graphics request on the three families of the sample state. -/
theorem getQueueFamilyIndex_matches_request_witness :
    sampleRHI.m_queue_family_propertiess.length ≤ 4294967296 ∧
    getQueueFamilyIndex VK_QUEUE_GRAPHICS_BIT sampleRHI = .returned 0 sampleRHI ∧
    containsBits (sampleRHI.m_queue_family_propertiess.getD 0 0) VK_QUEUE_GRAPHICS_BIT :=
  ⟨by decide, rfl,
    ((getQueueFamilyIndex_matches_request VK_QUEUE_GRAPHICS_BIT sampleRHI (by decide)).1 0
      sampleRHI rfl).2⟩

/-! ## The order of teardown -/

/-- Where an element of a list that ends in `x, y` can stand. -/
theorem ends_with_two {α : Type} {before pre post : List α} {x y op : α}
    (h : before ++ [x, y] = pre ++ op :: post) :
    (post = [] ∧ op = y) ∨ (post = [y] ∧ op = x) ∨ (x ∈ post ∧ y ∈ post) := by
  have hr := congrArg List.reverse h
  simp only [List.reverse_append, List.reverse_cons, List.reverse_nil, List.nil_append,
    List.append_assoc, List.singleton_append, List.cons_append] at hr
  rcases hp : post.reverse with _ | ⟨a, _ | ⟨b, r⟩⟩
  · rw [hp] at hr
    simp only [List.nil_append, List.cons.injEq] at hr
    exact Or.inl ⟨List.reverse_eq_nil_iff.mp hp, hr.1.symm⟩
  · rw [hp] at hr
    simp only [List.cons_append, List.nil_append, List.cons.injEq] at hr
    refine Or.inr (Or.inl ⟨?_, hr.2.1.symm⟩)
    have := congrArg List.reverse hp
    simp only [List.reverse_reverse, List.reverse_cons, List.reverse_nil, List.nil_append] at this
    rw [this, hr.1]
  · rw [hp] at hr
    simp only [List.cons_append, List.cons.injEq] at hr
    have hm : ∀ z, z ∈ post.reverse → z ∈ post := fun z hz => List.mem_reverse.mp hz
    refine Or.inr (Or.inr ⟨hm x ?_, hm y ?_⟩)
    · rw [hp, hr.2.1]; simp
    · rw [hp, hr.1]; simp

theorem getLast?_ends_with_two {α : Type} (l : List α) (x y : α) :
    (l ++ [x, y]).getLast? = some y := by
  have e : l ++ [x, y] = (l ++ [x]) ++ [y] := by simp
  rw [e, List.getLast?_append]
  rfl

/-- The calls of `destroy`, in order. -/
theorem destroy_trace (ENABLE_VALIDATION_LAYER : Bool) (s : VulkanRHI) :
    (destroy ENABLE_VALIDATION_LAYER s).trace = s.trace ++
      (([.lifecycle (.vkDestroyPipelineCache s.m_pipeline_cache),
          .lifecycle (.vkDestroyRenderPass s.m_render_pass)] ++
        s.m_framebuffers.map .vkDestroyFramebuffer ++
        s.m_image_avaliable_semaphores.map (fun semaphore =>
          .lifecycle (.vkDestroySemaphore semaphore)) ++
        s.m_render_finished_semaphores.map (fun semaphore =>
          .lifecycle (.vkDestroySemaphore semaphore)) ++
        s.m_flight_fences.map (fun fence => .lifecycle (.vkDestroyFence fence)) ++
        [.vkDestroySwapchainKHR s.m_swapchain] ++
        s.m_swapchain_image_views.map .vkDestroyImageView ++
        [.destroyVmaImageView s.m_depth_stencil_image_view] ++
        s.m_framebuffers.map .vkDestroyFramebuffer ++
        [.lifecycle (.vkDestroyCommandPool s.m_transient_command_pool),
          .lifecycle (.vkDestroyCommandPool s.m_command_pool)] ++
        (if ENABLE_VALIDATION_LAYER then
          [.lifecycle (.vkDestroyDebugUtilsMessengerEXT s.m_instance s.m_debug_utils_messenger)]
          else []) ++
        [.lifecycle (.vmaDestroyAllocator s.m_vma_alloc),
          .lifecycle (.vkDestroySurfaceKHR s.m_instance s.m_surface)]) ++
      [.lifecycle (.vkDestroyDevice s.m_device), .lifecycle (.vkDestroyInstance s.m_instance)])
    := by
  cases ENABLE_VALIDATION_LAYER <;>
    simp [destroy, destroyDebugging, destroySwapchainObjects, emit, emitAll]
/-- C16. The calls of `destroy` are the destructions of the pipeline cache, the render
pass, the framebuffers, the semaphores, the fences, the swapchain, the image views, the
depth-stencil image, the two command pools, the debug messenger when the validation layer
is enabled, the allocator and the surface, followed by `vkDestroyDevice` and then
`vkDestroyInstance`, which is last. So every destruction of an object owned by the
device stands before `vkDestroyDevice`, and `vkDestroyDevice` and the destructions of the
debug messenger and of the surface stand before `vkDestroyInstance`. -/
theorem destroy_order (ENABLE_VALIDATION_LAYER : Bool) (s : VulkanRHI) :
    (destroy ENABLE_VALIDATION_LAYER s).trace = s.trace ++
      (([.lifecycle (.vkDestroyPipelineCache s.m_pipeline_cache),
          .lifecycle (.vkDestroyRenderPass s.m_render_pass)] ++
        s.m_framebuffers.map .vkDestroyFramebuffer ++
        s.m_image_avaliable_semaphores.map (fun semaphore =>
          .lifecycle (.vkDestroySemaphore semaphore)) ++
        s.m_render_finished_semaphores.map (fun semaphore =>
          .lifecycle (.vkDestroySemaphore semaphore)) ++
        s.m_flight_fences.map (fun fence => .lifecycle (.vkDestroyFence fence)) ++
        [.vkDestroySwapchainKHR s.m_swapchain] ++
        s.m_swapchain_image_views.map .vkDestroyImageView ++
        [.destroyVmaImageView s.m_depth_stencil_image_view] ++
        s.m_framebuffers.map .vkDestroyFramebuffer ++
        [.lifecycle (.vkDestroyCommandPool s.m_transient_command_pool),
          .lifecycle (.vkDestroyCommandPool s.m_command_pool)] ++
        (if ENABLE_VALIDATION_LAYER then
          [.lifecycle (.vkDestroyDebugUtilsMessengerEXT s.m_instance s.m_debug_utils_messenger)]
          else []) ++
        [.lifecycle (.vmaDestroyAllocator s.m_vma_alloc),
          .lifecycle (.vkDestroySurfaceKHR s.m_instance s.m_surface)]) ++
      [.lifecycle (.vkDestroyDevice s.m_device),
        .lifecycle (.vkDestroyInstance s.m_instance)]) ∧
    (∀ pre op post, (destroy ENABLE_VALIDATION_LAYER s).trace = s.trace ++ (pre ++ op :: post) →
      op.isDeviceObjectDestroy = true →
      .lifecycle (.vkDestroyDevice s.m_device) ∈ post ∧
        .lifecycle (.vkDestroyInstance s.m_instance) ∈ post) ∧
    (∀ pre op post, (destroy ENABLE_VALIDATION_LAYER s).trace = s.trace ++ (pre ++ op :: post) →
      (op = .lifecycle (.vkDestroyDevice s.m_device) ∨
        op = .lifecycle (.vkDestroySurfaceKHR s.m_instance s.m_surface) ∨
        op = .lifecycle (.vkDestroyDebugUtilsMessengerEXT s.m_instance
          s.m_debug_utils_messenger)) →
      .lifecycle (.vkDestroyInstance s.m_instance) ∈ post) ∧
    (destroy ENABLE_VALIDATION_LAYER s).trace.getLast? =
      some (.lifecycle (.vkDestroyInstance s.m_instance)) := by
  have htr := destroy_trace ENABLE_VALIDATION_LAYER s
  refine ⟨htr, ?_, ?_, ?_⟩
  · intro pre op post h hop
    rw [htr] at h
    rcases ends_with_two (List.append_cancel_left h) with ⟨-, e⟩ | ⟨-, e⟩ | h'
    · rw [e] at hop; exact absurd hop (by simp [Op.isDeviceObjectDestroy])
    · rw [e] at hop; exact absurd hop (by simp [Op.isDeviceObjectDestroy])
    · exact h'
  · intro pre op post h hop
    rw [htr] at h
    rcases ends_with_two (List.append_cancel_left h) with ⟨-, e⟩ | ⟨e, -⟩ | h'
    · rcases hop with hop | hop | hop <;> rw [hop] at e <;> cases e
    · rw [e]; simp
    · exact h'.2
  · rw [htr, ← List.append_assoc]
    exact getLast?_ends_with_two _ _ _

/-! ## The geometry-buffer pass -/

theorem recordedSince_of_recorded {g after : GBufferPass} {cmds : List Cmd}
    (h : after.recorded = g.recorded ++ cmds) : g.recordedSince after = cmds := by
  unfold GBufferPass.recordedSince
  rw [h, List.drop_left]

/-- The calls of `createFramebuffer`, in order. -/
theorem createFramebuffer_recorded (created : Nat → VmaImageViewSampler) (result : VkResult)
    (framebuffer : Handle) (g : GBufferPass) :
    g.recordedSince (g.createFramebuffer created result framebuffer).state =
      [.createImageViewSampler g.m_width g.m_height 1 1 (g.m_formats.getD 0 0)
          VK_FILTER_NEAREST VK_FILTER_NEAREST VK_SAMPLER_ADDRESS_MODE_CLAMP_TO_EDGE
          VK_IMAGE_USAGE_COLOR_ATTACHMENT_BIT,
        .createImageViewSampler g.m_width g.m_height 1 1 (g.m_formats.getD 1 0)
          VK_FILTER_NEAREST VK_FILTER_NEAREST VK_SAMPLER_ADDRESS_MODE_CLAMP_TO_EDGE
          VK_IMAGE_USAGE_COLOR_ATTACHMENT_BIT,
        .createImageViewSampler g.m_width g.m_height 1 1 (g.m_formats.getD 2 0)
          VK_FILTER_NEAREST VK_FILTER_NEAREST VK_SAMPLER_ADDRESS_MODE_CLAMP_TO_EDGE
          VK_IMAGE_USAGE_COLOR_ATTACHMENT_BIT,
        .createImageViewSampler g.m_width g.m_height 1 1 (g.m_formats.getD 3 0)
          VK_FILTER_NEAREST VK_FILTER_NEAREST VK_SAMPLER_ADDRESS_MODE_CLAMP_TO_EDGE
          VK_IMAGE_USAGE_COLOR_ATTACHMENT_BIT,
        .createImageViewSampler g.m_width g.m_height 1 1 (g.m_formats.getD 4 0)
          VK_FILTER_NEAREST VK_FILTER_NEAREST VK_SAMPLER_ADDRESS_MODE_CLAMP_TO_EDGE
          VK_IMAGE_USAGE_COLOR_ATTACHMENT_BIT,
        .createImageViewSampler g.m_width g.m_height 1 1 (g.m_formats.getD 5 0)
          VK_FILTER_NEAREST VK_FILTER_NEAREST VK_SAMPLER_ADDRESS_MODE_CLAMP_TO_EDGE
          VK_IMAGE_USAGE_DEPTH_STENCIL_ATTACHMENT_BIT,
        .vkCreateFramebuffer g.m_render_pass
          [(created 0).view, (created 1).view, (created 2).view, (created 3).view,
            (created 4).view, (created 5).view] g.m_width g.m_height 1] := by
  apply recordedSince_of_recorded
  unfold GBufferPass.createFramebuffer GBufferPass.CHECK_VULKAN_RESULT
  by_cases hr : result = VK_SUCCESS
  · simp [hr, GBufferPass.record, PassOutcome.state]
  · simp [hr, GBufferPass.record, PassOutcome.state]

theorem filterMap_extent_map_createImageView (l : List Nat) (format aspect mips : Nat) :
    (l.map fun image => createImageView_op image format aspect mips).filterMap Op.extent? = []
    := by
  induction l with
  | nil => rfl
  | cons a l ih => simp [createImageView_op, Op.extent?]

theorem filterMap_extent_of_format_queries (l : List Op)
    (h : ∀ op ∈ l, ∃ format, op = .vkGetPhysicalDeviceFormatProperties format) :
    l.filterMap Op.extent? = [] := by
  induction l with
  | nil => rfl
  | cons a l ih =>
    obtain ⟨f, rfl⟩ := h _ (List.mem_cons_self _ _)
    simpa [Op.extent?] using ih fun op hop => h op (List.mem_cons_of_mem _ hop)

theorem filterMap_extent_map_framebuffers (l : List Handle) (renderPass depth : Handle)
    (width height : Nat) :
    (l.map fun view => Op.vkCreateFramebuffer renderPass [view, depth] width height 1).filterMap
      Op.extent? = List.replicate l.length (width, height) := by
  induction l with
  | nil => rfl
  | cons a l ih => simpa [Op.extent?, List.replicate_succ] using ih

/-- The extents a returning `createSwapchainObjects` creates objects with: the depth image
and one framebuffer per swapchain image, all with `m_extent`. -/
theorem createSwapchainObjects_extents (p : Platform) (s t : VulkanRHI) (a : Unit)
    (h : createSwapchainObjects p s = .returned a t) :
    (issued s (createSwapchainObjects p s)).filterMap Op.extent? =
      List.replicate (p.imageCount + 1) (s.m_extent.width, s.m_extent.height) := by
  obtain ⟨-, -, hv, -, -, -, htr⟩ := createSwapchainObjects_returned p s t a h
  have hi : issued s (createSwapchainObjects p s) = _ :=
    issued_of_trace (by rw [h]; exact htr)
  rw [hi]
  simp only [List.filterMap_append, filterMap_extent_map_createImageView,
    filterMap_extent_of_format_queries _ (getProperImageFormat_loop_ops p _ _ _),
    filterMap_extent_map_framebuffers, List.append_nil, List.nil_append]
  rw [hv, List.length_map, take_imageCount_length]
  simp [Op.extent?, createImageView_op, List.replicate_succ]
/-- C17. `GBufferPass::createFramebuffer` creates its six attachments and then its
framebuffer, all with width `m_width` and height `m_height`, the framebuffer with one
layer; a returning `createSwapchainObjects` creates the depth-stencil image and one
framebuffer per swapchain image, all with `m_extent`. Hence a creation in any state that
has the size of an earlier creation, whatever sizes were used in between, yields the
extents of the earlier creation. -/
theorem size_round_trip :
    (∀ (created : Nat → VmaImageViewSampler) (result : VkResult) (framebuffer : Handle)
        (g : GBufferPass),
      g.recordedSince (g.createFramebuffer created result framebuffer).state =
        [.createImageViewSampler g.m_width g.m_height 1 1 (g.m_formats.getD 0 0)
            VK_FILTER_NEAREST VK_FILTER_NEAREST VK_SAMPLER_ADDRESS_MODE_CLAMP_TO_EDGE
            VK_IMAGE_USAGE_COLOR_ATTACHMENT_BIT,
          .createImageViewSampler g.m_width g.m_height 1 1 (g.m_formats.getD 1 0)
            VK_FILTER_NEAREST VK_FILTER_NEAREST VK_SAMPLER_ADDRESS_MODE_CLAMP_TO_EDGE
            VK_IMAGE_USAGE_COLOR_ATTACHMENT_BIT,
          .createImageViewSampler g.m_width g.m_height 1 1 (g.m_formats.getD 2 0)
            VK_FILTER_NEAREST VK_FILTER_NEAREST VK_SAMPLER_ADDRESS_MODE_CLAMP_TO_EDGE
            VK_IMAGE_USAGE_COLOR_ATTACHMENT_BIT,
          .createImageViewSampler g.m_width g.m_height 1 1 (g.m_formats.getD 3 0)
            VK_FILTER_NEAREST VK_FILTER_NEAREST VK_SAMPLER_ADDRESS_MODE_CLAMP_TO_EDGE
            VK_IMAGE_USAGE_COLOR_ATTACHMENT_BIT,
          .createImageViewSampler g.m_width g.m_height 1 1 (g.m_formats.getD 4 0)
            VK_FILTER_NEAREST VK_FILTER_NEAREST VK_SAMPLER_ADDRESS_MODE_CLAMP_TO_EDGE
            VK_IMAGE_USAGE_COLOR_ATTACHMENT_BIT,
          .createImageViewSampler g.m_width g.m_height 1 1 (g.m_formats.getD 5 0)
            VK_FILTER_NEAREST VK_FILTER_NEAREST VK_SAMPLER_ADDRESS_MODE_CLAMP_TO_EDGE
            VK_IMAGE_USAGE_DEPTH_STENCIL_ATTACHMENT_BIT,
          .vkCreateFramebuffer g.m_render_pass
            [(created 0).view, (created 1).view, (created 2).view, (created 3).view,
              (created 4).view, (created 5).view] g.m_width g.m_height 1]) ∧
    (∀ (created : Nat → VmaImageViewSampler) (result : VkResult) (framebuffer : Handle)
        (g : GBufferPass),
      (g.recordedSince (g.createFramebuffer created result framebuffer).state).filterMap
        Cmd.extent? = List.replicate 7 (g.m_width, g.m_height)) ∧
    (∀ (p : Platform) (s t : VulkanRHI) (a : Unit), createSwapchainObjects p s = .returned a t →
      (issued s (createSwapchainObjects p s)).filterMap Op.extent? =
        List.replicate (p.imageCount + 1) (s.m_extent.width, s.m_extent.height)) ∧
    (∀ (created₁ created₃ : Nat → VmaImageViewSampler) (result₁ result₃ : VkResult)
        (framebuffer₁ framebuffer₃ : Handle) (g₁ g₃ : GBufferPass),
      g₃.m_width = g₁.m_width → g₃.m_height = g₁.m_height →
      (g₃.recordedSince (g₃.createFramebuffer created₃ result₃ framebuffer₃).state).filterMap
          Cmd.extent? =
        (g₁.recordedSince (g₁.createFramebuffer created₁ result₁ framebuffer₁).state).filterMap
          Cmd.extent?) ∧
    (∀ (p₁ p₃ : Platform) (s₁ s₃ t₁ t₃ : VulkanRHI) (a₁ a₃ : Unit),
      createSwapchainObjects p₁ s₁ = .returned a₁ t₁ →
      createSwapchainObjects p₃ s₃ = .returned a₃ t₃ →
      s₃.m_extent = s₁.m_extent → p₃.imageCount = p₁.imageCount →
      (issued s₃ (createSwapchainObjects p₃ s₃)).filterMap Op.extent? =
        (issued s₁ (createSwapchainObjects p₁ s₁)).filterMap Op.extent?) := by
  have hext : ∀ (created : Nat → VmaImageViewSampler) (result : VkResult)
      (framebuffer : Handle) (g : GBufferPass),
      (g.recordedSince (g.createFramebuffer created result framebuffer).state).filterMap
        Cmd.extent? = List.replicate 7 (g.m_width, g.m_height) := by
    intro created result framebuffer g
    rw [createFramebuffer_recorded]
    rfl
  refine ⟨createFramebuffer_recorded, hext, createSwapchainObjects_extents, ?_, ?_⟩
  · intro c₁ c₃ r₁ r₃ f₁ f₃ g₁ g₃ hw hh
    rw [hext, hext, hw, hh]
  · intro p₁ p₃ s₁ s₃ t₁ t₃ a₁ a₃ h₁ h₃ he hc
    rw [createSwapchainObjects_extents p₁ s₁ t₁ a₁ h₁,
      createSwapchainObjects_extents p₃ s₃ t₃ a₃ h₃, he, hc]

/-! ### The commands of `render` -/

/-- The calls of `render`: none once the static flag is set, and otherwise the opening
calls, the calls of each draw item in input order, and the closing calls. -/
theorem render_recorded (rhi : VulkanRHI) (sizeofBoneUBO : Nat) (g : GBufferPass) :
    g.recordedSince (g.render rhi sizeofBoneUBO) =
      if g.is_rendered then []
      else
        [.beginInstantCommands,
          .vkCmdBeginRenderPass g.m_render_pass g.m_framebuffer g.m_width g.m_height 6
            VK_SUBPASS_CONTENTS_INLINE,
          .vkCmdSetViewport g.m_width g.m_height,
          .vkCmdSetScissor g.m_width g.m_height] ++
        g.m_render_datas.flatMap (g.itemCommands sizeofBoneUBO 0) ++
        [.vkCmdEndRenderPass, .endInstantCommands] := by
  apply recordedSince_of_recorded
  unfold GBufferPass.render
  by_cases h : g.is_rendered = true
  · simp [h]
  · simp only [h, Bool.false_eq_true, if_false, GBufferPass.record, List.append_assoc,
      List.cons_append, List.nil_append]
    rfl

theorem filter_isDrawIndexed_pushConstants (g : GBufferPass) (layout : Handle)
    (pcos : List PushConstantData) :
    (g.pushConstants layout pcos).filter Cmd.isDrawIndexed = [] := by
  unfold GBufferPass.pushConstants
  rw [List.filter_eq_nil_iff]
  intro cmd hcmd
  obtain ⟨c, -, rfl⟩ := List.mem_map.mp hcmd
  simp [Cmd.isDrawIndexed]

theorem flatMap_singleton_eq_map {α β : Type} (f : α → β) (l : List α) :
    l.flatMap (fun a => [f a]) = l.map f := by
  induction l with
  | nil => rfl
  | cons a l ih => simp [List.flatMap_cons, ih]

theorem filter_flatMap {α β : Type} (q : β → Bool) (f : α → List β) (l : List α) :
    (l.flatMap f).filter q = l.flatMap fun a => (f a).filter q := by
  induction l with
  | nil => rfl
  | cons a l ih => simp [List.flatMap_cons, ih]

theorem range_map_getD_eq_zipWith {β : Type} (f : Nat → Nat → β) (l₁ l₂ : List Nat)
    (h : l₂.length = l₁.length) :
    (List.range l₁.length).map (fun i => f (l₁.getD i 0) (l₂.getD i 0)) =
      List.zipWith f l₁ l₂ := by
  apply List.ext_getElem
  · simp [h]
  · intro i h₁ h₂
    have hi₁ : i < l₁.length := by simpa using h₁
    have hi₂ : i < l₂.length := by rw [h]; exact hi₁
    simp [List.getElem?_eq_getElem hi₁, List.getElem?_eq_getElem hi₂]

/-- The draws among the calls of one draw item. -/
theorem filter_isDrawIndexed_itemCommands (g : GBufferPass) (sizeofBoneUBO flight_index : Nat)
    (render_data : RenderData)
    (h : render_data.index_offsets.length = render_data.index_counts.length) :
    (g.itemCommands sizeofBoneUBO flight_index render_data).filter Cmd.isDrawIndexed =
      render_data.draws := by
  unfold GBufferPass.itemCommands RenderData.draws
  rw [← range_map_getD_eq_zipWith _ _ _ h, ← flatMap_singleton_eq_map]
  simp only [List.filter_append, filter_flatMap, GBufferPass.subMeshCommands,
    filter_isDrawIndexed_pushConstants]
  simp [Cmd.isDrawIndexed]

theorem sublist_flatMap {α β : Type} (f : α → List β) {l₁ l₂ : List α} (h : l₁.Sublist l₂) :
    (l₁.flatMap f).Sublist (l₂.flatMap f) := by
  induction h with
  | slnil => exact List.Sublist.refl _
  | cons a _ ih =>
    rw [List.flatMap_cons]
    exact ih.trans (List.sublist_append_right _ _)
  | cons₂ a _ ih =>
    rw [List.flatMap_cons, List.flatMap_cons]
    exact List.Sublist.append (List.Sublist.refl _) ih
theorem flatMap_congr_mem {α β : Type} {f g : α → List β} {l : List α}
    (h : ∀ a ∈ l, f a = g a) : l.flatMap f = l.flatMap g := by
  induction l with
  | nil => rfl
  | cons a l ih =>
    rw [List.flatMap_cons, List.flatMap_cons, h a (List.mem_cons_self _ _),
      ih fun b hb => h b (List.mem_cons_of_mem _ hb)]

/-- C18. In an invocation of `render` that records (the static flag is not yet set), with
draw items whose offset array is as long as the count array, the indexed draws recorded
are, in order, those of the items in input order, each item contributing
`DrawIndexed(index_counts[i], 1, index_offsets[i], 0, 0)` for its sub-meshes in order;
so the draws of the items of one mesh type appear in input order, and for three items
A, B, C the draws of A come first, then those of B, then those of C. -/
theorem render_draw_order (rhi : VulkanRHI) (sizeofBoneUBO : Nat) (g : GBufferPass)
    (hrec : g.is_rendered = false)
    (hlen : ∀ d ∈ g.m_render_datas, d.index_offsets.length = d.index_counts.length) :
    (g.recordedSince (g.render rhi sizeofBoneUBO)).filter Cmd.isDrawIndexed =
      g.m_render_datas.flatMap RenderData.draws ∧
    (∀ mesh_type : EMeshType,
      ((g.m_render_datas.filter fun d => d.mesh_type = mesh_type).flatMap
        RenderData.draws).Sublist
        ((g.recordedSince (g.render rhi sizeofBoneUBO)).filter Cmd.isDrawIndexed)) ∧
    (∀ A B C : RenderData, g.m_render_datas = [A, B, C] →
      (g.recordedSince (g.render rhi sizeofBoneUBO)).filter Cmd.isDrawIndexed =
        A.draws ++ B.draws ++ C.draws) := by
  have hmain : (g.recordedSince (g.render rhi sizeofBoneUBO)).filter Cmd.isDrawIndexed =
      g.m_render_datas.flatMap RenderData.draws := by
    rw [render_recorded, hrec]
    simp only [Bool.false_eq_true, if_false, List.filter_append, filter_flatMap]
    rw [flatMap_congr_mem fun d hd =>
      filter_isDrawIndexed_itemCommands g sizeofBoneUBO 0 d (hlen d hd)]
    simp [Cmd.isDrawIndexed]
  refine ⟨hmain, ?_, ?_⟩
  · intro mesh_type
    rw [hmain]
    exact sublist_flatMap _ (List.filter_sublist _)
  · intro A B C h
    rw [hmain, h]
    simp [List.flatMap_cons]

/-- Witness of C18: the sample pass with the items A (static), B (skeletal), C (static). -/
theorem render_draw_order_witness :
    sampleGBufferPass.is_rendered = false ∧
    (sampleGBufferPass.recordedSince (sampleGBufferPass.render sampleRHI 4096)).filter
      Cmd.isDrawIndexed =
      [.vkCmdDrawIndexed 3 1 0 0 0, .vkCmdDrawIndexed 6 1 3 0 0, .vkCmdDrawIndexed 9 1 0 0 0,
        .vkCmdDrawIndexed 12 1 9 0 0, .vkCmdDrawIndexed 15 1 0 0 0] :=
  ⟨by decide,
    (render_draw_order sampleRHI 4096 sampleGBufferPass (by decide) (by decide)).1.trans
      (by decide)⟩

theorem createPipelineLayouts_ranges (sizeofTransformPCO sizeofMaterialPCO : Nat)
    (result₀ result₁ : VkResult) (layout₀ layout₁ : Handle) (g : GBufferPass) :
    (g.createPipelineLayouts sizeofTransformPCO sizeofMaterialPCO result₀ result₁ layout₀
      layout₁).state.m_push_constant_ranges =
      [{ stageFlags := VK_SHADER_STAGE_VERTEX_BIT, offset := 0, size := sizeofTransformPCO },
       { stageFlags := VK_SHADER_STAGE_FRAGMENT_BIT, offset := sizeofTransformPCO,
         size := sizeofMaterialPCO }] := by
  unfold GBufferPass.createPipelineLayouts GBufferPass.CHECK_VULKAN_RESULT
  by_cases hr : result₁ = VK_SUCCESS
  · simp [hr, GBufferPass.record, PassOutcome.state]
  · simp [hr, GBufferPass.record, PassOutcome.state]

/-- C19. With the push-constant ranges that `createPipelineLayouts` stores, a recording
invocation of `render` issues for every draw item, after the bind of the pipeline of the
item's mesh type and of its vertex and index buffers, for every sub-mesh `i` in order:
a push-constant command for the vertex stage at offset 0 with the size of the transform
block, carrying the item's transform block; a push-constant command for the fragment
stage at the offset and with the size of the material block, carrying `material_pcos[i]`;
the descriptor push; and the draw of the sub-mesh. Both push-constant commands go to the
pipeline layout of the item's mesh type; the second range starts where the first ends. -/
theorem render_push_constants (rhi : VulkanRHI) (sizeofBoneUBO : Nat) (g g₀ : GBufferPass)
    (sizeofTransformPCO sizeofMaterialPCO : Nat) (result₀ result₁ : VkResult)
    (layout₀ layout₁ : Handle) (hrec : g.is_rendered = false)
    (hr : g.m_push_constant_ranges =
      (g₀.createPipelineLayouts sizeofTransformPCO sizeofMaterialPCO result₀ result₁ layout₀
        layout₁).state.m_push_constant_ranges) :
    g.recordedSince (g.render rhi sizeofBoneUBO) =
      [.beginInstantCommands,
        .vkCmdBeginRenderPass g.m_render_pass g.m_framebuffer g.m_width g.m_height 6
          VK_SUBPASS_CONTENTS_INLINE,
        .vkCmdSetViewport g.m_width g.m_height,
        .vkCmdSetScissor g.m_width g.m_height] ++
      g.m_render_datas.flatMap (fun d =>
        [.vkCmdBindPipeline VK_PIPELINE_BIND_POINT_GRAPHICS
            (g.m_pipelines.getD d.mesh_type.toUint32 VK_NULL_HANDLE),
          .vkCmdBindVertexBuffers 0 [d.vertex_buffer] [0],
          .vkCmdBindIndexBuffer d.index_buffer 0 VK_INDEX_TYPE_UINT32] ++
        (List.range d.index_counts.length).flatMap fun i =>
          [.vkCmdPushConstants (g.m_pipeline_layouts.getD d.mesh_type.toUint32 VK_NULL_HANDLE)
              VK_SHADER_STAGE_VERTEX_BIT 0 sizeofTransformPCO
              (.transform_pco d.transform_pco),
            .vkCmdPushConstants (g.m_pipeline_layouts.getD d.mesh_type.toUint32 VK_NULL_HANDLE)
              VK_SHADER_STAGE_FRAGMENT_BIT sizeofTransformPCO sizeofMaterialPCO
              (.material_pco (d.material_pcos.getD i 0)),
            .vkCmdPushDescriptorSetKHR VK_PIPELINE_BIND_POINT_GRAPHICS
              (g.m_pipeline_layouts.getD d.mesh_type.toUint32 VK_NULL_HANDLE) 0
              (GBufferPass.descriptorWrites sizeofBoneUBO 0 d i),
            .vkCmdDrawIndexed (d.index_counts.getD i 0) 1 (d.index_offsets.getD i 0) 0 0]) ++
      [.vkCmdEndRenderPass, .endInstantCommands] ∧
    (∀ first second : VkPushConstantRange, g.m_push_constant_ranges = [first, second] →
      first.offset = 0 ∧ first.offset + first.size = second.offset ∧
      ∀ byte, ¬ (first.offset ≤ byte ∧ byte < first.offset + first.size ∧
        second.offset ≤ byte ∧ byte < second.offset + second.size)) := by
  rw [createPipelineLayouts_ranges] at hr
  constructor
  · rw [render_recorded, hrec]
    simp only [Bool.false_eq_true, if_false]
    congr 2
    apply flatMap_congr_mem
    intro d _
    have h2 : List.range 2 = [0, 1] := rfl
    have hsub : ∀ (layout : Handle) (i : Nat), g.subMeshCommands sizeofBoneUBO 0 d layout i =
        [.vkCmdPushConstants layout VK_SHADER_STAGE_VERTEX_BIT 0 sizeofTransformPCO
            (.transform_pco d.transform_pco),
          .vkCmdPushConstants layout VK_SHADER_STAGE_FRAGMENT_BIT sizeofTransformPCO
            sizeofMaterialPCO (.material_pco (d.material_pcos.getD i 0)),
          .vkCmdPushDescriptorSetKHR VK_PIPELINE_BIND_POINT_GRAPHICS layout 0
            (GBufferPass.descriptorWrites sizeofBoneUBO 0 d i),
          .vkCmdDrawIndexed (d.index_counts.getD i 0) 1 (d.index_offsets.getD i 0) 0 0] := by
      intro layout i
      simp only [GBufferPass.subMeshCommands, GBufferPass.pushConstants, hr, List.length_cons,
        List.length_nil, Nat.zero_add, Nat.reduceAdd, h2, List.map_cons, List.map_nil,
        List.getD_cons_zero, List.getD_cons_succ, List.cons_append, List.nil_append]
    simp only [GBufferPass.itemCommands, List.cons_append, List.nil_append]
    congr 4
    funext i
    exact hsub _ i
  · intro first second h
    rw [hr] at h
    simp only [List.cons.injEq, and_true] at h
    obtain ⟨h₁, h₂⟩ := h
    subst h₁ h₂
    refine ⟨rfl, by simp, ?_⟩
    intro byte hb
    simp only [Nat.zero_add] at hb
    omega

/-- Witness of C19: the sample pass, whose ranges are the ones `createPipelineLayouts`
stored for a transform block of 128 bytes and a material block of 48 bytes. -/
theorem render_push_constants_witness :
    sampleGBufferPass.is_rendered = false ∧
    (sampleGBufferPass.recordedSince (sampleGBufferPass.render sampleRHI 4096)).length = 35 ∧
    ∀ first second : VkPushConstantRange,
      sampleGBufferPass.m_push_constant_ranges = [first, second] →
      first.offset = 0 ∧ first.offset + first.size = second.offset ∧
      ∀ byte, ¬ (first.offset ≤ byte ∧ byte < first.offset + first.size ∧
        second.offset ≤ byte ∧ byte < second.offset + second.size) :=
  ⟨by decide, by decide,
    (render_push_constants sampleRHI 4096 sampleGBufferPass blankGBufferPass 128 48 VK_SUCCESS
      VK_SUCCESS 501 502 (by decide) rfl).2⟩
theorem boneBuffers_append (a b : List Cmd) :
    boneBuffers (a ++ b) = boneBuffers a ++ boneBuffers b := by
  unfold boneBuffers
  rw [List.flatMap_append]

theorem boneBuffers_flatMap {α : Type} (f : α → List Cmd) (l : List α) :
    boneBuffers (l.flatMap f) = l.flatMap fun a => boneBuffers (f a) := by
  induction l with
  | nil => rfl
  | cons a l ih => rw [List.flatMap_cons, List.flatMap_cons, boneBuffers_append, ih]

theorem boneBuffers_pushConstants (g : GBufferPass) (layout : Handle)
    (pcos : List PushConstantData) : boneBuffers (g.pushConstants layout pcos) = [] := by
  unfold GBufferPass.pushConstants boneBuffers
  rw [List.flatMap_eq_nil_iff]
  intro cmd hcmd
  obtain ⟨c, -, rfl⟩ := List.mem_map.mp hcmd
  rfl

/-- The bone buffer among the descriptor writes of a sub-mesh. -/
theorem boneBuffers_descriptorWrites (sizeofBoneUBO flight_index : Nat)
    (render_data : RenderData) (layout : Handle) (i : Nat) :
    boneBuffers [.vkCmdPushDescriptorSetKHR VK_PIPELINE_BIND_POINT_GRAPHICS layout 0
      (GBufferPass.descriptorWrites sizeofBoneUBO flight_index render_data i)] =
      if render_data.mesh_type = EMeshType.Skeletal then
        [render_data.bone_ubs.getD flight_index VK_NULL_HANDLE]
      else [] := by
  have h5 : List.range 5 = [0, 1, 2, 3, 4] := rfl
  by_cases h : render_data.mesh_type = EMeshType.Skeletal
  · simp [boneBuffers, GBufferPass.descriptorWrites, h, h5,
      VK_DESCRIPTOR_TYPE_COMBINED_IMAGE_SAMPLER, VK_DESCRIPTOR_TYPE_UNIFORM_BUFFER]
  · simp [boneBuffers, GBufferPass.descriptorWrites, h, h5,
      VK_DESCRIPTOR_TYPE_COMBINED_IMAGE_SAMPLER, VK_DESCRIPTOR_TYPE_UNIFORM_BUFFER]

theorem flatMap_const_singleton {α β : Type} (b : β) (l : List α) :
    (l.flatMap fun _ => [b]) = List.replicate l.length b := by
  induction l with
  | nil => rfl
  | cons a l ih => simp [List.flatMap_cons, ih, List.replicate_succ]

theorem flatMap_const_nil {α β : Type} (l : List α) :
    (l.flatMap fun _ => ([] : List β)) = [] := by
  induction l with
  | nil => rfl
  | cons a l ih => simp [List.flatMap_cons, ih]

/-- The bone buffers among the calls of one draw item. -/
theorem boneBuffers_itemCommands (g : GBufferPass) (sizeofBoneUBO flight_index : Nat)
    (render_data : RenderData) :
    boneBuffers (g.itemCommands sizeofBoneUBO flight_index render_data) =
      if render_data.mesh_type = EMeshType.Skeletal then
        List.replicate render_data.index_counts.length
          (render_data.bone_ubs.getD flight_index VK_NULL_HANDLE)
      else [] := by
  have hsub : ∀ (layout : Handle) (i : Nat),
      boneBuffers (g.subMeshCommands sizeofBoneUBO flight_index render_data layout i) =
        if render_data.mesh_type = EMeshType.Skeletal then
          [render_data.bone_ubs.getD flight_index VK_NULL_HANDLE]
        else [] := by
    intro layout i
    unfold GBufferPass.subMeshCommands
    have e : ∀ (a b : Cmd) (l : List Cmd), l ++ [a, b] = l ++ [a] ++ [b] := by
      intro a b l; simp
    rw [e, boneBuffers_append, boneBuffers_append, boneBuffers_pushConstants,
      boneBuffers_descriptorWrites]
    simp [boneBuffers]
  unfold GBufferPass.itemCommands
  simp only []
  rw [boneBuffers_append, boneBuffers_flatMap]
  have hfun : (fun i => boneBuffers (g.subMeshCommands sizeofBoneUBO flight_index render_data
      (g.m_pipeline_layouts.getD render_data.mesh_type.toUint32 VK_NULL_HANDLE) i)) =
      fun _ => if render_data.mesh_type = EMeshType.Skeletal then
          [render_data.bone_ubs.getD flight_index VK_NULL_HANDLE]
        else [] := funext fun i => hsub _ i
  rw [hfun]
  by_cases h : render_data.mesh_type = EMeshType.Skeletal
  · simp only [h, if_true, flatMap_const_singleton, List.length_range]
    simp [boneBuffers]
  · simp only [h, if_false, flatMap_const_nil]
    simp [boneBuffers]

/-- C20 does not hold of the code: `render` does not read the flight index of the RHI.
In a recording invocation every bone-buffer descriptor of a skeletal item refers to
`bone_ubs[0]`, one per sub-mesh, whatever the state of the RHI; while frame slot 1 is
current, the sample pass binds buffer 70 of slot 0 for both sub-meshes of the skeletal
item B, not buffer 71 of slot 1. -/
theorem render_binds_bone_buffer_of_slot_zero :
    (∀ (rhi : VulkanRHI) (sizeofBoneUBO : Nat) (g : GBufferPass), g.is_rendered = false →
      boneBuffers (g.recordedSince (g.render rhi sizeofBoneUBO)) =
        g.m_render_datas.flatMap fun d =>
          if d.mesh_type = EMeshType.Skeletal then
            List.replicate d.index_counts.length (d.bone_ubs.getD 0 VK_NULL_HANDLE)
          else []) ∧
    slotOneRHI.m_flight_index = 1 ∧
    boneBuffers (sampleGBufferPass.recordedSince (sampleGBufferPass.render slotOneRHI 4096)) =
      [70, 70] ∧
    itemB.bone_ubs.getD slotOneRHI.m_flight_index VK_NULL_HANDLE = 71 ∧
    itemB ∈ sampleGBufferPass.m_render_datas ∧ itemB.mesh_type = EMeshType.Skeletal := by
  refine ⟨?_, by decide, by decide, by decide, by decide, by decide⟩
  intro rhi sizeofBoneUBO g hrec
  rw [render_recorded, hrec]
  simp only [Bool.false_eq_true, if_false, boneBuffers_append, boneBuffers_flatMap,
    boneBuffers_itemCommands]
  simp [boneBuffers]

/-! ## Pipelines and descriptors per mesh type -/

theorem createDescriptorSetLayouts_recorded (result₀ result₁ : VkResult)
    (layout₀ layout₁ : Handle) (g : GBufferPass) :
    g.recordedSince (g.createDescriptorSetLayouts result₀ result₁ layout₀ layout₁).state =
      [.vkCreateDescriptorSetLayout VK_DESCRIPTOR_SET_LAYOUT_CREATE_PUSH_DESCRIPTOR_BIT_KHR
          [⟨1, VK_DESCRIPTOR_TYPE_COMBINED_IMAGE_SAMPLER, 1, VK_SHADER_STAGE_FRAGMENT_BIT⟩,
            ⟨2, VK_DESCRIPTOR_TYPE_COMBINED_IMAGE_SAMPLER, 1, VK_SHADER_STAGE_FRAGMENT_BIT⟩,
            ⟨3, VK_DESCRIPTOR_TYPE_COMBINED_IMAGE_SAMPLER, 1, VK_SHADER_STAGE_FRAGMENT_BIT⟩,
            ⟨4, VK_DESCRIPTOR_TYPE_COMBINED_IMAGE_SAMPLER, 1, VK_SHADER_STAGE_FRAGMENT_BIT⟩,
            ⟨5, VK_DESCRIPTOR_TYPE_COMBINED_IMAGE_SAMPLER, 1, VK_SHADER_STAGE_FRAGMENT_BIT⟩],
        .vkCreateDescriptorSetLayout VK_DESCRIPTOR_SET_LAYOUT_CREATE_PUSH_DESCRIPTOR_BIT_KHR
          [⟨0, VK_DESCRIPTOR_TYPE_UNIFORM_BUFFER, 1, VK_SHADER_STAGE_VERTEX_BIT⟩,
            ⟨1, VK_DESCRIPTOR_TYPE_COMBINED_IMAGE_SAMPLER, 1, VK_SHADER_STAGE_FRAGMENT_BIT⟩,
            ⟨2, VK_DESCRIPTOR_TYPE_COMBINED_IMAGE_SAMPLER, 1, VK_SHADER_STAGE_FRAGMENT_BIT⟩,
            ⟨3, VK_DESCRIPTOR_TYPE_COMBINED_IMAGE_SAMPLER, 1, VK_SHADER_STAGE_FRAGMENT_BIT⟩,
            ⟨4, VK_DESCRIPTOR_TYPE_COMBINED_IMAGE_SAMPLER, 1, VK_SHADER_STAGE_FRAGMENT_BIT⟩,
            ⟨5, VK_DESCRIPTOR_TYPE_COMBINED_IMAGE_SAMPLER, 1, VK_SHADER_STAGE_FRAGMENT_BIT⟩]]
    := by
  apply recordedSince_of_recorded
  unfold GBufferPass.createDescriptorSetLayouts GBufferPass.CHECK_VULKAN_RESULT
  by_cases hr : result₁ = VK_SUCCESS
  · simp [hr, GBufferPass.record, PassOutcome.state]
  · simp [hr, GBufferPass.record, PassOutcome.state]

/-- The binding and type of the descriptor writes of a sub-mesh. -/
theorem descriptorWrites_bindings (sizeofBoneUBO flight_index : Nat) (render_data : RenderData)
    (i : Nat) :
    (GBufferPass.descriptorWrites sizeofBoneUBO flight_index render_data i).map
        (fun w => (w.dstBinding, w.descriptorType)) =
      if render_data.mesh_type = EMeshType.Skeletal then
        [(0, VK_DESCRIPTOR_TYPE_UNIFORM_BUFFER), (1, VK_DESCRIPTOR_TYPE_COMBINED_IMAGE_SAMPLER),
          (2, VK_DESCRIPTOR_TYPE_COMBINED_IMAGE_SAMPLER),
          (3, VK_DESCRIPTOR_TYPE_COMBINED_IMAGE_SAMPLER),
          (4, VK_DESCRIPTOR_TYPE_COMBINED_IMAGE_SAMPLER),
          (5, VK_DESCRIPTOR_TYPE_COMBINED_IMAGE_SAMPLER)]
      else
        [(1, VK_DESCRIPTOR_TYPE_COMBINED_IMAGE_SAMPLER),
          (2, VK_DESCRIPTOR_TYPE_COMBINED_IMAGE_SAMPLER),
          (3, VK_DESCRIPTOR_TYPE_COMBINED_IMAGE_SAMPLER),
          (4, VK_DESCRIPTOR_TYPE_COMBINED_IMAGE_SAMPLER),
          (5, VK_DESCRIPTOR_TYPE_COMBINED_IMAGE_SAMPLER)] := by
  have h5 : List.range 5 = [0, 1, 2, 3, 4] := rfl
  by_cases h : render_data.mesh_type = EMeshType.Skeletal
  · simp [GBufferPass.descriptorWrites, h, h5, toUint32]
  · simp [GBufferPass.descriptorWrites, h, h5, toUint32]

/-- The image views of the descriptor writes of a sub-mesh, in order. -/
theorem descriptorWrites_views (sizeofBoneUBO flight_index : Nat) (render_data : RenderData)
    (i : Nat) (textures : PBRTexture) (h : render_data.pbr_textures[i]? = some textures) :
    (GBufferPass.descriptorWrites sizeofBoneUBO flight_index render_data i).filterMap
        (fun w => w.pImageInfo.map fun info => (w.dstBinding, info.imageView, info.sampler)) =
      [(1, textures.base_color_texure.view, textures.base_color_texure.sampler),
        (2, textures.metallic_roughness_texure.view,
          textures.metallic_roughness_texure.sampler),
        (3, textures.normal_texure.view, textures.normal_texure.sampler),
        (4, textures.occlusion_texure.view, textures.occlusion_texure.sampler),
        (5, textures.emissive_texure.view, textures.emissive_texure.sampler)] := by
  have h5 : List.range 5 = [0, 1, 2, 3, 4] := rfl
  by_cases hm : render_data.mesh_type = EMeshType.Skeletal
  · simp [GBufferPass.descriptorWrites, hm, h5, toUint32, List.getD, h]
  · simp [GBufferPass.descriptorWrites, hm, h5, toUint32, List.getD, h]

theorem boundPipelines_append (a b : List Cmd) :
    boundPipelines (a ++ b) = boundPipelines a ++ boundPipelines b := by
  unfold boundPipelines
  rw [List.filterMap_append]

theorem pushedDescriptors_append (a b : List Cmd) :
    pushedDescriptors (a ++ b) = pushedDescriptors a ++ pushedDescriptors b := by
  unfold pushedDescriptors
  rw [List.filterMap_append]

theorem boundPipelines_flatMap {α : Type} (f : α → List Cmd) (l : List α) :
    boundPipelines (l.flatMap f) = l.flatMap fun a => boundPipelines (f a) := by
  induction l with
  | nil => rfl
  | cons a l ih => rw [List.flatMap_cons, List.flatMap_cons, boundPipelines_append, ih]

theorem pushedDescriptors_flatMap {α : Type} (f : α → List Cmd) (l : List α) :
    pushedDescriptors (l.flatMap f) = l.flatMap fun a => pushedDescriptors (f a) := by
  induction l with
  | nil => rfl
  | cons a l ih => rw [List.flatMap_cons, List.flatMap_cons, pushedDescriptors_append, ih]

theorem boundPipelines_pushConstants (g : GBufferPass) (layout : Handle)
    (pcos : List PushConstantData) : boundPipelines (g.pushConstants layout pcos) = [] := by
  unfold GBufferPass.pushConstants boundPipelines
  rw [List.filterMap_eq_nil_iff]
  intro cmd hcmd
  obtain ⟨c, -, rfl⟩ := List.mem_map.mp hcmd
  rfl

theorem pushedDescriptors_pushConstants (g : GBufferPass) (layout : Handle)
    (pcos : List PushConstantData) : pushedDescriptors (g.pushConstants layout pcos) = [] := by
  unfold GBufferPass.pushConstants pushedDescriptors
  rw [List.filterMap_eq_nil_iff]
  intro cmd hcmd
  obtain ⟨c, -, rfl⟩ := List.mem_map.mp hcmd
  rfl

/-- The pipeline bound among the calls of one draw item. -/
theorem boundPipelines_itemCommands (g : GBufferPass) (sizeofBoneUBO flight_index : Nat)
    (render_data : RenderData) :
    boundPipelines (g.itemCommands sizeofBoneUBO flight_index render_data) =
      [g.m_pipelines.getD render_data.mesh_type.toUint32 VK_NULL_HANDLE] := by
  have hsub : ∀ (layout : Handle) (i : Nat),
      boundPipelines (g.subMeshCommands sizeofBoneUBO flight_index render_data layout i) = []
      := by
    intro layout i
    unfold GBufferPass.subMeshCommands
    rw [boundPipelines_append, boundPipelines_pushConstants]
    rfl
  unfold GBufferPass.itemCommands
  simp only []
  rw [boundPipelines_append, boundPipelines_flatMap]
  have hfun : (fun i => boundPipelines (g.subMeshCommands sizeofBoneUBO flight_index
      render_data (g.m_pipeline_layouts.getD render_data.mesh_type.toUint32 VK_NULL_HANDLE) i))
      = fun _ => [] := funext fun i => hsub _ i
  rw [hfun, flatMap_const_nil]
  rfl

/-- The descriptor pushes among the calls of one draw item. -/
theorem pushedDescriptors_itemCommands (g : GBufferPass) (sizeofBoneUBO flight_index : Nat)
    (render_data : RenderData) :
    pushedDescriptors (g.itemCommands sizeofBoneUBO flight_index render_data) =
      List.replicate render_data.index_counts.length
        (g.m_pipeline_layouts.getD render_data.mesh_type.toUint32 VK_NULL_HANDLE,
          if render_data.mesh_type = EMeshType.Skeletal then
            [(0, VK_DESCRIPTOR_TYPE_UNIFORM_BUFFER),
              (1, VK_DESCRIPTOR_TYPE_COMBINED_IMAGE_SAMPLER),
              (2, VK_DESCRIPTOR_TYPE_COMBINED_IMAGE_SAMPLER),
              (3, VK_DESCRIPTOR_TYPE_COMBINED_IMAGE_SAMPLER),
              (4, VK_DESCRIPTOR_TYPE_COMBINED_IMAGE_SAMPLER),
              (5, VK_DESCRIPTOR_TYPE_COMBINED_IMAGE_SAMPLER)]
          else
            [(1, VK_DESCRIPTOR_TYPE_COMBINED_IMAGE_SAMPLER),
              (2, VK_DESCRIPTOR_TYPE_COMBINED_IMAGE_SAMPLER),
              (3, VK_DESCRIPTOR_TYPE_COMBINED_IMAGE_SAMPLER),
              (4, VK_DESCRIPTOR_TYPE_COMBINED_IMAGE_SAMPLER),
              (5, VK_DESCRIPTOR_TYPE_COMBINED_IMAGE_SAMPLER)]) := by
  have hsub : ∀ (layout : Handle) (i : Nat),
      pushedDescriptors (g.subMeshCommands sizeofBoneUBO flight_index render_data layout i) =
        [(layout, (GBufferPass.descriptorWrites sizeofBoneUBO flight_index render_data i).map
          fun w => (w.dstBinding, w.descriptorType))] := by
    intro layout i
    unfold GBufferPass.subMeshCommands
    rw [pushedDescriptors_append, pushedDescriptors_pushConstants]
    rfl
  unfold GBufferPass.itemCommands
  simp only []
  rw [pushedDescriptors_append, pushedDescriptors_flatMap]
  have hfun : (fun i => pushedDescriptors (g.subMeshCommands sizeofBoneUBO flight_index
      render_data (g.m_pipeline_layouts.getD render_data.mesh_type.toUint32 VK_NULL_HANDLE) i))
      = fun _ => [(g.m_pipeline_layouts.getD render_data.mesh_type.toUint32 VK_NULL_HANDLE,
          if render_data.mesh_type = EMeshType.Skeletal then
            [(0, VK_DESCRIPTOR_TYPE_UNIFORM_BUFFER),
              (1, VK_DESCRIPTOR_TYPE_COMBINED_IMAGE_SAMPLER),
              (2, VK_DESCRIPTOR_TYPE_COMBINED_IMAGE_SAMPLER),
              (3, VK_DESCRIPTOR_TYPE_COMBINED_IMAGE_SAMPLER),
              (4, VK_DESCRIPTOR_TYPE_COMBINED_IMAGE_SAMPLER),
              (5, VK_DESCRIPTOR_TYPE_COMBINED_IMAGE_SAMPLER)]
          else
            [(1, VK_DESCRIPTOR_TYPE_COMBINED_IMAGE_SAMPLER),
              (2, VK_DESCRIPTOR_TYPE_COMBINED_IMAGE_SAMPLER),
              (3, VK_DESCRIPTOR_TYPE_COMBINED_IMAGE_SAMPLER),
              (4, VK_DESCRIPTOR_TYPE_COMBINED_IMAGE_SAMPLER),
              (5, VK_DESCRIPTOR_TYPE_COMBINED_IMAGE_SAMPLER)])] :=
    funext fun i => by rw [hsub, descriptorWrites_bindings]
  rw [hfun, flatMap_const_singleton, List.length_range]
  rfl
theorem resizeHandles_two_set (v : List Handle) (a b : Handle) :
    ((resizeHandles 2 v).set 0 a).set 1 b = [a, b] := by
  unfold resizeHandles
  rcases v with _ | ⟨x, _ | ⟨y, rest⟩⟩ <;> simp [List.replicate]

theorem createDescriptorSetLayouts_handles (result₀ result₁ : VkResult)
    (layout₀ layout₁ : Handle) (g : GBufferPass) :
    (g.createDescriptorSetLayouts result₀ result₁ layout₀ layout₁).state.m_desc_set_layouts =
      [layout₀, layout₁] := by
  have h := resizeHandles_two_set g.m_desc_set_layouts layout₀ layout₁
  unfold GBufferPass.createDescriptorSetLayouts GBufferPass.CHECK_VULKAN_RESULT
  by_cases hr : result₁ = VK_SUCCESS
  · simpa [hr, GBufferPass.record, PassOutcome.state] using h
  · simpa [hr, GBufferPass.record, PassOutcome.state] using h

theorem createPipelineLayouts_layouts (sizeofTransformPCO sizeofMaterialPCO : Nat)
    (result₀ result₁ : VkResult) (layout₀ layout₁ : Handle) (g : GBufferPass) :
    (g.createPipelineLayouts sizeofTransformPCO sizeofMaterialPCO result₀ result₁ layout₀
        layout₁).state.m_pipeline_layouts = [layout₀, layout₁] ∧
    ∃ ranges,
      g.recordedSince (g.createPipelineLayouts sizeofTransformPCO sizeofMaterialPCO result₀
          result₁ layout₀ layout₁).state =
        [.vkCreatePipelineLayout [g.m_desc_set_layouts.getD 0 VK_NULL_HANDLE] ranges,
          .vkCreatePipelineLayout [g.m_desc_set_layouts.getD 1 VK_NULL_HANDLE] ranges] := by
  have h := resizeHandles_two_set g.m_pipeline_layouts layout₀ layout₁
  constructor
  · unfold GBufferPass.createPipelineLayouts GBufferPass.CHECK_VULKAN_RESULT
    by_cases hr : result₁ = VK_SUCCESS
    · simpa [hr, GBufferPass.record, PassOutcome.state] using h
    · simpa [hr, GBufferPass.record, PassOutcome.state] using h
  · refine ⟨[(⟨VK_SHADER_STAGE_VERTEX_BIT, 0, sizeofTransformPCO⟩ : VkPushConstantRange),
      ⟨VK_SHADER_STAGE_FRAGMENT_BIT, sizeofTransformPCO, sizeofMaterialPCO⟩],
      recordedSince_of_recorded ?_⟩
    unfold GBufferPass.createPipelineLayouts GBufferPass.CHECK_VULKAN_RESULT
    by_cases hr : result₁ = VK_SUCCESS
    · simp only [hr, if_true, GBufferPass.record, PassOutcome.state, List.append_assoc,
        List.cons_append, List.nil_append]
    · simp only [hr, if_false, GBufferPass.record, PassOutcome.state, List.append_assoc,
        List.cons_append, List.nil_append]

/-- C21. `createDescriptorSetLayouts` declares layout 0 with the bindings 1 to 5 as combined
image samplers and layout 1 with binding 0 as a uniform buffer followed by the same five
bindings, and `createPipelineLayouts` creates pipeline layout `t` from descriptor-set
layout `t`. In a recording invocation `render` binds for every draw item, in input order,
the pipeline `m_pipelines[t]` of the item's mesh type `t`, and pushes for every sub-mesh
one descriptor set against `m_pipeline_layouts[t]` whose writes have, in order, exactly
the bindings and descriptor types that layout `t` declares, each binding once; the image
writes carry the base colour, metallic-roughness, normal, occlusion and emissive textures
of the sub-mesh at the bindings 1 to 5. -/
theorem render_descriptor_scheme (rhi : VulkanRHI) (sizeofBoneUBO : Nat) (g g₀ : GBufferPass)
    (result₀ result₁ : VkResult) (layout₀ layout₁ : Handle) (hrec : g.is_rendered = false) :
    declaredLayouts (g₀.recordedSince
        (g₀.createDescriptorSetLayouts result₀ result₁ layout₀ layout₁).state) =
      [[(1, VK_DESCRIPTOR_TYPE_COMBINED_IMAGE_SAMPLER),
          (2, VK_DESCRIPTOR_TYPE_COMBINED_IMAGE_SAMPLER),
          (3, VK_DESCRIPTOR_TYPE_COMBINED_IMAGE_SAMPLER),
          (4, VK_DESCRIPTOR_TYPE_COMBINED_IMAGE_SAMPLER),
          (5, VK_DESCRIPTOR_TYPE_COMBINED_IMAGE_SAMPLER)],
        [(0, VK_DESCRIPTOR_TYPE_UNIFORM_BUFFER),
          (1, VK_DESCRIPTOR_TYPE_COMBINED_IMAGE_SAMPLER),
          (2, VK_DESCRIPTOR_TYPE_COMBINED_IMAGE_SAMPLER),
          (3, VK_DESCRIPTOR_TYPE_COMBINED_IMAGE_SAMPLER),
          (4, VK_DESCRIPTOR_TYPE_COMBINED_IMAGE_SAMPLER),
          (5, VK_DESCRIPTOR_TYPE_COMBINED_IMAGE_SAMPLER)]] ∧
    (g₀.createDescriptorSetLayouts result₀ result₁ layout₀ layout₁).state.m_desc_set_layouts =
      [layout₀, layout₁] ∧
    (∀ (sizeofTransformPCO sizeofMaterialPCO : Nat) (r₀ r₁ : VkResult) (p₀ p₁ : Handle)
        (h : GBufferPass),
      (h.createPipelineLayouts sizeofTransformPCO sizeofMaterialPCO r₀ r₁ p₀
          p₁).state.m_pipeline_layouts = [p₀, p₁] ∧
      ∃ ranges,
        h.recordedSince (h.createPipelineLayouts sizeofTransformPCO sizeofMaterialPCO r₀ r₁ p₀
            p₁).state =
          [.vkCreatePipelineLayout [h.m_desc_set_layouts.getD 0 VK_NULL_HANDLE] ranges,
            .vkCreatePipelineLayout [h.m_desc_set_layouts.getD 1 VK_NULL_HANDLE] ranges]) ∧
    boundPipelines (g.recordedSince (g.render rhi sizeofBoneUBO)) =
      g.m_render_datas.map (fun d => g.m_pipelines.getD d.mesh_type.toUint32 VK_NULL_HANDLE) ∧
    pushedDescriptors (g.recordedSince (g.render rhi sizeofBoneUBO)) =
      g.m_render_datas.flatMap (fun d =>
        List.replicate d.index_counts.length
          (g.m_pipeline_layouts.getD d.mesh_type.toUint32 VK_NULL_HANDLE,
            (declaredLayouts (g₀.recordedSince
              (g₀.createDescriptorSetLayouts result₀ result₁ layout₀ layout₁).state)).getD
                d.mesh_type.toUint32 [])) ∧
    (∀ layout ∈ declaredLayouts (g₀.recordedSince
        (g₀.createDescriptorSetLayouts result₀ result₁ layout₀ layout₁).state),
      (layout.map Prod.fst).Nodup) ∧
    (∀ (d : RenderData) (i : Nat) (textures : PBRTexture),
      d.pbr_textures[i]? = some textures →
      (GBufferPass.descriptorWrites sizeofBoneUBO 0 d i).filterMap
          (fun w => w.pImageInfo.map fun info => (w.dstBinding, info.imageView, info.sampler)) =
        [(1, textures.base_color_texure.view, textures.base_color_texure.sampler),
          (2, textures.metallic_roughness_texure.view,
            textures.metallic_roughness_texure.sampler),
          (3, textures.normal_texure.view, textures.normal_texure.sampler),
          (4, textures.occlusion_texure.view, textures.occlusion_texure.sampler),
          (5, textures.emissive_texure.view, textures.emissive_texure.sampler)]) := by
  have hdecl : declaredLayouts (g₀.recordedSince
        (g₀.createDescriptorSetLayouts result₀ result₁ layout₀ layout₁).state) =
      [[(1, VK_DESCRIPTOR_TYPE_COMBINED_IMAGE_SAMPLER),
          (2, VK_DESCRIPTOR_TYPE_COMBINED_IMAGE_SAMPLER),
          (3, VK_DESCRIPTOR_TYPE_COMBINED_IMAGE_SAMPLER),
          (4, VK_DESCRIPTOR_TYPE_COMBINED_IMAGE_SAMPLER),
          (5, VK_DESCRIPTOR_TYPE_COMBINED_IMAGE_SAMPLER)],
        [(0, VK_DESCRIPTOR_TYPE_UNIFORM_BUFFER),
          (1, VK_DESCRIPTOR_TYPE_COMBINED_IMAGE_SAMPLER),
          (2, VK_DESCRIPTOR_TYPE_COMBINED_IMAGE_SAMPLER),
          (3, VK_DESCRIPTOR_TYPE_COMBINED_IMAGE_SAMPLER),
          (4, VK_DESCRIPTOR_TYPE_COMBINED_IMAGE_SAMPLER),
          (5, VK_DESCRIPTOR_TYPE_COMBINED_IMAGE_SAMPLER)]] := by
    rw [createDescriptorSetLayouts_recorded]
    rfl
  refine ⟨hdecl, createDescriptorSetLayouts_handles _ _ _ _ _,
    fun T M r₀ r₁ p₀ p₁ h => createPipelineLayouts_layouts T M r₀ r₁ p₀ p₁ h, ?_, ?_, ?_,
    fun d i textures h => descriptorWrites_views sizeofBoneUBO 0 d i textures h⟩
  · rw [render_recorded, hrec]
    simp only [Bool.false_eq_true, if_false, boundPipelines_append, boundPipelines_flatMap,
      boundPipelines_itemCommands, flatMap_singleton_eq_map]
    simp [boundPipelines]
  · rw [render_recorded, hrec, hdecl]
    simp only [Bool.false_eq_true, if_false, pushedDescriptors_append,
      pushedDescriptors_flatMap, pushedDescriptors_itemCommands]
    have hpre : pushedDescriptors [Cmd.beginInstantCommands,
        Cmd.vkCmdBeginRenderPass g.m_render_pass g.m_framebuffer g.m_width g.m_height 6
          VK_SUBPASS_CONTENTS_INLINE,
        Cmd.vkCmdSetViewport g.m_width g.m_height,
        Cmd.vkCmdSetScissor g.m_width g.m_height] = [] := rfl
    have hpost : pushedDescriptors [Cmd.vkCmdEndRenderPass, Cmd.endInstantCommands] = [] := rfl
    rw [hpre, hpost, List.nil_append, List.append_nil]
    apply flatMap_congr_mem
    intro d _
    cases hd : d.mesh_type <;> simp [EMeshType.toUint32]
  · intro layout hl
    rw [hdecl] at hl
    simp only [List.mem_cons, List.mem_singleton, List.not_mem_nil, or_false] at hl
    rcases hl with rfl | rfl <;> decide

/-- Witness of C21: the sample pass with a static, a skeletal and a static item. -/
theorem render_descriptor_scheme_witness :
    sampleGBufferPass.is_rendered = false ∧
    boundPipelines (sampleGBufferPass.recordedSince (sampleGBufferPass.render sampleRHI 4096)) =
      [601, 602, 601] ∧
    (pushedDescriptors (sampleGBufferPass.recordedSince
      (sampleGBufferPass.render sampleRHI 4096))).map Prod.fst = [501, 501, 502, 502, 501] :=
  ⟨by decide,
    (render_descriptor_scheme sampleRHI 4096 sampleGBufferPass blankGBufferPass VK_SUCCESS
      VK_SUCCESS 401 402 (by decide)).2.2.2.1.trans (by decide),
    by decide⟩
/-! ## The debug callback, the command buffers and the one-shot guard -/

theorem single_bit_iff_containsBits (k flags : Nat) :
    flags &&& 2 ^ k ≠ 0 ↔ containsBits flags (2 ^ k) := by
  constructor
  · intro h
    exact containsBits_of_single_bit k (2 ^ k) flags (Nat.and_self _) h
  · intro h
    rw [(land_eq_iff_containsBits _ _).mpr h]
    exact (Nat.two_pow_pos k).ne'

/-- C22. For every severity, message type, message and user data the callback returns
`VK_FALSE`; it writes exactly one log entry with the message, at warning level, when the
warning bit of the severity is set; exactly one, at error level, when the warning bit is
not set and the error bit is; and none when neither bit is set. -/
theorem debugUtilsMessengerCallback_only_logs (message_severity message_type : Nat)
    (pMessage : String) (p_user_data : Nat) :
    (debugUtilsMessengerCallback message_severity message_type pMessage p_user_data).1 =
      VK_FALSE ∧
    (containsBits message_severity VK_DEBUG_UTILS_MESSAGE_SEVERITY_WARNING_BIT_EXT →
      (debugUtilsMessengerCallback message_severity message_type pMessage p_user_data).2 =
        [{ level := .warning, format := "vulkan validation layer: \x7b\x7d"
           argument := pMessage }]) ∧
    (¬ containsBits message_severity VK_DEBUG_UTILS_MESSAGE_SEVERITY_WARNING_BIT_EXT →
      containsBits message_severity VK_DEBUG_UTILS_MESSAGE_SEVERITY_ERROR_BIT_EXT →
      (debugUtilsMessengerCallback message_severity message_type pMessage p_user_data).2 =
        [{ level := .error, format := "vulkan validation layer: \x7b\x7d"
           argument := pMessage }]) ∧
    (¬ containsBits message_severity VK_DEBUG_UTILS_MESSAGE_SEVERITY_WARNING_BIT_EXT →
      ¬ containsBits message_severity VK_DEBUG_UTILS_MESSAGE_SEVERITY_ERROR_BIT_EXT →
      (debugUtilsMessengerCallback message_severity message_type pMessage p_user_data).2 = [])
    := by
  have hw : message_severity &&& VK_DEBUG_UTILS_MESSAGE_SEVERITY_WARNING_BIT_EXT ≠ 0 ↔
      containsBits message_severity VK_DEBUG_UTILS_MESSAGE_SEVERITY_WARNING_BIT_EXT :=
    single_bit_iff_containsBits 8 message_severity
  have he : message_severity &&& VK_DEBUG_UTILS_MESSAGE_SEVERITY_ERROR_BIT_EXT ≠ 0 ↔
      containsBits message_severity VK_DEBUG_UTILS_MESSAGE_SEVERITY_ERROR_BIT_EXT :=
    single_bit_iff_containsBits 12 message_severity
  refine ⟨rfl, ?_, ?_, ?_⟩
  · intro h
    have := hw.mpr h
    simp [debugUtilsMessengerCallback, this, LOG_WARNING]
  · intro h₁ h₂
    have n₁ : message_severity &&& VK_DEBUG_UTILS_MESSAGE_SEVERITY_WARNING_BIT_EXT = 0 :=
      Classical.not_not.mp fun h => h₁ (hw.mp h)
    have n₂ := he.mpr h₂
    simp [debugUtilsMessengerCallback, n₁, n₂, LOG_ERROR]
  · intro h₁ h₂
    have n₁ : message_severity &&& VK_DEBUG_UTILS_MESSAGE_SEVERITY_WARNING_BIT_EXT = 0 :=
      Classical.not_not.mp fun h => h₁ (hw.mp h)
    have n₂ : message_severity &&& VK_DEBUG_UTILS_MESSAGE_SEVERITY_ERROR_BIT_EXT = 0 :=
      Classical.not_not.mp fun h => h₂ (he.mp h)
    simp [debugUtilsMessengerCallback, n₁, n₂]

theorem resizeHandles_length (n : Nat) (v : List Handle) : (resizeHandles n v).length = n := by
  unfold resizeHandles
  simp

/-- The run of `createCommandBuffers`: two allocation calls of two buffers each, the second
of which overwrites what the first stored. -/
theorem createCommandBuffers_run (newCommandBuffer : Nat → Nat → Handle) (s : VulkanRHI) :
    (createCommandBuffers newCommandBuffer s).trace = s.trace ++
      [.lifecycle (.vkAllocateCommandBuffers s.m_device s.m_command_pool
          VK_COMMAND_BUFFER_LEVEL_PRIMARY 2 [newCommandBuffer 0 0, newCommandBuffer 0 1]),
        .lifecycle (.vkAllocateCommandBuffers s.m_device s.m_command_pool
          VK_COMMAND_BUFFER_LEVEL_PRIMARY 2 [newCommandBuffer 1 0, newCommandBuffer 1 1])] ∧
    (createCommandBuffers newCommandBuffer s).m_command_buffers =
      [newCommandBuffer 1 0, newCommandBuffer 1 1] := by
  have h2 : List.range 2 = [0, 1] := rfl
  have hl : (resizeHandles 2 s.m_command_buffers).length = 2 := resizeHandles_length 2 _
  have hm : MAX_FRAMES_IN_FLIGHT = 2 := rfl
  have hd : (resizeHandles 2 s.m_command_buffers).drop 2 = [] := by
    apply List.drop_eq_nil_of_le
    rw [hl]
  unfold createCommandBuffers
  simp only [hm, hl, Nat.reduceMod, createCommandBuffers_loop, h2, List.map_cons, List.map_nil,
    emit]
  constructor
  · simp
  · simp [hd]

/-- C23 does not hold of the code: `createCommandBuffers` calls `vkAllocateCommandBuffers`
twice, each time for two buffers written to the start of `m_command_buffers`. Four command
buffers are allocated, the two of the second call are stored, and the two of the first
call are referenced nowhere: with the sample driver the buffers 61 to 64 are allocated,
`m_command_buffers` is `[63, 64]`, and 61 and 62 are lost. -/
theorem createCommandBuffers_allocates_twice :
    (∀ (newCommandBuffer : Nat → Nat → Handle) (s : VulkanRHI),
      allocatedCommandBuffers
          ((createCommandBuffers newCommandBuffer s).trace.drop s.trace.length) =
        [newCommandBuffer 0 0, newCommandBuffer 0 1, newCommandBuffer 1 0,
          newCommandBuffer 1 1] ∧
      (createCommandBuffers newCommandBuffer s).m_command_buffers =
        [newCommandBuffer 1 0, newCommandBuffer 1 1]) ∧
    allocatedCommandBuffers
        ((createCommandBuffers sampleCommandBuffer blankRHI).trace.drop blankRHI.trace.length) =
      [61, 62, 63, 64] ∧
    (createCommandBuffers sampleCommandBuffer blankRHI).m_command_buffers = [63, 64] ∧
    61 ∉ (createCommandBuffers sampleCommandBuffer blankRHI).m_command_buffers ∧
    62 ∉ (createCommandBuffers sampleCommandBuffer blankRHI).m_command_buffers := by
  refine ⟨?_, by decide, by decide, by decide, by decide⟩
  intro newCommandBuffer s
  obtain ⟨htr, hcb⟩ := createCommandBuffers_run newCommandBuffer s
  refine ⟨?_, hcb⟩
  rw [htr, List.drop_left]
  rfl

/-- C24. An invocation of `render` leaves the static flag set. With the flag set, that is in
every invocation after the first one of the process, `render` returns the state it was
given and records nothing, whatever the draw items, the size or the state of the RHI are
then, and whatever was changed in the pass between the invocations other than the flag;
the first invocation begins an instant command buffer. -/
theorem render_records_only_once (rhi : VulkanRHI) (sizeofBoneUBO : Nat) (g : GBufferPass) :
    (g.render rhi sizeofBoneUBO).is_rendered = true ∧
    (g.is_rendered = false →
      (g.recordedSince (g.render rhi sizeofBoneUBO)).head? = some .beginInstantCommands) ∧
    (∀ (rhi₂ : VulkanRHI) (sizeofBoneUBO₂ : Nat) (h : GBufferPass), h.is_rendered = true →
      h.render rhi₂ sizeofBoneUBO₂ = h ∧ h.recordedSince (h.render rhi₂ sizeofBoneUBO₂) = []) ∧
    (∀ (rhi₂ : VulkanRHI) (sizeofBoneUBO₂ : Nat) (change : GBufferPass → GBufferPass),
      (∀ x, (change x).is_rendered = x.is_rendered) →
      (change (g.render rhi sizeofBoneUBO)).render rhi₂ sizeofBoneUBO₂ =
          change (g.render rhi sizeofBoneUBO) ∧
        (change (g.render rhi sizeofBoneUBO)).recordedSince
          ((change (g.render rhi sizeofBoneUBO)).render rhi₂ sizeofBoneUBO₂) = []) := by
  have hset : (g.render rhi sizeofBoneUBO).is_rendered = true := by
    unfold GBufferPass.render
    by_cases h : g.is_rendered = true
    · simp [h]
    · simp [h, GBufferPass.record]
  have hlater : ∀ (rhi₂ : VulkanRHI) (sizeofBoneUBO₂ : Nat) (h : GBufferPass),
      h.is_rendered = true →
      h.render rhi₂ sizeofBoneUBO₂ = h ∧ h.recordedSince (h.render rhi₂ sizeofBoneUBO₂) = [] := by
    intro rhi₂ n₂ h hh
    have e : h.render rhi₂ n₂ = h := by
      unfold GBufferPass.render
      simp [hh]
    rw [e]
    exact ⟨rfl, by simp [GBufferPass.recordedSince]⟩
  refine ⟨hset, ?_, hlater, ?_⟩
  · intro h
    rw [render_recorded, h]
    rfl
  · intro rhi₂ n₂ change hc
    exact hlater rhi₂ n₂ _ ((hc _).trans hset)

/-! ## The image count that `createSwapchain` requests -/

/-- The calls of `createSwapchain`: queries, and then, unless a check failed before, one
`vkCreateSwapchainKHR` whose `minImageCount` is the smaller of the surface's minimum plus
one, in 32-bit arithmetic, and the surface's maximum. -/
theorem createSwapchain_request (p : Platform) (s : VulkanRHI) :
    ∃ qs, (∀ op ∈ qs, op.isSurfaceQueryOp = true) ∧
      ((createSwapchain p s).state.trace = s.trace ++ qs ∨
        ∃ ci, ci.minImageCount =
            min ((p.capabilities.minImageCount + 1) % 4294967296) p.capabilities.maxImageCount ∧
          (createSwapchain p s).state.trace = s.trace ++ (qs ++ [.vkCreateSwapchainKHR ci])) := by
  have stop : ∀ {t : VulkanRHI}, Continues Op.isSurfaceQueryOp s t →
      ∃ qs, (∀ op ∈ qs, op.isSurfaceQueryOp = true) ∧
        (t.trace = s.trace ++ qs ∨
          ∃ ci, ci.minImageCount =
              min ((p.capabilities.minImageCount + 1) % 4294967296)
                p.capabilities.maxImageCount ∧
            t.trace = s.trace ++ (qs ++ [.vkCreateSwapchainKHR ci])) := by
    intro t c
    obtain ⟨-, -, -, -, -, -, qs, e, q⟩ := c
    exact ⟨qs, q, Or.inl e⟩
  unfold createSwapchain
  have c₁ := getSwapchainSupportDetails_continues p s
  cases h₁ : getSwapchainSupportDetails p s with
  | aborted m t => rw [h₁] at c₁; exact stop c₁
  | waiting t => rw [h₁] at c₁; exact stop c₁
  | returned d t₁ =>
    obtain ⟨hd, -⟩ := getSwapchainSupportDetails_returned p s d t₁ h₁
    rw [h₁] at c₁
    simp only [Res.state] at c₁
    simp only [Res.andThen_returned]
    have c₂ := c₁.trans (getProperSwapchainSurfaceFormat_continues d t₁)
    cases h₂ : getProperSwapchainSurfaceFormat d t₁ with
    | aborted m t => rw [h₂] at c₂; exact stop c₂
    | waiting t => rw [h₂] at c₂; exact stop c₂
    | returned f t₂ =>
      obtain rfl := getProperSwapchainSurfaceFormat_returned d t₁ t₂ f h₂
      simp only [Res.andThen_returned]
      have c₃ : Continues Op.isSurfaceQueryOp s { t₂ with m_surface_format := f } :=
        c₁.trans ⟨rfl, rfl, rfl, rfl, rfl, rfl, [], (List.append_nil _).symm, fun _ h => nomatch h⟩
      have c₃' := c₃.trans (getProperSwapchainSurfacePresentMode_continues d _)
      cases h₃ : getProperSwapchainSurfacePresentMode d { t₂ with m_surface_format := f } with
      | aborted m t => rw [h₃] at c₃'; exact stop c₃'
      | waiting t => rw [h₃] at c₃'; exact stop c₃'
      | returned m t₃ =>
        obtain rfl := getProperSwapchainSurfacePresentMode_returned d _ t₃ m h₃
        simp only [Res.andThen_returned]
        have c₄ : Continues Op.isSurfaceQueryOp s
            { ({ t₂ with m_surface_format := f } : VulkanRHI) with m_present_mode := m } :=
          c₃.trans ⟨rfl, rfl, rfl, rfl, rfl, rfl, [], (List.append_nil _).symm, fun _ h => nomatch h⟩
        have c₄' := c₄.trans (getProperSwapchainSurfaceExtent_continues p d _)
        cases h₄ : getProperSwapchainSurfaceExtent p d
            { ({ t₂ with m_surface_format := f } : VulkanRHI) with m_present_mode := m } with
        | aborted m t => rw [h₄] at c₄'; exact stop c₄'
        | waiting t => rw [h₄] at c₄'; exact stop c₄'
        | returned e t₄ =>
          rw [h₄] at c₄'
          simp only [Res.state] at c₄'
          simp only [Res.andThen_returned]
          have c₅ : Continues Op.isSurfaceQueryOp s { t₄ with m_extent := e } :=
            c₄'.trans ⟨rfl, rfl, rfl, rfl, rfl, rfl, [], (List.append_nil _).symm, fun _ h => nomatch h⟩
          have c₅' := c₅.trans (getProperSwapchainSurfaceImageUsage_continues d _)
          cases h₅ : getProperSwapchainSurfaceImageUsage d { t₄ with m_extent := e } with
          | aborted m t => rw [h₅] at c₅'; exact stop c₅'
          | waiting t => rw [h₅] at c₅'; exact stop c₅'
          | returned u t₅ =>
            obtain rfl := getProperSwapchainSurfaceImageUsage_returned d _ t₅ u h₅
            simp only [Res.andThen_returned, CHECK_VULKAN_RESULT_state]
            obtain ⟨-, -, -, -, -, -, qs, eq, q⟩ := c₅
            refine ⟨qs, q, Or.inr ⟨?ci, ?hcount, ?htr⟩⟩
            case htr =>
              simp only [emit]
              rw [show ({ t₄ with m_extent := e } : VulkanRHI).trace = s.trace ++ qs from eq,
                List.append_assoc]
              exact rfl
            case hcount =>
              show min ((d.capabilities.minImageCount + 1) % 4294967296)
                d.capabilities.maxImageCount = _
              rw [hd]

theorem filterMap_requestedImageCount_queries (qs : List Op)
    (h : ∀ op ∈ qs, op.isSurfaceQueryOp = true) : qs.filterMap Op.requestedImageCount? = [] := by
  rw [List.filterMap_eq_nil_iff]
  intro op hop
  have := h op hop
  cases op <;> first | rfl | simp [Op.isSurfaceQueryOp] at this

/-- C25 does not hold of the code: on a surface without an upper limit (`maxImageCount`
is 0) and with a minimum of 2 images, `createSwapchain` passes every check and requests a
swapchain with `minImageCount` 0, below the minimum of the surface. In general the count
requested is the smaller of the minimum plus one (in 32-bit arithmetic) and the maximum:
it is 0 whenever the maximum is 0, and it lies between the minimum and the maximum when
the minimum is below `UINT32_MAX` and not above the maximum. -/
theorem createSwapchain_requests_zero_images_without_limit :
    unlimitedImagesPlatform.capabilities.minImageCount = 2 ∧
    unlimitedImagesPlatform.capabilities.maxImageCount = 0 ∧
    (createSwapchain unlimitedImagesPlatform sampleRHI).isReturned = true ∧
    (issued sampleRHI (createSwapchain unlimitedImagesPlatform sampleRHI)).filterMap
      Op.requestedImageCount? = [0] ∧
    (∀ (p : Platform) (s : VulkanRHI),
      ∀ n ∈ (issued s (createSwapchain p s)).filterMap Op.requestedImageCount?,
        n = min ((p.capabilities.minImageCount + 1) % 4294967296)
          p.capabilities.maxImageCount ∧
        (p.capabilities.maxImageCount = 0 → n = 0) ∧
        (p.capabilities.minImageCount < UINT32_MAX →
          p.capabilities.minImageCount ≤ p.capabilities.maxImageCount →
          p.capabilities.minImageCount ≤ n ∧ n ≤ p.capabilities.maxImageCount)) := by
  refine ⟨by decide, by decide, by decide, by decide, ?_⟩
  intro p s n hn
  have hval : n = min ((p.capabilities.minImageCount + 1) % 4294967296)
      p.capabilities.maxImageCount := by
    obtain ⟨qs, hq, h | ⟨ci, hci, h⟩⟩ := createSwapchain_request p s
    · rw [issued_of_trace h, filterMap_requestedImageCount_queries qs hq] at hn
      exact absurd hn (List.not_mem_nil _)
    · rw [issued_of_trace h, List.filterMap_append,
        filterMap_requestedImageCount_queries qs hq] at hn
      simp only [List.nil_append, List.filterMap_cons, Op.requestedImageCount?,
        List.filterMap_nil, List.mem_singleton] at hn
      rw [hn, hci]
  refine ⟨hval, ?_, ?_⟩
  · intro h0
    rw [hval, h0]
    exact Nat.min_zero _
  · intro h₁ h₂
    have hm : (p.capabilities.minImageCount + 1) % 4294967296 =
        p.capabilities.minImageCount + 1 := by
      apply Nat.mod_eq_of_lt
      unfold UINT32_MAX at h₁
      omega
    rw [hval, hm]
    omega
/-! ## The extent of the swapchain -/

theorem toUint32_of_nonneg (x : Int) (h₀ : 0 ≤ x) (h₁ : x ≤ 2147483647) :
    (toUint32 x : Int) = x := by
  unfold toUint32
  have hm : x % 4294967296 = x := Int.emod_eq_of_lt h₀ (by omega)
  rw [hm]
  exact Int.toNat_of_nonneg h₀

theorem clamp_bounds (v lo hi : Nat) (h : lo ≤ hi) : lo ≤ clamp v lo hi ∧ clamp v lo hi ≤ hi := by
  unfold clamp
  split
  · exact ⟨Nat.le_refl _, h⟩
  · split <;> omega

theorem clamp_of_within (v lo hi : Nat) (h₁ : lo ≤ v) (h₂ : v ≤ hi) : clamp v lo hi = v := by
  unfold clamp
  rw [if_neg (by omega), if_neg (by omega)]

/-- C26. When the width of `currentExtent` is not `UINT32_MAX`, the function returns
`currentExtent` unchanged and asks the window system nothing. Otherwise it returns the
next framebuffer size of the window system, converted to unsigned, with the width clamped
to the widths of `minImageExtent` and `maxImageExtent` and the height to their heights:
each component lies within its bounds when the lower bound is not above the upper one,
and equals the component of the framebuffer size (an `int`) when that already lies
within the bounds. -/
theorem getProperSwapchainSurfaceExtent_selection (p : Platform)
    (details : SwapchainSupportDetails) (s : VulkanRHI) :
    (details.capabilities.currentExtent.width ≠ UINT32_MAX →
      getProperSwapchainSurfaceExtent p details s =
        .returned details.capabilities.currentExtent s) ∧
    (details.capabilities.currentExtent.width = UINT32_MAX →
      ∃ t e, getProperSwapchainSurfaceExtent p details s = .returned e t ∧
        t.sizeQueries = s.sizeQueries + 1 ∧
        e.width = clamp (toUint32 (p.framebufferSize s.sizeQueries).1)
          details.capabilities.minImageExtent.width
          details.capabilities.maxImageExtent.width ∧
        e.height = clamp (toUint32 (p.framebufferSize s.sizeQueries).2)
          details.capabilities.minImageExtent.height
          details.capabilities.maxImageExtent.height ∧
        (details.capabilities.minImageExtent.width ≤
            details.capabilities.maxImageExtent.width →
          details.capabilities.minImageExtent.width ≤ e.width ∧
            e.width ≤ details.capabilities.maxImageExtent.width) ∧
        (details.capabilities.minImageExtent.height ≤
            details.capabilities.maxImageExtent.height →
          details.capabilities.minImageExtent.height ≤ e.height ∧
            e.height ≤ details.capabilities.maxImageExtent.height) ∧
        ((details.capabilities.minImageExtent.width : Int) ≤
            (p.framebufferSize s.sizeQueries).1 →
          (p.framebufferSize s.sizeQueries).1 ≤ details.capabilities.maxImageExtent.width →
          (p.framebufferSize s.sizeQueries).1 ≤ 2147483647 →
          (e.width : Int) = (p.framebufferSize s.sizeQueries).1) ∧
        ((details.capabilities.minImageExtent.height : Int) ≤
            (p.framebufferSize s.sizeQueries).2 →
          (p.framebufferSize s.sizeQueries).2 ≤ details.capabilities.maxImageExtent.height →
          (p.framebufferSize s.sizeQueries).2 ≤ 2147483647 →
          (e.height : Int) = (p.framebufferSize s.sizeQueries).2)) := by
  constructor
  · intro h
    unfold getProperSwapchainSurfaceExtent
    rw [if_pos h]
  · intro h
    have hn : ¬ details.capabilities.currentExtent.width ≠ UINT32_MAX := fun c => c h
    have within : ∀ (x : Int) (lo hi : Nat), (lo : Int) ≤ x → x ≤ hi → x ≤ 2147483647 →
        (clamp (toUint32 x) lo hi : Int) = x := by
      intro x lo hi h₁ h₂ h₃
      have hx : (toUint32 x : Int) = x :=
        toUint32_of_nonneg x (Int.le_trans (Int.ofNat_nonneg lo) h₁) h₃
      have h₁' : lo ≤ toUint32 x := by
        have : (lo : Int) ≤ (toUint32 x : Int) := by rw [hx]; exact h₁
        exact Int.ofNat_le.mp this
      have h₂' : toUint32 x ≤ hi := by
        have : (toUint32 x : Int) ≤ (hi : Int) := by rw [hx]; exact h₂
        exact Int.ofNat_le.mp this
      rw [clamp_of_within _ _ _ h₁' h₂', hx]
    unfold getProperSwapchainSurfaceExtent
    rw [if_neg hn]
    simp only [Bamboo.glfwGetFramebufferSize, Res.andThen_returned]
    exact ⟨_, _, rfl, rfl, rfl, rfl, clamp_bounds _ _ _, clamp_bounds _ _ _,
      within _ _ _, within _ _ _⟩

/-! ## Framebuffers at shutdown -/

theorem count_map_vkDestroyFramebuffer (l : List Handle) (fb : Handle) :
    (l.map Op.vkDestroyFramebuffer).count (.vkDestroyFramebuffer fb) = l.count fb := by
  induction l with
  | nil => rfl
  | cons a l ih =>
    rw [List.map_cons, List.count_cons, List.count_cons, ih]
    by_cases h : a = fb
    · simp [h]
    · simp [h]

theorem count_map_of_ne {α : Type} (f : α → Op) (op : Op) (l : List α)
    (h : ∀ a, f a ≠ op) : (l.map f).count op = 0 := by
  rw [List.count_eq_zero]
  intro hm
  obtain ⟨a, -, e⟩ := List.mem_map.mp hm
  exact h a e

/-- C27 does not hold of the code: `destroy` destroys every framebuffer of `m_framebuffers`
in its own loop and once more through `destroySwapchainObjects`, so each framebuffer
handle is destroyed twice for every time it occurs in `m_framebuffers`; in the sample
state, with the framebuffers 321, 322 and 323, framebuffer 321 is destroyed twice. -/
theorem destroy_destroys_framebuffers_twice :
    (∀ (ENABLE_VALIDATION_LAYER : Bool) (s : VulkanRHI) (framebuffer : Handle),
      ((destroy ENABLE_VALIDATION_LAYER s).trace.drop s.trace.length).count
          (.vkDestroyFramebuffer framebuffer) = 2 * s.m_framebuffers.count framebuffer) ∧
    sampleRHI.m_framebuffers = [321, 322, 323] ∧
    ((destroy true sampleRHI).trace.drop sampleRHI.trace.length).count
      (.vkDestroyFramebuffer 321) = 2 ∧
    ((destroy false sampleRHI).trace.drop sampleRHI.trace.length).count
      (.vkDestroyFramebuffer 321) = 2 := by
  refine ⟨?_, by decide, by decide, by decide⟩
  intro v s fb
  rw [destroy_trace, List.drop_left]
  simp only [List.count_append, count_map_vkDestroyFramebuffer]
  rw [count_map_of_ne _ _ s.m_image_avaliable_semaphores (fun a h => by cases h),
    count_map_of_ne _ _ s.m_render_finished_semaphores (fun a h => by cases h),
    count_map_of_ne _ _ s.m_flight_fences (fun a h => by cases h),
    count_map_of_ne _ _ s.m_swapchain_image_views (fun a h => by cases h)]
  cases v <;> simp [List.count_cons] <;> omega
/-! ## The physical device -/

theorem filter_discrete_of_split (pre post : List PhysicalDevice) (d : PhysicalDevice)
    (hd : d.deviceType = VK_PHYSICAL_DEVICE_TYPE_DISCRETE_GPU)
    (hpre : ∀ x ∈ pre, x.deviceType ≠ VK_PHYSICAL_DEVICE_TYPE_DISCRETE_GPU) :
    ∃ rest, ((pre ++ d :: post).filter fun device =>
      device.deviceType == VK_PHYSICAL_DEVICE_TYPE_DISCRETE_GPU) = d :: rest := by
  have h₁ : pre.filter (fun device =>
      device.deviceType == VK_PHYSICAL_DEVICE_TYPE_DISCRETE_GPU) = [] := by
    rw [List.filter_eq_nil_iff]
    intro x hx
    simpa using hpre x hx
  rw [List.filter_append, h₁, List.nil_append, List.filter_cons]
  simp [hd]

/-- C29. For an enumeration of fewer than 2^32 physical devices: when it is empty,
`pickPhysicalDevice` fails its assertion; when it is not empty, the function ends in its
fatal error exactly when no device of the enumeration is a discrete GPU, whatever other
devices there are, and otherwise it returns with `m_physical_device` set to the first
device in enumeration order whose type is `VK_PHYSICAL_DEVICE_TYPE_DISCRETE_GPU`. -/
theorem pickPhysicalDevice_first_discrete (devices : List PhysicalDevice) (s : VulkanRHI)
    (hl : devices.length < 4294967296) :
    (devices = [] →
      ∃ t, pickPhysicalDevice devices s =
        .aborted "failed to find a vulkan compatiable physical device" t) ∧
    (devices ≠ [] →
      ((pickPhysicalDevice devices s).isAborted = true ↔
        ∀ d ∈ devices, d.deviceType ≠ VK_PHYSICAL_DEVICE_TYPE_DISCRETE_GPU)) ∧
    (devices ≠ [] →
      (∀ d ∈ devices, d.deviceType ≠ VK_PHYSICAL_DEVICE_TYPE_DISCRETE_GPU) →
      ∃ t, pickPhysicalDevice devices s =
        .aborted "selected device index \x7b\x7d is out of range \x7b\x7d" t) ∧
    (∀ (pre post : List PhysicalDevice) (d : PhysicalDevice), devices = pre ++ d :: post →
      d.deviceType = VK_PHYSICAL_DEVICE_TYPE_DISCRETE_GPU →
      (∀ x ∈ pre, x.deviceType ≠ VK_PHYSICAL_DEVICE_TYPE_DISCRETE_GPU) →
      ∃ t, pickPhysicalDevice devices s = .returned () t ∧ t.m_physical_device = d.handle)
    := by
  have hmod : devices.length % 4294967296 = devices.length := Nat.mod_eq_of_lt hl
  have hnone : devices ≠ [] →
      (∀ d ∈ devices, d.deviceType ≠ VK_PHYSICAL_DEVICE_TYPE_DISCRETE_GPU) →
      ∃ t, pickPhysicalDevice devices s =
        .aborted "selected device index \x7b\x7d is out of range \x7b\x7d" t := by
    intro hne hall
    have hpos : decide (devices.length > 0) = true := by
      rw [decide_eq_true_eq]
      exact List.length_pos.mpr hne
    have hf : devices.filter (fun device =>
        device.deviceType == VK_PHYSICAL_DEVICE_TYPE_DISCRETE_GPU) = [] := by
      rw [List.filter_eq_nil_iff]
      intro x hx
      simpa using hall x hx
    unfold pickPhysicalDevice
    simp only [hmod, hpos, ASSERT_true, Res.andThen_returned, List.take_length, hf,
      List.map_nil, List.length_nil, ge_iff_le, Nat.le_refl, if_true, LOG_FATAL, Res.andThen]
    exact ⟨_, rfl⟩
  have hsome : ∀ (pre post : List PhysicalDevice) (d : PhysicalDevice),
      devices = pre ++ d :: post →
      d.deviceType = VK_PHYSICAL_DEVICE_TYPE_DISCRETE_GPU →
      (∀ x ∈ pre, x.deviceType ≠ VK_PHYSICAL_DEVICE_TYPE_DISCRETE_GPU) →
      ∃ t, pickPhysicalDevice devices s = .returned () t ∧ t.m_physical_device = d.handle := by
    intro pre post d e hd hpre
    have hpos : decide (devices.length > 0) = true := by
      rw [decide_eq_true_eq, e]
      simp
    obtain ⟨rest, hf⟩ := filter_discrete_of_split pre post d hd hpre
    rw [← e] at hf
    unfold pickPhysicalDevice
    simp only [hmod, hpos, ASSERT_true, Res.andThen_returned, List.take_length, hf,
      List.map_cons, List.length_cons, ge_iff_le, Nat.le_zero_eq, Nat.add_one_ne_zero,
      if_false, List.getD_cons_zero]
    exact ⟨_, rfl, rfl⟩
  refine ⟨?_, ?_, hnone, hsome⟩
  · intro he
    subst he
    exact ⟨_, rfl⟩
  · intro hne
    constructor
    · intro habort d hd hdisc
      -- split the enumeration at its first discrete device
      have hex : ∃ pre x post, devices = pre ++ x :: post ∧
          x.deviceType = VK_PHYSICAL_DEVICE_TYPE_DISCRETE_GPU ∧
          ∀ y ∈ pre, y.deviceType ≠ VK_PHYSICAL_DEVICE_TYPE_DISCRETE_GPU := by
        clear hsome hnone habort hmod hl hne
        induction devices with
        | nil => exact absurd hd (List.not_mem_nil _)
        | cons a l ih =>
          by_cases ha : a.deviceType = VK_PHYSICAL_DEVICE_TYPE_DISCRETE_GPU
          · exact ⟨[], a, l, rfl, ha, fun y hy => absurd hy (List.not_mem_nil _)⟩
          · rcases List.mem_cons.mp hd with rfl | hd'
            · exact absurd hdisc ha
            · obtain ⟨pre, x, post, e, hx, hpre⟩ := ih hd'
              refine ⟨a :: pre, x, post, by rw [e]; rfl, hx, ?_⟩
              intro y hy
              rcases List.mem_cons.mp hy with rfl | hy
              · exact ha
              · exact hpre y hy
      obtain ⟨pre, x, post, e, hx, hpre⟩ := hex
      obtain ⟨t, ht, -⟩ := hsome pre post x e hx hpre
      rw [ht] at habort
      exact absurd habort (by simp [Res.isAborted])
    · intro hall
      obtain ⟨t, ht⟩ := hnone hne hall
      rw [ht]
      rfl

/-- Witness of C29: an integrated GPU followed by two discrete GPUs; the first discrete
one, with handle 8, is selected. -/
theorem pickPhysicalDevice_first_discrete_witness :
    sampleDevices.length < 4294967296 ∧
    ∃ t, pickPhysicalDevice sampleDevices sampleRHI = .returned () t ∧
      t.m_physical_device = 8 :=
  ⟨by decide,
    (pickPhysicalDevice_first_discrete sampleDevices sampleRHI (by decide)).2.2.2
      [{ handle := 7, deviceType := VK_PHYSICAL_DEVICE_TYPE_INTEGRATED_GPU }]
      [{ handle := 9, deviceType := VK_PHYSICAL_DEVICE_TYPE_DISCRETE_GPU }]
      { handle := 8, deviceType := VK_PHYSICAL_DEVICE_TYPE_DISCRETE_GPU } rfl rfl
      (by decide)⟩
/-! ## The compute queue family -/

theorem computeOnly_test_iff (flags : Nat) :
    (flags &&& VK_QUEUE_COMPUTE_BIT != 0 && !(flags &&& VK_QUEUE_GRAPHICS_BIT != 0)) = true ↔
      isComputeOnly flags := by
  have hc : flags &&& VK_QUEUE_COMPUTE_BIT ≠ 0 ↔ containsBits flags VK_QUEUE_COMPUTE_BIT :=
    single_bit_iff_containsBits 1 flags
  have hg : flags &&& VK_QUEUE_GRAPHICS_BIT ≠ 0 ↔ containsBits flags VK_QUEUE_GRAPHICS_BIT :=
    single_bit_iff_containsBits 0 flags
  unfold isComputeOnly
  rw [← hc, ← hg]
  simp

/-- A compute request goes to the first loop and, when that finds nothing, to the last. -/
theorem getQueueFamilyIndex_search_compute (families : List Nat) :
    getQueueFamilyIndex_search VK_QUEUE_COMPUTE_BIT families =
      match firstFamily (fun flags => flags &&& VK_QUEUE_COMPUTE_BIT != 0 &&
          !(flags &&& VK_QUEUE_GRAPHICS_BIT != 0)) families with
      | some i => some i
      | none => firstFamily (fun flags => flags &&& VK_QUEUE_COMPUTE_BIT == VK_QUEUE_COMPUTE_BIT)
          families := by
  unfold getQueueFamilyIndex_search
  have h₁ : (VK_QUEUE_COMPUTE_BIT &&& VK_QUEUE_COMPUTE_BIT == VK_QUEUE_COMPUTE_BIT) = true := by
    decide
  have h₂ : (VK_QUEUE_COMPUTE_BIT &&& VK_QUEUE_TRANSFER_BIT == VK_QUEUE_COMPUTE_BIT) = false := by
    decide
  simp only [h₁, h₂, if_true, Bool.false_eq_true, if_false]

/-- Which family a compute request finds. -/
theorem getQueueFamilyIndex_search_compute_some (families : List Nat) (c : Nat)
    (hc : getQueueFamilyIndex_search VK_QUEUE_COMPUTE_BIT families = some c) :
    ((∃ f ∈ families, isComputeOnly f) →
      isComputeOnly (families.getD c 0) ∧ ∀ j, j < c → ¬ isComputeOnly (families.getD j 0)) ∧
    ((¬ ∃ f ∈ families, isComputeOnly f) →
      containsBits (families.getD c 0) VK_QUEUE_COMPUTE_BIT ∧
        ∀ j, j < c → ¬ containsBits (families.getD j 0) VK_QUEUE_COMPUTE_BIT) := by
  rw [getQueueFamilyIndex_search_compute] at hc
  cases h₁ : firstFamily (fun flags => flags &&& VK_QUEUE_COMPUTE_BIT != 0 &&
      !(flags &&& VK_QUEUE_GRAPHICS_BIT != 0)) families with
  | some i =>
    rw [h₁] at hc
    have e : i = c := Option.some.inj hc
    subst e
    obtain ⟨hlt, ht, hbefore⟩ := firstFamily_some _ _ _ h₁
    have hco : isComputeOnly (families.getD i 0) := (computeOnly_test_iff _).mp ht
    constructor
    · intro _
      refine ⟨hco, fun j hj hcj => ?_⟩
      have := hbefore j hj
      rw [(computeOnly_test_iff _).mpr hcj] at this
      exact Bool.noConfusion this
    · intro hno
      refine absurd ⟨families.getD i 0, ?_, hco⟩ hno
      rw [List.getD_eq_getElem _ _ hlt]
      exact List.getElem_mem hlt
  | none =>
    rw [h₁] at hc
    have hnone := (firstFamily_none _ _).mp h₁
    constructor
    · intro ⟨f, hf, hco⟩
      have := hnone f hf
      rw [(computeOnly_test_iff _).mpr hco] at this
      exact Bool.noConfusion this
    · intro _
      obtain ⟨-, ht, hbefore⟩ := firstFamily_some _ _ _ hc
      refine ⟨(land_eq_iff_containsBits _ _).mp (by simpa using ht), fun j hj hcj => ?_⟩
      have := hbefore j hj
      rw [(land_eq_iff_containsBits _ _).mpr hcj] at this
      simp at this

/-- C30, as stated, fails: the families `[graphics, graphics + compute]` hold no family
with the compute bit and without the graphics bit, yet `getQueueFamilyIndices` emits
two queue create-infos, for the families 0 and 1: the compute request finds family 1,
the graphics request family 0. -/
theorem getQueueFamilyIndices_two_infos_without_compute_only :
    (∀ f ∈ [1, 3], ¬ isComputeOnly f) ∧
    ∃ t, getQueueFamilyIndices [1, 3] (fun _ => 1) sampleRHI =
      .returned ({ graphics := 0, compute := 1, transfer := 0 },
        [{ queueFamilyIndex := 0, queueCount := 1 },
          { queueFamilyIndex := 1, queueCount := 1 }]) t := by
  constructor
  · intro f hf hco
    have h := (computeOnly_test_iff f).mpr hco
    simp only [List.mem_cons, List.mem_singleton, List.not_mem_nil, or_false] at hf
    rcases hf with rfl | rfl
    · exact absurd h (by decide)
    · exact absurd h (by decide)
  · exact ⟨_, getQueueFamilyIndices_returns [1, 3] (fun _ => 1) sampleRHI 0 1 (by decide)
      (by decide) (by decide) (by decide)⟩

/-- C30, amended. With fewer than 2^32 queue families, a compute request that finds a
family finds the lowest family with the compute bit and without the graphics bit when
there is one, and otherwise the lowest family with the compute bit. When the graphics
request finds a family that supports presentation, `getQueueFamilyIndices` returns with
the transfer index equal to the graphics index, and emits two queue create-infos, for the
graphics and the compute family, when the two indices differ, which is the case whenever
a family with the compute bit and without the graphics bit exists, and one create-info,
for the graphics family, when the two indices are equal. -/
theorem getQueueFamilyIndices_compute_preference (families : List Nat)
    (presentSupport : Nat → Nat) (u : VulkanRHI) (g c : Nat)
    (hl : families.length < 4294967296)
    (hg : getQueueFamilyIndex_search VK_QUEUE_GRAPHICS_BIT families = some g)
    (hp : presentSupport g ≠ 0)
    (hc : getQueueFamilyIndex_search VK_QUEUE_COMPUTE_BIT families = some c) :
    getQueueFamilyIndex VK_QUEUE_COMPUTE_BIT { u with m_queue_family_propertiess := families } =
      .returned c { u with m_queue_family_propertiess := families } ∧
    ((∃ f ∈ families, isComputeOnly f) →
      isComputeOnly (families.getD c 0) ∧ ∀ j, j < c → ¬ isComputeOnly (families.getD j 0)) ∧
    ((¬ ∃ f ∈ families, isComputeOnly f) →
      containsBits (families.getD c 0) VK_QUEUE_COMPUTE_BIT ∧
        ∀ j, j < c → ¬ containsBits (families.getD j 0) VK_QUEUE_COMPUTE_BIT) ∧
    (∃ t, getQueueFamilyIndices families presentSupport u =
      .returned ({ graphics := g, compute := c, transfer := g },
        if c ≠ g then [{ queueFamilyIndex := g, queueCount := 1 },
            { queueFamilyIndex := c, queueCount := 1 }]
          else [{ queueFamilyIndex := g, queueCount := 1 }]) t) ∧
    ((∃ f ∈ families, isComputeOnly f) → c ≠ g) := by
  obtain ⟨hco, hany⟩ := getQueueFamilyIndex_search_compute_some families c hc
  have hclt := (getQueueFamilyIndex_search_some _ _ _ hc).1
  refine ⟨?_, hco, hany, ⟨_, getQueueFamilyIndices_returns families presentSupport u g c hl hg hp
    hc⟩, ?_⟩
  · have h := getQueueFamilyIndex_of_search_some
      (s := { u with m_queue_family_propertiess := families }) hc
    rw [Nat.mod_eq_of_lt (Nat.lt_trans hclt hl)] at h
    exact h
  · intro hex hcg
    have h₁ := (hco hex).1.2
    have h₂ := (getQueueFamilyIndex_search_some _ _ _ hg).2
    rw [hcg] at h₁
    exact h₁ h₂

/-- Witness of the amended C30: the families of the sample state, `[15, 2, 4]`; family 1 has
the compute bit and not the graphics bit. -/
theorem getQueueFamilyIndices_compute_preference_witness :
    getQueueFamilyIndex_search VK_QUEUE_GRAPHICS_BIT [15, 2, 4] = some 0 ∧
    getQueueFamilyIndex_search VK_QUEUE_COMPUTE_BIT [15, 2, 4] = some 1 ∧
    ∃ t, getQueueFamilyIndices [15, 2, 4] (fun _ => 1) sampleRHI =
      .returned ({ graphics := 0, compute := 1, transfer := 0 },
        if 1 ≠ 0 then [{ queueFamilyIndex := 0, queueCount := 1 },
            { queueFamilyIndex := 1, queueCount := 1 }]
          else [{ queueFamilyIndex := 0, queueCount := 1 }]) t :=
  ⟨by decide, by decide,
    (getQueueFamilyIndices_compute_preference [15, 2, 4] (fun _ => 1) sampleRHI 0 1 (by decide)
      (by decide) (by decide) (by decide)).2.2.2.1⟩

/-! ## What `init` creates -/

theorem initKeeps_refl (s : VulkanRHI) : InitKeeps s s :=
  ⟨rfl, rfl, [], (List.append_nil _).symm, fun _ h => nomatch h⟩

theorem initKeeps_trans {s t u : VulkanRHI} (h₁ : InitKeeps s t) (h₂ : InitKeeps t u) :
    InitKeeps s u := by
  obtain ⟨a₁, a₂, ops₁, e₁, q₁⟩ := h₁
  obtain ⟨b₁, b₂, ops₂, e₂, q₂⟩ := h₂
  refine ⟨b₁.trans a₁, b₂.trans a₂, ops₁ ++ ops₂, ?_, ?_⟩
  · rw [e₂, e₁, List.append_assoc]
  · intro op hop
    rcases List.mem_append.mp hop with h | h
    · exact q₁ op h
    · exact q₂ op h

theorem initKeeps_andThen {α β : Type} {s : VulkanRHI} {r : Res α}
    {k : α → VulkanRHI → Res β} (h₁ : InitKeeps s r.state)
    (h₂ : ∀ a t, InitKeeps t (k a t).state) : InitKeeps s (r.andThen k).state := by
  cases r with
  | returned a t => exact initKeeps_trans h₁ (h₂ a t)
  | aborted d t => exact h₁
  | waiting t => exact h₁

theorem initKeeps_of_continues {Q : Op → Bool} {s t : VulkanRHI} (c : Continues Q s t)
    (hQ : ∀ op, Q op = true → op.isRenderPassOrCacheCreation = false)
    (h₁ : t.m_render_pass = s.m_render_pass) (h₂ : t.m_pipeline_cache = s.m_pipeline_cache) :
    InitKeeps s t := by
  obtain ⟨-, -, -, -, -, -, ops, e, q⟩ := c
  exact ⟨h₁, h₂, ops, e, fun op hop => hQ op (q op hop)⟩

theorem initKeeps_emit_lifecycle (op : LifecycleOp) (s : VulkanRHI)
    (h : (Op.lifecycle op).isRenderPassOrCacheCreation = false) :
    InitKeeps s (emit (.lifecycle op) s) :=
  ⟨rfl, rfl, [.lifecycle op], rfl, by simpa using h⟩

theorem Op.isSwapchainBodyOp_not_creation (op : Op) (h : op.isSwapchainBodyOp = true) :
    op.isRenderPassOrCacheCreation = false := by
  cases op <;> first | rfl | (exfalso; revert h; simp [Op.isSwapchainBodyOp,
    Op.isSizeDependentOp])

/-- The render pass and the pipeline cache through `createSwapchain`. -/
theorem createSwapchain_render_pass (p : Platform) (s : VulkanRHI) :
    ((createSwapchain p s).state.m_render_pass, (createSwapchain p s).state.m_pipeline_cache) =
      (s.m_render_pass, s.m_pipeline_cache) := by
  unfold createSwapchain
  refine Res.andThen_keeps (fun s => (s.m_render_pass, s.m_pipeline_cache)) ?_ fun d t => ?_
  · unfold getSwapchainSupportDetails
    refine Res.andThen_keeps (fun s => (s.m_render_pass, s.m_pipeline_cache)) (by simp [emit])
      fun _ t => ?_
    exact Res.andThen_keeps (fun s => (s.m_render_pass, s.m_pipeline_cache)) (by simp [emit])
      fun _ t => rfl
  refine Res.andThen_keeps (fun s => (s.m_render_pass, s.m_pipeline_cache)) ?_ fun f t => ?_
  · unfold getProperSwapchainSurfaceFormat; split <;> rfl
  refine Res.andThen_keeps (fun s => (s.m_render_pass, s.m_pipeline_cache)) ?_ fun m t => ?_
  · unfold getProperSwapchainSurfacePresentMode; split <;> rfl
  refine Res.andThen_keeps (fun s => (s.m_render_pass, s.m_pipeline_cache)) ?_ fun e t => ?_
  · unfold getProperSwapchainSurfaceExtent; split <;> rfl
  refine Res.andThen_keeps (fun s => (s.m_render_pass, s.m_pipeline_cache)) ?_ fun u t => ?_
  · unfold getProperSwapchainSurfaceImageUsage
    refine Res.andThen_keeps (fun s => (s.m_render_pass, s.m_pipeline_cache)) (by simp)
      fun _ t => ?_
    exact Res.andThen_keeps (fun s => (s.m_render_pass, s.m_pipeline_cache)) (by simp)
      fun _ t => rfl
  · simp [emit]

/-- The render pass and the pipeline cache through `createSwapchainObjects`. -/
theorem createSwapchainObjects_render_pass (p : Platform) (s : VulkanRHI) :
    ((createSwapchainObjects p s).state.m_render_pass,
        (createSwapchainObjects p s).state.m_pipeline_cache) =
      (s.m_render_pass, s.m_pipeline_cache) := by
  unfold createSwapchainObjects
  refine Res.andThen_keeps (fun s => (s.m_render_pass, s.m_pipeline_cache)) (by simp [emit])
    fun _ t => ?_
  refine Res.andThen_keeps (fun s => (s.m_render_pass, s.m_pipeline_cache)) ?_ fun f t => ?_
  · unfold getProperImageFormat
    dsimp only
    split <;> rfl
  refine Res.andThen_keeps (fun s => (s.m_render_pass, s.m_pipeline_cache)) (by simp [emit])
    fun _ t => ?_
  rfl

theorem createSwapchain_initKeeps (p : Platform) (s : VulkanRHI) :
    InitKeeps s (createSwapchain p s).state := by
  have h := createSwapchain_render_pass p s
  exact initKeeps_of_continues (createSwapchain_continues p s) Op.isSwapchainBodyOp_not_creation
    (congrArg Prod.fst h) (congrArg Prod.snd h)

theorem createSwapchainObjects_initKeeps (p : Platform) (s : VulkanRHI) :
    InitKeeps s (createSwapchainObjects p s).state := by
  have h := createSwapchainObjects_render_pass p s
  exact initKeeps_of_continues (createSwapchainObjects_continues p s)
    (fun op hop => Op.isSwapchainBodyOp_not_creation op (Op.isSwapchainObjectOp_body op hop))
    (congrArg Prod.fst h) (congrArg Prod.snd h)
@[simp] theorem checkRequiredNames_state (message : String) (supported required : List String)
    (s : VulkanRHI) : (checkRequiredNames message supported required s).state = s := by
  rcases checkRequiredNames_cases message supported required s with ⟨-, e⟩ | ⟨-, e⟩ <;>
    rw [e] <;> rfl

@[simp] theorem getQueueFamilyIndex_state (queue_flags : Nat) (s : VulkanRHI) :
    (getQueueFamilyIndex queue_flags s).state = s := by
  unfold getQueueFamilyIndex
  split <;> rfl

theorem getRequiredInstanceExtensions_initKeeps (v : Bool) (supported glfw : List String)
    (s : VulkanRHI) : InitKeeps s (getRequiredInstanceExtensions v supported glfw s).state := by
  unfold getRequiredInstanceExtensions
  refine initKeeps_andThen ?_ fun _ t => initKeeps_refl t
  simp only [checkRequiredNames_state]
  exact initKeeps_trans (initKeeps_trans
    (initKeeps_emit_lifecycle .vkEnumerateInstanceExtensionProperties s rfl)
    (initKeeps_emit_lifecycle .vkEnumerateInstanceExtensionProperties _ rfl))
    (initKeeps_emit_lifecycle .glfwGetRequiredInstanceExtensions _ rfl)

theorem getRequiredInstanceLayers_initKeeps (v : Bool) (supported : List String)
    (s : VulkanRHI) : InitKeeps s (getRequiredInstanceLayers v supported s).state := by
  unfold getRequiredInstanceLayers
  refine initKeeps_andThen ?_ fun _ t => initKeeps_refl t
  simp only [checkRequiredNames_state]
  exact initKeeps_trans (initKeeps_emit_lifecycle .vkEnumerateInstanceLayerProperties s rfl)
    (initKeeps_emit_lifecycle .vkEnumerateInstanceLayerProperties _ rfl)

theorem getRequiredDeviceExtensions_initKeeps (supported : List String) (s : VulkanRHI) :
    InitKeeps s (getRequiredDeviceExtensions supported s).state := by
  unfold getRequiredDeviceExtensions
  refine initKeeps_andThen ?_ fun _ t => initKeeps_refl t
  simp only [checkRequiredNames_state]
  exact initKeeps_trans
    (initKeeps_emit_lifecycle (.vkEnumerateDeviceExtensionProperties s.m_physical_device) s rfl)
    (initKeeps_emit_lifecycle (.vkEnumerateDeviceExtensionProperties s.m_physical_device) _ rfl)

theorem getRequiredDeviceFeatures_initKeeps (supported : VkPhysicalDeviceFeatures)
    (s : VulkanRHI) : InitKeeps s (getRequiredDeviceFeatures supported s).state := by
  rw [getRequiredDeviceFeatures_eq]
  exact initKeeps_emit_lifecycle (.vkGetPhysicalDeviceFeatures s.m_physical_device) s rfl

theorem getQueueFamilyIndices_initKeeps (families : List Nat) (presentSupport : Nat → Nat)
    (s : VulkanRHI) : InitKeeps s (getQueueFamilyIndices families presentSupport s).state := by
  unfold getQueueFamilyIndices
  refine initKeeps_andThen ?_ fun _ t => ?_
  · simp only [ASSERT_state]
    exact initKeeps_emit_lifecycle
      (.vkGetPhysicalDeviceQueueFamilyProperties s.m_physical_device) s rfl
  refine initKeeps_andThen ?_ fun a t₁ => ?_
  · split
    · refine initKeeps_andThen ?_ fun g t₂ => ?_
      · simp only [getQueueFamilyIndex_state]
        exact ⟨rfl, rfl, [_], rfl, by simp [Op.isRenderPassOrCacheCreation]⟩
      · refine initKeeps_andThen ?_ fun _ t₃ => initKeeps_refl t₃
        simp only [ASSERT_state]
        exact ⟨rfl, rfl, [_], rfl, by simp [Op.isRenderPassOrCacheCreation]⟩
    · exact ⟨rfl, rfl, [_], rfl, by simp [Op.isRenderPassOrCacheCreation]⟩
  obtain ⟨graphics, queue_cis⟩ := a
  refine initKeeps_andThen ?_ fun b t₂ => ?_
  · split
    · refine initKeeps_andThen ?_ fun c t₃ => ?_
      · simp only [getQueueFamilyIndex_state]
        exact initKeeps_refl _
      · split <;> exact initKeeps_refl _
    · exact initKeeps_refl _
  obtain ⟨compute, queue_cis₂⟩ := b
  refine initKeeps_andThen ?_ fun c t₃ => ?_
  · split
    · refine initKeeps_andThen ?_ fun c t₃ => ?_
      · simp only [getQueueFamilyIndex_state]
        exact initKeeps_refl _
      · split <;> exact initKeeps_refl _
    · exact initKeeps_refl _
  obtain ⟨transfer, queue_cis₃⟩ := c
  exact initKeeps_refl _

theorem createLogicDevice_initKeeps (supportedExtensions : List String)
    (supportedFeatures : VkPhysicalDeviceFeatures) (families : List Nat)
    (presentSupport : Nat → Nat) (result : VkResult) (newDevice : Handle) (s : VulkanRHI) :
    InitKeeps s (createLogicDevice supportedExtensions supportedFeatures families
      presentSupport result newDevice s).state := by
  unfold createLogicDevice
  refine initKeeps_andThen (getRequiredDeviceExtensions_initKeeps _ s) fun e t₁ => ?_
  refine initKeeps_andThen ?_ fun f t₂ => ?_
  · exact initKeeps_trans (⟨rfl, rfl, [], (List.append_nil _).symm, fun _ h => nomatch h⟩ :
      InitKeeps t₁ { t₁ with m_required_device_extensions := e })
      (getRequiredDeviceFeatures_initKeeps _ _)
  refine initKeeps_andThen ?_ fun a t₃ => ?_
  · exact initKeeps_trans (⟨rfl, rfl, [], (List.append_nil _).symm, fun _ h => nomatch h⟩ :
      InitKeeps t₂ { t₂ with m_required_device_features := f })
      (getQueueFamilyIndices_initKeeps _ _ _)
  obtain ⟨indices, queue_cis⟩ := a
  simp only [CHECK_VULKAN_RESULT_state]
  exact ⟨rfl, rfl, [_], rfl, by simp [Op.isRenderPassOrCacheCreation]⟩
theorem createInstance_initKeeps (v : Bool) (q : InitPlatform) (s : VulkanRHI) :
    InitKeeps s (createInstance v q s).state := by
  unfold createInstance
  refine initKeeps_andThen (getRequiredInstanceExtensions_initKeeps _ _ _ s) fun e t₁ => ?_
  refine initKeeps_andThen ?_ fun l t₂ => ?_
  · exact initKeeps_trans (⟨rfl, rfl, [], (List.append_nil _).symm, fun _ h => nomatch h⟩ :
      InitKeeps t₁ { t₁ with m_required_instance_extensions := e })
      (getRequiredInstanceLayers_initKeeps _ _ _)
  simp only [CHECK_VULKAN_RESULT_state]
  exact ⟨rfl, rfl, [_], rfl, by simp [Op.isRenderPassOrCacheCreation]⟩

theorem createDebugging_initKeeps (q : InitPlatform) (s : VulkanRHI) :
    InitKeeps s (createDebugging q s).state := by
  unfold createDebugging
  simp only [CHECK_VULKAN_RESULT_state]
  refine ⟨rfl, rfl, ?_⟩
  simp only [emit, List.append_assoc, List.cons_append, List.nil_append]
  exact ⟨_, rfl, by simp [Op.isRenderPassOrCacheCreation]⟩

theorem createSurface_initKeeps (q : InitPlatform) (s : VulkanRHI) :
    InitKeeps s (createSurface q s).state := by
  unfold createSurface
  simp only [CHECK_VULKAN_RESULT_state]
  exact ⟨rfl, rfl, [_], rfl, by simp [Op.isRenderPassOrCacheCreation]⟩

theorem pickPhysicalDevice_initKeeps (devices : List PhysicalDevice) (s : VulkanRHI) :
    InitKeeps s (pickPhysicalDevice devices s).state := by
  unfold pickPhysicalDevice
  refine initKeeps_andThen ?_ fun _ t₁ => ?_
  · simp only [ASSERT_state]
    exact initKeeps_emit_lifecycle (.vkEnumeratePhysicalDevices s.m_instance) s rfl
  refine initKeeps_andThen ?_ fun _ t₂ => ?_
  · have h : InitKeeps t₁ (emitAll ((devices.take (devices.length % 4294967296)).map
        fun device => .lifecycle (.vkGetPhysicalDeviceProperties device.handle))
        (emit (.lifecycle (.vkEnumeratePhysicalDevices t₁.m_instance)) t₁)) := by
      refine initKeeps_trans
        (initKeeps_emit_lifecycle (.vkEnumeratePhysicalDevices t₁.m_instance) t₁ rfl) ?_
      refine ⟨rfl, rfl, _, rfl, ?_⟩
      intro op hop
      obtain ⟨d, -, rfl⟩ := List.mem_map.mp hop
      rfl
    split
    · simpa only [LOG_FATAL_state] using h
    · exact h
  · exact ⟨rfl, rfl, [], (List.append_nil _).symm, fun _ h => nomatch h⟩

theorem getDeviceQueues_initKeeps (q : InitPlatform) (s : VulkanRHI) :
    InitKeeps s (getDeviceQueues q s) :=
  ⟨rfl, rfl, [_], rfl, by simp [Op.isRenderPassOrCacheCreation]⟩

theorem createVmaAllocator_initKeeps (q : InitPlatform) (s : VulkanRHI) :
    InitKeeps s (createVmaAllocator q s).state := by
  unfold createVmaAllocator
  simp only [CHECK_VULKAN_RESULT_state]
  exact ⟨rfl, rfl, [_], rfl, by simp [Op.isRenderPassOrCacheCreation]⟩

theorem createCommandPools_initKeeps (q : InitPlatform) (s : VulkanRHI) :
    InitKeeps s (createCommandPools q s) := by
  unfold createCommandPools
  refine ⟨rfl, rfl, ?_⟩
  simp only [emit, List.append_assoc, List.cons_append, List.nil_append]
  exact ⟨_, rfl, by simp [Op.isRenderPassOrCacheCreation]⟩

theorem createCommandBuffers_loop_initKeeps (newCommandBuffer : Nat → Nat → Handle)
    (commandBufferCount n : Nat) : ∀ (i : Nat) (s : VulkanRHI),
    InitKeeps s (createCommandBuffers_loop newCommandBuffer commandBufferCount n i s) := by
  induction n with
  | zero => intro i s; exact initKeeps_refl s
  | succ n ih =>
    intro i s
    unfold createCommandBuffers_loop
    refine initKeeps_trans ?_ (ih (i + 1) _)
    exact ⟨rfl, rfl, [_], rfl, by simp [Op.isRenderPassOrCacheCreation]⟩

theorem createCommandBuffers_initKeeps (newCommandBuffer : Nat → Nat → Handle)
    (s : VulkanRHI) : InitKeeps s (createCommandBuffers newCommandBuffer s) := by
  unfold createCommandBuffers
  have h : InitKeeps s { s with m_command_buffers := resizeHandles 2 s.m_command_buffers } :=
    ⟨rfl, rfl, [], (List.append_nil _).symm, fun _ h => nomatch h⟩
  exact initKeeps_trans h (createCommandBuffers_loop_initKeeps _ _ _ _ _)

theorem createSynchronizationPrimitives_initKeeps (newSemaphore newFence : Nat → Handle)
    (s : VulkanRHI) :
    InitKeeps s (createSynchronizationPrimitives newSemaphore newFence s) := by
  unfold createSynchronizationPrimitives
  refine ⟨rfl, rfl, _, rfl, ?_⟩
  intro op hop
  obtain ⟨i, -, hi⟩ := List.mem_flatMap.mp hop
  simp only [List.mem_cons, List.mem_singleton, List.not_mem_nil, or_false] at hi
  rcases hi with rfl | rfl | rfl <;> rfl

/-- Whatever the platform answers, `init` leaves `m_render_pass` and `m_pipeline_cache` as
they were and issues neither `vkCreateRenderPass` nor `vkCreatePipelineCache`. -/
theorem init_initKeeps (v : Bool) (q : InitPlatform) (s : VulkanRHI) :
    InitKeeps s (init v q s).state := by
  unfold init
  refine initKeeps_andThen (createInstance_initKeeps v q s) fun _ t₁ => ?_
  refine initKeeps_andThen ?_ fun _ t₂ => ?_
  · split
    · exact createDebugging_initKeeps q t₁
    · exact initKeeps_refl t₁
  refine initKeeps_andThen (createSurface_initKeeps q t₂) fun _ t₃ => ?_
  refine initKeeps_andThen (pickPhysicalDevice_initKeeps _ t₃) fun _ t₄ => ?_
  refine initKeeps_andThen (createLogicDevice_initKeeps _ _ _ _ _ _ t₄) fun _ t₅ => ?_
  refine initKeeps_andThen ?_ fun _ t₆ => ?_
  · exact initKeeps_trans (getDeviceQueues_initKeeps q t₅) (createVmaAllocator_initKeeps q _)
  refine initKeeps_andThen (createSwapchain_initKeeps _ t₆) fun _ t₇ => ?_
  refine initKeeps_andThen (createSwapchainObjects_initKeeps _ t₇) fun _ t₈ => ?_
  exact initKeeps_trans (createCommandPools_initKeeps q t₈)
    (initKeeps_trans (createCommandBuffers_initKeeps _ _)
      (createSynchronizationPrimitives_initKeeps _ _ _))
/-- C28 (the code departs from the claim): `init` never calls `createRenderPass` or
`createPipelineCache`, although both are defined (lines 353-433) and `destroy` destroys what
they would create. Whatever the platform answers, `init` leaves `m_render_pass` and
`m_pipeline_cache` as they were and issues neither `vkCreateRenderPass` nor
`vkCreatePipelineCache`. On the sample platform `init` returns, each of the three framebuffers
that `createSwapchainObjects` creates gets the null render pass that was never created, and
`destroy` afterwards begins by destroying the null pipeline cache and the null render
pass. -/
theorem init_never_creates_render_pass :
    (∀ (v : Bool) (q : InitPlatform) (s : VulkanRHI),
      (init v q s).state.m_render_pass = s.m_render_pass ∧
      (init v q s).state.m_pipeline_cache = s.m_pipeline_cache ∧
      ∀ op ∈ issuedBy s (init v q s), op.isRenderPassOrCacheCreation = false) ∧
    (init true sampleInitPlatform blankRHI).isReturned = true ∧
    (issuedBy blankRHI (init true sampleInitPlatform blankRHI)).filterMap
      Op.framebufferRenderPass? = [VK_NULL_HANDLE, VK_NULL_HANDLE, VK_NULL_HANDLE] ∧
    ((destroy true (init true sampleInitPlatform blankRHI).state).trace.drop
      (init true sampleInitPlatform blankRHI).state.trace.length).take 2 =
      [.lifecycle (.vkDestroyPipelineCache VK_NULL_HANDLE),
        .lifecycle (.vkDestroyRenderPass VK_NULL_HANDLE)] := by
  refine ⟨fun v q s => ?_, by decide, by decide, by decide⟩
  obtain ⟨h₁, h₂, ops, e, hq⟩ := init_initKeeps v q s
  refine ⟨h₁, h₂, ?_⟩
  unfold issuedBy
  rw [e, List.drop_left]
  exact hq

end Bamboo
